import Mathlib

/-!
XEngine narrow phase: contact generation (CollisionManager.cpp)

Shallow embedding of the narrow-phase contact tests of
`scr/internal/gameEngine/src/CollisionManager.cpp`.

Modelling conventions.

* `float` is idealised as an arbitrary linearly ordered field `K` with exact
  arithmetic (no rounding, no NaN, no infinities).  All definitions are
  polymorphic in `K` and computable, so they evaluate on `ℚ`.
* The three libm calls the source makes (`std::sqrt`, `std::cos`, `std::sin`)
  are fields of a record `Libm K` passed to every function that uses them.
  Theorems state the exactness facts they need about these functions as
  hypotheses at the points where the code calls them (for instance that the
  computed box axes have unit length).
* A C++ function `bool f(..., ContactPoint& out)` becomes a function taking the
  old value of `out` and returning the pair (result, new value of `out`).
-/

namespace XEngine

/-! ## BaseTypes.h : `TVec2<float>` -/

/-- `TVec2<float>` of BaseTypes.h. -/
@[ext] structure Vec2 (K : Type) where
  x : K
  y : K
deriving DecidableEq, Repr

namespace Vec2

variable {K : Type} [LinearOrderedField K]

/-- `operator+(TVec2, TVec2)`. -/
instance : Add (Vec2 K) := ⟨fun a b => ⟨a.x + b.x, a.y + b.y⟩⟩

/-- `operator-(TVec2, TVec2)`. -/
instance : Sub (Vec2 K) := ⟨fun a b => ⟨a.x - b.x, a.y - b.y⟩⟩

/-- `TVec2::operator-()`. -/
instance : Neg (Vec2 K) := ⟨fun a => ⟨-a.x, -a.y⟩⟩

/-- `operator*(TVec2, S)`. -/
instance : HMul (Vec2 K) K (Vec2 K) := ⟨fun v s => ⟨v.x * s, v.y * s⟩⟩

/-- `operator/(TVec2, S)`. -/
instance : HDiv (Vec2 K) K (Vec2 K) := ⟨fun v s => ⟨v.x / s, v.y / s⟩⟩

end Vec2

section Defs

variable {K : Type} [LinearOrderedField K]


/-- `math::Dot`. -/
def Dot (a b : Vec2 K) : K := a.x * b.x + a.y * b.y

/-- The libm functions called by the collision code (`std::sqrt`, `std::cos`,
`std::sin`). -/
structure Libm (K : Type) where
  sqrt : K → K
  cos : K → K
  sin : K → K

/-- `ContactPoint` of GameObject.h. -/
structure ContactPoint (K : Type) where
  point : Vec2 K
  normalA : Vec2 K
  normalB : Vec2 K
  penetration : K
deriving DecidableEq, Repr

/-- A value-initialised contact, `ContactPoint cp{}` of `BuildContacts_`. -/
def cp0 : ContactPoint K := ⟨⟨0, 0⟩, ⟨0, 0⟩, ⟨0, 0⟩, 0⟩

/-! ## CollisionManager.cpp : internal geometric helpers -/

/-- `DegToRad`. -/
def DegToRad (d : K) : K := d * 3.14159265358979323846 / 180

/-- `ClampF`. -/
def ClampF (x a b : K) : K := if x < a then a else if x > b then b else x

/-- `ClampV`. -/
def ClampV (v a b : Vec2 K) : Vec2 K := ⟨ClampF v.x a.x b.x, ClampF v.y a.y b.y⟩

/-- `struct Basis2`. -/
structure Basis2 (K : Type) where
  x : Vec2 K
  y : Vec2 K
deriving DecidableEq, Repr

/-- `OBBBases`. -/
def OBBBases (L : Libm K) (rotDeg : K) : Basis2 K :=
  let r := DegToRad rotDeg
  let c := L.cos r
  let s := L.sin r
  ⟨⟨c, s⟩, ⟨-s, c⟩⟩

/-- `WorldToLocal`. -/
def WorldToLocal (pWorld centerWorld : Vec2 K) (b : Basis2 K) : Vec2 K :=
  let d := pWorld - centerWorld
  ⟨Dot d b.x, Dot d b.y⟩

/-- `LocalToWorld`. -/
def LocalToWorld (pLocal centerWorld : Vec2 K) (b : Basis2 K) : Vec2 K :=
  centerWorld + b.x * pLocal.x + b.y * pLocal.y

/-- `NormalizeSafe` (the default argument `fallback = Vec2{1,0}` is passed
explicitly by the callers below). -/
def NormalizeSafe (L : Libm K) (v fallback : Vec2 K) : Vec2 K :=
  let ls := Dot v v
  if ls ≤ 1e-12 then fallback
  else
    let inv := 1 / L.sqrt ls
    v * inv

/-! ## Circle / circle -/

/-- `CollisionManager::Contact_Circle_Circle`. -/
def Contact_Circle_Circle (L : Libm K) (ca : Vec2 K) (ra : K) (cb : Vec2 K) (rb : K)
    (out : ContactPoint K) : Bool × ContactPoint K :=
  let d := cb - ca
  let distSq := Dot d d
  let r := ra + rb
  if distSq ≥ r * r then (false, out)
  else
    let dist := L.sqrt (max distSq 1e-8)
    let n : Vec2 K := if dist > 1e-6 then d / dist else ⟨1, 0⟩
    let out1 := { out with normalA := n }
    let out2 := { out1 with penetration := r - dist }
    let out3 := { out2 with point := ca + n * (ra - out2.penetration * 0.5) }
    (true, out3)

/-! ## Circle / oriented box -/

/-- The tie epsilon `constexpr float kTieEps = 1e-4f` declared locally in
`Contact_OBB_Circle` and in `Contact_OBB_OBB`. -/
def kTieEps : K := 1e-4

/-- `CollisionManager::Contact_OBB_Circle` (A is the circle, B the box). -/
def Contact_OBB_Circle (L : Libm K) (cc : Vec2 K) (r : K) (bc half : Vec2 K) (rotDeg : K)
    (out : ContactPoint K) : Bool × ContactPoint K :=
  let b := OBBBases L rotDeg
  let cLocal := WorldToLocal cc bc b
  let minL : Vec2 K := ⟨-half.x, -half.y⟩
  let maxL : Vec2 K := ⟨half.x, half.y⟩
  let closestLocal := ClampV cLocal minL maxL
  let closestWorld := LocalToWorld closestLocal bc b
  let d := closestWorld - cc
  let distSq := Dot d d
  if distSq > 1e-12 then
    let dist := L.sqrt distSq
    let n := d / dist
    let out1 := { out with normalA := n }
    let out2 := { out1 with penetration := r - dist }
    if out2.penetration ≤ 0 then (false, out2)
    else (true, { out2 with point := closestWorld })
  else
    let dx0 := half.x - |cLocal.x|
    let dy0 := half.y - |cLocal.y|
    let pLocal0 := cLocal
    -- the tie block overwrites one of `dx`, `dy`
    let dxy : K × K :=
      if |dx0 - dy0| ≤ kTieEps then
        if |cLocal.x| > |cLocal.y| then (dy0 - 1, dy0) else (dx0, dx0 - 1)
      else (dx0, dy0)
    let dx := dxy.1
    let dy := dxy.2
    let nLocal : Vec2 K :=
      if dx < dy then ⟨if cLocal.x ≥ 0 then 1 else -1, 0⟩
      else ⟨0, if cLocal.y ≥ 0 then 1 else -1⟩
    let pLocal : Vec2 K :=
      if dx < dy then { pLocal0 with x := if cLocal.x ≥ 0 then half.x else -half.x }
      else { pLocal0 with y := if cLocal.y ≥ 0 then half.y else -half.y }
    let nWorld := NormalizeSafe L (b.x * nLocal.x + b.y * nLocal.y) ⟨1, 0⟩
    let faceDist := if dx < dy then dx else dy
    let out1 := { out with penetration := max (r + faceDist) 0 }
    let out2 := { out1 with normalA := nWorld }
    let out3 := { out2 with point := LocalToWorld pLocal bc b }
    (true, out3)

/-! ## Oriented box / oriented box -/

/-- `ProjectRadius`. -/
def ProjectRadius (axis : Vec2 K) (b : Basis2 K) (half : Vec2 K) : K :=
  |Dot axis b.x| * half.x + |Dot axis b.y| * half.y

/-- `SupportPointOBB`. -/
def SupportPointOBB (center : Vec2 K) (b : Basis2 K) (half dir : Vec2 K) : Vec2 K :=
  let sx := if Dot dir b.x ≥ 0 then half.x else -half.x
  let sy := if Dot dir b.y ≥ 0 then half.y else -half.y
  center + b.x * sx + b.y * sy

/-- The loop-carried locals `bestPen`, `bestAxis`, `bestIndex` of
`Contact_OBB_OBB`. -/
structure SatBest (K : Type) where
  bestPen : K
  bestAxis : Vec2 K
  bestIndex : Nat
deriving DecidableEq, Repr

/-- One iteration of the `for (int i = 0; i < 4; ++i)` loop of
`Contact_OBB_OBB`; `none` is the early `return false`. -/
def obbIter (L : Libm K) (aB bB : Basis2 K) (aHalf bHalf d : Vec2 K) (axes : List (Vec2 K))
    (st : SatBest K) (i : Nat) : Option (SatBest K) :=
  let axis := NormalizeSafe L (axes.getD i ⟨0, 0⟩) ⟨1, 0⟩
  let ra := ProjectRadius axis aB aHalf
  let rb := ProjectRadius axis bB bHalf
  let dist := |Dot d axis|
  let pen := (ra + rb) - dist
  if pen ≤ 0 then none
  else
    let better : Bool := decide (pen < st.bestPen - kTieEps)
    let tie : Bool := decide (|pen - st.bestPen| ≤ kTieEps)
    let preferThis : Bool := tie && (decide (i < 2) && !(decide (st.bestIndex < 2)))
    if better || preferThis || (tie && decide (i < st.bestIndex)) then
      let s : K := if Dot d axis ≥ 0 then 1 else -1
      some { bestPen := pen, bestIndex := i, bestAxis := axis * s }
    else some st

/-- The whole axis loop of `Contact_OBB_OBB`, started from `bestPen = 1e30f`,
`bestAxis = {1,0}`, `bestIndex = 0`. -/
def obbLoop (L : Libm K) (ac aHalf : Vec2 K) (aRotDeg : K) (bc bHalf : Vec2 K) (bRotDeg : K) :
    Option (SatBest K) :=
  let aB := OBBBases L aRotDeg
  let bB := OBBBases L bRotDeg
  let axes := [aB.x, aB.y, bB.x, bB.y]
  let d := bc - ac
  [0, 1, 2, 3].foldlM (obbIter L aB bB aHalf bHalf d axes) ⟨1e30, ⟨1, 0⟩, 0⟩

/-- `CollisionManager::Contact_OBB_OBB`. -/
def Contact_OBB_OBB (L : Libm K) (ac aHalf : Vec2 K) (aRotDeg : K) (bc bHalf : Vec2 K)
    (bRotDeg : K) (out : ContactPoint K) : Bool × ContactPoint K :=
  let aB := OBBBases L aRotDeg
  let bB := OBBBases L bRotDeg
  match obbLoop L ac aHalf aRotDeg bc bHalf bRotDeg with
  | none => (false, out)
  | some st =>
    let out1 := { out with normalA := st.bestAxis }
    let out2 := { out1 with penetration := st.bestPen }
    let ra := ProjectRadius out2.normalA aB aHalf
    let rb := ProjectRadius out2.normalA bB bHalf
    let pA : Vec2 K := ac + (out2.normalA * ra : Vec2 K)
    let pB : Vec2 K := bc - (out2.normalA * rb : Vec2 K)
    (true, { out2 with point := (pA + pB) * (0.5 : K) })

/-! ## Auxiliary definitions used to state and prove the properties -/

/-- The normalised candidate axis `NormalizeSafe(axes[i])` of iteration `i`. -/
def iterAxis (L : Libm K) (axes : List (Vec2 K)) (i : Nat) : Vec2 K :=
  NormalizeSafe L (axes.getD i ⟨0, 0⟩) ⟨1, 0⟩

/-- The value of the local `pen` in iteration `i` of the axis loop. -/
def iterPen (L : Libm K) (aB bB : Basis2 K) (aHalf bHalf d : Vec2 K) (axes : List (Vec2 K))
    (i : Nat) : K :=
  (ProjectRadius (iterAxis L axes i) aB aHalf + ProjectRadius (iterAxis L axes i) bB bHalf)
    - |Dot d (iterAxis L axes i)|

/-- The value `axis * s` that iteration `i` stores in `bestAxis` when it
replaces the current best. -/
def iterSigned (L : Libm K) (d : Vec2 K) (axes : List (Vec2 K)) (i : Nat) : Vec2 K :=
  iterAxis L axes i * (if Dot d (iterAxis L axes i) ≥ 0 then (1 : K) else -1)

/-- Initial values of the loop-carried locals of `Contact_OBB_OBB`. -/
def satInit : SatBest K := ⟨1e30, ⟨1, 0⟩, 0⟩

/-- Loop invariant of the axis loop after the indices below `k` have been
processed, for per-index overlaps `P` and signed axes `A`: either nothing was
selected yet (no overlap seen so far is below the initial `bestPen` by more
than the tie epsilon), or the recorded best is the overlap of `bestIndex`,
no overlap seen so far undercuts it by more than the tie epsilon, every
earlier index has a strictly larger overlap, and an index other than 0 is
recorded only with an overlap more than the tie epsilon below that of index 0
(when index 0 was itself below the initial `bestPen`). -/
def SatInv (P : Nat → K) (A : Nat → Vec2 K) (k : Nat) (st : SatBest K) : Prop :=
  (st = satInit ∧ ∀ j, j < k → (1e30 : K) - kTieEps ≤ P j) ∨
  (st.bestIndex < k ∧ st.bestPen = P st.bestIndex ∧ st.bestAxis = A st.bestIndex ∧
    st.bestPen < 1e30 - kTieEps ∧
    (∀ j, j < k → st.bestPen - kTieEps ≤ P j) ∧
    (∀ j, j < st.bestIndex → st.bestPen < P j) ∧
    (st.bestIndex = 0 ∨ (P 0 < 1e30 - kTieEps → st.bestPen + kTieEps < P 0)))

/-- A world point lies in the oriented box with the given centre, half-extents
and rotation: its coordinates in the box frame are within the half-extents. -/
def InOBB (L : Libm K) (center half : Vec2 K) (rotDeg : K) (p : Vec2 K) : Prop :=
  |(WorldToLocal p center (OBBBases L rotDeg)).x| ≤ half.x ∧
  |(WorldToLocal p center (OBBBases L rotDeg)).y| ≤ half.y

/-- Overlap of the two boxes along candidate axis number `i` (in the order
A.x, A.y, B.x, B.y): projected half-extents of A plus those of B minus the
projected centre distance. -/
def axisOverlap (L : Libm K) (ac aHalf : Vec2 K) (aRotDeg : K) (bc bHalf : Vec2 K)
    (bRotDeg : K) (i : Nat) : K :=
  let aB := OBBBases L aRotDeg
  let bB := OBBBases L bRotDeg
  let axis := [aB.x, aB.y, bB.x, bB.y].getD i ⟨0, 0⟩
  (ProjectRadius axis aB aHalf + ProjectRadius axis bB bHalf) - |Dot (bc - ac) axis|

/-- The world point `closestWorld` computed by `Contact_OBB_Circle`: the
circle centre clamped to the box extents in the box frame, mapped back to
world coordinates. -/
def closestWorld (L : Libm K) (cc bc half : Vec2 K) (rotDeg : K) : Vec2 K :=
  LocalToWorld
    (ClampV (WorldToLocal cc bc (OBBBases L rotDeg)) ⟨-half.x, -half.y⟩ ⟨half.x, half.y⟩)
    bc (OBBBases L rotDeg)

/-! ## Pair keys -/

/-- `CollisionManager::MakeKey_`.  The parameters have type
`EntityID = uint32_t`, the locals `lo`, `hi` and the result are `uint64_t`;
the key is `(hi << 32) | lo`. -/
def MakeKey_ (idA idB : Nat) : Nat :=
  let a := idA % 2 ^ 32
  let b := idB % 2 ^ 32
  let lo := (if a < b then a else b) % 2 ^ 64
  let hi := (if a < b then b else a) % 2 ^ 64
  ((hi <<< 32) % 2 ^ 64) ||| lo

/-! ## Scene data read by the collision manager -/

/-- World pose of a `Transform`, as read through its `position`, `scale` and
`rotation` properties (only `x`, `y` of the position and `z` of the rotation
are used by the collision and physics code). -/
structure Transform (K : Type) where
  position : Vec2 K
  scale : Vec2 K
  rotationZ : K

/-- A `GameObject*` together with the `EntityID` stored in the pointee (set
by the constructor and never modified): `addr` is the address, `id` the
value of `GetID()`. -/
structure GameObjectRef where
  addr : Nat
  id : Nat
deriving DecidableEq, Repr

/-- The part of a `GameObject` read by the collision manager: its address and
id, its `Transform` component, the address of its `RigidBody2D` component
(both may be missing) and the chain of parents. -/
inductive GameObject (K : Type) where
  | root (ref : GameObjectRef) (transform : Option (Transform K)) (rigidBody : Option Nat)
  | child (ref : GameObjectRef) (transform : Option (Transform K)) (rigidBody : Option Nat)
      (parent : GameObject K)

/-- Address and id of a `GameObject`. -/
def GameObject.ref : GameObject K → GameObjectRef
  | .root r _ _ => r
  | .child r _ _ _ => r

/-- `GetComponent<Transform>()`. -/
def GameObject.transform : GameObject K → Option (Transform K)
  | .root _ t _ => t
  | .child _ t _ _ => t

/-- `Collider2D::Shape`. -/
inductive Shape where
  | Box
  | Circle
deriving DecidableEq, Repr

/-- The data members of a `Collider2D` read by the collision manager; `addr`
is the address of the component, `layer_` and `mask_` are `uint32_t` bit
sets. -/
structure Collider2D (K : Type) where
  addr : Nat
  mGameObject : Option (GameObject K)
  shape_ : Shape
  isTrigger_ : Bool
  layer_ : Nat
  mask_ : Nat
  sizeLocal_ : Vec2 K
  radiusLocal_ : K
  offsetLocal_ : Vec2 K
  inheritRotation_ : Bool
  localAngleOffsetDeg_ : K

/-- `Collider2D::GetAttachedBody`: walks from the collider's `GameObject` up
the parent chain and returns the first `RigidBody2D` found, as the address of
the body and the `GameObject` that carries it. -/
def GameObject.findBody : GameObject K → Option (Nat × GameObjectRef)
  | .root r _ rb => rb.map (fun p => (p, r))
  | .child r _ rb parent =>
    match rb with
    | some p => some (p, r)
    | none => parent.findBody

/-- `Collider2D::GetAttachedBody`. -/
def GetAttachedBody (c : Collider2D K) : Option (Nat × GameObjectRef) :=
  c.mGameObject.bind GameObject.findBody

/-- `TRect<float>`. -/
structure Rect (K : Type) where
  x : K
  y : K
  w : K
  h : K

/-- `TRect::Left`. -/
def Rect.Left (r : Rect K) : K := r.x
/-- `TRect::Right`. -/
def Rect.Right (r : Rect K) : K := r.x + r.w
/-- `TRect::Top`. -/
def Rect.Top (r : Rect K) : K := r.y
/-- `TRect::Bottom`. -/
def Rect.Bottom (r : Rect K) : K := r.y + r.h

/-- `TRect::Overlaps`. -/
def Rect.Overlaps (a r : Rect K) : Bool :=
  !(decide (a.Right < r.Left) || decide (r.Right < a.Left) || decide (a.Bottom < r.Top) ||
    decide (r.Bottom < a.Top))

/-- `Collider2D::OrientedBox2D`. -/
structure OrientedBox2D (K : Type) where
  center : Vec2 K
  half : Vec2 K
  angleDeg : K

/-- `Collider2D::Circle2D`. -/
structure Circle2D (K : Type) where
  center : Vec2 K
  radius : K

/-- `Rot2D` of Collider2D.cpp. -/
def Rot2D (L : Libm K) (v : Vec2 K) (deg : K) : Vec2 K :=
  let r := DegToRad deg
  let c := L.cos r
  let s := L.sin r
  ⟨c * v.x - s * v.y, s * v.x + c * v.y⟩

/-- The `Transform` a collider reads:
`mGameObject ? mGameObject->GetComponent<Transform>() : nullptr`. -/
def Collider2D.tr (c : Collider2D K) : Option (Transform K) :=
  c.mGameObject.bind GameObject.transform

/-- `Collider2D::WorldOBB` for a collider whose `Transform` lookup gave `tr`
(a missing transform gives the value-initialised box). -/
def WorldOBBAt (L : Libm K) (c : Collider2D K) (tr : Option (Transform K)) : OrientedBox2D K :=
  match tr with
  | none => ⟨⟨0, 0⟩, ⟨0, 0⟩, 0⟩
  | some tr =>
    let wpos := tr.position
    let wsc := tr.scale
    let wrotz := tr.rotationZ
    let offs0 : Vec2 K := ⟨c.offsetLocal_.x * wsc.x, c.offsetLocal_.y * wsc.y⟩
    let offs : Vec2 K := if c.inheritRotation_ then Rot2D L offs0 wrotz else offs0
    { center := ⟨wpos.x + offs.x, wpos.y + offs.y⟩
      half := ⟨0.5 * c.sizeLocal_.x * wsc.x, 0.5 * c.sizeLocal_.y * wsc.y⟩
      angleDeg := (if c.inheritRotation_ then wrotz else 0) + c.localAngleOffsetDeg_ }

/-- `Collider2D::WorldOBB`. -/
def WorldOBB (L : Libm K) (c : Collider2D K) : OrientedBox2D K :=
  WorldOBBAt L c c.tr

/-- `Collider2D::WorldCircle` for a collider whose `Transform` lookup gave
`tr`. -/
def WorldCircleAt (L : Libm K) (c : Collider2D K) (tr : Option (Transform K)) : Circle2D K :=
  match tr with
  | none => ⟨⟨0, 0⟩, 0⟩
  | some tr =>
    let wpos := tr.position
    let wsc := tr.scale
    let wrotz := tr.rotationZ
    let offs0 : Vec2 K := ⟨c.offsetLocal_.x * wsc.x, c.offsetLocal_.y * wsc.y⟩
    let offs : Vec2 K := if c.inheritRotation_ then Rot2D L offs0 wrotz else offs0
    { center := ⟨wpos.x + offs.x, wpos.y + offs.y⟩
      radius := c.radiusLocal_ * max wsc.x wsc.y }

/-- `Collider2D::WorldCircle`. -/
def WorldCircle (L : Libm K) (c : Collider2D K) : Circle2D K :=
  WorldCircleAt L c c.tr

/-- `std::fmod` on exact numbers: `x - y * trunc(x / y)`, the quotient being
truncated toward zero. -/
def fmod [FloorRing K] (x y : K) : K :=
  x - y * (((if 0 ≤ x / y then ⌊x / y⌋ else ⌈x / y⌉ : ℤ)) : K)

/-- The lambda `Near` of `Collider2D::WorldAABB`. -/
def Near (x targetDeg : K) : Bool := decide (|x - targetDeg| ≤ 0.001)

/-- First test of `WorldAABB`: the angle is within `0.001` of 0 or 180 degrees
(modulo a turn / half turn). -/
def nearStraight [FloorRing K] (angDeg : K) : Bool :=
  Near (fmod |angDeg| 360) 0 || Near (fmod |angDeg| 180) 0

/-- Second test of `WorldAABB`: the angle is within `0.001` of 90 or 270
degrees. -/
def nearQuarter [FloorRing K] (angDeg : K) : Bool :=
  Near (fmod |angDeg| 180) 90

/-- `Collider2D::WorldAABB`. -/
def WorldAABB [FloorRing K] (L : Libm K) (c : Collider2D K) : Rect K :=
  match c.tr with
  | none => ⟨0, 0, 0, 0⟩
  | some tr =>
    let wpos := tr.position
    let wsc := tr.scale
    let rotZ := tr.rotationZ
    let offs0 : Vec2 K := ⟨c.offsetLocal_.x * wsc.x, c.offsetLocal_.y * wsc.y⟩
    let offs : Vec2 K :=
      if c.inheritRotation_ then
        let rr := rotZ * 3.14159265358979323846 / 180
        let co := L.cos rr
        let s := L.sin rr
        ⟨co * offs0.x - s * offs0.y, s * offs0.x + co * offs0.y⟩
      else offs0
    let center : Vec2 K := ⟨wpos.x + offs.x, wpos.y + offs.y⟩
    if c.shape_ = Shape.Circle then
      let r := c.radiusLocal_ * max wsc.x wsc.y
      ⟨center.x - r, center.y - r, r * 2, r * 2⟩
    else
      let hx := 0.5 * c.sizeLocal_.x * wsc.x
      let hy := 0.5 * c.sizeLocal_.y * wsc.y
      let angDeg := (if c.inheritRotation_ then rotZ else 0) + c.localAngleOffsetDeg_
      let angRad := angDeg * 3.14159265358979323846 / 180
      let e : K × K :=
        if nearStraight angDeg then (hx, hy)
        else if nearQuarter angDeg then (hy, hx)
        else
          let co := L.cos angRad
          let s := L.sin angRad
          (|co * hx| + |s * hy|, |s * hx| + |co * hy|)
      ⟨center.x - e.1, center.y - e.2, e.1 * 2, e.2 * 2⟩

/-- `CollisionManager::TestBoxBox`. -/
def TestBoxBox (a b : Rect K) : Bool := a.Overlaps b

/-- `CollisionManager::ShouldTest`.  `&a == &b`, `a.mGameObject ==
b.mGameObject` and `ra == rb` compare addresses. -/
def ShouldTest (a b : Collider2D K) : Bool :=
  if a.addr = b.addr then false
  else
    match a.mGameObject, b.mGameObject with
    | some ga, some gb =>
      if ga.ref.addr = gb.ref.addr then false
      else
        let ra := (GetAttachedBody a).map Prod.fst
        let rb := (GetAttachedBody b).map Prod.fst
        if ra.isSome && rb.isSome && decide (ra = rb) then false
        else if a.layer_ &&& b.mask_ = 0 then false
        else if b.layer_ &&& a.mask_ = 0 then false
        else true
    | _, _ => false

/-! ## Collision manager: contacts, pair history and dispatch -/

/-- `CollisionManager::NarrowContact`; `a`, `b` are the owners (`GameObject*`),
`colA`, `colB` the addresses of the two colliders. -/
structure NarrowContact (K : Type) where
  a : Option GameObjectRef
  b : Option GameObjectRef
  colA : Option Nat
  colB : Option Nat
  isTriggerPair : Bool
  contact : ContactPoint K

/-- `CollisionManager::PairInfo`. -/
structure PairInfo where
  a : Option GameObjectRef
  b : Option GameObjectRef
  colA : Option Nat
  colB : Option Nat
  isTriggerPair : Bool
deriving DecidableEq, Repr

/-- `CollisionInfo2D`. -/
structure CollisionInfo2D (K : Type) where
  self : Option GameObjectRef
  other : Option GameObjectRef
  selfCollider : Option Nat
  otherCollider : Option Nat
  contacts : List (ContactPoint K)

/-- The six `GameObject` collision callbacks. -/
inductive Callback where
  | OnCollisionEnter
  | OnCollisionStay
  | OnCollisionExit
  | OnTriggerEnter
  | OnTriggerStay
  | OnTriggerExit
deriving DecidableEq, Repr

/-- Lifecycle phase of a callback. -/
inductive Phase where
  | Enter
  | Stay
  | Exit
deriving DecidableEq, Repr

/-- Phase of a callback. -/
def Callback.phase : Callback → Phase
  | .OnCollisionEnter => .Enter
  | .OnCollisionStay => .Stay
  | .OnCollisionExit => .Exit
  | .OnTriggerEnter => .Enter
  | .OnTriggerStay => .Stay
  | .OnTriggerExit => .Exit

/-- One callback invocation `target->callback(info)`. -/
structure Event (K : Type) where
  target : GameObjectRef
  callback : Callback
  info : CollisionInfo2D K

/-- The data members of `CollisionManager`: the registry maps collider
addresses to their active flag; the pair sets hold keys, the info maps hold
one `PairInfo` per key.  Maps and sets are kept as lists without duplicate
keys, in insertion order. -/
structure CollisionManager where
  mRegisteredColliders : List (Nat × Bool)
  mPrevPairs : List Nat
  mCurrPairs : List Nat
  mPrevInfo : List (Nat × PairInfo)
  mCurrInfo : List (Nat × PairInfo)
deriving DecidableEq, Repr

/-- `std::unordered_set::insert`. -/
def setInsert (s : List Nat) (k : Nat) : List Nat :=
  if k ∈ s then s else s ++ [k]

/-- `map[key] = value` on an `std::unordered_map`. -/
def mapAssign {V : Type} : List (Nat × V) → Nat → V → List (Nat × V)
  | [], k, v => [(k, v)]
  | (k', v') :: t, k, v => if k' = k then (k, v) :: t else (k', v') :: mapAssign t k v

/-- `CollisionManager::RegisterCollider`; `none` is the null pointer. -/
def RegisterCollider (st : CollisionManager) (c : Option Nat) : CollisionManager :=
  match c with
  | none => st
  | some p => { st with mRegisteredColliders := mapAssign st.mRegisteredColliders p true }

/-- `CollisionManager::RemoveCollider`: erases the collider from the registry
and, when the set of previous pairs is not empty, clears that whole set. -/
def RemoveCollider (st : CollisionManager) (c : Option Nat) : CollisionManager :=
  match c with
  | none => st
  | some p =>
    let st1 := { st with
      mRegisteredColliders := st.mRegisteredColliders.filter (fun e => e.1 ≠ p) }
    if ¬ st1.mPrevPairs.isEmpty then { st1 with mPrevPairs := [] } else st1

/-- `CollisionManager::SetColliderActive`. -/
def SetColliderActive (st : CollisionManager) (c : Option Nat) (active : Bool) :
    CollisionManager :=
  match c with
  | none => st
  | some p =>
    { st with mRegisteredColliders :=
        st.mRegisteredColliders.map (fun e => if e.1 = p then (e.1, active) else e) }

/-- The comparison passed to `std::sort` in `BuildContacts_`: by owner id
(0 without owner), then by address. -/
def colliderLess (a b : Collider2D K) : Bool :=
  let ida := match a.mGameObject with | some g => g.ref.id | none => 0
  let idb := match b.mGameObject with | some g => g.ref.id | none => 0
  if ida ≠ idb then decide (ida < idb) else decide (a.addr < b.addr)

/-- The sorted vector `active` of `BuildContacts_`: the registered colliders
whose flag is set, read through `mem` (the collider stored at each
address) and sorted with `colliderLess`. -/
def activeColliders (mem : Nat → Collider2D K) (st : CollisionManager) : List (Collider2D K) :=
  ((st.mRegisteredColliders.filter (fun e => e.2)).map (fun e => mem e.1)).insertionSort
    (fun a b => colliderLess b a = false)

/-- The shape dispatch of `BuildContacts_`: `cp` starts value-initialised, the
result is `(hit, cp)`. -/
def narrowPhase (L : Libm K) (A B : Collider2D K) : Bool × ContactPoint K :=
  match A.shape_, B.shape_ with
  | Shape.Circle, Shape.Circle =>
    let ca := WorldCircle L A
    let cb := WorldCircle L B
    Contact_Circle_Circle L ca.center ca.radius cb.center cb.radius cp0
  | Shape.Box, Shape.Box =>
    let oa := WorldOBB L A
    let ob := WorldOBB L B
    Contact_OBB_OBB L oa.center oa.half oa.angleDeg ob.center ob.half ob.angleDeg cp0
  | Shape.Circle, Shape.Box =>
    let ca := WorldCircle L A
    let ob := WorldOBB L B
    Contact_OBB_Circle L ca.center ca.radius ob.center ob.half ob.angleDeg cp0
  | Shape.Box, Shape.Circle =>
    let oa := WorldOBB L A
    let cb := WorldCircle L B
    let r := Contact_OBB_Circle L cb.center cb.radius oa.center oa.half oa.angleDeg cp0
    if r.1 then (true, { r.2 with normalA := -r.2.normalA }) else r

/-- Body of the inner loop of `BuildContacts_` for the colliders `A = active[i]`
and `B = active[j]`: `none` stands for `continue`, otherwise the contact that
is appended. -/
def testPair [FloorRing K] (L : Libm K) (A B : Collider2D K) : Option (NarrowContact K) :=
  if ¬ ShouldTest A B then none
  else if ¬ TestBoxBox (WorldAABB L A) (WorldAABB L B) then none
  else
    let r := narrowPhase L A B
    if ¬ r.1 then none
    else
      let bodyA := GetAttachedBody A
      let bodyB := GetAttachedBody B
      let ownerA : Option GameObjectRef :=
        match bodyA with
        | some body => some body.2
        | none => A.mGameObject.map GameObject.ref
      let ownerB : Option GameObjectRef :=
        match bodyB with
        | some body => some body.2
        | none => B.mGameObject.map GameObject.ref
      match ownerA, ownerB with
      | some oa, some ob =>
        if oa.addr = ob.addr then none
        else some
          { a := some oa, b := some ob, colA := some A.addr, colB := some B.addr
            isTriggerPair := A.isTrigger_ || B.isTrigger_, contact := r.2 }
      | _, _ => none

/-- The index pairs `i < j` of the double loop of `BuildContacts_`, in loop
order. -/
def loopPairs {α : Type} : List α → List (α × α)
  | [] => []
  | a :: t => t.map (fun b => (a, b)) ++ loopPairs t

/-- Key of a contact, `MakeKey_(nc.a->GetID(), nc.b->GetID())`; `none` when an
owner pointer is null. -/
def NarrowContact.key (c : NarrowContact K) : Option Nat :=
  match c.a, c.b with
  | some a, some b => some (MakeKey_ a.id b.id)
  | _, _ => none

/-- State carried through the loops of `BuildContacts_`: the output vector and
the manager (whose `mCurrPairs` and `mCurrInfo` are written). -/
def buildStep [FloorRing K] (L : Libm K)
    (acc : List (NarrowContact K) × CollisionManager) (p : Collider2D K × Collider2D K) :
    List (NarrowContact K) × CollisionManager :=
  match testPair L p.1 p.2 with
  | none => acc
  | some nc =>
    match nc.a, nc.b with
    | some a, some b =>
      let key := MakeKey_ a.id b.id
      (acc.1 ++ [nc],
        { acc.2 with
          mCurrPairs := setInsert acc.2.mCurrPairs key
          mCurrInfo := mapAssign acc.2.mCurrInfo key
            { a := nc.a, b := nc.b, colA := nc.colA, colB := nc.colB
              isTriggerPair := nc.isTriggerPair } })
    | _, _ => acc

/-- `CollisionManager::BuildContacts_`, called with an empty output vector:
returns the contacts appended and the updated manager. -/
def BuildContacts_ [FloorRing K] (L : Libm K) (mem : Nat → Collider2D K)
    (st : CollisionManager) : List (NarrowContact K) × CollisionManager :=
  (loopPairs (activeColliders mem st)).foldl (buildStep L) ([], st)

/-- `FlipContactForB_`. -/
def FlipContactForB_ (cp : ContactPoint K) : ContactPoint K :=
  let out := cp
  let out1 := { out with normalA := -cp.normalA }
  { out1 with normalB := -cp.normalB }

/-- Body of the ENTER / STAY loop of `Dispatch_` for one contact: the
callbacks invoked, in order. -/
def enterStayEvents (prevPairs : List Nat) (c : NarrowContact K) : List (Event K) :=
  match c.a, c.b with
  | some a, some b =>
    let key := MakeKey_ a.id b.id
    let was : Bool := decide (key ∈ prevPairs)
    let infoAB : CollisionInfo2D K :=
      { self := some a, other := some b, selfCollider := c.colA, otherCollider := c.colB
        contacts := if ¬ c.isTriggerPair then [c.contact] else [] }
    let infoBA : CollisionInfo2D K :=
      { self := some b, other := some a, selfCollider := c.colB, otherCollider := c.colA
        contacts := if ¬ c.isTriggerPair then [FlipContactForB_ c.contact] else [] }
    if c.isTriggerPair then
      if ¬ was then [⟨a, Callback.OnTriggerEnter, infoAB⟩, ⟨b, Callback.OnTriggerEnter, infoBA⟩]
      else [⟨a, Callback.OnTriggerStay, infoAB⟩, ⟨b, Callback.OnTriggerStay, infoBA⟩]
    else
      if ¬ was then
        [⟨a, Callback.OnCollisionEnter, infoAB⟩, ⟨b, Callback.OnCollisionEnter, infoBA⟩]
      else [⟨a, Callback.OnCollisionStay, infoAB⟩, ⟨b, Callback.OnCollisionStay, infoBA⟩]
  | _, _ => []

/-- Body of the EXIT loop of `Dispatch_` for one entry of `mPrevInfo`. -/
def exitEvents (currPairs : List Nat) (e : Nat × PairInfo) : List (Event K) :=
  if e.1 ∈ currPairs then []
  else
    match e.2.a, e.2.b with
    | some a, some b =>
      let ab : CollisionInfo2D K :=
        { self := some a, other := some b, selfCollider := e.2.colA
          otherCollider := e.2.colB, contacts := [] }
      let ba : CollisionInfo2D K :=
        { self := some b, other := some a, selfCollider := e.2.colB
          otherCollider := e.2.colA, contacts := [] }
      if e.2.isTriggerPair then
        [⟨a, Callback.OnTriggerExit, ab⟩, ⟨b, Callback.OnTriggerExit, ba⟩]
      else [⟨a, Callback.OnCollisionExit, ab⟩, ⟨b, Callback.OnCollisionExit, ba⟩]
    | _, _ => []

/-- `CollisionManager::Dispatch_`: the callbacks invoked, in order. -/
def Dispatch_ (st : CollisionManager) (contacts : List (NarrowContact K)) : List (Event K) :=
  contacts.flatMap (enterStayEvents st.mPrevPairs) ++
    st.mPrevInfo.flatMap (exitEvents st.mCurrPairs)

/-- `CollisionManager::DetectAndDispatch`: the manager afterwards and the
callbacks invoked, in order. -/
def DetectAndDispatch [FloorRing K] (L : Libm K) (mem : Nat → Collider2D K)
    (st : CollisionManager) : CollisionManager × List (Event K) :=
  let st1 := { st with mCurrInfo := [], mCurrPairs := [] }
  let r := BuildContacts_ L mem st1
  let events := Dispatch_ r.2 r.1
  let st2 := r.2
  ({ st2 with mPrevPairs := st2.mCurrPairs, mCurrPairs := st2.mPrevPairs
              mPrevInfo := st2.mCurrInfo, mCurrInfo := st2.mPrevInfo }, events)

/-- Key of the pair an event is about: `MakeKey_` of the ids of `self` and
`other`. -/
def Event.key (e : Event K) : Option Nat :=
  match e.info.self, e.info.other with
  | some s, some o => some (MakeKey_ s.id o.id)
  | _, _ => none

/-- A registration call made between two frames. -/
inductive RegCall where
  | register (c : Option Nat)
  | remove (c : Option Nat)
  | setActive (c : Option Nat) (active : Bool)
deriving DecidableEq, Repr

/-- Effect of a registration call on the manager. -/
def RegCall.apply (st : CollisionManager) : RegCall → CollisionManager
  | .register c => RegisterCollider st c
  | .remove c => RemoveCollider st c
  | .setActive c active => SetColliderActive st c active

/-- Whether a registration call is a `RemoveCollider` of a non-null
collider. -/
def RegCall.isRemove : RegCall → Bool
  | .remove (some _) => true
  | _ => false

/-! ## Auxiliary definitions for the pair history -/

/-- The contacts built by `DetectAndDispatch` in a frame: the output of
`BuildContacts_` after `mCurrInfo` and `mCurrPairs` have been cleared. -/
def frameContacts [FloorRing K] (L : Libm K) (mem : Nat → Collider2D K)
    (st : CollisionManager) : List (NarrowContact K) :=
  (BuildContacts_ L mem { st with mCurrInfo := [], mCurrPairs := [] }).1

/-- The `PairInfo` that `BuildContacts_` stores for a contact. -/
def NarrowContact.info (c : NarrowContact K) : PairInfo :=
  { a := c.a, b := c.b, colA := c.colA, colB := c.colB, isTriggerPair := c.isTriggerPair }

/-- The callbacks about the pair with key `k` in a list of events, as
(receiver, phase), in call order. -/
def pairTrace (k : Nat) (evs : List (Event K)) : List (GameObjectRef × Phase) :=
  (evs.filter (fun e => decide (e.key = some k))).map (fun e => (e.target, e.callback.phase))

/-- A sequence of registration calls applied in order. -/
def applyCalls (st : CollisionManager) (calls : List RegCall) : CollisionManager :=
  calls.foldl RegCall.apply st

/-- Well-formedness of the stored pair infos: one entry per key, each entry
has both owners and is stored under the key of their ids. -/
def InfoWF (info : List (Nat × PairInfo)) : Prop :=
  (info.map Prod.fst).Nodup ∧
  ∀ e ∈ info, ∃ a b, e.2.a = some a ∧ e.2.b = some b ∧ e.1 = MakeKey_ a.id b.id

/-- The pair sets and infos `pairs`, `info` record exactly the contacts
`cs`. -/
def Records (cs : List (NarrowContact K)) (pairs : List Nat) (info : List (Nat × PairInfo)) :
    Prop :=
  (∀ c ∈ cs, ∃ a b, c.a = some a ∧ c.b = some b) ∧
  (∀ k, k ∈ pairs ↔ ∃ c ∈ cs, c.key = some k) ∧
  (info.map Prod.fst).Nodup ∧
  (∀ e ∈ info, ∃ c ∈ cs, c.key = some e.1 ∧ e.2 = c.info) ∧
  (∀ c ∈ cs, ∀ k, c.key = some k → k ∈ info.map Prod.fst)

/-- One frame of a run: the collider memory of the frame, the manager before
the call, and the callbacks invoked by the call. -/
structure FrameRecord (K : Type) where
  mem : Nat → Collider2D K
  before : CollisionManager
  events : List (Event K)

/-- Consecutive `DetectAndDispatch` calls, one per collider memory in the
list, starting from `st`. -/
def runFrames [FloorRing K] (L : Libm K) :
    CollisionManager → List (Nat → Collider2D K) → List (FrameRecord K)
  | _, [] => []
  | st, m :: ms =>
    ⟨m, st, (DetectAndDispatch L m st).2⟩ :: runFrames L (DetectAndDispatch L m st).1 ms

/-- Example collider for the closed examples: a circle of local radius 1
stored at address `p`, owned by a parentless `GameObject` with address and id
`p` that has no rigid body and sits at world position `(x, 0)` with unit scale
and no rotation; default layer and mask. -/
def exampleCircle (p : Nat) (x : K) : Collider2D K :=
  { addr := p
    mGameObject := some (GameObject.root ⟨p, p⟩ (some ⟨⟨x, 0⟩, ⟨1, 1⟩, 0⟩) none)
    shape_ := Shape.Circle, isTrigger_ := false, layer_ := 1, mask_ := 4294967295
    sizeLocal_ := ⟨1, 1⟩, radiusLocal_ := 1, offsetLocal_ := ⟨0, 0⟩
    inheritRotation_ := false, localAngleOffsetDeg_ := 0 }

/-- Example collider memory for the closed examples: address `p` holds
`exampleCircle p (xs p)`. -/
def exampleScene (xs : Nat → K) (p : Nat) : Collider2D K := exampleCircle p (xs p)

/-- Positions for the example scenes: collider 1 at `x = 0`, collider 2 at
`x = gap`, every other collider at `x = 100`. -/
def examplePositions (gap : K) (p : Nat) : K :=
  if p = 1 then 0 else if p = 2 then gap else 100

/-- The contact that the example colliders 1 and 2 produce when their centres
are `gap` apart. -/
def exampleContact (L : Libm K) (gap : K) : NarrowContact K :=
  { a := some ⟨1, 1⟩, b := some ⟨2, 2⟩, colA := some 1, colB := some 2
    isTriggerPair := false
    contact := (Contact_Circle_Circle L ⟨0, 0⟩ 1 ⟨gap, 0⟩ 1 cp0).2 }

/-! ## Transform.cpp : local pose, cached world pose -/

/-- `TVec3<float>`. -/
structure Vec3 (K : Type) where
  x : K
  y : K
  z : K
deriving DecidableEq, Repr

/-- The data members of the class `Transform` (Transform.h): the local pose,
the dirty flag and the cached world pose. -/
structure TransformData (K : Type) where
  localX : K
  localY : K
  localZ : K
  localSX : K
  localSY : K
  localRotX : K
  localRotY : K
  localRotZ : K
  mDirty : Bool
  mWorldX : K
  mWorldY : K
  mWorldZ : K
  mWorldSX : K
  mWorldSY : K
  mWorldRotX : K
  mWorldRotY : K
  mWorldRotZ : K
deriving DecidableEq, Repr

/-- `Transform() = default`: the default member initialisers of
Transform.h. -/
def TransformData.fresh : TransformData K :=
  { localX := 0, localY := 0, localZ := 0, localSX := 1, localSY := 1
    localRotX := 0, localRotY := 0, localRotZ := 0, mDirty := true
    mWorldX := 0, mWorldY := 0, mWorldZ := 0, mWorldSX := 1, mWorldSY := 1
    mWorldRotX := 0, mWorldRotY := 0, mWorldRotZ := 0 }

/-- The `Transform` of a `GameObject` together with the transforms of the
objects below it (`GameObject::Children()`, recursively). -/
inductive TransformTree (K : Type) where
  | node (t : TransformData K) (children : List (TransformTree K))

/-- A `Transform` at its place in the hierarchy: its own data, the subtrees of
its children and the transforms of its ancestors, parent first. -/
structure TransformAt (K : Type) where
  self : TransformData K
  children : List (TransformTree K)
  parents : List (TransformData K)

/-- `Rot2D` of Transform.cpp, which rotates `x`, `y` in place; the result is
the new `(x, y)`.  Its `DegToRad` is the same expression as the one of
CollisionManager.cpp. -/
def TransformData.Rot2D (L : Libm K) (x y degZ : K) : K × K :=
  let r := DegToRad degZ
  let c := L.cos r
  let s := L.sin r
  let nx := c * x - s * y
  let ny := s * x + c * y
  (nx, ny)

mutual
/-- `Transform::MarkDirty` on a whole subtree: the flag is set on the
transform and, recursively, on the transform of every child. -/
def TransformTree.MarkDirty : TransformTree K → TransformTree K
  | .node t children => .node { t with mDirty := true } (TransformTree.MarkDirtyAll children)
/-- The loop over `mGameObject->Children()` of `Transform::MarkDirty`. -/
def TransformTree.MarkDirtyAll : List (TransformTree K) → List (TransformTree K)
  | [] => []
  | c :: cs => c.MarkDirty :: TransformTree.MarkDirtyAll cs
end

/-- `Transform::MarkDirty`. -/
def TransformAt.MarkDirty (h : TransformAt K) : TransformAt K :=
  { h with self := { h.self with mDirty := true }
           children := TransformTree.MarkDirtyAll h.children }

/-- `Transform::RecalcWorld_` on a transform `t` with ancestors `parents`
(parent first): the transform and the ancestors afterwards; the call on the
parent refreshes the caches up the chain. -/
def TransformData.RecalcWorld_ (L : Libm K) :
    TransformData K → List (TransformData K) → TransformData K × List (TransformData K)
  | t, [] =>
    if ¬ t.mDirty then (t, [])
    else
      ({ t with mWorldX := t.localX, mWorldY := t.localY, mWorldZ := t.localZ
                mWorldSX := t.localSX, mWorldSY := t.localSY
                mWorldRotX := t.localRotX, mWorldRotY := t.localRotY
                mWorldRotZ := t.localRotZ, mDirty := false }, [])
  | t, p :: ps =>
    if ¬ t.mDirty then (t, p :: ps)
    else
      let r := TransformData.RecalcWorld_ L p ps
      let pt := r.1
      let wSX := pt.mWorldSX * t.localSX
      let wSY := pt.mWorldSY * t.localSY
      let wRotX := pt.mWorldRotX + t.localRotX
      let wRotY := pt.mWorldRotY + t.localRotY
      let wRotZ := pt.mWorldRotZ + t.localRotZ
      let px := t.localX * pt.mWorldSX
      let py := t.localY * pt.mWorldSY
      let q := TransformData.Rot2D L px py pt.mWorldRotZ
      let wX := pt.mWorldX + q.1
      let wY := pt.mWorldY + q.2
      let wZ := pt.mWorldZ + t.localZ
      ({ t with mWorldX := wX, mWorldY := wY, mWorldZ := wZ, mWorldSX := wSX, mWorldSY := wSY
                mWorldRotX := wRotX, mWorldRotY := wRotY, mWorldRotZ := wRotZ
                mDirty := false }, pt :: r.2)

/-- `Transform::RecalcWorld_` at a place in the hierarchy. -/
def TransformAt.RecalcWorld_ (L : Libm K) (h : TransformAt K) : TransformAt K :=
  { h with self := (TransformData.RecalcWorld_ L h.self h.parents).1
           parents := (TransformData.RecalcWorld_ L h.self h.parents).2 }

/-- `Transform::GetWorldPosition`: the hierarchy afterwards (the caches are
`mutable`) and the value returned. -/
def TransformAt.GetWorldPosition (L : Libm K) (h : TransformAt K) : TransformAt K × Vec3 K :=
  let h1 := h.RecalcWorld_ L
  (h1, ⟨h1.self.mWorldX, h1.self.mWorldY, h1.self.mWorldZ⟩)

/-- `Transform::GetWorldRotation`. -/
def TransformAt.GetWorldRotation (L : Libm K) (h : TransformAt K) : TransformAt K × Vec3 K :=
  let h1 := h.RecalcWorld_ L
  (h1, ⟨h1.self.mWorldRotX, h1.self.mWorldRotY, h1.self.mWorldRotZ⟩)

/-- `Transform::GetWorldScale`. -/
def TransformAt.GetWorldScale (L : Libm K) (h : TransformAt K) : TransformAt K × Vec2 K :=
  let h1 := h.RecalcWorld_ L
  (h1, ⟨h1.self.mWorldSX, h1.self.mWorldSY⟩)

/-- `Transform::SetLocalPosition`. -/
def TransformAt.SetLocalPosition (h : TransformAt K) (newPos : Vec3 K) : TransformAt K :=
  TransformAt.MarkDirty
    { h with self := { h.self with localX := newPos.x, localY := newPos.y, localZ := newPos.z } }

/-- `Transform::SetLocalScale`. -/
def TransformAt.SetLocalScale (h : TransformAt K) (newSc : Vec2 K) : TransformAt K :=
  if newSc.x < 0 ∨ newSc.y < 0 then h
  else
    TransformAt.MarkDirty { h with self := { h.self with localSX := newSc.x, localSY := newSc.y } }

/-- `Transform::SetLocalRotation`. -/
def TransformAt.SetLocalRotation (h : TransformAt K) (newRot : Vec3 K) : TransformAt K :=
  TransformAt.MarkDirty
    { h with self := { h.self with localRotX := newRot.x, localRotY := newRot.y
                                   localRotZ := newRot.z } }

/-- `Transform::SetWorldPosition`. -/
def TransformAt.SetWorldPosition (L : Libm K) (h : TransformAt K) (newPos : Vec3 K) :
    TransformAt K :=
  match h.parents with
  | [] =>
    TransformAt.MarkDirty
      { h with self := { h.self with localX := newPos.x, localY := newPos.y
                                     localZ := newPos.z } }
  | p :: ps =>
    let r := TransformData.RecalcWorld_ L p ps
    let pt := r.1
    let dx := newPos.x - pt.mWorldX
    let dy := newPos.y - pt.mWorldY
    let q := TransformData.Rot2D L dx dy (-pt.mWorldRotZ)
    let psx := if |pt.mWorldSX| > 1e-8 then pt.mWorldSX else 1
    let psy := if |pt.mWorldSY| > 1e-8 then pt.mWorldSY else 1
    TransformAt.MarkDirty
      { h with self := { h.self with localX := q.1 / psx, localY := q.2 / psy
                                     localZ := newPos.z - pt.mWorldZ }
               parents := pt :: r.2 }

/-- `Transform::SetWorldRotation`. -/
def TransformAt.SetWorldRotation (L : Libm K) (h : TransformAt K) (newRot : Vec3 K) :
    TransformAt K :=
  match h.parents with
  | [] =>
    TransformAt.MarkDirty
      { h with self := { h.self with localRotX := newRot.x, localRotY := newRot.y
                                     localRotZ := newRot.z } }
  | p :: ps =>
    let r := TransformData.RecalcWorld_ L p ps
    let pt := r.1
    TransformAt.MarkDirty
      { h with self := { h.self with localRotX := newRot.x - pt.mWorldRotX
                                     localRotY := newRot.y - pt.mWorldRotY
                                     localRotZ := newRot.z - pt.mWorldRotZ }
               parents := pt :: r.2 }

/-- `Transform::SetWorldScale`. -/
def TransformAt.SetWorldScale (L : Libm K) (h : TransformAt K) (newSc : Vec2 K) :
    TransformAt K :=
  if newSc.x < 0 ∨ newSc.y < 0 then h
  else
    match h.parents with
    | [] =>
      TransformAt.MarkDirty
        { h with self := { h.self with localSX := newSc.x, localSY := newSc.y } }
    | p :: ps =>
      let r := TransformData.RecalcWorld_ L p ps
      let pt := r.1
      let psx := if |pt.mWorldSX| > 1e-8 then pt.mWorldSX else 1
      let psy := if |pt.mWorldSY| > 1e-8 then pt.mWorldSY else 1
      TransformAt.MarkDirty
        { h with self := { h.self with localSX := newSc.x / psx, localSY := newSc.y / psy }
                 parents := pt :: r.2 }

/-- `Transform::Translate`. -/
def TransformAt.Translate (h : TransformAt K) (delta : Vec3 K) : TransformAt K :=
  { h with self := { h.self with mWorldX := h.self.mWorldX + delta.x
                                 mWorldY := h.self.mWorldY + delta.y
                                 mWorldZ := h.self.mWorldZ + delta.z } }

/-- A world pose: position, scale and rotation. -/
structure WorldPose (K : Type) where
  position : Vec3 K
  scale : Vec2 K
  rotation : Vec3 K
deriving DecidableEq, Repr

/-- The world pose as the specification derives it, from the local poses
alone: a transform without parent has its local pose; otherwise the parent
scale is applied to the local position, then the parent rotation, then the
parent translation, scales multiply and rotations add. -/
def specWorldPose (L : Libm K) : TransformData K → List (TransformData K) → WorldPose K
  | t, [] =>
    ⟨⟨t.localX, t.localY, t.localZ⟩, ⟨t.localSX, t.localSY⟩,
      ⟨t.localRotX, t.localRotY, t.localRotZ⟩⟩
  | t, p :: ps =>
    let pw := specWorldPose L p ps
    let q := Rot2D L ⟨t.localX * pw.scale.x, t.localY * pw.scale.y⟩ pw.rotation.z
    ⟨⟨pw.position.x + q.x, pw.position.y + q.y, pw.position.z + t.localZ⟩,
      ⟨pw.scale.x * t.localSX, pw.scale.y * t.localSY⟩,
      ⟨pw.rotation.x + t.localRotX, pw.rotation.y + t.localRotY,
        pw.rotation.z + t.localRotZ⟩⟩

/-- Example hierarchy: a freshly constructed `Transform` of an object without
parent and without children, after one `GetWorldPosition` call. -/
def exampleRootTransform (L : Libm K) : TransformAt K :=
  (TransformAt.GetWorldPosition L ⟨TransformData.fresh, [], []⟩).1

/-! ## Rigid bodies and the physics step -/

/-- `RigidBody2D::BodyType`. -/
inductive BodyType where
  | Static
  | Dynamic
  | Kinematic
deriving DecidableEq, Repr

/-- `RigidBody2D::CollisionDetection`. -/
inductive CollisionDetection where
  | Discrete
  | Continuous
deriving DecidableEq, Repr

/-- `RigidBody2D::ForceMode`. -/
inductive ForceMode where
  | Force
  | Acceleration
  | Impulse
  | VelocityChange
deriving DecidableEq, Repr

/-- `Constraints::FreezePosX`. -/
def FreezePosX : Nat := 1
/-- `Constraints::FreezePosY`. -/
def FreezePosY : Nat := 2
/-- `Constraints::FreezeRot`. -/
def FreezeRot : Nat := 4

/-- The test `(c & flag) != Constraints::None` on the `uint8_t` bit set. -/
def hasFlag (c flag : Nat) : Bool := decide (c &&& flag ≠ 0)

/-- The data members of a `RigidBody2D`, with the `Behaviour` flags `mAwoken`
and `mEnabled` and the value of `gameObject->activeInHierarchy`. -/
structure RigidBody2D (K : Type) where
  mAwoken : Bool
  mEnabled : Bool
  gameObjectActive : Bool
  bodyType_ : BodyType
  collisionDetection_ : CollisionDetection
  mass_ : K
  inertia_ : K
  gravityScale_ : K
  linearDamping_ : K
  angularDamping_ : K
  restitution_ : K
  constraints_ : Nat
  velocity_ : Vec2 K
  angularVelocity_ : K
  accumForce_ : Vec2 K
  accumAccel_ : Vec2 K
  accumTorque_ : K
  accumAngularAccel_ : K

/-- `RigidBody2D::InvMass_`. -/
def RigidBody2D.InvMass_ (rb : RigidBody2D K) : K :=
  if rb.bodyType_ ≠ BodyType.Dynamic then 0
  else if rb.mass_ > 1e-6 then 1 / rb.mass_ else 0

/-- `RigidBody2D::InvInertia_`. -/
def RigidBody2D.InvInertia_ (rb : RigidBody2D K) : K :=
  if rb.bodyType_ ≠ BodyType.Dynamic then 0
  else if rb.inertia_ > 1e-6 then 1 / rb.inertia_ else 0

/-- `RigidBody2D::AddForce`. -/
def RigidBody2D.AddForce (rb : RigidBody2D K) (f : Vec2 K) (mode : ForceMode) : RigidBody2D K :=
  if ¬ rb.mAwoken ∨ ¬ rb.mEnabled then rb
  else if ¬ rb.gameObjectActive then rb
  else if rb.bodyType_ = BodyType.Static then rb
  else
    match mode with
    | ForceMode.Force => { rb with accumForce_ := rb.accumForce_ + f }
    | ForceMode.Acceleration => { rb with accumAccel_ := rb.accumAccel_ + f }
    | ForceMode.Impulse => { rb with velocity_ := rb.velocity_ + f * rb.InvMass_ }
    | ForceMode.VelocityChange => { rb with velocity_ := rb.velocity_ + f }

/-- `RigidBody2D::AddTorque`. -/
def RigidBody2D.AddTorque (rb : RigidBody2D K) (t : K) (mode : ForceMode) : RigidBody2D K :=
  if ¬ rb.mAwoken ∨ ¬ rb.mEnabled then rb
  else if ¬ rb.gameObjectActive then rb
  else if rb.bodyType_ = BodyType.Static then rb
  else
    match mode with
    | ForceMode.Force => { rb with accumTorque_ := rb.accumTorque_ + t }
    | ForceMode.Acceleration => { rb with accumAngularAccel_ := rb.accumAngularAccel_ + t }
    | ForceMode.Impulse =>
      { rb with angularVelocity_ := rb.angularVelocity_ + t * rb.InvInertia_ }
    | ForceMode.VelocityChange => { rb with angularVelocity_ := rb.angularVelocity_ + t }

/-- `RigidBody2D::ClearForces`. -/
def RigidBody2D.ClearForces (rb : RigidBody2D K) : RigidBody2D K :=
  if ¬ rb.mAwoken ∨ ¬ rb.mEnabled then rb
  else if ¬ rb.gameObjectActive then rb
  else { rb with accumForce_ := ⟨0, 0⟩, accumAccel_ := ⟨0, 0⟩, accumTorque_ := 0
                 accumAngularAccel_ := 0 }

/-- The objects the physics manager reads and writes, indexed by the address
of the `GameObject`: its `RigidBody2D` component, its `Transform` component
(the local pose: `localX`, `localY`, `localSX`, `localSY`, `localRotZ`), the
chain of its ancestors (`Parent()`, `Parent()->Parent()`, ..., parent first),
its first `Collider2D` component, and the collider stored at each collider
address.  A `RigidBody2D*` is identified with the address of its `GameObject`
(the component is unique per object). -/
structure PhysicsScene (K : Type) where
  body : Nat → Option (RigidBody2D K)
  transform : Nat → Option (Transform K)
  parents : Nat → List Nat
  firstCollider : Nat → Option (Collider2D K)
  colliderAt : Nat → Collider2D K

/-- Writes through a `RigidBody2D*`. -/
def PhysicsScene.setBody (s : PhysicsScene K) (g : Nat) (rb : RigidBody2D K) : PhysicsScene K :=
  { s with body := Function.update s.body g (some rb) }

/-- Writes through a `Transform*`. -/
def PhysicsScene.setTransform (s : PhysicsScene K) (g : Nat) (tr : Transform K) :
    PhysicsScene K :=
  { s with transform := Function.update s.transform g (some tr) }

/-- The test `rb && rb->GetBodyType() == BodyType::Dynamic` for the body of the
object at address `g`. -/
def PhysicsScene.isDynamic (s : PhysicsScene K) (g : Nat) : Bool :=
  match s.body g with
  | some r => decide (r.bodyType_ = BodyType.Dynamic)
  | none => false

/-- `rb->SetVelocity(v); rb->SetAngularVelocity(w);` for the body of the
object at address `g`. -/
def PhysicsScene.writeVelocity (s : PhysicsScene K) (g : Nat) (v : Vec2 K) (w : K) :
    PhysicsScene K :=
  match s.body g with
  | some r => s.setBody g { r with velocity_ := v, angularVelocity_ := w }
  | none => s

/-- The data members of a `Transform` whose local pose is `t`, in the plane
`z = 0` and without rotation about x and y.  The cached world pose is stale
(`mDirty`), so that every read recomputes it from the local poses: the
physics code never calls `Translate`, the one operation that lets a cache
differ from that value. -/
def Transform.toData (t : Transform K) : TransformData K :=
  { TransformData.fresh with
    localX := t.position.x, localY := t.position.y, localSX := t.scale.x
    localSY := t.scale.y, localRotZ := t.rotationZ }

/-- The local pose held in the data members of a `Transform`. -/
def TransformData.localPose (d : TransformData K) : Transform K :=
  ⟨⟨d.localX, d.localY⟩, ⟨d.localSX, d.localSY⟩, d.localRotZ⟩

/-- The cached world pose held in the data members of a `Transform`. -/
def TransformData.worldPose (d : TransformData K) : Transform K :=
  ⟨⟨d.mWorldX, d.mWorldY⟩, ⟨d.mWorldSX, d.mWorldSY⟩, d.mWorldRotZ⟩

/-- The transforms of a chain of ancestors; the chain ends at the first
object without `Transform` (`pt` is null there). -/
def PhysicsScene.chain (s : PhysicsScene K) : List Nat → List (TransformData K)
  | [] => []
  | p :: ps =>
    match s.transform p with
    | none => []
    | some t => t.toData :: s.chain ps

/-- The `Transform` of the object at address `g` at its place in the
hierarchy. -/
def PhysicsScene.node (s : PhysicsScene K) (g : Nat) : Option (TransformAt K) :=
  (s.transform g).map (fun t => ⟨t.toData, [], s.chain (s.parents g)⟩)

/-- The world pose of the object at address `g` as read through
`tr->position`, `tr->scale` and `tr->rotation`: `RecalcWorld_`, then the
cached world members. -/
def PhysicsScene.world (L : Libm K) (s : PhysicsScene K) (g : Nat) : Option (Transform K) :=
  (s.node g).map (fun h => (h.RecalcWorld_ L).self.worldPose)

/-- `tr->position = p` (x and y) for the transform of the object at address
`g`: `Transform::SetWorldPosition`, which stores the position relative to the
parent. -/
def PhysicsScene.writePosition (L : Libm K) (s : PhysicsScene K) (g : Nat) (p : Vec2 K) :
    PhysicsScene K :=
  match s.node g with
  | some h => s.setTransform g (h.SetWorldPosition L ⟨p.x, p.y, 0⟩).self.localPose
  | none => s

/-- `tr->rotation = r` (z) for the transform of the object at address `g`:
`Transform::SetWorldRotation`. -/
def PhysicsScene.writeRotation (L : Libm K) (s : PhysicsScene K) (g : Nat) (rotZ : K) :
    PhysicsScene K :=
  match s.node g with
  | some h => s.setTransform g (h.SetWorldRotation L ⟨0, 0, rotZ⟩).self.localPose
  | none => s

/-- `Vec3 rot = tr->rotation; rot.z += d; tr->rotation = rot;` for the
transform of the object at address `g`. -/
def PhysicsScene.turn (L : Libm K) (s : PhysicsScene K) (g : Nat) (d : K) : PhysicsScene K :=
  match s.world L g with
  | some w => s.writeRotation L g (w.rotationZ + d)
  | none => s

/-- The data members of `PhysicsManager` used by `Step`. -/
structure PhysicsManager (K : Type) where
  mBodies : List (Nat × Bool)
  gravity : Vec2 K
  penetrationSlop : K
  penetrationPercent : K
  maxSubsteps : Int
  ccdMinSizeFactor : K

/-- `PhysicsManager::Cross`. -/
def Cross (a b : Vec2 K) : K := a.x * b.y - a.y * b.x

/-- `PhysicsManager::Perp`. -/
def Perp (wRad : K) (r : Vec2 K) : Vec2 K := ⟨-wRad * r.y, wRad * r.x⟩

/-- Body of the loop of `PhysicsManager::Integrate_` for one entry of
`mBodies` (a registered body always has its `GameObject`; the branch for a
null `gameObject` pointer is not modelled).  `tr` is the world pose read
through `tr->position`; the position and the rotation are written through
`SetWorldPosition` and `SetWorldRotation`. -/
def integrateBody (L : Libm K) (pm : PhysicsManager K) (dt : K) (s : PhysicsScene K)
    (e : Nat × Bool) : PhysicsScene K :=
  if ¬ e.2 then s
  else
    match s.body e.1 with
    | none => s
    | some rb =>
      match s.world L e.1 with
      | none => s.setBody e.1 rb.ClearForces
      | some tr =>
        let c := rb.constraints_
        match rb.bodyType_ with
        | BodyType.Static =>
          let rb1 := { rb with velocity_ := ⟨0, 0⟩ }
          let rb2 := { rb1 with angularVelocity_ := 0 }
          s.setBody e.1 rb2.ClearForces
        | BodyType.Kinematic =>
          let v0 := rb.velocity_
          let w0 := rb.angularVelocity_
          let v1 : Vec2 K := if hasFlag c FreezePosX then ⟨0, v0.y⟩ else v0
          let v : Vec2 K := if hasFlag c FreezePosY then ⟨v1.x, 0⟩ else v1
          let w : K := if hasFlag c FreezeRot then 0 else w0
          let pos : Vec2 K := ⟨tr.position.x + v.x * dt, tr.position.y + v.y * dt⟩
          let s1 := s.writePosition L e.1 pos
          let s2 := s1.turn L e.1 ((w * dt) * (180 / 3.1415926535))
          let rb1 := { rb with velocity_ := v }
          let rb2 := { rb1 with angularVelocity_ := w }
          s2.setBody e.1 rb2.ClearForces
        | BodyType.Dynamic =>
          let v0 := rb.velocity_
          let w0 := rb.angularVelocity_
          let invM := rb.InvMass_
          let invI := rb.InvInertia_
          let a0 : Vec2 K := rb.accumForce_ * invM + rb.accumAccel_ + pm.gravity * rb.gravityScale_
          let ax : Vec2 K × Vec2 K :=
            if hasFlag c FreezePosX then (⟨0, a0.y⟩, ⟨0, v0.y⟩) else (a0, v0)
          let ay : Vec2 K × Vec2 K :=
            if hasFlag c FreezePosY then (⟨ax.1.x, 0⟩, ⟨ax.2.x, 0⟩) else ax
          let angA0 : K := rb.accumTorque_ * invI + rb.accumAngularAccel_
          let ang : K × K := if hasFlag c FreezeRot then (0, 0) else (angA0, w0)
          let v1 : Vec2 K := ay.2 + ay.1 * dt
          let w1 : K := ang.2 + ang.1 * dt
          let ld := rb.linearDamping_
          let v : Vec2 K := if ld > 0 then v1 * max 0 (1 - ld * dt) else v1
          let ad := rb.angularDamping_
          let w : K := if ad > 0 then w1 * max 0 (1 - ad * dt) else w1
          let pos : Vec2 K := ⟨tr.position.x + v.x * dt, tr.position.y + v.y * dt⟩
          let s1 := s.writePosition L e.1 pos
          let s2 := s1.turn L e.1 ((w * dt) * (180 / 3.1415926535))
          let rb1 := { rb with velocity_ := v }
          let rb2 := { rb1 with angularVelocity_ := w }
          s2.setBody e.1 rb2.ClearForces

/-- `PhysicsManager::Integrate_`. -/
def Integrate_ (L : Libm K) (pm : PhysicsManager K) (dt : K) (s : PhysicsScene K) :
    PhysicsScene K :=
  pm.mBodies.foldl (integrateBody L pm dt) s

/-- `PhysicsManager::ColliderCenterWorld_`, the collider reading the current
world pose of the `Transform` of its `GameObject`. -/
def ColliderCenterWorld_ (L : Libm K) (s : PhysicsScene K) (c : Option Nat) : Vec2 K :=
  match c with
  | none => ⟨0, 0⟩
  | some p =>
    let col := s.colliderAt p
    let tr := col.mGameObject.bind (fun g => s.world L g.ref.addr)
    if col.shape_ = Shape.Circle then (WorldCircleAt L col tr).center
    else (WorldOBBAt L col tr).center

/-- The numeric part of the loop body of `PhysicsManager::SolveContacts_` for a
contact between the owners `a` and `b` with world poses `trA`, `trB`: `none`
for the two `continue`s (combined inverse mass not positive, effective mass at
most `1e-8`), otherwise the values `vA`, `wA`, `vB`, `wB` that are passed to
`SetVelocity` / `SetAngularVelocity` of a Dynamic A and a Dynamic B. -/
def contactImpulse (L : Libm K) (pm : PhysicsManager K) (dt : K) (s : PhysicsScene K)
    (c : NarrowContact K) (a b : GameObjectRef) (trA trB : Transform K) :
    Option (Vec2 K × K × Vec2 K × K) :=
  let rbA := s.body a.addr
  let rbB := s.body b.addr
  let n0 := c.contact.normalA
  let pen := c.contact.penetration
  let p := c.contact.point
  let centerA : Vec2 K :=
    if c.colA.isSome then ColliderCenterWorld_ L s c.colA else trA.position
  let centerB : Vec2 K :=
    if c.colB.isSome then ColliderCenterWorld_ L s c.colB else trB.position
  let n : Vec2 K := if Dot (centerB - centerA) n0 < 0 then -n0 else n0
  let invMA : K := match rbA with
    | some r => if r.bodyType_ = BodyType.Dynamic then r.InvMass_ else 0
    | none => 0
  let invMB : K := match rbB with
    | some r => if r.bodyType_ = BodyType.Dynamic then r.InvMass_ else 0
    | none => 0
  let invIA0 : K := match rbA with
    | some r => if r.bodyType_ = BodyType.Dynamic then r.InvInertia_ else 0
    | none => 0
  let invIB0 : K := match rbB with
    | some r => if r.bodyType_ = BodyType.Dynamic then r.InvInertia_ else 0
    | none => 0
  let consA : Nat := match rbA with
    | some r => r.constraints_
    | none => 0
  let consB : Nat := match rbB with
    | some r => r.constraints_
    | none => 0
  let invIA : K := if hasFlag consA FreezeRot then 0 else invIA0
  let invIB : K := if hasFlag consB FreezeRot then 0 else invIB0
  let invMassSum := invMA + invMB
  if invMassSum ≤ 0 then none
  else
    let rA := p - centerA
    let rB := p - centerB
    let vA : Vec2 K := match rbA with
      | some r => r.velocity_
      | none => ⟨0, 0⟩
    let vB : Vec2 K := match rbB with
      | some r => r.velocity_
      | none => ⟨0, 0⟩
    let wA : K := match rbA with
      | some r => r.angularVelocity_
      | none => 0
    let wB : K := match rbB with
      | some r => r.angularVelocity_
      | none => 0
    let velAtA := vA + Perp wA rA
    let velAtB := vB + Perp wB rB
    let rv := velAtB - velAtA
    let velAlongN := Dot rv n
    let e0 : K := 0
    let e1 : K := match rbA with
      | some r => max e0 r.restitution_
      | none => e0
    let e2 : K := match rbB with
      | some r => max e1 r.restitution_
      | none => e1
    let e : K := if -velAlongN < 0.5 then 0 else e2
    let raCn := Cross rA n
    let rbCn := Cross rB n
    let denom := invMassSum + (raCn * raCn) * invIA + (rbCn * rbCn) * invIB
    if denom ≤ 1e-8 then none
    else
      let slop := pm.penetrationSlop
      let bias := -(0.10 / dt) * max (pen - slop) 0
      let j0 := -((1 + e) * velAlongN + bias) / denom
      let j : K := if j0 < 0 then 0 else j0
      let impulse : Vec2 K := n * j
      let dvA0 : Vec2 K := impulse * invMA
      let dvA1 : Vec2 K := if hasFlag consA FreezePosX then ⟨0, dvA0.y⟩ else dvA0
      let dvA : Vec2 K := if hasFlag consA FreezePosY then ⟨dvA1.x, 0⟩ else dvA1
      let vA1 := vA - dvA
      let wA1 : K := if invIA > 0 then wA - raCn * j * invIA else 0
      let dvB0 : Vec2 K := impulse * invMB
      let dvB1 : Vec2 K := if hasFlag consB FreezePosX then ⟨0, dvB0.y⟩ else dvB0
      let dvB : Vec2 K := if hasFlag consB FreezePosY then ⟨dvB1.x, 0⟩ else dvB1
      let vB1 := vB + dvB
      let wB1 : K := if invIB > 0 then wB + rbCn * j * invIB else 0
      some (vA1, wA1, vB1, wB1)

/-- Body of the loop of `PhysicsManager::SolveContacts_` for one contact: the
early `continue`s, then the velocity writes, each guarded by
`rb && rb->GetBodyType() == Dynamic`. -/
def solveContact (L : Libm K) (pm : PhysicsManager K) (dt : K) (s : PhysicsScene K)
    (c : NarrowContact K) : PhysicsScene K :=
  match c.a, c.b with
  | some a, some b =>
    if c.isTriggerPair then s
    else if (s.body a.addr).isNone ∧ (s.body b.addr).isNone then s
    else
      match s.world L a.addr, s.world L b.addr with
      | some trA, some trB =>
        match contactImpulse L pm dt s c a b trA trB with
        | none => s
        | some r =>
          let s1 : PhysicsScene K :=
            if s.isDynamic a.addr then s.writeVelocity a.addr r.1 r.2.1 else s
          if s.isDynamic b.addr then s1.writeVelocity b.addr r.2.2.1 r.2.2.2 else s1
      | _, _ => s
  | _, _ => s

/-- `PhysicsManager::SolveContacts_`. -/
def SolveContacts_ (L : Libm K) (pm : PhysicsManager K) (contacts : List (NarrowContact K))
    (dt : K) (s : PhysicsScene K) : PhysicsScene K :=
  contacts.foldl (solveContact L pm dt) s

/-- The numeric part of the loop body of `PhysicsManager::PositionalCorrection_`
for a contact between the owners `a` and `b` with world poses `trA`, `trB`:
`none` for the two `continue`s, otherwise the positions written to the
transform of a Dynamic A and of a Dynamic B. -/
def contactCorrection (L : Libm K) (pm : PhysicsManager K) (s : PhysicsScene K)
    (c : NarrowContact K) (a b : GameObjectRef) (trA trB : Transform K) :
    Option (Vec2 K × Vec2 K) :=
  let rbA := s.body a.addr
  let rbB := s.body b.addr
  let n0 := c.contact.normalA
  let pen := c.contact.penetration
  let pa3 := trA.position
  let pb3 := trB.position
  let centerA : Vec2 K :=
    if c.colA.isSome then ColliderCenterWorld_ L s c.colA else trA.position
  let centerB : Vec2 K :=
    if c.colB.isSome then ColliderCenterWorld_ L s c.colB else trB.position
  let n : Vec2 K := if Dot (centerB - centerA) n0 < 0 then -n0 else n0
  let invMA : K := match rbA with
    | some r => if r.bodyType_ = BodyType.Dynamic then r.InvMass_ else 0
    | none => 0
  let invMB : K := match rbB with
    | some r => if r.bodyType_ = BodyType.Dynamic then r.InvMass_ else 0
    | none => 0
  let consA : Nat := match rbA with
    | some r => r.constraints_
    | none => 0
  let consB : Nat := match rbB with
    | some r => r.constraints_
    | none => 0
  let invMassSum := invMA + invMB
  if invMassSum ≤ 0 then none
  else
    let mag := max (pen - pm.penetrationSlop) 0 / invMassSum * pm.penetrationPercent
    if mag ≤ 0 then none
    else
      let corr : Vec2 K := n * mag
      let dA0 : Vec2 K := corr * invMA
      let dA1 : Vec2 K := if hasFlag consA FreezePosX then ⟨0, dA0.y⟩ else dA0
      let deltaA : Vec2 K := if hasFlag consA FreezePosY then ⟨dA1.x, 0⟩ else dA1
      let dB0 : Vec2 K := corr * invMB
      let dB1 : Vec2 K := if hasFlag consB FreezePosX then ⟨0, dB0.y⟩ else dB0
      let deltaB : Vec2 K := if hasFlag consB FreezePosY then ⟨dB1.x, 0⟩ else dB1
      some (⟨pa3.x - deltaA.x, pa3.y - deltaA.y⟩, ⟨pb3.x + deltaB.x, pb3.y + deltaB.y⟩)

/-- Body of the loop of `PhysicsManager::PositionalCorrection_` for one
contact. -/
def correctContact (L : Libm K) (pm : PhysicsManager K) (s : PhysicsScene K)
    (c : NarrowContact K) : PhysicsScene K :=
  match c.a, c.b with
  | some a, some b =>
    if c.isTriggerPair then s
    else if (s.body a.addr).isNone ∧ (s.body b.addr).isNone then s
    else
      match s.world L a.addr, s.world L b.addr with
      | some trA, some trB =>
        match contactCorrection L pm s c a b trA trB with
        | none => s
        | some r =>
          let s1 : PhysicsScene K :=
            if s.isDynamic a.addr then s.writePosition L a.addr r.1 else s
          if s.isDynamic b.addr then s1.writePosition L b.addr r.2 else s1
      | _, _ => s
  | _, _ => s

/-- `PhysicsManager::PositionalCorrection_`. -/
def PositionalCorrection_ (L : Libm K) (pm : PhysicsManager K)
    (contacts : List (NarrowContact K)) (s : PhysicsScene K) : PhysicsScene K :=
  contacts.foldl (correctContact L pm) s

/-- The conversion `(int)x` of a `float` whose value is the integer `z`: `z`
itself when it fits a 32-bit `int`; otherwise the conversion is undefined in
C++, and the conversion instruction of x86 returns `INT_MIN`, the value taken
here. -/
def floatToInt (z : Int) : Int :=
  if -2147483648 ≤ z ∧ z ≤ 2147483647 then z else -2147483648

/-- Body of the loop of `PhysicsManager::ComputeSubsteps_` for one entry of
`mBodies`: the new value of `steps`. -/
def substepsBody [FloorRing K] (L : Libm K) (pm : PhysicsManager K) (dt : K)
    (s : PhysicsScene K) (steps : Int) (e : Nat × Bool) : Int :=
  if ¬ e.2 then steps
  else
    match s.body e.1 with
    | none => steps
    | some rb =>
      if rb.bodyType_ ≠ BodyType.Dynamic then steps
      else if rb.collisionDetection_ ≠ CollisionDetection.Continuous then steps
      else
        match s.firstCollider e.1 with
        | none => steps
        | some col =>
          let size : K :=
            if col.shape_ = Shape.Circle then max 0.001 (col.radiusLocal_ * 2)
            else max 0.001 (min col.sizeLocal_.x col.sizeLocal_.y)
          let v := rb.velocity_
          let speed := L.sqrt (v.x * v.x + v.y * v.y)
          let dist := speed * dt
          let denom := max 0.001 (size * pm.ccdMinSizeFactor)
          let need : Int := floatToInt ⌈dist / denom⌉
          max steps need

/-- `PhysicsManager::ComputeSubsteps_`; `std::clamp(steps, 1, maxSubsteps)` is
`steps < 1 ? 1 : (maxSubsteps < steps ? maxSubsteps : steps)`. -/
def ComputeSubsteps_ [FloorRing K] (L : Libm K) (pm : PhysicsManager K) (dt : K)
    (s : PhysicsScene K) : Int :=
  let steps := pm.mBodies.foldl (substepsBody L pm dt s) 1
  if steps < 1 then 1 else if pm.maxSubsteps < steps then pm.maxSubsteps else steps

/-- A `GameObject` as the collision manager reads it during `Step`: the
`Transform` components are the current ones of the scene. -/
def GameObject.refresh (tr : Nat → Option (Transform K)) : GameObject K → GameObject K
  | .root r _ rb => .root r (tr r.addr) rb
  | .child r _ rb parent => .child r (tr r.addr) rb (parent.refresh tr)

/-- The collider stored at address `p`, with the current world poses. -/
def PhysicsScene.colliderNow (L : Libm K) (s : PhysicsScene K) (p : Nat) : Collider2D K :=
  { s.colliderAt p with
    mGameObject := (s.colliderAt p).mGameObject.map (GameObject.refresh (s.world L)) }

/-- One iteration of the substep loop of `PhysicsManager::Step`: integrate,
build the contacts, eight solver iterations, positional correction. -/
def substep [FloorRing K] (L : Libm K) (pm : PhysicsManager K) (dt : K)
    (w : PhysicsScene K × CollisionManager) : PhysicsScene K × CollisionManager :=
  let s1 := Integrate_ L pm dt w.1
  let r := BuildContacts_ L (s1.colliderNow L) w.2
  let contacts := r.1
  let s2 := (List.range 8).foldl (fun s _ => SolveContacts_ L pm contacts dt s) s1
  (PositionalCorrection_ L pm contacts s2, r.2)

/-- `PhysicsManager::Step`; `collision` is `CollisionManager::GetInstancePtr()`
(`none` for the null pointer). -/
def Step [FloorRing K] (L : Libm K) (pm : PhysicsManager K) (fixedDt : K)
    (s : PhysicsScene K) (collision : Option CollisionManager) :
    PhysicsScene K × Option CollisionManager :=
  match collision with
  | none => (s, none)
  | some cm =>
    let substeps := ComputeSubsteps_ L pm fixedDt s
    let dt := fixedDt / (substeps : K)
    let r := (List.range substeps.toNat).foldl (fun w _ => substep L pm dt w) (s, cm)
    (r.1, some r.2)

/-- An `AddForce` or `AddTorque` call on a body. -/
inductive ForceCall (K : Type) where
  | addForce (f : Vec2 K) (mode : ForceMode)
  | addTorque (t : K) (mode : ForceMode)

/-- Effect of a call on the body. -/
def ForceCall.apply (rb : RigidBody2D K) : ForceCall K → RigidBody2D K
  | .addForce f mode => rb.AddForce f mode
  | .addTorque t mode => rb.AddTorque t mode

/-- A sequence of `AddForce` / `AddTorque` calls made on the body of the
`GameObject` at address `g`. -/
def applyForces (s : PhysicsScene K) (g : Nat) (calls : List (ForceCall K)) : PhysicsScene K :=
  match s.body g with
  | none => s
  | some rb => s.setBody g (calls.foldl ForceCall.apply rb)

/-- The body of the object at address `g` is Static, its linear velocity is
`v0` or zero, its angular velocity is `w0` or zero, and the object's transform
lookup (the local pose) gives `T0`. -/
def StaticAt (s : PhysicsScene K) (g : Nat) (T0 : Option (Transform K)) (v0 : Vec2 K) (w0 : K) :
    Prop :=
  ∃ rb, s.body g = some rb ∧ rb.bodyType_ = BodyType.Static ∧
    (rb.velocity_ = v0 ∨ rb.velocity_ = ⟨0, 0⟩) ∧
    (rb.angularVelocity_ = w0 ∨ rb.angularVelocity_ = 0) ∧ s.transform g = T0

/-- Example body for the closed examples: an awake, enabled Static body with
linear velocity `v`, unit mass and inertia, no damping, no constraints. -/
def exampleStaticBody (v : Vec2 K) : RigidBody2D K :=
  { mAwoken := true, mEnabled := true, gameObjectActive := true
    bodyType_ := BodyType.Static, collisionDetection_ := CollisionDetection.Discrete
    mass_ := 1, inertia_ := 1, gravityScale_ := 1, linearDamping_ := 0, angularDamping_ := 0
    restitution_ := 0, constraints_ := 0, velocity_ := v, angularVelocity_ := 0
    accumForce_ := ⟨0, 0⟩, accumAccel_ := ⟨0, 0⟩, accumTorque_ := 0, accumAngularAccel_ := 0 }

/-- Example scene for the closed examples: one object without parent, at
address 1, at the origin with unit scale, carrying `exampleStaticBody v` and
no collider. -/
def exampleStaticScene (v : Vec2 K) : PhysicsScene K :=
  { body := fun g => if g = 1 then some (exampleStaticBody v) else none
    transform := fun g => if g = 1 then some ⟨⟨0, 0⟩, ⟨1, 1⟩, 0⟩ else none
    parents := fun _ => []
    firstCollider := fun _ => none
    colliderAt := fun p => exampleCircle p 0 }

/-- Example physics manager: the default `Config` values, with the body of
object 1 registered and active. -/
def examplePhysics : PhysicsManager K :=
  { mBodies := [(1, true)], gravity := ⟨0, 9.81⟩, penetrationSlop := 0.01
    penetrationPercent := 0.8, maxSubsteps := 8, ccdMinSizeFactor := 0.5 }

/-- Example body for the closed examples: awake, enabled, on an active
`GameObject`, of type `t` with mass `m`, linear velocity `v` and constraints
`c`; every other member has the default value of the class. -/
def exampleBody (t : BodyType) (m : K) (v : Vec2 K) (c : Nat) : RigidBody2D K :=
  { mAwoken := true, mEnabled := true, gameObjectActive := true
    bodyType_ := t, collisionDetection_ := CollisionDetection.Discrete
    mass_ := m, inertia_ := 1, gravityScale_ := 1, linearDamping_ := 0, angularDamping_ := 0
    restitution_ := 0, constraints_ := c, velocity_ := v, angularVelocity_ := 0
    accumForce_ := ⟨0, 0⟩, accumAccel_ := ⟨0, 0⟩, accumTorque_ := 0, accumAngularAccel_ := 0 }

/-- Example scene for the closed examples: two objects without parent, at
addresses 1 and 2, at the positions `(0, 0)` and `(1, 0)` with unit scale,
carrying the bodies `A` and `B` and the circle colliders `exampleCircle 1 0`
and `exampleCircle 2 1` (stored at the addresses 1 and 2). -/
def exampleTwoBodies (A B : Option (RigidBody2D K)) : PhysicsScene K :=
  { body := fun g => if g = 1 then A else if g = 2 then B else none
    transform := fun g =>
      if g = 1 then some ⟨⟨0, 0⟩, ⟨1, 1⟩, 0⟩
      else if g = 2 then some ⟨⟨1, 0⟩, ⟨1, 1⟩, 0⟩ else none
    parents := fun _ => []
    firstCollider := fun g =>
      if g = 1 then some (exampleCircle 1 0)
      else if g = 2 then some (exampleCircle 2 1) else none
    colliderAt := fun p => exampleCircle p (if p = 1 then 0 else 1) }

/-- Example collider of a child object: `exampleCircle p x` whose `GameObject`
is a child of the parentless object with address and id `q` at `(y, 0)`. -/
def exampleChildCircle (p : Nat) (x : K) (q : Nat) (y : K) : Collider2D K :=
  { exampleCircle p x with
    mGameObject := some (GameObject.child ⟨p, p⟩ (some ⟨⟨x, 0⟩, ⟨1, 1⟩, 0⟩) none
      (GameObject.root ⟨q, q⟩ (some ⟨⟨y, 0⟩, ⟨1, 1⟩, 0⟩) none)) }

/-- Example scene with a parent and a child: the objects, bodies and colliders
of `exampleTwoBodies A B`, with object 1 a child of object 2.  Object 2 sits
at `(1, 0)` with unit scale and no rotation; the local position of object 1 is
`(-1, 0)`, so that its world position is `(0, 0)`. -/
def exampleParented (A B : Option (RigidBody2D K)) : PhysicsScene K :=
  { body := fun g => if g = 1 then A else if g = 2 then B else none
    transform := fun g =>
      if g = 1 then some ⟨⟨-1, 0⟩, ⟨1, 1⟩, 0⟩
      else if g = 2 then some ⟨⟨1, 0⟩, ⟨1, 1⟩, 0⟩ else none
    parents := fun g => if g = 1 then [2] else []
    firstCollider := fun g =>
      if g = 1 then some (exampleChildCircle 1 0 2 1)
      else if g = 2 then some (exampleCircle 2 1) else none
    colliderAt := fun p => if p = 1 then exampleChildCircle 1 0 2 1 else exampleCircle p 1 }

/-- Example scene with two objects at the same place: the two parentless
objects of `exampleTwoBodies A B`, both at `(0, 0)`, with the circle colliders
`exampleCircle 1 0` and `exampleCircle 2 0`. -/
def exampleStacked (A B : Option (RigidBody2D K)) : PhysicsScene K :=
  { body := fun g => if g = 1 then A else if g = 2 then B else none
    transform := fun g => if g = 1 ∨ g = 2 then some ⟨⟨0, 0⟩, ⟨1, 1⟩, 0⟩ else none
    parents := fun _ => []
    firstCollider := fun g => if g = 1 ∨ g = 2 then some (exampleCircle g 0) else none
    colliderAt := fun p => exampleCircle p 0 }

/-- The contact of the two colliders of `exampleTwoBodies`, with owners 1 and
2: point `(0.5, 0)`, normal `(1, 0)` from A to B, penetration `pen`
(`Contact_Circle_Circle` gives `pen = 1` for these circles). -/
def exampleBodyContact (trigger : Bool) (pen : K) : NarrowContact K :=
  { a := some ⟨1, 1⟩, b := some ⟨2, 2⟩, colA := some 1, colB := some 2
    isTriggerPair := trigger
    contact := ⟨⟨0.5, 0⟩, ⟨1, 0⟩, ⟨0, 0⟩, pen⟩ }

/-! ## Auxiliary definitions for the contact solver

The values computed by the loop bodies of `SolveContacts_` and
`PositionalCorrection_`, each under the name of the source variable. -/

/-- The values `invMA`, `invMB` of the solver loops:
`(rb && rb->GetBodyType() == Dynamic) ? rb->InvMass_() : 0.f` for the body of
the object at address `g`. -/
def PhysicsScene.invM (s : PhysicsScene K) (g : Nat) : K :=
  match s.body g with
  | some r => if r.bodyType_ = BodyType.Dynamic then r.InvMass_ else 0
  | none => 0

/-- The values `consA`, `consB` of the solver loops:
`rb ? rb->GetConstraints() : Constraints::None`. -/
def PhysicsScene.cons (s : PhysicsScene K) (g : Nat) : Nat :=
  match s.body g with
  | some r => r.constraints_
  | none => 0

/-- The values `invIA`, `invIB` of `SolveContacts_`, after the `FreezeRot`
test. -/
def PhysicsScene.invI (s : PhysicsScene K) (g : Nat) : K :=
  if hasFlag (s.cons g) FreezeRot then 0
  else
    match s.body g with
    | some r => if r.bodyType_ = BodyType.Dynamic then r.InvInertia_ else 0
    | none => 0

/-- The values `vA`, `vB` of `SolveContacts_`: `rb ? rb->GetVelocity() : Vec2{0,0}`. -/
def PhysicsScene.vel (s : PhysicsScene K) (g : Nat) : Vec2 K :=
  match s.body g with
  | some r => r.velocity_
  | none => ⟨0, 0⟩

/-- The values `wA`, `wB` of `SolveContacts_`:
`rb ? rb->GetAngularVelocity() : 0.f`. -/
def PhysicsScene.angVel (s : PhysicsScene K) (g : Nat) : K :=
  match s.body g with
  | some r => r.angularVelocity_
  | none => 0

/-- The values `centerA`, `centerB` of the solver loops: the world centre of
the collider, or the position of the owner's transform without collider. -/
def contactCenter (L : Libm K) (s : PhysicsScene K) (col : Option Nat) (tr : Transform K) :
    Vec2 K :=
  if col.isSome then ColliderCenterWorld_ L s col else tr.position

/-- The normal `n` of the solver loops: `normalA`, negated when it points
from the centre of B to the centre of A. -/
def contactNormal (L : Libm K) (s : PhysicsScene K) (c : NarrowContact K)
    (trA trB : Transform K) : Vec2 K :=
  if Dot (contactCenter L s c.colB trB - contactCenter L s c.colA trA) c.contact.normalA < 0
  then -c.contact.normalA else c.contact.normalA

/-- The lever arm `rA` of `SolveContacts_` (`rB` for the other side): from
the centre to the contact point. -/
def contactArm (L : Libm K) (s : PhysicsScene K) (c : NarrowContact K) (col : Option Nat)
    (tr : Transform K) : Vec2 K :=
  c.contact.point - contactCenter L s col tr

/-- The value `velAlongN` of `SolveContacts_`: the velocity of B at the
contact point minus that of A, along `n`. -/
def contactVelAlongN (L : Libm K) (s : PhysicsScene K) (c : NarrowContact K)
    (a b : GameObjectRef) (trA trB : Transform K) : K :=
  Dot ((s.vel b.addr + Perp (s.angVel b.addr) (contactArm L s c c.colB trB)) -
      (s.vel a.addr + Perp (s.angVel a.addr) (contactArm L s c c.colA trA)))
    (contactNormal L s c trA trB)

/-- The restitution `e` of `SolveContacts_`. -/
def contactRestitution (L : Libm K) (s : PhysicsScene K) (c : NarrowContact K)
    (a b : GameObjectRef) (trA trB : Transform K) : K :=
  let e0 : K := 0
  let e1 : K := match s.body a.addr with
    | some r => max e0 r.restitution_
    | none => e0
  let e2 : K := match s.body b.addr with
    | some r => max e1 r.restitution_
    | none => e1
  if -contactVelAlongN L s c a b trA trB < 0.5 then 0 else e2

/-- The value `denom` of `SolveContacts_`. -/
def contactDenom (L : Libm K) (s : PhysicsScene K) (c : NarrowContact K)
    (a b : GameObjectRef) (trA trB : Transform K) : K :=
  s.invM a.addr + s.invM b.addr +
    (Cross (contactArm L s c c.colA trA) (contactNormal L s c trA trB) *
      Cross (contactArm L s c c.colA trA) (contactNormal L s c trA trB)) * s.invI a.addr +
    (Cross (contactArm L s c c.colB trB) (contactNormal L s c trA trB) *
      Cross (contactArm L s c c.colB trB) (contactNormal L s c trA trB)) * s.invI b.addr

/-- The value `bias` of `SolveContacts_`. -/
def contactBias (pm : PhysicsManager K) (dt : K) (c : NarrowContact K) : K :=
  -(0.10 / dt) * max (c.contact.penetration - pm.penetrationSlop) 0

/-- The value of `j` in `SolveContacts_` before the test `j < 0`. -/
def contactJ0 (L : Libm K) (pm : PhysicsManager K) (dt : K) (s : PhysicsScene K)
    (c : NarrowContact K) (a b : GameObjectRef) (trA trB : Transform K) : K :=
  -((1 + contactRestitution L s c a b trA trB) * contactVelAlongN L s c a b trA trB +
      contactBias pm dt c) / contactDenom L s c a b trA trB

/-- The impulse magnitude `j` of `SolveContacts_`. -/
def contactJ (L : Libm K) (pm : PhysicsManager K) (dt : K) (s : PhysicsScene K)
    (c : NarrowContact K) (a b : GameObjectRef) (trA trB : Transform K) : K :=
  if contactJ0 L pm dt s c a b trA trB < 0 then 0 else contactJ0 L pm dt s c a b trA trB

/-- The two tests `if (cons & FreezePosX) dv.x = 0; if (cons & FreezePosY)
dv.y = 0;` applied to a velocity or position change. -/
def freezeMask (cons : Nat) (dv : Vec2 K) : Vec2 K :=
  let d1 : Vec2 K := if hasFlag cons FreezePosX then ⟨0, dv.y⟩ else dv
  if hasFlag cons FreezePosY then ⟨d1.x, 0⟩ else d1

/-- The value `mag` of `PositionalCorrection_`. -/
def correctionMag (pm : PhysicsManager K) (s : PhysicsScene K) (c : NarrowContact K)
    (a b : GameObjectRef) : K :=
  max (c.contact.penetration - pm.penetrationSlop) 0 / (s.invM a.addr + s.invM b.addr) *
    pm.penetrationPercent

/-- Effect on the body `rb` of the object at address `g` of the guarded write
`if (rb && Dynamic) { rb->SetVelocity(v); rb->SetAngularVelocity(w); }`
addressed to the object at address `k`. -/
def setVel (g k : Nat) (v : Vec2 K) (w : K) (rb : RigidBody2D K) : RigidBody2D K :=
  if g = k ∧ rb.bodyType_ = BodyType.Dynamic then
    { rb with velocity_ := v, angularVelocity_ := w }
  else rb

/-- Effect on the transform `t` of the object at address `g` of the guarded
write `if (rb && Dynamic) tr->position = p;` addressed to the object at
address `k`, whose body passes the test when `dyn` holds. -/
def setPos (g k : Nat) (dyn : Bool) (p : Vec2 K) (t : Transform K) : Transform K :=
  if g = k ∧ dyn = true then { t with position := p } else t

/-- The correction magnitude as the specification states it:
`m = max(penetration - slop, 0) * percent / (invMassA + invMassB)`. -/
def specCorrectionM (pm : PhysicsManager K) (s : PhysicsScene K) (c : NarrowContact K)
    (a b : GameObjectRef) : K :=
  max (c.contact.penetration - pm.penetrationSlop) 0 * pm.penetrationPercent /
    (s.invM a.addr + s.invM b.addr)

/-- Example scene for the closed examples: `exampleTwoBodies` with two Dynamic
bodies of mass `m` without constraints, A moving at `(1, 0)` toward B at rest. -/
def exampleDynamicPair (m : K) : PhysicsScene K :=
  exampleTwoBodies (some (exampleBody BodyType.Dynamic m ⟨1, 0⟩ 0))
    (some (exampleBody BodyType.Dynamic m ⟨0, 0⟩ 0))

/-- The example configuration with another penetration percentage. -/
def examplePhysicsPercent (p : K) : PhysicsManager K :=
  { examplePhysics with penetrationPercent := p }

/-- The body of the object at address `g` is Dynamic, has a mass above `1e-6`
and neither position-freeze flag. -/
def DynFree (s : PhysicsScene K) (g : Nat) : Prop :=
  ∃ rb, s.body g = some rb ∧ rb.bodyType_ = BodyType.Dynamic ∧ 1e-6 < rb.mass_ ∧
    hasFlag rb.constraints_ FreezePosX = false ∧ hasFlag rb.constraints_ FreezePosY = false

/-- Linear momentum `mass * velocity` of the body of the object at address `g`
(zero without body). -/
def PhysicsScene.momentum (s : PhysicsScene K) (g : Nat) : Vec2 K :=
  match s.body g with
  | some r => r.velocity_ * r.mass_
  | none => ⟨0, 0⟩

/-- Sum of the linear momenta of the bodies of the objects at the addresses
`gs`. -/
def totalMomentum (s : PhysicsScene K) (gs : List Nat) : Vec2 K :=
  ⟨(gs.map (fun g => (s.momentum g).x)).sum, (gs.map (fun g => (s.momentum g).y)).sum⟩

/-- The restitution as the specification states it: the larger of the two
coefficients, set to 0 when the closing speed `-vn` is below 0.5. -/
def specRestitution (vn eA eB : K) : K :=
  if -vn < 0.5 then 0 else max eA eB

/-- The bias as the specification states it:
`-(0.10 / dt) * max(penetration - slop, 0)`. -/
def specBias (dt pen slop : K) : K :=
  -(0.10 / dt) * max (pen - slop) 0

/-- The impulse magnitude as the specification states it:
`j = max(0, -((1 + e) * vn + bias) / denom)`. -/
def specImpulse (vn e bias denom : K) : K :=
  max 0 (-((1 + e) * vn + bias) / denom)

/-- The object at address `g` has a Dynamic body with constraints `c` and a
transform with local pose `tr`, and on every axis whose position-freeze flag
is set in `c` its velocity coordinate is that of `v0` or zero and, when the
object has no parent (so that `tr` is its world pose), its position
coordinate is that of `p0`. -/
def FrozenAt (s : PhysicsScene K) (g : Nat) (c : Nat) (p0 v0 : Vec2 K) : Prop :=
  ∃ rb tr, s.body g = some rb ∧ s.transform g = some tr ∧
    rb.bodyType_ = BodyType.Dynamic ∧ rb.constraints_ = c ∧
    (hasFlag c FreezePosX = true →
      (s.parents g = [] → tr.position.x = p0.x) ∧
        (rb.velocity_.x = v0.x ∨ rb.velocity_.x = 0)) ∧
    (hasFlag c FreezePosY = true →
      (s.parents g = [] → tr.position.y = p0.y) ∧
        (rb.velocity_.y = v0.y ∨ rb.velocity_.y = 0))

/-- The example configuration with another body registry. -/
def examplePhysicsBodies (l : List (Nat × Bool)) : PhysicsManager K :=
  { examplePhysics with mBodies := l }

/-- The condition under which `ComputeSubsteps_` takes the registry entry `e`
into account, as the specification lists it: the entry is active, the body is
Dynamic with continuous collision detection, and its object has a collider;
the result is the body with that (first) collider. -/
def ccdBody (s : PhysicsScene K) (e : Nat × Bool) : Option (RigidBody2D K × Collider2D K) :=
  if e.2 = true then
    match s.body e.1, s.firstCollider e.1 with
    | some rb, some col =>
      if rb.bodyType_ = BodyType.Dynamic ∧
          rb.collisionDetection_ = CollisionDetection.Continuous then some (rb, col)
      else none
    | _, _ => none
  else none

/-- The bodies that count for the substeps, each with its collider. -/
def ccdBodies (pm : PhysicsManager K) (s : PhysicsScene K) :
    List (RigidBody2D K × Collider2D K) :=
  pm.mBodies.filterMap (ccdBody s)

/-- The characteristic size as the specification states it: the circle
diameter or the smaller box side, at least 0.001. -/
def ccdSize (col : Collider2D K) : K :=
  if col.shape_ = Shape.Circle then max 0.001 (col.radiusLocal_ * 2)
  else max 0.001 (min col.sizeLocal_.x col.sizeLocal_.y)

/-- The speed of a body, `sqrt(v.x * v.x + v.y * v.y)`. -/
def ccdSpeed (L : Libm K) (rb : RigidBody2D K) : K :=
  L.sqrt (rb.velocity_.x * rb.velocity_.x + rb.velocity_.y * rb.velocity_.y)

/-- The distance a body may travel per substep: `size * ccdMinSizeFactor`, or
0.001 if that is larger. -/
def ccdLimit (pm : PhysicsManager K) (col : Collider2D K) : K :=
  max 0.001 (ccdSize col * pm.ccdMinSizeFactor)

/-- The number of substeps a body asks for:
`(int)ceil(speed * dt / max(0.001, size * ccdMinSizeFactor))`. -/
def ccdNeed [FloorRing K] (L : Libm K) (pm : PhysicsManager K) (dt : K)
    (p : RigidBody2D K × Collider2D K) : Int :=
  floatToInt ⌈ccdSpeed L p.1 * dt / ccdLimit pm p.2⌉

/-- Example body for the closed examples: `exampleBody` of type Dynamic with
unit mass and continuous collision detection, moving at `v`. -/
def exampleFastBody (v : Vec2 K) : RigidBody2D K :=
  { exampleBody BodyType.Dynamic 1 v 0 with
    collisionDetection_ := CollisionDetection.Continuous }

/-- The two normals of every contact point delivered with an event. -/
def Event.normals (e : Event K) : List (Vec2 K × Vec2 K) :=
  e.info.contacts.map (fun cp => (cp.normalA, cp.normalB))

/-- Example collider: a circle of local radius 1 stored at address `p`, a
component of the parentless `GameObject` with address and id `g`, which has no
rigid body and sits at world position `(x, 0)` with unit scale and no
rotation; default layer and mask. -/
def exampleCircleOn (p g : Nat) (x : K) : Collider2D K :=
  { addr := p
    mGameObject := some (GameObject.root ⟨g, g⟩ (some ⟨⟨x, 0⟩, ⟨1, 1⟩, 0⟩) none)
    shape_ := Shape.Circle, isTrigger_ := false, layer_ := 1, mask_ := 4294967295
    sizeLocal_ := ⟨1, 1⟩, radiusLocal_ := 1, offsetLocal_ := ⟨0, 0⟩
    inheritRotation_ := false, localAngleOffsetDeg_ := 0 }

/-- Example collider memory with an owner that carries two colliders: the
colliders at addresses 1 and 2 are components of `GameObject` 1 at `x = 0`,
every other address holds a collider of `GameObject` 2 at `x = gap`. -/
def exampleTwoColliderScene (gap : K) (p : Nat) : Collider2D K :=
  if p = 1 ∨ p = 2 then exampleCircleOn p 1 0 else exampleCircleOn p 2 gap

/-- The contact between collider `p` of `GameObject` 1 and collider 3 of
`GameObject` 2 in `exampleTwoColliderScene gap`. -/
def exampleOwnerContact (L : Libm K) (p : Nat) (gap : K) : NarrowContact K :=
  { a := some ⟨1, 1⟩, b := some ⟨2, 2⟩, colA := some p, colB := some 3
    isTriggerPair := false
    contact := (Contact_Circle_Circle L ⟨0, 0⟩ 1 ⟨gap, 0⟩ 1 cp0).2 }

end Defs

/-! ## Theorems -/

section Theorems

variable {K : Type} [LinearOrderedField K]

@[simp] theorem Vec2.add_x (a b : Vec2 K) : (a + b).x = a.x + b.x := rfl
@[simp] theorem Vec2.add_y (a b : Vec2 K) : (a + b).y = a.y + b.y := rfl
@[simp] theorem Vec2.sub_x (a b : Vec2 K) : (a - b).x = a.x - b.x := rfl
@[simp] theorem Vec2.sub_y (a b : Vec2 K) : (a - b).y = a.y - b.y := rfl
@[simp] theorem Vec2.neg_x (a : Vec2 K) : (-a).x = -a.x := rfl
@[simp] theorem Vec2.neg_y (a : Vec2 K) : (-a).y = -a.y := rfl
@[simp] theorem Vec2.mul_x (a : Vec2 K) (s : K) : (a * s).x = a.x * s := rfl
@[simp] theorem Vec2.mul_y (a : Vec2 K) (s : K) : (a * s).y = a.y * s := rfl
@[simp] theorem Vec2.div_x (a : Vec2 K) (s : K) : (a / s).x = a.x / s := rfl
@[simp] theorem Vec2.div_y (a : Vec2 K) (s : K) : (a / s).y = a.y / s := rfl


/-- C1: `Contact_Circle_Circle` reports a contact exactly when the squared
centre distance is strictly below the squared radius sum; two circles of
radius 1 whose centres are 3 apart, or exactly 2 apart, report no contact. -/
theorem circle_circle_hit_iff (L : Libm K) (out : ContactPoint K) :
    (∀ (ca cb : Vec2 K) (ra rb : K),
      (Contact_Circle_Circle L ca ra cb rb out).1 = true ↔
        Dot (cb - ca) (cb - ca) < (ra + rb) ^ 2) ∧
    (∀ c : Vec2 K, (Contact_Circle_Circle L c 1 ⟨c.x + 3, c.y⟩ 1 out).1 = false) ∧
    (∀ c : Vec2 K, (Contact_Circle_Circle L c 1 ⟨c.x + 2, c.y⟩ 1 out).1 = false) := by
  have key : ∀ (ca cb : Vec2 K) (ra rb : K),
      (Contact_Circle_Circle L ca ra cb rb out).1 = true ↔
        Dot (cb - ca) (cb - ca) < (ra + rb) ^ 2 := by
    intro ca cb ra rb
    by_cases h : (ra + rb) * (ra + rb) ≤ Dot (cb - ca) (cb - ca)
    · simp only [Contact_Circle_Circle, ge_iff_le, if_pos h, Bool.false_eq_true, false_iff,
        not_lt]
      rw [pow_two]; exact h
    · simp only [Contact_Circle_Circle, ge_iff_le, if_neg h, true_iff]
      rw [pow_two]; exact not_le.mp h
  refine ⟨key, ?_, ?_⟩
  · intro c
    have h := (key c ⟨c.x + 3, c.y⟩ 1 1).not
    rw [Bool.not_eq_true] at h
    rw [h]
    simp only [Dot, Vec2.sub_x, Vec2.sub_y]
    norm_num
  · intro c
    have h := (key c ⟨c.x + 2, c.y⟩ 1 1).not
    rw [Bool.not_eq_true] at h
    rw [h]
    simp only [Dot, Vec2.sub_x, Vec2.sub_y]
    norm_num

/-! ### Circle / circle with coincident centres -/

/-- With coincident centres the clamp `std::max(distSq, 1e-8f)` makes `dist`
equal to `1e-4`, so the guard `dist > 1e-6f` holds and the normal is the zero
vector `d / dist`; the `Vec2{1,0}` branch is not taken. -/
theorem Contact_Circle_Circle_coincident (L : Libm K) (c : Vec2 K) (ra rb : K)
    (out : ContactPoint K) (hr : 0 < ra + rb) (hsqrt : L.sqrt 1e-8 = 1e-4) :
    (Contact_Circle_Circle L c ra c rb out).1 = true ∧
    (Contact_Circle_Circle L c ra c rb out).2.normalA = ⟨0, 0⟩ ∧
    (Contact_Circle_Circle L c ra c rb out).2.penetration = ra + rb - 1e-4 := by
  have hd : Dot (c - c) (c - c) = 0 := by simp [Dot]
  have hlt : ¬ ((ra + rb) * (ra + rb) ≤ 0) := not_le.mpr (mul_pos hr hr)
  have hmax : max (0 : K) 1e-8 = 1e-8 := max_eq_right (by norm_num)
  have hgt : (1e-4 : K) > 1e-6 := by norm_num
  simp only [Contact_Circle_Circle, ge_iff_le, if_neg hlt, hd, hmax, hsqrt, if_pos hgt]
  refine ⟨trivial, ?_, trivial⟩
  simp [Vec2.ext_iff]

/-- The real-number libm maps `1e-8` to `1e-4`. -/
theorem real_sqrt_1e8 : Real.sqrt 1e-8 = 1e-4 := by
  have h : (1e-8 : ℝ) = (1e-4) ^ 2 := by norm_num
  rw [h, Real.sqrt_sq (by norm_num)]

/-- C2 (evaluation of the code): two unit circles with the same centre report
a contact whose normal is the zero vector, not the fallback axis `(1, 0)`;
the libm is the exact real one. -/
theorem circle_circle_coincident_normal_is_zero :
    (Contact_Circle_Circle (Libm.mk Real.sqrt Real.cos Real.sin) ⟨0, 0⟩ 1 ⟨0, 0⟩ 1
        cp0).1 = true ∧
    (Contact_Circle_Circle (Libm.mk Real.sqrt Real.cos Real.sin) ⟨0, 0⟩ 1 ⟨0, 0⟩ 1
        cp0).2.normalA = ⟨0, 0⟩ ∧
    (Contact_Circle_Circle (Libm.mk Real.sqrt Real.cos Real.sin) ⟨0, 0⟩ 1 ⟨0, 0⟩ 1
        cp0).2.normalA ≠ ⟨1, 0⟩ := by
  have h := Contact_Circle_Circle_coincident (Libm.mk Real.sqrt Real.cos Real.sin)
    ⟨0, 0⟩ 1 1 cp0 (by norm_num) real_sqrt_1e8
  refine ⟨h.1, h.2.1, ?_⟩
  rw [h.2.1]
  simp

/-! ### The axis loop of `Contact_OBB_OBB` -/

theorem kTieEps_pos : (0 : K) < kTieEps := by
  unfold kTieEps; norm_num

/-- One iteration, written with the per-index values. -/
theorem obbIter_eq (L : Libm K) (aB bB : Basis2 K) (aHalf bHalf d : Vec2 K)
    (axes : List (Vec2 K)) (st : SatBest K) (i : Nat) :
    obbIter L aB bB aHalf bHalf d axes st i =
      if iterPen L aB bB aHalf bHalf d axes i ≤ 0 then none
      else if (decide (iterPen L aB bB aHalf bHalf d axes i < st.bestPen - kTieEps) ||
          (decide (|iterPen L aB bB aHalf bHalf d axes i - st.bestPen| ≤ kTieEps) &&
            (decide (i < 2) && !(decide (st.bestIndex < 2)))) ||
          (decide (|iterPen L aB bB aHalf bHalf d axes i - st.bestPen| ≤ kTieEps) &&
            decide (i < st.bestIndex))) = true
        then some ⟨iterPen L aB bB aHalf bHalf d axes i, iterSigned L d axes i, i⟩
        else some st := rfl

/-- When the recorded `bestIndex` is not above the current index, the two tie
clauses of the update condition are false: the current best is replaced
exactly when the new overlap is smaller by more than `kTieEps`. -/
theorem obbIter_of_le (L : Libm K) (aB bB : Basis2 K) (aHalf bHalf d : Vec2 K)
    (axes : List (Vec2 K)) (st : SatBest K) (i : Nat) (h : st.bestIndex ≤ i) :
    obbIter L aB bB aHalf bHalf d axes st i =
      if iterPen L aB bB aHalf bHalf d axes i ≤ 0 then none
      else if iterPen L aB bB aHalf bHalf d axes i < st.bestPen - kTieEps
        then some ⟨iterPen L aB bB aHalf bHalf d axes i, iterSigned L d axes i, i⟩
        else some st := by
  rw [obbIter_eq]
  have h1 : ¬ (i < st.bestIndex) := by omega
  have h2 : ¬ (i < 2 ∧ ¬ st.bestIndex < 2) := by omega
  by_cases hp : iterPen L aB bB aHalf bHalf d axes i ≤ 0
  · simp only [if_pos hp]
  · simp only [if_neg hp]
    by_cases hb : iterPen L aB bB aHalf bHalf d axes i < st.bestPen - kTieEps
    · simp [hb]
    · have h3 : (decide (i < 2) && !(decide (st.bestIndex < 2))) = false := by
        by_cases h4 : i < 2
        · have : st.bestIndex < 2 := by omega
          simp [this]
        · simp [h4]
      simp [hb, h1, h3]

theorem satInv_bestIndex_le {P : Nat → K} {A : Nat → Vec2 K} {k : Nat} {st : SatBest K}
    (h : SatInv P A k st) : st.bestIndex ≤ k := by
  rcases h with ⟨h, _⟩ | ⟨h, _⟩
  · rw [h]; exact Nat.zero_le _
  · exact Nat.le_of_lt h

/-- The invariant is preserved by one iteration. -/
theorem satInv_step (L : Libm K) (aB bB : Basis2 K) (aHalf bHalf d : Vec2 K)
    (axes : List (Vec2 K)) (k : Nat) (st st' : SatBest K)
    (hinv : SatInv (iterPen L aB bB aHalf bHalf d axes) (iterSigned L d axes) k st)
    (hstep : obbIter L aB bB aHalf bHalf d axes st k = some st') :
    0 < iterPen L aB bB aHalf bHalf d axes k ∧
    SatInv (iterPen L aB bB aHalf bHalf d axes) (iterSigned L d axes) (k + 1) st' := by
  have heps : (0 : K) < kTieEps := kTieEps_pos
  rw [obbIter_of_le L aB bB aHalf bHalf d axes st k (satInv_bestIndex_le hinv)] at hstep
  by_cases hp : iterPen L aB bB aHalf bHalf d axes k ≤ 0
  · simp [hp] at hstep
  · rw [if_neg hp] at hstep
    refine ⟨not_le.mp hp, ?_⟩
    by_cases hb : iterPen L aB bB aHalf bHalf d axes k < st.bestPen - kTieEps
    · rw [if_pos hb] at hstep
      have hst : st' = ⟨iterPen L aB bB aHalf bHalf d axes k, iterSigned L d axes k, k⟩ :=
        (Option.some.inj hstep).symm
      subst hst
      right
      have hlow : ∀ j, j < k → iterPen L aB bB aHalf bHalf d axes k <
          iterPen L aB bB aHalf bHalf d axes j := by
        intro j hj
        rcases hinv with ⟨h0, hall⟩ | ⟨_, _, _, _, hall, _, _⟩
        · have := hall j hj
          rw [h0] at hb
          simp only [satInit] at hb
          linarith
        · have := hall j hj
          linarith
      have hS : iterPen L aB bB aHalf bHalf d axes k < 1e30 - kTieEps := by
        rcases hinv with ⟨h0, _⟩ | ⟨_, _, _, hlt, _, _, _⟩
        · rw [h0] at hb
          simpa only [satInit] using hb
        · linarith
      have hfirst : k = 0 ∨ (iterPen L aB bB aHalf bHalf d axes 0 < 1e30 - kTieEps →
          iterPen L aB bB aHalf bHalf d axes k + kTieEps <
            iterPen L aB bB aHalf bHalf d axes 0) := by
        rcases Nat.eq_zero_or_pos k with hk | hk
        · exact Or.inl hk
        · right
          intro h0lt
          rcases hinv with ⟨_, hall⟩ | ⟨_, hpen, _, _, _, _, hz⟩
          · have := hall 0 hk
            linarith
          · rcases hz with hz | hz
            · rw [hpen, hz] at hb
              linarith
            · have := hz h0lt
              linarith
      refine ⟨Nat.lt_succ_self k, rfl, rfl, hS, ?_, hlow, hfirst⟩
      intro j hj
      rcases Nat.lt_succ_iff_lt_or_eq.mp hj with hj | hj
      · have := hlow j hj
        show iterPen L aB bB aHalf bHalf d axes k - kTieEps ≤ _
        linarith
      · subst hj
        show iterPen L aB bB aHalf bHalf d axes j - kTieEps ≤ _
        linarith
    · rw [if_neg hb] at hstep
      have hst : st' = st := (Option.some.inj hstep).symm
      subst hst
      rcases hinv with ⟨h0, hall⟩ | ⟨hi, hpen, hax, hlt, hall, hlow, hz⟩
      · left
        refine ⟨h0, ?_⟩
        intro j hj
        rcases Nat.lt_succ_iff_lt_or_eq.mp hj with hj | hj
        · exact hall j hj
        · subst hj
          rw [h0] at hb
          simp only [satInit] at hb
          exact not_lt.mp hb
      · right
        refine ⟨Nat.lt_succ_of_lt hi, hpen, hax, hlt, ?_, hlow, hz⟩
        intro j hj
        rcases Nat.lt_succ_iff_lt_or_eq.mp hj with hj | hj
        · exact hall j hj
        · subst hj
          exact not_lt.mp hb

/-- An iteration fails exactly when its overlap is not positive. -/
theorem obbIter_isSome (L : Libm K) (aB bB : Basis2 K) (aHalf bHalf d : Vec2 K)
    (axes : List (Vec2 K)) (st : SatBest K) (i : Nat) :
    (∃ st', obbIter L aB bB aHalf bHalf d axes st i = some st') ↔
      0 < iterPen L aB bB aHalf bHalf d axes i := by
  rw [obbIter_eq]
  by_cases hp : iterPen L aB bB aHalf bHalf d axes i ≤ 0
  · simp [hp, not_lt.mpr hp]
  · simp only [if_neg hp, not_le.mp hp, iff_true]
    split_ifs
    · exact ⟨_, rfl⟩
    · exact ⟨_, rfl⟩

/-- The list of candidate axes built by `Contact_OBB_OBB`. -/
theorem obbLoop_unfold (L : Libm K) (ac aHalf : Vec2 K) (aRotDeg : K) (bc bHalf : Vec2 K)
    (bRotDeg : K) (st : SatBest K) :
    obbLoop L ac aHalf aRotDeg bc bHalf bRotDeg = some st ↔
      ∃ s1 s2 s3,
        obbIter L (OBBBases L aRotDeg) (OBBBases L bRotDeg) aHalf bHalf (bc - ac)
          [(OBBBases L aRotDeg).x, (OBBBases L aRotDeg).y, (OBBBases L bRotDeg).x,
            (OBBBases L bRotDeg).y] satInit 0 = some s1 ∧
        obbIter L (OBBBases L aRotDeg) (OBBBases L bRotDeg) aHalf bHalf (bc - ac)
          [(OBBBases L aRotDeg).x, (OBBBases L aRotDeg).y, (OBBBases L bRotDeg).x,
            (OBBBases L bRotDeg).y] s1 1 = some s2 ∧
        obbIter L (OBBBases L aRotDeg) (OBBBases L bRotDeg) aHalf bHalf (bc - ac)
          [(OBBBases L aRotDeg).x, (OBBBases L aRotDeg).y, (OBBBases L bRotDeg).x,
            (OBBBases L bRotDeg).y] s2 2 = some s3 ∧
        obbIter L (OBBBases L aRotDeg) (OBBBases L bRotDeg) aHalf bHalf (bc - ac)
          [(OBBBases L aRotDeg).x, (OBBBases L aRotDeg).y, (OBBBases L bRotDeg).x,
            (OBBBases L bRotDeg).y] s3 3 = some st := by
  simp only [obbLoop, List.foldlM_cons, List.foldlM_nil, Option.bind_eq_bind,
    Option.pure_def, Option.bind_some, Option.bind_eq_some, satInit]
  constructor
  · rintro ⟨s1, h0, s2, h1, s3, h2, h3⟩
    exact ⟨s1, s2, s3, h0, h1, h2, h3⟩
  · rintro ⟨s1, s2, s3, h0, h1, h2, h3⟩
    exact ⟨s1, h0, s2, h1, s3, h2, h3⟩

/-- On success the loop processed four positive overlaps and its result
satisfies the invariant for all four indices. -/
theorem obbLoop_spec (L : Libm K) (ac aHalf : Vec2 K) (aRotDeg : K) (bc bHalf : Vec2 K)
    (bRotDeg : K) (st : SatBest K)
    (h : obbLoop L ac aHalf aRotDeg bc bHalf bRotDeg = some st) :
    (∀ i, i < 4 → 0 < iterPen L (OBBBases L aRotDeg) (OBBBases L bRotDeg) aHalf bHalf (bc - ac)
          [(OBBBases L aRotDeg).x, (OBBBases L aRotDeg).y, (OBBBases L bRotDeg).x,
            (OBBBases L bRotDeg).y] i) ∧
    SatInv (iterPen L (OBBBases L aRotDeg) (OBBBases L bRotDeg) aHalf bHalf (bc - ac)
          [(OBBBases L aRotDeg).x, (OBBBases L aRotDeg).y, (OBBBases L bRotDeg).x,
            (OBBBases L bRotDeg).y])
      (iterSigned L (bc - ac)
          [(OBBBases L aRotDeg).x, (OBBBases L aRotDeg).y, (OBBBases L bRotDeg).x,
            (OBBBases L bRotDeg).y]) 4 st := by
  rw [obbLoop_unfold] at h
  obtain ⟨s1, s2, s3, h0, h1, h2, h3⟩ := h
  have i0 : SatInv (iterPen L (OBBBases L aRotDeg) (OBBBases L bRotDeg) aHalf bHalf (bc - ac)
          [(OBBBases L aRotDeg).x, (OBBBases L aRotDeg).y, (OBBBases L bRotDeg).x,
            (OBBBases L bRotDeg).y])
      (iterSigned L (bc - ac)
          [(OBBBases L aRotDeg).x, (OBBBases L aRotDeg).y, (OBBBases L bRotDeg).x,
            (OBBBases L bRotDeg).y]) 0 satInit :=
    Or.inl ⟨rfl, fun j hj => absurd hj (Nat.not_lt_zero j)⟩
  obtain ⟨p0, i1⟩ := satInv_step L _ _ _ _ _ _ 0 _ _ i0 h0
  obtain ⟨p1, i2⟩ := satInv_step L _ _ _ _ _ _ 1 _ _ i1 h1
  obtain ⟨p2, i3⟩ := satInv_step L _ _ _ _ _ _ 2 _ _ i2 h2
  obtain ⟨p3, i4⟩ := satInv_step L _ _ _ _ _ _ 3 _ _ i3 h3
  refine ⟨?_, i4⟩
  intro i hi
  interval_cases i
  · exact p0
  · exact p1
  · exact p2
  · exact p3

/-- The loop succeeds exactly when all four overlaps are positive. -/
theorem obbLoop_isSome_iff (L : Libm K) (ac aHalf : Vec2 K) (aRotDeg : K) (bc bHalf : Vec2 K)
    (bRotDeg : K) :
    (∃ st, obbLoop L ac aHalf aRotDeg bc bHalf bRotDeg = some st) ↔
      ∀ i, i < 4 → 0 < iterPen L (OBBBases L aRotDeg) (OBBBases L bRotDeg) aHalf bHalf
          (bc - ac) [(OBBBases L aRotDeg).x, (OBBBases L aRotDeg).y, (OBBBases L bRotDeg).x,
            (OBBBases L bRotDeg).y] i := by
  constructor
  · rintro ⟨st, h⟩
    exact (obbLoop_spec L ac aHalf aRotDeg bc bHalf bRotDeg st h).1
  · intro hp
    obtain ⟨s1, h0⟩ := (obbIter_isSome L _ _ aHalf bHalf (bc - ac) _ satInit 0).mpr (hp 0 (by norm_num))
    obtain ⟨s2, h1⟩ := (obbIter_isSome L _ _ aHalf bHalf (bc - ac) _ s1 1).mpr (hp 1 (by norm_num))
    obtain ⟨s3, h2⟩ := (obbIter_isSome L _ _ aHalf bHalf (bc - ac) _ s2 2).mpr (hp 2 (by norm_num))
    obtain ⟨s4, h3⟩ := (obbIter_isSome L _ _ aHalf bHalf (bc - ac) _ s3 3).mpr (hp 3 (by norm_num))
    exact ⟨s4, (obbLoop_unfold L ac aHalf aRotDeg bc bHalf bRotDeg s4).mpr
      ⟨s1, s2, s3, h0, h1, h2, h3⟩⟩

/-- `Contact_OBB_OBB` in terms of the loop result. -/
theorem Contact_OBB_OBB_eq (L : Libm K) (ac aHalf : Vec2 K) (aRotDeg : K) (bc bHalf : Vec2 K)
    (bRotDeg : K) (out : ContactPoint K) :
    Contact_OBB_OBB L ac aHalf aRotDeg bc bHalf bRotDeg out =
      match obbLoop L ac aHalf aRotDeg bc bHalf bRotDeg with
      | none => (false, out)
      | some st =>
        (true, { point := ((ac + st.bestAxis *
                      ProjectRadius st.bestAxis (OBBBases L aRotDeg) aHalf) +
                    (bc - st.bestAxis *
                      ProjectRadius st.bestAxis (OBBBases L bRotDeg) bHalf)) * (0.5 : K),
                 normalA := st.bestAxis,
                 normalB := out.normalB,
                 penetration := st.bestPen }) := by
  unfold Contact_OBB_OBB
  cases obbLoop L ac aHalf aRotDeg bc bHalf bRotDeg <;> rfl

/-- A contact is reported exactly when the loop succeeds. -/
theorem Contact_OBB_OBB_hit_iff (L : Libm K) (ac aHalf : Vec2 K) (aRotDeg : K)
    (bc bHalf : Vec2 K) (bRotDeg : K) (out : ContactPoint K) :
    (Contact_OBB_OBB L ac aHalf aRotDeg bc bHalf bRotDeg out).1 = true ↔
      ∃ st, obbLoop L ac aHalf aRotDeg bc bHalf bRotDeg = some st := by
  rw [Contact_OBB_OBB_eq]
  cases obbLoop L ac aHalf aRotDeg bc bHalf bRotDeg <;> simp

/-- `NormalizeSafe` leaves a unit vector unchanged when `sqrt 1 = 1`. -/
theorem NormalizeSafe_unit (L : Libm K) (v fb : Vec2 K) (hv : Dot v v = 1)
    (hsqrt : L.sqrt 1 = 1) : NormalizeSafe L v fb = v := by
  have h : ¬ ((1 : K) ≤ 1e-12) := by norm_num
  simp only [NormalizeSafe, hv, if_neg h, hsqrt]
  ext <;> simp

/-! ### Unit axes -/

theorem OBBBases_x_unit (L : Libm K) (rot : K)
    (h : L.cos (DegToRad rot) ^ 2 + L.sin (DegToRad rot) ^ 2 = 1) :
    Dot (OBBBases L rot).x (OBBBases L rot).x = 1 := by
  simp only [OBBBases, Dot]
  linear_combination h

theorem OBBBases_y_unit (L : Libm K) (rot : K)
    (h : L.cos (DegToRad rot) ^ 2 + L.sin (DegToRad rot) ^ 2 = 1) :
    Dot (OBBBases L rot).y (OBBBases L rot).y = 1 := by
  simp only [OBBBases, Dot]
  linear_combination h

/-- With exact unit axes the normalisation inside the loop is the identity. -/
theorem iterAxis_eq (L : Libm K) (aRot bRot : K)
    (hA : L.cos (DegToRad aRot) ^ 2 + L.sin (DegToRad aRot) ^ 2 = 1)
    (hB : L.cos (DegToRad bRot) ^ 2 + L.sin (DegToRad bRot) ^ 2 = 1)
    (hsqrt : L.sqrt 1 = 1) (i : Nat) (hi : i < 4) :
    iterAxis L [(OBBBases L aRot).x, (OBBBases L aRot).y, (OBBBases L bRot).x,
        (OBBBases L bRot).y] i =
      [(OBBBases L aRot).x, (OBBBases L aRot).y, (OBBBases L bRot).x,
        (OBBBases L bRot).y].getD i ⟨0, 0⟩ := by
  unfold iterAxis
  interval_cases i
  · exact NormalizeSafe_unit L _ _ (OBBBases_x_unit L aRot hA) hsqrt
  · exact NormalizeSafe_unit L _ _ (OBBBases_y_unit L aRot hA) hsqrt
  · exact NormalizeSafe_unit L _ _ (OBBBases_x_unit L bRot hB) hsqrt
  · exact NormalizeSafe_unit L _ _ (OBBBases_y_unit L bRot hB) hsqrt

/-- With exact unit axes the overlap computed by iteration `i` is the overlap
of the boxes along candidate axis `i`. -/
theorem iterPen_eq_axisOverlap (L : Libm K) (ac aHalf : Vec2 K) (aRot : K) (bc bHalf : Vec2 K)
    (bRot : K)
    (hA : L.cos (DegToRad aRot) ^ 2 + L.sin (DegToRad aRot) ^ 2 = 1)
    (hB : L.cos (DegToRad bRot) ^ 2 + L.sin (DegToRad bRot) ^ 2 = 1)
    (hsqrt : L.sqrt 1 = 1) (i : Nat) (hi : i < 4) :
    iterPen L (OBBBases L aRot) (OBBBases L bRot) aHalf bHalf (bc - ac)
        [(OBBBases L aRot).x, (OBBBases L aRot).y, (OBBBases L bRot).x,
          (OBBBases L bRot).y] i =
      axisOverlap L ac aHalf aRot bc bHalf bRot i := by
  unfold iterPen axisOverlap
  rw [iterAxis_eq L aRot bRot hA hB hsqrt i hi]

/-! ### Swapping the two boxes -/

theorem obbIter_keep (L : Libm K) (aB bB : Basis2 K) (aHalf bHalf d : Vec2 K)
    (axes : List (Vec2 K)) (st : SatBest K) (i : Nat) (h : st.bestIndex ≤ i)
    (hp : 0 < iterPen L aB bB aHalf bHalf d axes i)
    (hk : st.bestPen - kTieEps ≤ iterPen L aB bB aHalf bHalf d axes i) :
    obbIter L aB bB aHalf bHalf d axes st i = some st := by
  rw [obbIter_of_le L aB bB aHalf bHalf d axes st i h, if_neg (not_le.mpr hp),
    if_neg (not_lt.mpr hk)]

theorem obbIter_take (L : Libm K) (aB bB : Basis2 K) (aHalf bHalf d : Vec2 K)
    (axes : List (Vec2 K)) (st : SatBest K) (i : Nat) (h : st.bestIndex ≤ i)
    (hp : 0 < iterPen L aB bB aHalf bHalf d axes i)
    (hb : iterPen L aB bB aHalf bHalf d axes i < st.bestPen - kTieEps) :
    obbIter L aB bB aHalf bHalf d axes st i =
      some ⟨iterPen L aB bB aHalf bHalf d axes i, iterSigned L d axes i, i⟩ := by
  rw [obbIter_of_le L aB bB aHalf bHalf d axes st i h, if_neg (not_le.mpr hp), if_pos hb]

/-! ### Unrotated boxes (both angles 0) -/

theorem DegToRad_zero : DegToRad (0 : K) = 0 := by
  simp [DegToRad]

theorem OBBBases_zero (L : Libm K) (hc : L.cos 0 = 1) (hs : L.sin 0 = 0) :
    OBBBases L 0 = ⟨⟨1, 0⟩, ⟨0, 1⟩⟩ := by
  simp [OBBBases, DegToRad_zero, hc, hs]

/-- For unrotated boxes the loop sees the x-overlap at indices 0 and 2 and the
y-overlap at indices 1 and 3. -/
theorem iterPen_unrotated (L : Libm K) (ac aHalf bc bHalf : Vec2 K)
    (hc : L.cos 0 = 1) (hs : L.sin 0 = 0) (hsqrt : L.sqrt 1 = 1) (i : Nat) (hi : i < 4) :
    iterPen L (OBBBases L 0) (OBBBases L 0) aHalf bHalf (bc - ac)
        [(OBBBases L 0).x, (OBBBases L 0).y, (OBBBases L 0).x, (OBBBases L 0).y] i =
      if i % 2 = 0 then aHalf.x + bHalf.x - |bc.x - ac.x|
      else aHalf.y + bHalf.y - |bc.y - ac.y| := by
  have hu : L.cos (DegToRad 0) ^ 2 + L.sin (DegToRad 0) ^ 2 = 1 := by
    rw [DegToRad_zero, hc, hs]; norm_num
  rw [iterPen_eq_axisOverlap L ac aHalf 0 bc bHalf 0 hu hu hsqrt i hi]
  unfold axisOverlap
  rw [OBBBases_zero L hc hs]
  interval_cases i <;>
    simp [ProjectRadius, Dot]

/-- For unrotated boxes the signed axis of iteration `i`. -/
theorem iterSigned_unrotated (L : Libm K) (ac bc : Vec2 K)
    (hc : L.cos 0 = 1) (hs : L.sin 0 = 0) (hsqrt : L.sqrt 1 = 1) (i : Nat) (hi : i < 4) :
    iterSigned L (bc - ac)
        [(OBBBases L 0).x, (OBBBases L 0).y, (OBBBases L 0).x, (OBBBases L 0).y] i =
      if i % 2 = 0 then ⟨if bc.x - ac.x ≥ 0 then 1 else -1, 0⟩
      else ⟨0, if bc.y - ac.y ≥ 0 then 1 else -1⟩ := by
  have hu : L.cos (DegToRad 0) ^ 2 + L.sin (DegToRad 0) ^ 2 = 1 := by
    rw [DegToRad_zero, hc, hs]; norm_num
  unfold iterSigned
  rw [iterAxis_eq L 0 0 hu hu hsqrt i hi, OBBBases_zero L hc hs]
  interval_cases i <;>
    simp [Dot, Vec2.ext_iff]

/-- Unrotated boxes whose x-overlap is positive, below the initial `bestPen`
and not undercut by the y-overlap by more than the tie epsilon: the loop
selects index 0 with the x-overlap. -/
theorem obbLoop_unrotated_x (L : Libm K) (ac aHalf bc bHalf : Vec2 K)
    (hc : L.cos 0 = 1) (hs : L.sin 0 = 0) (hsqrt : L.sqrt 1 = 1)
    (hox : 0 < aHalf.x + bHalf.x - |bc.x - ac.x|)
    (hoy : 0 < aHalf.y + bHalf.y - |bc.y - ac.y|)
    (hS : aHalf.x + bHalf.x - |bc.x - ac.x| < 1e30 - kTieEps)
    (hxy : aHalf.x + bHalf.x - |bc.x - ac.x| - kTieEps ≤ aHalf.y + bHalf.y - |bc.y - ac.y|) :
    obbLoop L ac aHalf 0 bc bHalf 0 =
      some ⟨aHalf.x + bHalf.x - |bc.x - ac.x|, ⟨if bc.x - ac.x ≥ 0 then 1 else -1, 0⟩, 0⟩ := by
  have heps : (0 : K) < kTieEps := kTieEps_pos
  have p0 := iterPen_unrotated L ac aHalf bc bHalf hc hs hsqrt 0 (by norm_num)
  have p1 := iterPen_unrotated L ac aHalf bc bHalf hc hs hsqrt 1 (by norm_num)
  have p2 := iterPen_unrotated L ac aHalf bc bHalf hc hs hsqrt 2 (by norm_num)
  have p3 := iterPen_unrotated L ac aHalf bc bHalf hc hs hsqrt 3 (by norm_num)
  have a0 := iterSigned_unrotated L ac bc hc hs hsqrt 0 (by norm_num)
  norm_num at p0 p1 p2 p3
  simp only [Nat.zero_mod, if_true] at a0
  rw [obbLoop_unfold]
  refine ⟨⟨aHalf.x + bHalf.x - |bc.x - ac.x|, ⟨if bc.x - ac.x ≥ 0 then 1 else -1, 0⟩, 0⟩,
    ⟨aHalf.x + bHalf.x - |bc.x - ac.x|, ⟨if bc.x - ac.x ≥ 0 then 1 else -1, 0⟩, 0⟩,
    ⟨aHalf.x + bHalf.x - |bc.x - ac.x|, ⟨if bc.x - ac.x ≥ 0 then 1 else -1, 0⟩, 0⟩,
    ?_, ?_, ?_, ?_⟩
  · rw [obbIter_take L _ _ _ _ _ _ satInit 0 (Nat.le_refl _) (by rw [p0]; exact hox)
      (by rw [p0]; exact hS), p0, a0]
  · exact obbIter_keep L _ _ _ _ _ _ _ 1 (Nat.zero_le _) (by rw [p1]; exact hoy)
      (by rw [p1]; exact hxy)
  · exact obbIter_keep L _ _ _ _ _ _ _ 2 (Nat.zero_le _) (by rw [p2]; exact hox)
      (by rw [p2]; simp only; linarith)
  · exact obbIter_keep L _ _ _ _ _ _ _ 3 (Nat.zero_le _) (by rw [p3]; exact hoy)
      (by rw [p3]; exact hxy)

/-- Unrotated boxes whose overlaps are positive but not below the initial
`bestPen` by more than the tie epsilon: no iteration replaces the initial
values. -/
theorem obbLoop_unrotated_sentinel (L : Libm K) (ac aHalf bc bHalf : Vec2 K)
    (hc : L.cos 0 = 1) (hs : L.sin 0 = 0) (hsqrt : L.sqrt 1 = 1)
    (hx : (1e30 : K) - kTieEps ≤ aHalf.x + bHalf.x - |bc.x - ac.x|)
    (hy : (1e30 : K) - kTieEps ≤ aHalf.y + bHalf.y - |bc.y - ac.y|) :
    obbLoop L ac aHalf 0 bc bHalf 0 = some satInit := by
  have heps : (0 : K) < kTieEps := kTieEps_pos
  have hpos : (0 : K) < 1e30 - kTieEps := by unfold kTieEps; norm_num
  have p0 := iterPen_unrotated L ac aHalf bc bHalf hc hs hsqrt 0 (by norm_num)
  have p1 := iterPen_unrotated L ac aHalf bc bHalf hc hs hsqrt 1 (by norm_num)
  have p2 := iterPen_unrotated L ac aHalf bc bHalf hc hs hsqrt 2 (by norm_num)
  have p3 := iterPen_unrotated L ac aHalf bc bHalf hc hs hsqrt 3 (by norm_num)
  norm_num at p0 p1 p2 p3
  rw [obbLoop_unfold]
  refine ⟨satInit, satInit, satInit, ?_, ?_, ?_, ?_⟩
  · exact obbIter_keep L _ _ _ _ _ _ _ 0 (Nat.zero_le _) (by rw [p0]; linarith)
      (by rw [p0]; exact hx)
  · exact obbIter_keep L _ _ _ _ _ _ _ 1 (Nat.zero_le _) (by rw [p1]; linarith)
      (by rw [p1]; exact hy)
  · exact obbIter_keep L _ _ _ _ _ _ _ 2 (Nat.zero_le _) (by rw [p2]; linarith)
      (by rw [p2]; exact hx)
  · exact obbIter_keep L _ _ _ _ _ _ _ 3 (Nat.zero_le _) (by rw [p3]; linarith)
      (by rw [p3]; exact hy)

/-- Result of `Contact_OBB_OBB` for unrotated boxes when the loop selects
index 0. -/
theorem Contact_OBB_OBB_unrotated_x (L : Libm K) (ac aHalf bc bHalf : Vec2 K)
    (out : ContactPoint K)
    (hc : L.cos 0 = 1) (hs : L.sin 0 = 0) (hsqrt : L.sqrt 1 = 1)
    (hox : 0 < aHalf.x + bHalf.x - |bc.x - ac.x|)
    (hoy : 0 < aHalf.y + bHalf.y - |bc.y - ac.y|)
    (hS : aHalf.x + bHalf.x - |bc.x - ac.x| < 1e30 - kTieEps)
    (hxy : aHalf.x + bHalf.x - |bc.x - ac.x| - kTieEps ≤ aHalf.y + bHalf.y - |bc.y - ac.y|) :
    (Contact_OBB_OBB L ac aHalf 0 bc bHalf 0 out).1 = true ∧
    (Contact_OBB_OBB L ac aHalf 0 bc bHalf 0 out).2.normalA =
      ⟨if bc.x - ac.x ≥ 0 then 1 else -1, 0⟩ ∧
    (Contact_OBB_OBB L ac aHalf 0 bc bHalf 0 out).2.penetration =
      aHalf.x + bHalf.x - |bc.x - ac.x| ∧
    (Contact_OBB_OBB L ac aHalf 0 bc bHalf 0 out).2.point =
      ⟨(ac.x + (if bc.x - ac.x ≥ 0 then 1 else -1) * aHalf.x +
          (bc.x - (if bc.x - ac.x ≥ 0 then 1 else -1) * bHalf.x)) * 0.5,
        (ac.y + bc.y) * 0.5⟩ := by
  rw [Contact_OBB_OBB_eq, obbLoop_unrotated_x L ac aHalf bc bHalf hc hs hsqrt hox hoy hS hxy,
    OBBBases_zero L hc hs]
  refine ⟨rfl, rfl, rfl, ?_⟩
  by_cases h : bc.x - ac.x ≥ 0
  · simp [h, ProjectRadius, Dot, Vec2.ext_iff]
  · simp [h, ProjectRadius, Dot, Vec2.ext_iff]

/-! ### The exact real libm -/

theorem real_cos_zero : (Libm.mk Real.sqrt Real.cos Real.sin).cos 0 = 1 := Real.cos_zero

theorem real_sin_zero : (Libm.mk Real.sqrt Real.cos Real.sin).sin 0 = 0 := Real.sin_zero

theorem real_sqrt_one : (Libm.mk Real.sqrt Real.cos Real.sin).sqrt 1 = 1 := Real.sqrt_one

/-! ### Symmetry under swapping the two shapes -/

/-- Two unrotated boxes with half-extents `(1, 3)` centred at `(0, 0)` and
`(0, 1)`: the selected axis `(1, 0)` is perpendicular to the centre offset, the
sign test `dot >= 0` gives `+1` in both argument orders, and both orders report
the same normal `(1, 0)`. -/
theorem box_box_swap_same_normal :
    (Contact_OBB_OBB (Libm.mk Real.sqrt Real.cos Real.sin) ⟨0, 0⟩ ⟨1, 3⟩ 0 ⟨0, 1⟩ ⟨1, 3⟩ 0
        cp0).1 = true ∧
    (Contact_OBB_OBB (Libm.mk Real.sqrt Real.cos Real.sin) ⟨0, 1⟩ ⟨1, 3⟩ 0 ⟨0, 0⟩ ⟨1, 3⟩ 0
        cp0).1 = true ∧
    (Contact_OBB_OBB (Libm.mk Real.sqrt Real.cos Real.sin) ⟨0, 0⟩ ⟨1, 3⟩ 0 ⟨0, 1⟩ ⟨1, 3⟩ 0
        cp0).2.normalA = ⟨1, 0⟩ ∧
    (Contact_OBB_OBB (Libm.mk Real.sqrt Real.cos Real.sin) ⟨0, 1⟩ ⟨1, 3⟩ 0 ⟨0, 0⟩ ⟨1, 3⟩ 0
        cp0).2.normalA = ⟨1, 0⟩ ∧
    (Contact_OBB_OBB (Libm.mk Real.sqrt Real.cos Real.sin) ⟨0, 1⟩ ⟨1, 3⟩ 0 ⟨0, 0⟩ ⟨1, 3⟩ 0
        cp0).2.normalA ≠
      -(Contact_OBB_OBB (Libm.mk Real.sqrt Real.cos Real.sin) ⟨0, 0⟩ ⟨1, 3⟩ 0 ⟨0, 1⟩ ⟨1, 3⟩ 0
        cp0).2.normalA := by
  have hab := Contact_OBB_OBB_unrotated_x (Libm.mk Real.sqrt Real.cos Real.sin)
    ⟨0, 0⟩ ⟨1, 3⟩ ⟨0, 1⟩ ⟨1, 3⟩ cp0 real_cos_zero real_sin_zero
    real_sqrt_one (by norm_num) (by norm_num) (by norm_num [kTieEps])
    (by norm_num [kTieEps])
  have hba := Contact_OBB_OBB_unrotated_x (Libm.mk Real.sqrt Real.cos Real.sin)
    ⟨0, 1⟩ ⟨1, 3⟩ ⟨0, 0⟩ ⟨1, 3⟩ cp0 real_cos_zero real_sin_zero
    real_sqrt_one (by norm_num) (by norm_num) (by norm_num [kTieEps])
    (by norm_num [kTieEps])
  have nab : (Contact_OBB_OBB (Libm.mk Real.sqrt Real.cos Real.sin) ⟨0, 0⟩ ⟨1, 3⟩ 0 ⟨0, 1⟩
      ⟨1, 3⟩ 0 cp0).2.normalA = ⟨1, 0⟩ := by
    rw [hab.2.1]; norm_num
  have nba : (Contact_OBB_OBB (Libm.mk Real.sqrt Real.cos Real.sin) ⟨0, 1⟩ ⟨1, 3⟩ 0 ⟨0, 0⟩
      ⟨1, 3⟩ 0 cp0).2.normalA = ⟨1, 0⟩ := by
    rw [hba.2.1]; norm_num
  refine ⟨hab.1, hba.1, nab, nba, ?_⟩
  rw [nab, nba]
  intro h
  have := congrArg Vec2.x h
  norm_num at this

/-- Counterexample to C4 as stated: unrotated boxes with half-extents
`(1e30, 2e30)` centred at `(0, 0)` and `(1, 0)`.  The x-overlap `2e30 - 1` is
positive and smaller than the y-overlap `4e30` by more than the tie epsilon,
but it is not below the initial `bestPen = 1e30`, so no iteration records it:
the reported penetration is `1e30`. -/
theorem box_box_huge_overlap_not_recorded :
    (0 : ℝ) < 1e30 + 1e30 - |1 - 0| ∧
    (1e30 : ℝ) + 1e30 - |1 - 0| < 2e30 + 2e30 - |0 - 0| - kTieEps ∧
    (Contact_OBB_OBB (Libm.mk Real.sqrt Real.cos Real.sin) ⟨0, 0⟩ ⟨1e30, 2e30⟩ 0 ⟨1, 0⟩
        ⟨1e30, 2e30⟩ 0 cp0).1 = true ∧
    (Contact_OBB_OBB (Libm.mk Real.sqrt Real.cos Real.sin) ⟨0, 0⟩ ⟨1e30, 2e30⟩ 0 ⟨1, 0⟩
        ⟨1e30, 2e30⟩ 0 cp0).2.penetration = 1e30 ∧
    (Contact_OBB_OBB (Libm.mk Real.sqrt Real.cos Real.sin) ⟨0, 0⟩ ⟨1e30, 2e30⟩ 0 ⟨1, 0⟩
        ⟨1e30, 2e30⟩ 0 cp0).2.penetration ≠ 1e30 + 1e30 - |1 - 0| := by
  have hl := obbLoop_unrotated_sentinel (Libm.mk Real.sqrt Real.cos Real.sin)
    ⟨0, 0⟩ ⟨1e30, 2e30⟩ ⟨1, 0⟩ ⟨1e30, 2e30⟩ real_cos_zero real_sin_zero real_sqrt_one
    (by norm_num [kTieEps]) (by norm_num [kTieEps])
  rw [Contact_OBB_OBB_eq, hl]
  simp only [satInit]
  refine ⟨by norm_num, by norm_num [kTieEps], trivial, trivial, ?_⟩
  norm_num

/-- C4 (amended): for two unrotated boxes whose x-overlap
`ahx + bhx - |dx|` is positive, smaller than the y-overlap by more than the tie
epsilon, and below `1e30 - kTieEps` (the initial `bestPen` minus the epsilon),
`Contact_OBB_OBB` reports a contact with normal `(s, 0)`, `s = 1` when
`dx >= 0` and `s = -1` otherwise, and penetration exactly the x-overlap.  For
unit boxes centred at `(0, 0)` and `(1, 0)` the normal is `(1, 0)` and the
penetration is exactly `1`. -/
theorem box_box_unrotated_horizontal (L : Libm K) (ac aHalf bc bHalf : Vec2 K)
    (out : ContactPoint K)
    (hc : L.cos 0 = 1) (hs : L.sin 0 = 0) (hsqrt : L.sqrt 1 = 1)
    (hox : 0 < aHalf.x + bHalf.x - |bc.x - ac.x|)
    (hlt : aHalf.x + bHalf.x - |bc.x - ac.x| < aHalf.y + bHalf.y - |bc.y - ac.y| - kTieEps)
    (hS : aHalf.x + bHalf.x - |bc.x - ac.x| < 1e30 - kTieEps) :
    ((Contact_OBB_OBB L ac aHalf 0 bc bHalf 0 out).1 = true ∧
      (Contact_OBB_OBB L ac aHalf 0 bc bHalf 0 out).2.normalA =
        ⟨if bc.x - ac.x ≥ 0 then 1 else -1, 0⟩ ∧
      (Contact_OBB_OBB L ac aHalf 0 bc bHalf 0 out).2.penetration =
        aHalf.x + bHalf.x - |bc.x - ac.x|) ∧
    ((Contact_OBB_OBB L ⟨0, 0⟩ ⟨1, 1⟩ 0 ⟨1, 0⟩ ⟨1, 1⟩ 0 out).1 = true ∧
      (Contact_OBB_OBB L ⟨0, 0⟩ ⟨1, 1⟩ 0 ⟨1, 0⟩ ⟨1, 1⟩ 0 out).2.normalA = ⟨1, 0⟩ ∧
      (Contact_OBB_OBB L ⟨0, 0⟩ ⟨1, 1⟩ 0 ⟨1, 0⟩ ⟨1, 1⟩ 0 out).2.penetration = 1) := by
  have heps : (0 : K) < kTieEps := kTieEps_pos
  constructor
  · have h := Contact_OBB_OBB_unrotated_x L ac aHalf bc bHalf out hc hs hsqrt hox
      (by linarith) hS (by linarith)
    exact ⟨h.1, h.2.1, h.2.2.1⟩
  · have h := Contact_OBB_OBB_unrotated_x L ⟨0, 0⟩ ⟨1, 1⟩ ⟨1, 0⟩ ⟨1, 1⟩ out hc hs hsqrt
      (by norm_num) (by norm_num) (by norm_num [kTieEps]) (by norm_num [kTieEps])
    refine ⟨h.1, ?_, ?_⟩
    · rw [h.2.1]; norm_num
    · rw [h.2.2.1]; norm_num

/-- Witness for `box_box_unrotated_horizontal`: unit boxes at `(0, 0)` and
`(1, 0)` with the exact real libm. -/
theorem box_box_unrotated_horizontal_witness :
    ((0 : ℝ) < 1 + 1 - |1 - 0| ∧ (1 : ℝ) + 1 - |1 - 0| < 1 + 1 - |0 - 0| - kTieEps ∧
      (1 : ℝ) + 1 - |1 - 0| < 1e30 - kTieEps) ∧
    (Contact_OBB_OBB (Libm.mk Real.sqrt Real.cos Real.sin) ⟨0, 0⟩ ⟨1, 1⟩ 0 ⟨1, 0⟩ ⟨1, 1⟩ 0
        cp0).1 = true ∧
    (Contact_OBB_OBB (Libm.mk Real.sqrt Real.cos Real.sin) ⟨0, 0⟩ ⟨1, 1⟩ 0 ⟨1, 0⟩ ⟨1, 1⟩ 0
        cp0).2.normalA = ⟨1, 0⟩ ∧
    (Contact_OBB_OBB (Libm.mk Real.sqrt Real.cos Real.sin) ⟨0, 0⟩ ⟨1, 1⟩ 0 ⟨1, 0⟩ ⟨1, 1⟩ 0
        cp0).2.penetration = 1 :=
  ⟨⟨by norm_num, by norm_num [kTieEps], by norm_num [kTieEps]⟩,
    (box_box_unrotated_horizontal (Libm.mk Real.sqrt Real.cos Real.sin) ⟨0, 0⟩ ⟨1, 1⟩ ⟨1, 0⟩
      ⟨1, 1⟩ cp0 real_cos_zero real_sin_zero real_sqrt_one (by norm_num)
      (by norm_num [kTieEps]) (by norm_num [kTieEps])).2⟩

/-! ### The contact point of `Contact_OBB_OBB` (C8) -/

/-- Counterexample to C8 as stated: unit boxes at `(0, 0)` and `(1, 0)`.  The
reported contact point is `(1/2, 0)`, while the midpoint of the two support
corners computed by `SupportPointOBB` is `(1/2, 1)`. -/
theorem box_box_point_is_not_support_midpoint :
    (Contact_OBB_OBB (Libm.mk Real.sqrt Real.cos Real.sin) ⟨0, 0⟩ ⟨1, 1⟩ 0 ⟨1, 0⟩ ⟨1, 1⟩ 0
        cp0).1 = true ∧
    (Contact_OBB_OBB (Libm.mk Real.sqrt Real.cos Real.sin) ⟨0, 0⟩ ⟨1, 1⟩ 0 ⟨1, 0⟩ ⟨1, 1⟩ 0
        cp0).2.normalA = ⟨1, 0⟩ ∧
    (Contact_OBB_OBB (Libm.mk Real.sqrt Real.cos Real.sin) ⟨0, 0⟩ ⟨1, 1⟩ 0 ⟨1, 0⟩ ⟨1, 1⟩ 0
        cp0).2.point = ⟨1 / 2, 0⟩ ∧
    (SupportPointOBB (⟨0, 0⟩ : Vec2 ℝ) (OBBBases (Libm.mk Real.sqrt Real.cos Real.sin) 0)
          ⟨1, 1⟩ ⟨1, 0⟩ +
        SupportPointOBB (⟨1, 0⟩ : Vec2 ℝ) (OBBBases (Libm.mk Real.sqrt Real.cos Real.sin) 0)
          ⟨1, 1⟩ (-⟨1, 0⟩)) * (0.5 : ℝ) = ⟨1 / 2, 1⟩ ∧
    (Contact_OBB_OBB (Libm.mk Real.sqrt Real.cos Real.sin) ⟨0, 0⟩ ⟨1, 1⟩ 0 ⟨1, 0⟩ ⟨1, 1⟩ 0
        cp0).2.point ≠
      (SupportPointOBB (⟨0, 0⟩ : Vec2 ℝ) (OBBBases (Libm.mk Real.sqrt Real.cos Real.sin) 0)
          ⟨1, 1⟩ ⟨1, 0⟩ +
        SupportPointOBB (⟨1, 0⟩ : Vec2 ℝ) (OBBBases (Libm.mk Real.sqrt Real.cos Real.sin) 0)
          ⟨1, 1⟩ (-⟨1, 0⟩)) * (0.5 : ℝ) := by
  have h := Contact_OBB_OBB_unrotated_x (Libm.mk Real.sqrt Real.cos Real.sin)
    ⟨0, 0⟩ ⟨1, 1⟩ ⟨1, 0⟩ ⟨1, 1⟩ cp0 real_cos_zero real_sin_zero real_sqrt_one
    (by norm_num) (by norm_num) (by norm_num [kTieEps]) (by norm_num [kTieEps])
  have hn : (Contact_OBB_OBB (Libm.mk Real.sqrt Real.cos Real.sin) ⟨0, 0⟩ ⟨1, 1⟩ 0 ⟨1, 0⟩
      ⟨1, 1⟩ 0 cp0).2.normalA = ⟨1, 0⟩ := by
    rw [h.2.1]; norm_num
  have hp : (Contact_OBB_OBB (Libm.mk Real.sqrt Real.cos Real.sin) ⟨0, 0⟩ ⟨1, 1⟩ 0 ⟨1, 0⟩
      ⟨1, 1⟩ 0 cp0).2.point = ⟨1 / 2, 0⟩ := by
    rw [h.2.2.2]; norm_num
  have hsup : (SupportPointOBB (⟨0, 0⟩ : Vec2 ℝ)
        (OBBBases (Libm.mk Real.sqrt Real.cos Real.sin) 0) ⟨1, 1⟩ ⟨1, 0⟩ +
      SupportPointOBB (⟨1, 0⟩ : Vec2 ℝ) (OBBBases (Libm.mk Real.sqrt Real.cos Real.sin) 0)
        ⟨1, 1⟩ (-⟨1, 0⟩)) * (0.5 : ℝ) = ⟨1 / 2, 1⟩ := by
    rw [OBBBases_zero _ real_cos_zero real_sin_zero]
    ext <;> simp [SupportPointOBB, Dot] <;> norm_num
  refine ⟨h.1, hn, hp, hsup, ?_⟩
  rw [hp, hsup]
  intro hcon
  have := congrArg Vec2.y hcon
  norm_num at this

/-- The support corner of a box in direction `dir` lies at signed distance
`ProjectRadius dir` from the centre, measured along `dir`. -/
theorem SupportPointOBB_dot (center : Vec2 K) (b : Basis2 K) (half dir : Vec2 K) :
    Dot (SupportPointOBB center b half dir - center) dir = ProjectRadius dir b half := by
  unfold SupportPointOBB ProjectRadius
  by_cases hx : Dot dir b.x ≥ 0 <;> by_cases hy : Dot dir b.y ≥ 0
  · rw [if_pos hx, if_pos hy, abs_of_nonneg hx, abs_of_nonneg hy]
    simp only [Dot, Vec2.add_x, Vec2.add_y, Vec2.sub_x, Vec2.sub_y, Vec2.mul_x, Vec2.mul_y]
    ring
  · rw [if_pos hx, if_neg hy, abs_of_nonneg hx, abs_of_neg (not_le.mp hy)]
    simp only [Dot, Vec2.add_x, Vec2.add_y, Vec2.sub_x, Vec2.sub_y, Vec2.mul_x, Vec2.mul_y]
    ring
  · rw [if_neg hx, if_pos hy, abs_of_neg (not_le.mp hx), abs_of_nonneg hy]
    simp only [Dot, Vec2.add_x, Vec2.add_y, Vec2.sub_x, Vec2.sub_y, Vec2.mul_x, Vec2.mul_y]
    ring
  · rw [if_neg hx, if_neg hy, abs_of_neg (not_le.mp hx), abs_of_neg (not_le.mp hy)]
    simp only [Dot, Vec2.add_x, Vec2.add_y, Vec2.sub_x, Vec2.sub_y, Vec2.mul_x, Vec2.mul_y]
    ring

theorem ProjectRadius_neg (axis : Vec2 K) (b : Basis2 K) (half : Vec2 K) :
    ProjectRadius (-axis) b half = ProjectRadius axis b half := by
  have h1 : Dot (-axis) b.x = -Dot axis b.x := by simp only [Dot, Vec2.neg_x, Vec2.neg_y]; ring
  have h2 : Dot (-axis) b.y = -Dot axis b.y := by simp only [Dot, Vec2.neg_x, Vec2.neg_y]; ring
  unfold ProjectRadius
  rw [h1, h2, abs_neg, abs_neg]

/-- With exact unit axes the normal recorded by the loop is a unit vector. -/
theorem obbLoop_bestAxis_unit (L : Libm K) (ac aHalf : Vec2 K) (aRot : K) (bc bHalf : Vec2 K)
    (bRot : K) (st : SatBest K)
    (hA : L.cos (DegToRad aRot) ^ 2 + L.sin (DegToRad aRot) ^ 2 = 1)
    (hB : L.cos (DegToRad bRot) ^ 2 + L.sin (DegToRad bRot) ^ 2 = 1)
    (hsqrt : L.sqrt 1 = 1)
    (h : obbLoop L ac aHalf aRot bc bHalf bRot = some st) :
    Dot st.bestAxis st.bestAxis = 1 := by
  obtain ⟨_, inv⟩ := obbLoop_spec L ac aHalf aRot bc bHalf bRot st h
  rcases inv with ⟨h0, _⟩ | ⟨hi, _, hax, _, _, _, _⟩
  · rw [h0]; simp [satInit, Dot]
  · rw [hax]
    unfold iterSigned
    rw [iterAxis_eq L aRot bRot hA hB hsqrt _ hi]
    have hu : Dot ([(OBBBases L aRot).x, (OBBBases L aRot).y, (OBBBases L bRot).x,
        (OBBBases L bRot).y].getD st.bestIndex ⟨0, 0⟩)
        ([(OBBBases L aRot).x, (OBBBases L aRot).y, (OBBBases L bRot).x,
        (OBBBases L bRot).y].getD st.bestIndex ⟨0, 0⟩) = 1 := by
      have hi' := hi
      interval_cases hidx : st.bestIndex
      · exact OBBBases_x_unit L aRot hA
      · exact OBBBases_y_unit L aRot hA
      · exact OBBBases_x_unit L bRot hB
      · exact OBBBases_y_unit L bRot hB
    generalize [(OBBBases L aRot).x, (OBBBases L aRot).y, (OBBBases L bRot).x,
        (OBBBases L bRot).y].getD st.bestIndex ⟨0, 0⟩ = v at hu ⊢
    generalize Dot (bc - ac) v = q
    split_ifs
    · simp only [Dot, Vec2.mul_x, Vec2.mul_y] at hu ⊢
      linear_combination hu
    · simp only [Dot, Vec2.mul_x, Vec2.mul_y] at hu ⊢
      linear_combination hu

/-- C8 (amended): whenever `Contact_OBB_OBB` reports a contact with normal `n`,
the contact point is the midpoint between `ac + n * ra` and `bc - n * rb`,
where `ra` and `rb` are the projected radii (`ProjectRadius`) of box A and box
B along `n`.  These are the points reached from each centre along `n` (resp.
`-n`) at the support distance, not the support corners: with exact unit axes
the contact point has the same component along `n` as the midpoint of the two
support corners computed by `SupportPointOBB`, and may differ from that
midpoint across `n`. -/
theorem box_box_contact_point (L : Libm K) (ac aHalf : Vec2 K) (aRot : K) (bc bHalf : Vec2 K)
    (bRot : K) (out : ContactPoint K)
    (hA : L.cos (DegToRad aRot) ^ 2 + L.sin (DegToRad aRot) ^ 2 = 1)
    (hB : L.cos (DegToRad bRot) ^ 2 + L.sin (DegToRad bRot) ^ 2 = 1)
    (hsqrt : L.sqrt 1 = 1)
    (hhit : (Contact_OBB_OBB L ac aHalf aRot bc bHalf bRot out).1 = true) :
    (Contact_OBB_OBB L ac aHalf aRot bc bHalf bRot out).2.point =
      ((ac + (Contact_OBB_OBB L ac aHalf aRot bc bHalf bRot out).2.normalA *
            ProjectRadius (Contact_OBB_OBB L ac aHalf aRot bc bHalf bRot out).2.normalA
              (OBBBases L aRot) aHalf) +
        (bc - (Contact_OBB_OBB L ac aHalf aRot bc bHalf bRot out).2.normalA *
            ProjectRadius (Contact_OBB_OBB L ac aHalf aRot bc bHalf bRot out).2.normalA
              (OBBBases L bRot) bHalf)) * (0.5 : K) ∧
    Dot (Contact_OBB_OBB L ac aHalf aRot bc bHalf bRot out).2.point
        (Contact_OBB_OBB L ac aHalf aRot bc bHalf bRot out).2.normalA =
      Dot ((SupportPointOBB ac (OBBBases L aRot) aHalf
              (Contact_OBB_OBB L ac aHalf aRot bc bHalf bRot out).2.normalA +
            SupportPointOBB bc (OBBBases L bRot) bHalf
              (-(Contact_OBB_OBB L ac aHalf aRot bc bHalf bRot out).2.normalA)) * (0.5 : K))
        (Contact_OBB_OBB L ac aHalf aRot bc bHalf bRot out).2.normalA := by
  rw [Contact_OBB_OBB_eq] at hhit ⊢
  cases h : obbLoop L ac aHalf aRot bc bHalf bRot with
  | none => rw [h] at hhit; simp at hhit
  | some st =>
    refine ⟨rfl, ?_⟩
    simp only
    have hu := obbLoop_bestAxis_unit L ac aHalf aRot bc bHalf bRot st hA hB hsqrt h
    have sa := SupportPointOBB_dot ac (OBBBases L aRot) aHalf st.bestAxis
    have sb := SupportPointOBB_dot bc (OBBBases L bRot) bHalf (-st.bestAxis)
    rw [ProjectRadius_neg] at sb
    generalize SupportPointOBB ac (OBBBases L aRot) aHalf st.bestAxis = SA at sa ⊢
    generalize SupportPointOBB bc (OBBBases L bRot) bHalf (-st.bestAxis) = SB at sb ⊢
    generalize ProjectRadius st.bestAxis (OBBBases L aRot) aHalf = ra at sa ⊢
    generalize ProjectRadius st.bestAxis (OBBBases L bRot) bHalf = rb at sb ⊢
    simp only [Dot, Vec2.add_x, Vec2.add_y, Vec2.sub_x, Vec2.sub_y, Vec2.mul_x, Vec2.mul_y,
      Vec2.neg_x, Vec2.neg_y] at hu sa sb ⊢
    linear_combination (0.5 : K) * (ra - rb) * hu - (0.5 : K) * sa + (0.5 : K) * sb

/-- Witness for `box_box_contact_point`: unit boxes at `(0, 0)` and `(1, 0)`
with the exact real libm. -/
theorem box_box_contact_point_witness :
    (Contact_OBB_OBB (Libm.mk Real.sqrt Real.cos Real.sin) ⟨0, 0⟩ ⟨1, 1⟩ 0 ⟨1, 0⟩ ⟨1, 1⟩ 0
        cp0).1 = true ∧
    ((Contact_OBB_OBB (Libm.mk Real.sqrt Real.cos Real.sin) ⟨0, 0⟩ ⟨1, 1⟩ 0 ⟨1, 0⟩ ⟨1, 1⟩ 0
        cp0).2.point =
      ((⟨0, 0⟩ + (Contact_OBB_OBB (Libm.mk Real.sqrt Real.cos Real.sin) ⟨0, 0⟩ ⟨1, 1⟩ 0 ⟨1, 0⟩ ⟨1, 1⟩ 0
        cp0).2.normalA *
            ProjectRadius (Contact_OBB_OBB (Libm.mk Real.sqrt Real.cos Real.sin) ⟨0, 0⟩ ⟨1, 1⟩ 0 ⟨1, 0⟩ ⟨1, 1⟩ 0
        cp0).2.normalA
              (OBBBases (Libm.mk Real.sqrt Real.cos Real.sin) 0) ⟨1, 1⟩) +
        (⟨1, 0⟩ - (Contact_OBB_OBB (Libm.mk Real.sqrt Real.cos Real.sin) ⟨0, 0⟩ ⟨1, 1⟩ 0 ⟨1, 0⟩ ⟨1, 1⟩ 0
        cp0).2.normalA *
            ProjectRadius (Contact_OBB_OBB (Libm.mk Real.sqrt Real.cos Real.sin) ⟨0, 0⟩ ⟨1, 1⟩ 0 ⟨1, 0⟩ ⟨1, 1⟩ 0
        cp0).2.normalA
              (OBBBases (Libm.mk Real.sqrt Real.cos Real.sin) 0) ⟨1, 1⟩)) * (0.5 : ℝ) ∧
    Dot (Contact_OBB_OBB (Libm.mk Real.sqrt Real.cos Real.sin) ⟨0, 0⟩ ⟨1, 1⟩ 0 ⟨1, 0⟩ ⟨1, 1⟩ 0
        cp0).2.point
        (Contact_OBB_OBB (Libm.mk Real.sqrt Real.cos Real.sin) ⟨0, 0⟩ ⟨1, 1⟩ 0 ⟨1, 0⟩ ⟨1, 1⟩ 0
        cp0).2.normalA =
      Dot ((SupportPointOBB ⟨0, 0⟩ (OBBBases (Libm.mk Real.sqrt Real.cos Real.sin) 0) ⟨1, 1⟩
              (Contact_OBB_OBB (Libm.mk Real.sqrt Real.cos Real.sin) ⟨0, 0⟩ ⟨1, 1⟩ 0 ⟨1, 0⟩ ⟨1, 1⟩ 0
        cp0).2.normalA +
            SupportPointOBB ⟨1, 0⟩ (OBBBases (Libm.mk Real.sqrt Real.cos Real.sin) 0) ⟨1, 1⟩
              (-(Contact_OBB_OBB (Libm.mk Real.sqrt Real.cos Real.sin) ⟨0, 0⟩ ⟨1, 1⟩ 0 ⟨1, 0⟩ ⟨1, 1⟩ 0
        cp0).2.normalA)) * (0.5 : ℝ))
        (Contact_OBB_OBB (Libm.mk Real.sqrt Real.cos Real.sin) ⟨0, 0⟩ ⟨1, 1⟩ 0 ⟨1, 0⟩ ⟨1, 1⟩ 0
        cp0).2.normalA) :=
  ⟨(Contact_OBB_OBB_unrotated_x (Libm.mk Real.sqrt Real.cos Real.sin)
      ⟨0, 0⟩ ⟨1, 1⟩ ⟨1, 0⟩ ⟨1, 1⟩ cp0 real_cos_zero real_sin_zero real_sqrt_one
      (by norm_num) (by norm_num) (by norm_num [kTieEps]) (by norm_num [kTieEps])).1,
    box_box_contact_point (Libm.mk Real.sqrt Real.cos Real.sin) ⟨0, 0⟩ ⟨1, 1⟩ 0 ⟨1, 0⟩ ⟨1, 1⟩ 0
      cp0 (Real.cos_sq_add_sin_sq _) (Real.cos_sq_add_sin_sq _) real_sqrt_one
      (Contact_OBB_OBB_unrotated_x (Libm.mk Real.sqrt Real.cos Real.sin)
        ⟨0, 0⟩ ⟨1, 1⟩ ⟨1, 0⟩ ⟨1, 1⟩ cp0 real_cos_zero real_sin_zero real_sqrt_one
        (by norm_num) (by norm_num) (by norm_num [kTieEps]) (by norm_num [kTieEps])).1⟩

theorem axisOverlap_unrotated (L : Libm K) (ac aHalf bc bHalf : Vec2 K)
    (hc : L.cos 0 = 1) (hs : L.sin 0 = 0) (hsqrt : L.sqrt 1 = 1) (i : Nat) (hi : i < 4) :
    axisOverlap L ac aHalf 0 bc bHalf 0 i =
      if i % 2 = 0 then aHalf.x + bHalf.x - |bc.x - ac.x|
      else aHalf.y + bHalf.y - |bc.y - ac.y| := by
  have hu : L.cos (DegToRad 0) ^ 2 + L.sin (DegToRad 0) ^ 2 = 1 := by
    rw [DegToRad_zero, hc, hs]; norm_num
  rw [← iterPen_eq_axisOverlap L ac aHalf 0 bc bHalf 0 hu hu hsqrt i hi]
  exact iterPen_unrotated L ac aHalf bc bHalf hc hs hsqrt i hi

/-- The signed axis recorded by an iteration has a non-negative dot product
with the centre offset. -/
theorem iterSigned_dot_nonneg (L : Libm K) (d : Vec2 K) (axes : List (Vec2 K)) (i : Nat) :
    0 ≤ Dot (iterSigned L d axes i) d := by
  unfold iterSigned
  by_cases h : Dot d (iterAxis L axes i) ≥ 0
  · rw [if_pos h]
    have : Dot (iterAxis L axes i * (1 : K)) d = Dot d (iterAxis L axes i) := by
      simp only [Dot, Vec2.mul_x, Vec2.mul_y]; ring
    rw [this]; exact h
  · rw [if_neg h]
    have : Dot (iterAxis L axes i * (-1 : K)) d = -Dot d (iterAxis L axes i) := by
      simp only [Dot, Vec2.mul_x, Vec2.mul_y]; ring
    rw [this]
    have := not_le.mp h
    linarith

/-- Counterexample to C6 as stated: unit boxes at `(0, 0)` and `(1, 1.00005)`,
unrotated.  The overlaps are `1` along x and `0.99995` along y; the code keeps
the x axis because the y-overlap is not smaller by more than the tie epsilon,
so the reported penetration `1` is not the minimum overlap `0.99995`. -/
theorem box_box_penetration_not_minimum :
    (Contact_OBB_OBB (Libm.mk Real.sqrt Real.cos Real.sin) ⟨0, 0⟩ ⟨1, 1⟩ 0 ⟨1, 1.00005⟩
        ⟨1, 1⟩ 0 cp0).1 = true ∧
    (Contact_OBB_OBB (Libm.mk Real.sqrt Real.cos Real.sin) ⟨0, 0⟩ ⟨1, 1⟩ 0 ⟨1, 1.00005⟩
        ⟨1, 1⟩ 0 cp0).2.penetration = 1 ∧
    (Contact_OBB_OBB (Libm.mk Real.sqrt Real.cos Real.sin) ⟨0, 0⟩ ⟨1, 1⟩ 0 ⟨1, 1.00005⟩
        ⟨1, 1⟩ 0 cp0).2.normalA = ⟨1, 0⟩ ∧
    axisOverlap (Libm.mk Real.sqrt Real.cos Real.sin) ⟨0, 0⟩ ⟨1, 1⟩ 0 ⟨1, 1.00005⟩ ⟨1, 1⟩ 0 1 =
      0.99995 ∧
    (Contact_OBB_OBB (Libm.mk Real.sqrt Real.cos Real.sin) ⟨0, 0⟩ ⟨1, 1⟩ 0 ⟨1, 1.00005⟩
        ⟨1, 1⟩ 0 cp0).2.penetration ≠
      min (min (axisOverlap (Libm.mk Real.sqrt Real.cos Real.sin) ⟨0, 0⟩ ⟨1, 1⟩ 0
                ⟨1, 1.00005⟩ ⟨1, 1⟩ 0 0)
              (axisOverlap (Libm.mk Real.sqrt Real.cos Real.sin) ⟨0, 0⟩ ⟨1, 1⟩ 0
                ⟨1, 1.00005⟩ ⟨1, 1⟩ 0 1))
          (min (axisOverlap (Libm.mk Real.sqrt Real.cos Real.sin) ⟨0, 0⟩ ⟨1, 1⟩ 0
                ⟨1, 1.00005⟩ ⟨1, 1⟩ 0 2)
              (axisOverlap (Libm.mk Real.sqrt Real.cos Real.sin) ⟨0, 0⟩ ⟨1, 1⟩ 0
                ⟨1, 1.00005⟩ ⟨1, 1⟩ 0 3)) := by
  have habs : |(1.00005 : ℝ) - 0| = 1.00005 := by
    rw [sub_zero]; exact abs_of_pos (by norm_num)
  have h := Contact_OBB_OBB_unrotated_x (Libm.mk Real.sqrt Real.cos Real.sin)
    ⟨0, 0⟩ ⟨1, 1⟩ ⟨1, 1.00005⟩ ⟨1, 1⟩ cp0 real_cos_zero real_sin_zero real_sqrt_one
    (by norm_num) (by dsimp only; rw [habs]; norm_num) (by norm_num [kTieEps])
    (by dsimp only; rw [habs]; norm_num [kTieEps])
  have o0 := axisOverlap_unrotated (Libm.mk Real.sqrt Real.cos Real.sin)
    ⟨0, 0⟩ ⟨1, 1⟩ ⟨1, 1.00005⟩ ⟨1, 1⟩ real_cos_zero real_sin_zero real_sqrt_one 0 (by norm_num)
  have o1 := axisOverlap_unrotated (Libm.mk Real.sqrt Real.cos Real.sin)
    ⟨0, 0⟩ ⟨1, 1⟩ ⟨1, 1.00005⟩ ⟨1, 1⟩ real_cos_zero real_sin_zero real_sqrt_one 1 (by norm_num)
  have o2 := axisOverlap_unrotated (Libm.mk Real.sqrt Real.cos Real.sin)
    ⟨0, 0⟩ ⟨1, 1⟩ ⟨1, 1.00005⟩ ⟨1, 1⟩ real_cos_zero real_sin_zero real_sqrt_one 2 (by norm_num)
  have o3 := axisOverlap_unrotated (Libm.mk Real.sqrt Real.cos Real.sin)
    ⟨0, 0⟩ ⟨1, 1⟩ ⟨1, 1.00005⟩ ⟨1, 1⟩ real_cos_zero real_sin_zero real_sqrt_one 3 (by norm_num)
  have e0 : (0 % 2 = 0) := rfl
  have e1 : ¬ (1 % 2 = 0) := by decide
  have e2 : (2 % 2 = 0) := rfl
  have e3 : ¬ (3 % 2 = 0) := by decide
  rw [if_pos e0] at o0
  rw [if_neg e1, habs] at o1
  rw [if_pos e2] at o2
  rw [if_neg e3, habs] at o3
  have hp : (Contact_OBB_OBB (Libm.mk Real.sqrt Real.cos Real.sin) ⟨0, 0⟩ ⟨1, 1⟩ 0
      ⟨1, 1.00005⟩ ⟨1, 1⟩ 0 cp0).2.penetration = 1 := by
    rw [h.2.2.1]; norm_num
  have hn : (Contact_OBB_OBB (Libm.mk Real.sqrt Real.cos Real.sin) ⟨0, 0⟩ ⟨1, 1⟩ 0
      ⟨1, 1.00005⟩ ⟨1, 1⟩ 0 cp0).2.normalA = ⟨1, 0⟩ := by
    rw [h.2.1]; norm_num
  refine ⟨h.1, hp, hn, ?_, ?_⟩
  · rw [o1]; norm_num
  · rw [hp, o0, o1, o2, o3]; norm_num

/-- C6 (amended): whenever `Contact_OBB_OBB` reports a contact (exact unit
axes, and at least one of the four overlaps below `1e30 - kTieEps`), the
returned penetration is the overlap of one of the four candidate axes, it lies
between the minimum of the four overlaps and that minimum plus the tie epsilon
`kTieEps`, and the returned normal is that axis, signed so that its dot product
with (centre of B - centre of A) is non-negative. -/
theorem box_box_penetration_near_minimum (L : Libm K) (ac aHalf : Vec2 K) (aRot : K)
    (bc bHalf : Vec2 K) (bRot : K) (out : ContactPoint K)
    (hA : L.cos (DegToRad aRot) ^ 2 + L.sin (DegToRad aRot) ^ 2 = 1)
    (hB : L.cos (DegToRad bRot) ^ 2 + L.sin (DegToRad bRot) ^ 2 = 1)
    (hsqrt : L.sqrt 1 = 1)
    (hS : ∃ i, i < 4 ∧ axisOverlap L ac aHalf aRot bc bHalf bRot i < 1e30 - kTieEps)
    (hhit : (Contact_OBB_OBB L ac aHalf aRot bc bHalf bRot out).1 = true) :
    (∃ i, i < 4 ∧
      (Contact_OBB_OBB L ac aHalf aRot bc bHalf bRot out).2.penetration =
        axisOverlap L ac aHalf aRot bc bHalf bRot i ∧
      (Contact_OBB_OBB L ac aHalf aRot bc bHalf bRot out).2.normalA =
        [(OBBBases L aRot).x, (OBBBases L aRot).y, (OBBBases L bRot).x,
            (OBBBases L bRot).y].getD i ⟨0, 0⟩ *
          (if Dot (bc - ac) ([(OBBBases L aRot).x, (OBBBases L aRot).y, (OBBBases L bRot).x,
            (OBBBases L bRot).y].getD i ⟨0, 0⟩) ≥ 0 then (1 : K) else -1)) ∧
    0 ≤ Dot (Contact_OBB_OBB L ac aHalf aRot bc bHalf bRot out).2.normalA (bc - ac) ∧
    min (min (axisOverlap L ac aHalf aRot bc bHalf bRot 0)
            (axisOverlap L ac aHalf aRot bc bHalf bRot 1))
        (min (axisOverlap L ac aHalf aRot bc bHalf bRot 2)
            (axisOverlap L ac aHalf aRot bc bHalf bRot 3)) ≤
      (Contact_OBB_OBB L ac aHalf aRot bc bHalf bRot out).2.penetration ∧
    (Contact_OBB_OBB L ac aHalf aRot bc bHalf bRot out).2.penetration ≤
      min (min (axisOverlap L ac aHalf aRot bc bHalf bRot 0)
            (axisOverlap L ac aHalf aRot bc bHalf bRot 1))
        (min (axisOverlap L ac aHalf aRot bc bHalf bRot 2)
            (axisOverlap L ac aHalf aRot bc bHalf bRot 3)) + kTieEps := by
  rw [Contact_OBB_OBB_eq] at hhit ⊢
  cases h : obbLoop L ac aHalf aRot bc bHalf bRot with
  | none => rw [h] at hhit; simp at hhit
  | some st =>
    simp only
    obtain ⟨_, inv⟩ := obbLoop_spec L ac aHalf aRot bc bHalf bRot st h
    have pe := iterPen_eq_axisOverlap L ac aHalf aRot bc bHalf bRot hA hB hsqrt
    rcases inv with ⟨_, hall⟩ | ⟨hi, hpen, hax, _, hall, _, _⟩
    · obtain ⟨i, hi, hlt⟩ := hS
      have := hall i hi
      rw [pe i hi] at this
      linarith
    · have hall' : ∀ j, j < 4 → st.bestPen - kTieEps ≤ axisOverlap L ac aHalf aRot bc bHalf bRot j :=
        fun j hj => by rw [← pe j hj]; exact hall j hj
      have hpen' : st.bestPen = axisOverlap L ac aHalf aRot bc bHalf bRot st.bestIndex := by
        rw [← pe _ hi]; exact hpen
      refine ⟨⟨st.bestIndex, hi, hpen', ?_⟩, ?_, ?_, ?_⟩
      · rw [hax]
        unfold iterSigned
        rw [iterAxis_eq L aRot bRot hA hB hsqrt _ hi]
      · rw [hax]; exact iterSigned_dot_nonneg L _ _ _
      · rw [hpen']
        have hi' := hi
        interval_cases hidx : st.bestIndex <;> simp only [min_le_iff, le_refl, true_or, or_true]
      · have h0 := hall' 0 (by norm_num)
        have h1 := hall' 1 (by norm_num)
        have h2 := hall' 2 (by norm_num)
        have h3 := hall' 3 (by norm_num)
        have : st.bestPen - kTieEps ≤
            min (min (axisOverlap L ac aHalf aRot bc bHalf bRot 0)
                (axisOverlap L ac aHalf aRot bc bHalf bRot 1))
              (min (axisOverlap L ac aHalf aRot bc bHalf bRot 2)
                (axisOverlap L ac aHalf aRot bc bHalf bRot 3)) :=
          le_min (le_min h0 h1) (le_min h2 h3)
        linarith

/-- Witness for `box_box_penetration_near_minimum`: unit boxes at `(0, 0)` and
`(1, 0)` with the exact real libm. -/
theorem box_box_penetration_near_minimum_witness :
    ((∃ i, i < 4 ∧ axisOverlap (Libm.mk Real.sqrt Real.cos Real.sin) ⟨0, 0⟩ ⟨1, 1⟩ 0 ⟨1, 0⟩
          ⟨1, 1⟩ 0 i < 1e30 - kTieEps) ∧
      (Contact_OBB_OBB (Libm.mk Real.sqrt Real.cos Real.sin) ⟨0, 0⟩ ⟨1, 1⟩ 0 ⟨1, 0⟩ ⟨1, 1⟩ 0
          cp0).1 = true) ∧
    ((∃ i, i < 4 ∧
      (Contact_OBB_OBB (Libm.mk Real.sqrt Real.cos Real.sin) ⟨0, 0⟩ ⟨1, 1⟩ 0 ⟨1, 0⟩ ⟨1, 1⟩ 0
          cp0).2.penetration =
        axisOverlap (Libm.mk Real.sqrt Real.cos Real.sin) ⟨0, 0⟩ ⟨1, 1⟩ 0 ⟨1, 0⟩ ⟨1, 1⟩ 0 i ∧
      (Contact_OBB_OBB (Libm.mk Real.sqrt Real.cos Real.sin) ⟨0, 0⟩ ⟨1, 1⟩ 0 ⟨1, 0⟩ ⟨1, 1⟩ 0
          cp0).2.normalA =
        [(OBBBases (Libm.mk Real.sqrt Real.cos Real.sin) 0).x,
            (OBBBases (Libm.mk Real.sqrt Real.cos Real.sin) 0).y,
            (OBBBases (Libm.mk Real.sqrt Real.cos Real.sin) 0).x,
            (OBBBases (Libm.mk Real.sqrt Real.cos Real.sin) 0).y].getD i ⟨0, 0⟩ *
          (if Dot ((⟨1, 0⟩ : Vec2 ℝ) - ⟨0, 0⟩)
              ([(OBBBases (Libm.mk Real.sqrt Real.cos Real.sin) 0).x,
                (OBBBases (Libm.mk Real.sqrt Real.cos Real.sin) 0).y,
                (OBBBases (Libm.mk Real.sqrt Real.cos Real.sin) 0).x,
                (OBBBases (Libm.mk Real.sqrt Real.cos Real.sin) 0).y].getD i ⟨0, 0⟩) ≥ 0
            then (1 : ℝ) else -1)) ∧
    0 ≤ Dot (Contact_OBB_OBB (Libm.mk Real.sqrt Real.cos Real.sin) ⟨0, 0⟩ ⟨1, 1⟩ 0 ⟨1, 0⟩
        ⟨1, 1⟩ 0 cp0).2.normalA ((⟨1, 0⟩ : Vec2 ℝ) - ⟨0, 0⟩) ∧
    min (min (axisOverlap (Libm.mk Real.sqrt Real.cos Real.sin) ⟨0, 0⟩ ⟨1, 1⟩ 0 ⟨1, 0⟩
              ⟨1, 1⟩ 0 0)
            (axisOverlap (Libm.mk Real.sqrt Real.cos Real.sin) ⟨0, 0⟩ ⟨1, 1⟩ 0 ⟨1, 0⟩
              ⟨1, 1⟩ 0 1))
        (min (axisOverlap (Libm.mk Real.sqrt Real.cos Real.sin) ⟨0, 0⟩ ⟨1, 1⟩ 0 ⟨1, 0⟩
              ⟨1, 1⟩ 0 2)
            (axisOverlap (Libm.mk Real.sqrt Real.cos Real.sin) ⟨0, 0⟩ ⟨1, 1⟩ 0 ⟨1, 0⟩
              ⟨1, 1⟩ 0 3)) ≤
      (Contact_OBB_OBB (Libm.mk Real.sqrt Real.cos Real.sin) ⟨0, 0⟩ ⟨1, 1⟩ 0 ⟨1, 0⟩ ⟨1, 1⟩ 0
          cp0).2.penetration ∧
    (Contact_OBB_OBB (Libm.mk Real.sqrt Real.cos Real.sin) ⟨0, 0⟩ ⟨1, 1⟩ 0 ⟨1, 0⟩ ⟨1, 1⟩ 0
          cp0).2.penetration ≤
      min (min (axisOverlap (Libm.mk Real.sqrt Real.cos Real.sin) ⟨0, 0⟩ ⟨1, 1⟩ 0 ⟨1, 0⟩
              ⟨1, 1⟩ 0 0)
            (axisOverlap (Libm.mk Real.sqrt Real.cos Real.sin) ⟨0, 0⟩ ⟨1, 1⟩ 0 ⟨1, 0⟩
              ⟨1, 1⟩ 0 1))
        (min (axisOverlap (Libm.mk Real.sqrt Real.cos Real.sin) ⟨0, 0⟩ ⟨1, 1⟩ 0 ⟨1, 0⟩
              ⟨1, 1⟩ 0 2)
            (axisOverlap (Libm.mk Real.sqrt Real.cos Real.sin) ⟨0, 0⟩ ⟨1, 1⟩ 0 ⟨1, 0⟩
              ⟨1, 1⟩ 0 3)) + kTieEps) := by
  have hS : ∃ i, i < 4 ∧ axisOverlap (Libm.mk Real.sqrt Real.cos Real.sin) ⟨0, 0⟩ ⟨1, 1⟩ 0
      ⟨1, 0⟩ ⟨1, 1⟩ 0 i < 1e30 - kTieEps := by
    refine ⟨0, by norm_num, ?_⟩
    rw [axisOverlap_unrotated _ _ _ _ _ real_cos_zero real_sin_zero real_sqrt_one 0
      (by norm_num)]
    norm_num [kTieEps]
  have hhit := (Contact_OBB_OBB_unrotated_x (Libm.mk Real.sqrt Real.cos Real.sin)
    ⟨0, 0⟩ ⟨1, 1⟩ ⟨1, 0⟩ ⟨1, 1⟩ cp0 real_cos_zero real_sin_zero real_sqrt_one
    (by norm_num) (by norm_num) (by norm_num [kTieEps]) (by norm_num [kTieEps])).1
  exact ⟨⟨hS, hhit⟩,
    box_box_penetration_near_minimum (Libm.mk Real.sqrt Real.cos Real.sin) ⟨0, 0⟩ ⟨1, 1⟩ 0
      ⟨1, 0⟩ ⟨1, 1⟩ 0 cp0 (Real.cos_sq_add_sin_sq _) (Real.cos_sq_add_sin_sq _) real_sqrt_one
      hS hhit⟩

/-- Overlaps of the configuration used against C7: box A unrotated with
half-extents `(1, 1)` at the origin, box B with half-extents `(1, 1.00015)`
centred at `(0.00001, 0)` and rotated so that its x axis is `(3/5, 4/5)`. -/
theorem axisOverlap_tilted (L : Libm K) (t : K)
    (hc0 : L.cos 0 = 1) (hs0 : L.sin 0 = 0)
    (hct : L.cos (DegToRad t) = 3 / 5) (hst : L.sin (DegToRad t) = 4 / 5) :
    axisOverlap L ⟨0, 0⟩ ⟨1, 1⟩ 0 ⟨0.00001, 0⟩ ⟨1, 1.00015⟩ t 0 = 2.40011 ∧
    axisOverlap L ⟨0, 0⟩ ⟨1, 1⟩ 0 ⟨0.00001, 0⟩ ⟨1, 1.00015⟩ t 1 = 2.40009 ∧
    axisOverlap L ⟨0, 0⟩ ⟨1, 1⟩ 0 ⟨0.00001, 0⟩ ⟨1, 1.00015⟩ t 2 = 2.399994 ∧
    axisOverlap L ⟨0, 0⟩ ⟨1, 1⟩ 0 ⟨0.00001, 0⟩ ⟨1, 1.00015⟩ t 3 = 2.400142 := by
  have a1 : |(3 / 5 : K)| = 3 / 5 := abs_of_pos (by norm_num)
  have a2 : |(4 / 5 : K)| = 4 / 5 := abs_of_pos (by norm_num)
  have a3 : |(1e-5 : K)| = 1e-5 := abs_of_pos (by norm_num)
  have a4 : |(1e-5 * (3 / 5) : K)| = 1e-5 * (3 / 5) := abs_of_pos (by norm_num)
  have a5 : |(1e-5 * (4 / 5) : K)| = 1e-5 * (4 / 5) := abs_of_pos (by norm_num)
  refine ⟨?_, ?_, ?_, ?_⟩ <;>
    simp [axisOverlap, OBBBases, DegToRad_zero, hc0, hs0, hct, hst, ProjectRadius, Dot,
      a1, a2, a3, a4, a5] <;>
    norm_num [a1, a2, a3, a4, a5]

/-- In the tilted configuration the loop first records index 0, keeps it at
index 1 (overlap only `0.00002` smaller), and replaces it at index 2 (overlap
`0.000116` smaller): B's x axis is selected. -/
theorem obbLoop_tilted (L : Libm K) (t : K)
    (hc0 : L.cos 0 = 1) (hs0 : L.sin 0 = 0) (hsqrt : L.sqrt 1 = 1)
    (hct : L.cos (DegToRad t) = 3 / 5) (hst : L.sin (DegToRad t) = 4 / 5) :
    obbLoop L ⟨0, 0⟩ ⟨1, 1⟩ 0 ⟨0.00001, 0⟩ ⟨1, 1.00015⟩ t =
      some ⟨2.399994, ⟨3 / 5, 4 / 5⟩, 2⟩ := by
  have hu0 : L.cos (DegToRad 0) ^ 2 + L.sin (DegToRad 0) ^ 2 = 1 := by
    rw [DegToRad_zero, hc0, hs0]; norm_num
  have hut : L.cos (DegToRad t) ^ 2 + L.sin (DegToRad t) ^ 2 = 1 := by
    rw [hct, hst]; norm_num
  obtain ⟨o0, o1, o2, o3⟩ := axisOverlap_tilted L t hc0 hs0 hct hst
  have pe := iterPen_eq_axisOverlap L ⟨0, 0⟩ ⟨1, 1⟩ 0 ⟨0.00001, 0⟩ ⟨1, 1.00015⟩ t hu0 hut hsqrt
  have p0 := pe 0 (by norm_num)
  have p1 := pe 1 (by norm_num)
  have p2 := pe 2 (by norm_num)
  have p3 := pe 3 (by norm_num)
  rw [o0] at p0
  rw [o1] at p1
  rw [o2] at p2
  rw [o3] at p3
  have ax2 : iterSigned L ((⟨0.00001, 0⟩ : Vec2 K) - ⟨0, 0⟩)
      [(OBBBases L 0).x, (OBBBases L 0).y, (OBBBases L t).x, (OBBBases L t).y] 2 =
      ⟨3 / 5, 4 / 5⟩ := by
    unfold iterSigned
    rw [iterAxis_eq L 0 t hu0 hut hsqrt 2 (by norm_num)]
    have hpos : (0 : K) ≤ 1e-5 := by norm_num
    simp [OBBBases, hct, hst, Dot, hpos, Vec2.ext_iff]
  rw [obbLoop_unfold]
  refine ⟨⟨2.40011, iterSigned L ((⟨0.00001, 0⟩ : Vec2 K) - ⟨0, 0⟩)
      [(OBBBases L 0).x, (OBBBases L 0).y, (OBBBases L t).x, (OBBBases L t).y] 0, 0⟩,
    ⟨2.40011, iterSigned L ((⟨0.00001, 0⟩ : Vec2 K) - ⟨0, 0⟩)
      [(OBBBases L 0).x, (OBBBases L 0).y, (OBBBases L t).x, (OBBBases L t).y] 0, 0⟩,
    ⟨2.399994, ⟨3 / 5, 4 / 5⟩, 2⟩, ?_, ?_, ?_, ?_⟩
  · rw [obbIter_take L _ _ _ _ _ _ satInit 0 (Nat.le_refl _) (by rw [p0]; norm_num)
      (by rw [p0]; norm_num [satInit, kTieEps]), p0]
  · exact obbIter_keep L _ _ _ _ _ _ _ 1 (Nat.zero_le _) (by rw [p1]; norm_num)
      (by rw [p1]; norm_num [kTieEps])
  · rw [obbIter_take L _ _ _ _ _ _ _ 2 (Nat.zero_le _) (by rw [p2]; norm_num)
      (by rw [p2]; norm_num [kTieEps]), p2, ax2]
  · exact obbIter_keep L _ _ _ _ _ _ _ 3 (by norm_num) (by rw [p3]; norm_num)
      (by rw [p3]; norm_num [kTieEps])

/-- The rotation angle, in degrees, at which the real `DegToRad` gives
`arccos (3/5)`. -/
theorem real_DegToRad_tilt :
    DegToRad (Real.arccos (3 / 5) * 180 / 3.14159265358979323846) = Real.arccos (3 / 5) := by
  unfold DegToRad
  field_simp

theorem real_cos_tilt :
    (Libm.mk Real.sqrt Real.cos Real.sin).cos
      (DegToRad (Real.arccos (3 / 5) * 180 / 3.14159265358979323846)) = 3 / 5 := by
  rw [real_DegToRad_tilt]
  exact Real.cos_arccos (by norm_num) (by norm_num)

theorem real_sin_tilt :
    (Libm.mk Real.sqrt Real.cos Real.sin).sin
      (DegToRad (Real.arccos (3 / 5) * 180 / 3.14159265358979323846)) = 4 / 5 := by
  rw [real_DegToRad_tilt]
  show Real.sin (Real.arccos (3 / 5)) = 4 / 5
  rw [Real.sin_arccos]
  have h : (1 : ℝ) - (3 / 5) ^ 2 = (4 / 5) ^ 2 := by norm_num
  rw [h, Real.sqrt_sq (by norm_num)]

/-- Counterexample to C7 as stated: box A unrotated with half-extents `(1, 1)`
at the origin, box B with half-extents `(1, 1.00015)` centred at `(0.00001, 0)`
and rotated by `arccos (3/5)` (about 53.13 degrees).  The overlaps are
`2.40011` (A.x), `2.40009` (A.y), `2.399994` (B.x), `2.400142` (B.y).  The
loop selects index 2 (B.x) although the overlap of A.y (index 1) is within
`kTieEps = 1e-4` of the selected overlap. -/
theorem box_box_B_axis_selected_despite_tie :
    obbLoop (Libm.mk Real.sqrt Real.cos Real.sin) ⟨0, 0⟩ ⟨1, 1⟩ 0 ⟨0.00001, 0⟩ ⟨1, 1.00015⟩
        (Real.arccos (3 / 5) * 180 / 3.14159265358979323846) =
      some ⟨2.399994, ⟨3 / 5, 4 / 5⟩, 2⟩ ∧
    |axisOverlap (Libm.mk Real.sqrt Real.cos Real.sin) ⟨0, 0⟩ ⟨1, 1⟩ 0 ⟨0.00001, 0⟩
          ⟨1, 1.00015⟩ (Real.arccos (3 / 5) * 180 / 3.14159265358979323846) 1 -
        axisOverlap (Libm.mk Real.sqrt Real.cos Real.sin) ⟨0, 0⟩ ⟨1, 1⟩ 0 ⟨0.00001, 0⟩
          ⟨1, 1.00015⟩ (Real.arccos (3 / 5) * 180 / 3.14159265358979323846) 2| ≤ kTieEps ∧
    (Contact_OBB_OBB (Libm.mk Real.sqrt Real.cos Real.sin) ⟨0, 0⟩ ⟨1, 1⟩ 0 ⟨0.00001, 0⟩
        ⟨1, 1.00015⟩ (Real.arccos (3 / 5) * 180 / 3.14159265358979323846) cp0).2.normalA =
      (OBBBases (Libm.mk Real.sqrt Real.cos Real.sin)
        (Real.arccos (3 / 5) * 180 / 3.14159265358979323846)).x := by
  have hl := obbLoop_tilted (Libm.mk Real.sqrt Real.cos Real.sin)
    (Real.arccos (3 / 5) * 180 / 3.14159265358979323846) real_cos_zero real_sin_zero
    real_sqrt_one real_cos_tilt real_sin_tilt
  obtain ⟨_, o1, o2, _⟩ := axisOverlap_tilted (Libm.mk Real.sqrt Real.cos Real.sin)
    (Real.arccos (3 / 5) * 180 / 3.14159265358979323846) real_cos_zero real_sin_zero
    real_cos_tilt real_sin_tilt
  refine ⟨hl, ?_, ?_⟩
  · rw [o1, o2, abs_of_pos (by norm_num)]
    norm_num [kTieEps]
  · rw [Contact_OBB_OBB_eq, hl]
    have hc := real_cos_tilt
    have hs := real_sin_tilt
    simp only at hc hs
    simp only [OBBBases, hc, hs]

/-- C7 (amended): an axis replaces the current best only when its overlap is
smaller by more than `kTieEps`.  Hence, for the selected index `i` (exact unit
axes): every axis with a lower index has a strictly larger overlap; and when
the overlap of A.x (index 0) is below `1e30 - kTieEps`, the reported
penetration is the overlap of axis `i`, no axis has an overlap more than
`kTieEps` below it, and `i` differs from 0 only if the overlap of axis `i` is
more than `kTieEps` below that of A.x.  A lower-index axis other than A.x may
be within `kTieEps` of the selected one. -/
theorem box_box_tie_break (L : Libm K) (ac aHalf : Vec2 K) (aRot : K)
    (bc bHalf : Vec2 K) (bRot : K) (out : ContactPoint K) (st : SatBest K)
    (hA : L.cos (DegToRad aRot) ^ 2 + L.sin (DegToRad aRot) ^ 2 = 1)
    (hB : L.cos (DegToRad bRot) ^ 2 + L.sin (DegToRad bRot) ^ 2 = 1)
    (hsqrt : L.sqrt 1 = 1)
    (h : obbLoop L ac aHalf aRot bc bHalf bRot = some st) :
    ((Contact_OBB_OBB L ac aHalf aRot bc bHalf bRot out).1 = true ∧
      (Contact_OBB_OBB L ac aHalf aRot bc bHalf bRot out).2.penetration = st.bestPen ∧
      (Contact_OBB_OBB L ac aHalf aRot bc bHalf bRot out).2.normalA = st.bestAxis) ∧
    st.bestIndex < 4 ∧
    (∀ j, j < st.bestIndex →
      axisOverlap L ac aHalf aRot bc bHalf bRot st.bestIndex <
        axisOverlap L ac aHalf aRot bc bHalf bRot j) ∧
    (axisOverlap L ac aHalf aRot bc bHalf bRot 0 < 1e30 - kTieEps →
      st.bestPen = axisOverlap L ac aHalf aRot bc bHalf bRot st.bestIndex ∧
      (∀ j, j < 4 → axisOverlap L ac aHalf aRot bc bHalf bRot st.bestIndex - kTieEps ≤
        axisOverlap L ac aHalf aRot bc bHalf bRot j) ∧
      (st.bestIndex ≠ 0 →
        axisOverlap L ac aHalf aRot bc bHalf bRot st.bestIndex + kTieEps <
          axisOverlap L ac aHalf aRot bc bHalf bRot 0)) := by
  obtain ⟨_, inv⟩ := obbLoop_spec L ac aHalf aRot bc bHalf bRot st h
  have pe := iterPen_eq_axisOverlap L ac aHalf aRot bc bHalf bRot hA hB hsqrt
  refine ⟨by rw [Contact_OBB_OBB_eq, h]; exact ⟨rfl, rfl, rfl⟩, ?_⟩
  rcases inv with ⟨h0, hall⟩ | ⟨hi, hpen, _, _, hall, hlow, hz⟩
  · have hidx : st.bestIndex = 0 := by rw [h0]; rfl
    refine ⟨by rw [hidx]; norm_num, ?_, ?_⟩
    · intro j hj
      rw [hidx] at hj
      exact absurd hj (Nat.not_lt_zero j)
    · intro hlt
      have := hall 0 (by norm_num)
      rw [pe 0 (by norm_num)] at this
      linarith
  · rw [pe _ hi] at hpen
    refine ⟨hi, ?_, ?_⟩
    · intro j hj
      have := hlow j hj
      rw [pe j (Nat.lt_trans hj hi), hpen] at this
      exact this
    · intro hlt
      refine ⟨hpen, ?_, ?_⟩
      · intro j hj
        have := hall j hj
        rw [pe j hj, hpen] at this
        exact this
      · intro hne
        rcases hz with hz | hz
        · exact absurd hz hne
        · rw [pe 0 (by norm_num), hpen] at hz
          exact hz hlt

/-- Witness for `box_box_tie_break`: the tilted configuration with the exact
real libm, where index 2 is selected. -/
theorem box_box_tie_break_witness :
    (obbLoop (Libm.mk Real.sqrt Real.cos Real.sin) ⟨0, 0⟩ ⟨1, 1⟩ 0 ⟨0.00001, 0⟩ ⟨1, 1.00015⟩
        (Real.arccos (3 / 5) * 180 / 3.14159265358979323846) =
      some ⟨2.399994, ⟨3 / 5, 4 / 5⟩, 2⟩ ∧
      axisOverlap (Libm.mk Real.sqrt Real.cos Real.sin) ⟨0, 0⟩ ⟨1, 1⟩ 0 ⟨0.00001, 0⟩
          ⟨1, 1.00015⟩ (Real.arccos (3 / 5) * 180 / 3.14159265358979323846) 0 < 1e30 - kTieEps) ∧
    (((Contact_OBB_OBB (Libm.mk Real.sqrt Real.cos Real.sin) ⟨0, 0⟩ ⟨1, 1⟩ 0 ⟨0.00001, 0⟩
          ⟨1, 1.00015⟩ (Real.arccos (3 / 5) * 180 / 3.14159265358979323846) cp0).1 = true ∧
      (Contact_OBB_OBB (Libm.mk Real.sqrt Real.cos Real.sin) ⟨0, 0⟩ ⟨1, 1⟩ 0 ⟨0.00001, 0⟩
          ⟨1, 1.00015⟩ (Real.arccos (3 / 5) * 180 / 3.14159265358979323846) cp0).2.penetration = 2.399994 ∧
      (Contact_OBB_OBB (Libm.mk Real.sqrt Real.cos Real.sin) ⟨0, 0⟩ ⟨1, 1⟩ 0 ⟨0.00001, 0⟩
          ⟨1, 1.00015⟩ (Real.arccos (3 / 5) * 180 / 3.14159265358979323846) cp0).2.normalA = ⟨3 / 5, 4 / 5⟩) ∧
    (2 : Nat) < 4 ∧
    (∀ j, j < 2 →
      axisOverlap (Libm.mk Real.sqrt Real.cos Real.sin) ⟨0, 0⟩ ⟨1, 1⟩ 0 ⟨0.00001, 0⟩
          ⟨1, 1.00015⟩ (Real.arccos (3 / 5) * 180 / 3.14159265358979323846) 2 <
        axisOverlap (Libm.mk Real.sqrt Real.cos Real.sin) ⟨0, 0⟩ ⟨1, 1⟩ 0 ⟨0.00001, 0⟩
          ⟨1, 1.00015⟩ (Real.arccos (3 / 5) * 180 / 3.14159265358979323846) j) ∧
    (axisOverlap (Libm.mk Real.sqrt Real.cos Real.sin) ⟨0, 0⟩ ⟨1, 1⟩ 0 ⟨0.00001, 0⟩
          ⟨1, 1.00015⟩ (Real.arccos (3 / 5) * 180 / 3.14159265358979323846) 0 <
        1e30 - kTieEps →
      (2.399994 : ℝ) = axisOverlap (Libm.mk Real.sqrt Real.cos Real.sin) ⟨0, 0⟩ ⟨1, 1⟩ 0 ⟨0.00001, 0⟩
          ⟨1, 1.00015⟩ (Real.arccos (3 / 5) * 180 / 3.14159265358979323846) 2 ∧
      (∀ j, j < 4 →
        axisOverlap (Libm.mk Real.sqrt Real.cos Real.sin) ⟨0, 0⟩ ⟨1, 1⟩ 0 ⟨0.00001, 0⟩
          ⟨1, 1.00015⟩ (Real.arccos (3 / 5) * 180 / 3.14159265358979323846) 2 - kTieEps ≤
          axisOverlap (Libm.mk Real.sqrt Real.cos Real.sin) ⟨0, 0⟩ ⟨1, 1⟩ 0 ⟨0.00001, 0⟩
          ⟨1, 1.00015⟩ (Real.arccos (3 / 5) * 180 / 3.14159265358979323846) j) ∧
      ((2 : Nat) ≠ 0 →
        axisOverlap (Libm.mk Real.sqrt Real.cos Real.sin) ⟨0, 0⟩ ⟨1, 1⟩ 0 ⟨0.00001, 0⟩
          ⟨1, 1.00015⟩ (Real.arccos (3 / 5) * 180 / 3.14159265358979323846) 2 + kTieEps <
          axisOverlap (Libm.mk Real.sqrt Real.cos Real.sin) ⟨0, 0⟩ ⟨1, 1⟩ 0 ⟨0.00001, 0⟩
          ⟨1, 1.00015⟩ (Real.arccos (3 / 5) * 180 / 3.14159265358979323846) 0))) := by
  have hl := obbLoop_tilted (Libm.mk Real.sqrt Real.cos Real.sin)
    (Real.arccos (3 / 5) * 180 / 3.14159265358979323846) real_cos_zero real_sin_zero
    real_sqrt_one real_cos_tilt real_sin_tilt
  have h0 : axisOverlap (Libm.mk Real.sqrt Real.cos Real.sin) ⟨0, 0⟩ ⟨1, 1⟩ 0 ⟨0.00001, 0⟩
          ⟨1, 1.00015⟩ (Real.arccos (3 / 5) * 180 / 3.14159265358979323846) 0 < 1e30 - kTieEps := by
    rw [(axisOverlap_tilted (Libm.mk Real.sqrt Real.cos Real.sin)
      (Real.arccos (3 / 5) * 180 / 3.14159265358979323846) real_cos_zero real_sin_zero
      real_cos_tilt real_sin_tilt).1]
    norm_num [kTieEps]
  exact ⟨⟨hl, h0⟩,
    box_box_tie_break (Libm.mk Real.sqrt Real.cos Real.sin) ⟨0, 0⟩ ⟨1, 1⟩ 0 ⟨0.00001, 0⟩
      ⟨1, 1.00015⟩ (Real.arccos (3 / 5) * 180 / 3.14159265358979323846) cp0
      ⟨2.399994, ⟨3 / 5, 4 / 5⟩, 2⟩ (Real.cos_sq_add_sin_sq _) (Real.cos_sq_add_sin_sq _)
      real_sqrt_one hl⟩

/-! ### Circle / oriented box: centre outside the box (C9) -/

/-- Squared length in the frame of an exact unit basis. -/
theorem Dot_self_basis (L : Libm K) (rot : K) (v : Vec2 K)
    (hB : L.cos (DegToRad rot) ^ 2 + L.sin (DegToRad rot) ^ 2 = 1) :
    Dot v v = Dot v (OBBBases L rot).x ^ 2 + Dot v (OBBBases L rot).y ^ 2 := by
  simp only [OBBBases, Dot]
  linear_combination (-(v.x ^ 2 + v.y ^ 2)) * hB

theorem WorldToLocal_LocalToWorld (L : Libm K) (rot : K) (pl bc : Vec2 K)
    (hB : L.cos (DegToRad rot) ^ 2 + L.sin (DegToRad rot) ^ 2 = 1) :
    WorldToLocal (LocalToWorld pl bc (OBBBases L rot)) bc (OBBBases L rot) = pl := by
  ext
  · simp only [WorldToLocal, LocalToWorld, OBBBases, Dot, Vec2.add_x, Vec2.add_y, Vec2.sub_x,
      Vec2.sub_y, Vec2.mul_x, Vec2.mul_y]
    linear_combination pl.x * hB
  · simp only [WorldToLocal, LocalToWorld, OBBBases, Dot, Vec2.add_x, Vec2.add_y, Vec2.sub_x,
      Vec2.sub_y, Vec2.mul_x, Vec2.mul_y]
    linear_combination pl.y * hB

/-- Squared world distance equals squared distance of the box-frame
coordinates. -/
theorem Dot_sub_local (L : Libm K) (rot : K) (p q bc : Vec2 K)
    (hB : L.cos (DegToRad rot) ^ 2 + L.sin (DegToRad rot) ^ 2 = 1) :
    Dot (p - q) (p - q) =
      ((WorldToLocal p bc (OBBBases L rot)).x - (WorldToLocal q bc (OBBBases L rot)).x) ^ 2 +
      ((WorldToLocal p bc (OBBBases L rot)).y - (WorldToLocal q bc (OBBBases L rot)).y) ^ 2 := by
  rw [Dot_self_basis L rot (p - q) hB]
  simp only [WorldToLocal, OBBBases, Dot, Vec2.sub_x, Vec2.sub_y]
  ring

theorem ClampF_abs_le (x h : K) (hh : 0 ≤ h) : |ClampF x (-h) h| ≤ h := by
  unfold ClampF
  rw [abs_le]
  split_ifs with h1 h2
  · exact ⟨le_refl _, by linarith⟩
  · exact ⟨by linarith, le_refl _⟩
  · exact ⟨not_lt.mp h1, not_lt.mp h2⟩

/-- The clamped coordinate is the point of `[-h, h]` closest to `x`. -/
theorem ClampF_closest (x h y : K) (hy : |y| ≤ h) :
    (ClampF x (-h) h - x) ^ 2 ≤ (y - x) ^ 2 := by
  rw [abs_le] at hy
  unfold ClampF
  split_ifs with h1 h2
  · nlinarith [hy.1, hy.2]
  · have : x > h := h2
    nlinarith [hy.1, hy.2]
  · have : (x - x) ^ 2 = 0 := by ring
    rw [this]; positivity

/-- The point `closestWorld` computed by `Contact_OBB_Circle` lies in the box
and no point of the box is closer to the circle centre. -/
theorem closestWorld_spec (L : Libm K) (cc bc half : Vec2 K) (rot : K)
    (hB : L.cos (DegToRad rot) ^ 2 + L.sin (DegToRad rot) ^ 2 = 1)
    (hx : 0 ≤ half.x) (hy : 0 ≤ half.y) :
    InOBB L bc half rot (closestWorld L cc bc half rot) ∧
    ∀ p, InOBB L bc half rot p →
      Dot (closestWorld L cc bc half rot - cc) (closestWorld L cc bc half rot - cc) ≤
        Dot (p - cc) (p - cc) := by
  constructor
  · unfold InOBB closestWorld
    rw [WorldToLocal_LocalToWorld L rot _ bc hB]
    exact ⟨ClampF_abs_le _ _ hx, ClampF_abs_le _ _ hy⟩
  · intro p hp
    rw [Dot_sub_local L rot _ cc bc hB, Dot_sub_local L rot p cc bc hB]
    unfold closestWorld
    rw [WorldToLocal_LocalToWorld L rot _ bc hB]
    exact add_le_add (ClampF_closest _ _ _ hp.1) (ClampF_closest _ _ _ hp.2)

/-- `Contact_OBB_Circle` in the branch `distSq > 1e-12f`. -/
theorem Contact_OBB_Circle_outside (L : Libm K) (cc : Vec2 K) (r : K) (bc half : Vec2 K)
    (rot : K) (out : ContactPoint K)
    (hfar : 1e-12 <
      Dot (closestWorld L cc bc half rot - cc) (closestWorld L cc bc half rot - cc)) :
    Contact_OBB_Circle L cc r bc half rot out =
      if r - L.sqrt (Dot (closestWorld L cc bc half rot - cc)
            (closestWorld L cc bc half rot - cc)) ≤ 0 then
        (false, { out with
          normalA := (closestWorld L cc bc half rot - cc) /
            L.sqrt (Dot (closestWorld L cc bc half rot - cc)
              (closestWorld L cc bc half rot - cc)),
          penetration := r - L.sqrt (Dot (closestWorld L cc bc half rot - cc)
              (closestWorld L cc bc half rot - cc)) })
      else
        (true, { out with
          normalA := (closestWorld L cc bc half rot - cc) /
            L.sqrt (Dot (closestWorld L cc bc half rot - cc)
              (closestWorld L cc bc half rot - cc)),
          penetration := r - L.sqrt (Dot (closestWorld L cc bc half rot - cc)
              (closestWorld L cc bc half rot - cc)),
          point := closestWorld L cc bc half rot }) := by
  unfold closestWorld at hfar ⊢
  simp only [Contact_OBB_Circle, gt_iff_lt, if_pos hfar]

theorem closestWorld_unrotated (L : Libm K) (cc bc half : Vec2 K)
    (hc : L.cos 0 = 1) (hs : L.sin 0 = 0) :
    closestWorld L cc bc half 0 =
      ⟨bc.x + ClampF (cc.x - bc.x) (-half.x) half.x,
        bc.y + ClampF (cc.y - bc.y) (-half.y) half.y⟩ := by
  simp [closestWorld, OBBBases_zero L hc hs, LocalToWorld, WorldToLocal, ClampV, Dot,
    Vec2.ext_iff]

theorem InOBB_unrotated (L : Libm K) (bc half p : Vec2 K)
    (hc : L.cos 0 = 1) (hs : L.sin 0 = 0) :
    InOBB L bc half 0 p ↔ |p.x - bc.x| ≤ half.x ∧ |p.y - bc.y| ≤ half.y := by
  simp [InOBB, OBBBases_zero L hc hs, WorldToLocal, Dot]

/-- Evaluation of `Contact_OBB_Circle` for a circle of radius 1 at the centre
of an unrotated box with half-extents `(2, 2)`. -/
theorem Contact_OBB_Circle_centre (L : Libm K) (out : ContactPoint K)
    (hc : L.cos 0 = 1) (hs : L.sin 0 = 0) (hsqrt : L.sqrt 1 = 1) :
    Contact_OBB_Circle L ⟨0, 0⟩ 1 ⟨0, 0⟩ ⟨2, 2⟩ 0 out =
      (true, { out with penetration := 2, normalA := ⟨0, 1⟩, point := ⟨0, 2⟩ }) := by
  have h1 : ¬ ((1 : K) ≤ 1e-12) := by norm_num
  have c0 : ClampF (0 : K) (-2) 2 = 0 := by norm_num [ClampF]
  simp [Contact_OBB_Circle, OBBBases_zero L hc hs, LocalToWorld, WorldToLocal, ClampV, c0,
    Dot, NormalizeSafe, kTieEps, hsqrt, h1]
  norm_num
  constructor
  · ext <;> simp
  · ext <;> simp [hsqrt]

/-- Evaluation of `Contact_OBB_Circle` for a circle of radius `1e-7` whose
centre is `5e-7` to the right of the unit box. -/
theorem Contact_OBB_Circle_near (L : Libm K) (out : ContactPoint K)
    (hc : L.cos 0 = 1) (hs : L.sin 0 = 0) :
    (Contact_OBB_Circle L ⟨1.0000005, 0⟩ 1e-7 ⟨0, 0⟩ ⟨1, 1⟩ 0 out).1 = true := by
  have c0 : ClampF (0 : K) (-1) 1 = 0 := by norm_num [ClampF]
  have c1 : ClampF (1.0000005 : K) (-1) 1 = 1 := by norm_num [ClampF]
  have hD : ¬ ((1e-12 : K) < Dot (closestWorld L ⟨1.0000005, 0⟩ ⟨0, 0⟩ ⟨1, 1⟩ 0 - ⟨1.0000005, 0⟩)
      (closestWorld L ⟨1.0000005, 0⟩ ⟨0, 0⟩ ⟨1, 1⟩ 0 - ⟨1.0000005, 0⟩)) := by
    rw [closestWorld_unrotated L _ _ _ hc hs]
    simp only [sub_zero, c0, c1, Dot, Vec2.sub_x, Vec2.sub_y]
    norm_num
  unfold closestWorld at hD
  simp only [Contact_OBB_Circle, gt_iff_lt, if_neg hD]

theorem Dot_div_self (v : Vec2 K) (a : K) (hne : a ≠ 0) (h : a * a = Dot v v) :
    Dot (v / a) (v / a) = 1 := by
  simp only [Dot, Vec2.div_x, Vec2.div_y] at h ⊢
  field_simp
  linear_combination -h

/-- C9 (amended): for a circle whose centre is farther than `1e-6` from an
oriented box with non-negative half-extents (every point of the box has squared
distance above `1e-12` from the centre), with exact unit box axes and an exact
square root `dist` of the squared distance to the point `closestWorld`:
`closestWorld` is the point of the box closest to the centre, so `dist` is the
Euclidean distance from the centre to the box; `Contact_OBB_Circle` reports a
contact if and only if `dist < r`; and then the contact point is
`closestWorld`, the normal is the unit vector from the centre to that point,
and the penetration is `r - dist`, a value in `(0, r]`. -/
theorem circle_box_outside (L : Libm K) (cc : Vec2 K) (r : K) (bc half : Vec2 K)
    (rot : K) (out : ContactPoint K)
    (hB : L.cos (DegToRad rot) ^ 2 + L.sin (DegToRad rot) ^ 2 = 1)
    (hx : 0 ≤ half.x) (hy : 0 ≤ half.y)
    (hfar : ∀ p, InOBB L bc half rot p → 1e-12 < Dot (p - cc) (p - cc))
    (h0 : 0 ≤ L.sqrt (Dot (closestWorld L cc bc half rot - cc)
      (closestWorld L cc bc half rot - cc)))
    (hsq : L.sqrt (Dot (closestWorld L cc bc half rot - cc)
        (closestWorld L cc bc half rot - cc)) *
      L.sqrt (Dot (closestWorld L cc bc half rot - cc)
        (closestWorld L cc bc half rot - cc)) =
      Dot (closestWorld L cc bc half rot - cc) (closestWorld L cc bc half rot - cc)) :
    (InOBB L bc half rot (closestWorld L cc bc half rot) ∧
      ∀ p, InOBB L bc half rot p →
        Dot (closestWorld L cc bc half rot - cc) (closestWorld L cc bc half rot - cc) ≤
          Dot (p - cc) (p - cc)) ∧
    ((Contact_OBB_Circle L cc r bc half rot out).1 = true ↔
      L.sqrt (Dot (closestWorld L cc bc half rot - cc)
        (closestWorld L cc bc half rot - cc)) < r) ∧
    ((Contact_OBB_Circle L cc r bc half rot out).1 = true →
      (Contact_OBB_Circle L cc r bc half rot out).2.point = closestWorld L cc bc half rot ∧
      (Contact_OBB_Circle L cc r bc half rot out).2.normalA =
        (closestWorld L cc bc half rot - cc) /
          L.sqrt (Dot (closestWorld L cc bc half rot - cc)
            (closestWorld L cc bc half rot - cc)) ∧
      Dot (Contact_OBB_Circle L cc r bc half rot out).2.normalA
        (Contact_OBB_Circle L cc r bc half rot out).2.normalA = 1 ∧
      (Contact_OBB_Circle L cc r bc half rot out).2.penetration =
        r - L.sqrt (Dot (closestWorld L cc bc half rot - cc)
          (closestWorld L cc bc half rot - cc)) ∧
      0 < (Contact_OBB_Circle L cc r bc half rot out).2.penetration ∧
      (Contact_OBB_Circle L cc r bc half rot out).2.penetration ≤ r) := by
  have hcl := closestWorld_spec L cc bc half rot hB hx hy
  have hD := hfar _ hcl.1
  have hDpos : 0 < Dot (closestWorld L cc bc half rot - cc)
      (closestWorld L cc bc half rot - cc) := lt_trans (by norm_num) hD
  have hne : L.sqrt (Dot (closestWorld L cc bc half rot - cc)
      (closestWorld L cc bc half rot - cc)) ≠ 0 := by
    intro hz
    rw [hz, mul_zero] at hsq
    linarith
  refine ⟨hcl, ?_, ?_⟩
  · rw [Contact_OBB_Circle_outside L cc r bc half rot out hD]
    split_ifs with hp
    · simp only [Bool.false_eq_true, false_iff, not_lt]
      linarith
    · simp only [true_iff]
      linarith [not_le.mp hp]
  · rw [Contact_OBB_Circle_outside L cc r bc half rot out hD]
    split_ifs with hp
    · intro h; simp at h
    · intro _
      exact ⟨rfl, rfl, Dot_div_self _ _ hne hsq, rfl, not_le.mp hp, by simp only; linarith⟩

theorem Dot_self_nonneg (v : Vec2 K) : 0 ≤ Dot v v := by
  unfold Dot
  nlinarith [mul_self_nonneg v.x, mul_self_nonneg v.y]

/-- Counterexample to C9 as stated: unit box at the origin, circle of radius
`1e-7` centred at `(1.0000005, 0)`.  The centre is outside the box and every
point of the box is farther than the radius from it, but the squared distance
to the closest point, `2.5e-13`, is not above `1e-12`, so the code takes the
centre-inside branch and reports a contact. -/
theorem circle_box_near_miss_reports_contact :
    ¬ InOBB (Libm.mk Real.sqrt Real.cos Real.sin) ⟨0, 0⟩ ⟨1, 1⟩ 0 ⟨1.0000005, 0⟩ ∧
    (Contact_OBB_Circle (Libm.mk Real.sqrt Real.cos Real.sin) ⟨1.0000005, 0⟩ 1e-7 ⟨0, 0⟩
        ⟨1, 1⟩ 0 cp0).1 = true ∧
    ∀ p, InOBB (Libm.mk Real.sqrt Real.cos Real.sin) ⟨0, 0⟩ ⟨1, 1⟩ 0 p →
      (1e-7 : ℝ) ^ 2 < Dot (p - ⟨1.0000005, 0⟩) (p - ⟨1.0000005, 0⟩) := by
  refine ⟨?_, Contact_OBB_Circle_near _ _ real_cos_zero real_sin_zero, ?_⟩
  · rw [InOBB_unrotated _ _ _ _ real_cos_zero real_sin_zero]
    intro h
    have h1 := (abs_le.mp h.1).2
    norm_num at h1
  · intro p hp
    rw [InOBB_unrotated _ _ _ _ real_cos_zero real_sin_zero] at hp
    have h1 := (abs_le.mp hp.1).2
    simp only [sub_zero] at h1
    simp only [Dot, Vec2.sub_x, Vec2.sub_y]
    nlinarith [mul_self_nonneg (p.y - 0)]

/-- Witness for `circle_box_outside`: unit box at the origin, circle of radius
`5/2` centred at `(3, 0)`, exact real libm. -/
theorem circle_box_outside_witness :
    ((0 : ℝ) ≤ 1 ∧ (0 : ℝ) ≤ 1 ∧
      (∀ p, InOBB (Libm.mk Real.sqrt Real.cos Real.sin) ⟨0, 0⟩ ⟨1, 1⟩ 0 p →
        (1e-12 : ℝ) < Dot (p - ⟨3, 0⟩) (p - ⟨3, 0⟩))) ∧
    ((InOBB (Libm.mk Real.sqrt Real.cos Real.sin) ⟨0, 0⟩ ⟨1, 1⟩ 0
        (closestWorld (Libm.mk Real.sqrt Real.cos Real.sin) ⟨3, 0⟩ ⟨0, 0⟩ ⟨1, 1⟩ 0) ∧
      ∀ p, InOBB (Libm.mk Real.sqrt Real.cos Real.sin) ⟨0, 0⟩ ⟨1, 1⟩ 0 p →
        Dot (closestWorld (Libm.mk Real.sqrt Real.cos Real.sin) ⟨3, 0⟩ ⟨0, 0⟩ ⟨1, 1⟩ 0 - ⟨3, 0⟩)
            (closestWorld (Libm.mk Real.sqrt Real.cos Real.sin) ⟨3, 0⟩ ⟨0, 0⟩ ⟨1, 1⟩ 0 - ⟨3, 0⟩) ≤
          Dot (p - ⟨3, 0⟩) (p - ⟨3, 0⟩)) ∧
    ((Contact_OBB_Circle (Libm.mk Real.sqrt Real.cos Real.sin) ⟨3, 0⟩ (5 / 2) ⟨0, 0⟩ ⟨1, 1⟩ 0
        cp0).1 = true ↔
      Real.sqrt (Dot
          (closestWorld (Libm.mk Real.sqrt Real.cos Real.sin) ⟨3, 0⟩ ⟨0, 0⟩ ⟨1, 1⟩ 0 - ⟨3, 0⟩)
          (closestWorld (Libm.mk Real.sqrt Real.cos Real.sin) ⟨3, 0⟩ ⟨0, 0⟩ ⟨1, 1⟩ 0 - ⟨3, 0⟩)) <
        5 / 2) ∧
    ((Contact_OBB_Circle (Libm.mk Real.sqrt Real.cos Real.sin) ⟨3, 0⟩ (5 / 2) ⟨0, 0⟩ ⟨1, 1⟩ 0
        cp0).1 = true →
      (Contact_OBB_Circle (Libm.mk Real.sqrt Real.cos Real.sin) ⟨3, 0⟩ (5 / 2) ⟨0, 0⟩ ⟨1, 1⟩ 0
          cp0).2.point =
        closestWorld (Libm.mk Real.sqrt Real.cos Real.sin) ⟨3, 0⟩ ⟨0, 0⟩ ⟨1, 1⟩ 0 ∧
      (Contact_OBB_Circle (Libm.mk Real.sqrt Real.cos Real.sin) ⟨3, 0⟩ (5 / 2) ⟨0, 0⟩ ⟨1, 1⟩ 0
          cp0).2.normalA =
        (closestWorld (Libm.mk Real.sqrt Real.cos Real.sin) ⟨3, 0⟩ ⟨0, 0⟩ ⟨1, 1⟩ 0 - ⟨3, 0⟩) /
          Real.sqrt (Dot
            (closestWorld (Libm.mk Real.sqrt Real.cos Real.sin) ⟨3, 0⟩ ⟨0, 0⟩ ⟨1, 1⟩ 0 - ⟨3, 0⟩)
            (closestWorld (Libm.mk Real.sqrt Real.cos Real.sin) ⟨3, 0⟩ ⟨0, 0⟩ ⟨1, 1⟩ 0 -
              ⟨3, 0⟩)) ∧
      Dot (Contact_OBB_Circle (Libm.mk Real.sqrt Real.cos Real.sin) ⟨3, 0⟩ (5 / 2) ⟨0, 0⟩
            ⟨1, 1⟩ 0 cp0).2.normalA
          (Contact_OBB_Circle (Libm.mk Real.sqrt Real.cos Real.sin) ⟨3, 0⟩ (5 / 2) ⟨0, 0⟩
            ⟨1, 1⟩ 0 cp0).2.normalA = 1 ∧
      (Contact_OBB_Circle (Libm.mk Real.sqrt Real.cos Real.sin) ⟨3, 0⟩ (5 / 2) ⟨0, 0⟩ ⟨1, 1⟩ 0
          cp0).2.penetration =
        5 / 2 - Real.sqrt (Dot
          (closestWorld (Libm.mk Real.sqrt Real.cos Real.sin) ⟨3, 0⟩ ⟨0, 0⟩ ⟨1, 1⟩ 0 - ⟨3, 0⟩)
          (closestWorld (Libm.mk Real.sqrt Real.cos Real.sin) ⟨3, 0⟩ ⟨0, 0⟩ ⟨1, 1⟩ 0 - ⟨3, 0⟩)) ∧
      0 < (Contact_OBB_Circle (Libm.mk Real.sqrt Real.cos Real.sin) ⟨3, 0⟩ (5 / 2) ⟨0, 0⟩
          ⟨1, 1⟩ 0 cp0).2.penetration ∧
      (Contact_OBB_Circle (Libm.mk Real.sqrt Real.cos Real.sin) ⟨3, 0⟩ (5 / 2) ⟨0, 0⟩ ⟨1, 1⟩ 0
          cp0).2.penetration ≤ 5 / 2)) := by
  have hfar : ∀ p, InOBB (Libm.mk Real.sqrt Real.cos Real.sin) ⟨0, 0⟩ ⟨1, 1⟩ 0 p →
      (1e-12 : ℝ) < Dot (p - ⟨3, 0⟩) (p - ⟨3, 0⟩) := by
    intro p hp
    rw [InOBB_unrotated _ _ _ _ real_cos_zero real_sin_zero] at hp
    have h1 := (abs_le.mp hp.1).2
    simp only [sub_zero] at h1
    simp only [Dot, Vec2.sub_x, Vec2.sub_y]
    nlinarith [mul_self_nonneg (p.y - 0)]
  exact ⟨⟨zero_le_one, zero_le_one, hfar⟩,
    circle_box_outside (Libm.mk Real.sqrt Real.cos Real.sin) ⟨3, 0⟩ (5 / 2) ⟨0, 0⟩ ⟨1, 1⟩ 0 cp0
      (Real.cos_sq_add_sin_sq _) zero_le_one zero_le_one hfar (Real.sqrt_nonneg _)
      (Real.mul_self_sqrt (Dot_self_nonneg _))⟩

/-! ### Circle / oriented box: centre inside the box (C10) -/

/-- C10 (evaluation of the code): a circle of radius 1 at the centre of an
unrotated box with half-extents `(2, 2)`.  Both face margins are 2 (a tie);
the tie block overwrites `dy` with `dx - 1 = 1`, the horizontal face `y = 2` is
chosen (normal `(0, 1)`, contact point `(0, 2)`), and the overwritten value is
reused as `faceDist`: the penetration is `1 + 1 = 2`, not radius plus the
distance to the chosen face, `1 + 2 = 3`. -/
theorem circle_box_tie_penetration_off_by_one :
    (Contact_OBB_Circle (Libm.mk Real.sqrt Real.cos Real.sin) ⟨0, 0⟩ 1 ⟨0, 0⟩ ⟨2, 2⟩ 0
        cp0).1 = true ∧
    (Contact_OBB_Circle (Libm.mk Real.sqrt Real.cos Real.sin) ⟨0, 0⟩ 1 ⟨0, 0⟩ ⟨2, 2⟩ 0
        cp0).2.normalA = ⟨0, 1⟩ ∧
    (Contact_OBB_Circle (Libm.mk Real.sqrt Real.cos Real.sin) ⟨0, 0⟩ 1 ⟨0, 0⟩ ⟨2, 2⟩ 0
        cp0).2.point = ⟨0, 2⟩ ∧
    (Contact_OBB_Circle (Libm.mk Real.sqrt Real.cos Real.sin) ⟨0, 0⟩ 1 ⟨0, 0⟩ ⟨2, 2⟩ 0
        cp0).2.penetration = 2 ∧
    (Contact_OBB_Circle (Libm.mk Real.sqrt Real.cos Real.sin) ⟨0, 0⟩ 1 ⟨0, 0⟩ ⟨2, 2⟩ 0
        cp0).2.penetration ≠ 1 + 2 := by
  rw [Contact_OBB_Circle_centre _ _ real_cos_zero real_sin_zero real_sqrt_one]
  refine ⟨rfl, rfl, rfl, rfl, ?_⟩
  norm_num

/-! ### No false positives for two boxes (C5) -/

/-- Finitely many two-sided bounds `l i ≤ k i * x ≤ u i` with positive
scales have a common solution as soon as every lower bound is compatible with
every upper bound. -/
theorem exists_scaled_between {n : Nat} (k l u : Fin (n + 1) → K) (hk : ∀ i, 0 < k i)
    (h : ∀ i j, l i * k j ≤ u j * k i) :
    ∃ x, ∀ i, l i ≤ k i * x ∧ k i * x ≤ u i := by
  refine ⟨Finset.univ.sup' Finset.univ_nonempty (fun i => l i / k i), fun i => ⟨?_, ?_⟩⟩
  · have h1 : l i / k i ≤ Finset.univ.sup' Finset.univ_nonempty (fun i => l i / k i) :=
      Finset.le_sup' (fun i => l i / k i) (Finset.mem_univ i)
    have h2 := mul_le_mul_of_nonneg_left h1 (le_of_lt (hk i))
    rwa [mul_div_cancel₀ _ (ne_of_gt (hk i))] at h2
  · have h1 : Finset.univ.sup' Finset.univ_nonempty (fun i => l i / k i) ≤ u i / k i := by
      apply Finset.sup'_le
      intro j _
      rw [div_le_div_iff₀ (hk j) (hk i)]
      exact h j i
    have h2 := mul_le_mul_of_nonneg_left h1 (le_of_lt (hk i))
    rwa [mul_div_cancel₀ _ (ne_of_gt (hk i))] at h2

set_option maxHeartbeats 1600000 in
/-- Separating-axis core, in the frame of box A, when both components of B's
x axis `(c, s)` are positive: if the four axis projections overlap, some point
`t + x (c, s) + y (-s, c)` of box B lies in box A. -/
theorem sat_core_pos (a1 a2 b1 b2 c s t1 t2 : K)
    (ha1 : 0 ≤ a1) (ha2 : 0 ≤ a2) (hb1 : 0 ≤ b1) (hb2 : 0 ≤ b2)
    (hc : 0 < c) (hs : 0 < s) (hcs : c ^ 2 + s ^ 2 = 1)
    (h1 : |t1| ≤ a1 + c * b1 + s * b2)
    (h2 : |t2| ≤ a2 + s * b1 + c * b2)
    (h3 : |t1 * c + t2 * s| ≤ b1 + c * a1 + s * a2)
    (h4 : |-t1 * s + t2 * c| ≤ b2 + s * a1 + c * a2) :
    ∃ x y, |x| ≤ b1 ∧ |y| ≤ b2 ∧ |t1 + x * c - y * s| ≤ a1 ∧ |t2 + x * s + y * c| ≤ a2 := by
  obtain ⟨h1l, h1u⟩ := abs_le.mp h1
  obtain ⟨h2l, h2u⟩ := abs_le.mp h2
  obtain ⟨h3l, h3u⟩ := abs_le.mp h3
  obtain ⟨h4l, h4u⟩ := abs_le.mp h4
  have e1 : t1 * c ^ 2 + t1 * s ^ 2 = t1 := by rw [← mul_add, hcs, mul_one]
  have e2 : t2 * c ^ 2 + t2 * s ^ 2 = t2 := by rw [← mul_add, hcs, mul_one]
  have e3 : a1 * c ^ 2 + a1 * s ^ 2 = a1 := by rw [← mul_add, hcs, mul_one]
  have e4 : a2 * c ^ 2 + a2 * s ^ 2 = a2 := by rw [← mul_add, hcs, mul_one]
  have e5 : b2 * c ^ 2 + b2 * s ^ 2 = b2 := by rw [← mul_add, hcs, mul_one]
  have m1 := mul_nonneg (le_of_lt hs) (sub_nonneg.mpr h4u)
  have m2 := mul_nonneg (le_of_lt hs) (sub_nonneg.mpr h4l)
  have m3 := mul_nonneg (le_of_lt hc) (sub_nonneg.mpr h4u)
  have m4 := mul_nonneg (le_of_lt hc) (sub_nonneg.mpr h4l)
  have n1 := mul_nonneg (le_of_lt hc) ha1
  have n2 := mul_nonneg (le_of_lt hs) ha1
  have n3 := mul_nonneg (le_of_lt hc) ha2
  have n4 := mul_nonneg (le_of_lt hs) ha2
  have n5 := mul_nonneg (le_of_lt hc) hb2
  have n6 := mul_nonneg (le_of_lt hs) hb2
  have n7 := mul_nonneg ha1 (sq_nonneg c)
  have n8 := mul_nonneg ha1 (sq_nonneg s)
  have n9 := mul_nonneg ha2 (sq_nonneg c)
  have n10 := mul_nonneg ha2 (sq_nonneg s)
  have n11 := mul_nonneg (le_of_lt hc) n6
  obtain ⟨x, hx⟩ := exists_scaled_between
    ![1, c, s, 1]
    ![-b1, -a1 - s * b2 - t1, -a2 - c * b2 - t2, -(a1 * c + a2 * s) - (t1 * c + t2 * s)]
    ![b1, a1 + s * b2 - t1, a2 + c * b2 - t2, (a1 * c + a2 * s) - (t1 * c + t2 * s)]
    (by intro i; fin_cases i <;> simp <;> assumption)
    (by
      intro i j
      fin_cases i <;> fin_cases j <;> simp <;> linarith)
  have x1 := hx 0
  have x2 := hx 1
  have x3 := hx 2
  have x4 := hx 3
  simp at x1 x2 x3 x4
  have e6 : x * c ^ 2 + x * s ^ 2 = x := by rw [← mul_add, hcs, mul_one]
  obtain ⟨y, hy⟩ := exists_scaled_between
    ![1, s, c]
    ![-b2, t1 + x * c - a1, -a2 - t2 - x * s]
    ![b2, t1 + x * c + a1, a2 - t2 - x * s]
    (by intro i; fin_cases i <;> simp <;> assumption)
    (by
      intro i j
      fin_cases i <;> fin_cases j <;> simp <;> linarith)
  have y1 := hy 0
  have y2 := hy 1
  have y3 := hy 2
  simp at y1 y2 y3
  refine ⟨x, y, abs_le.mpr ⟨by linarith, by linarith⟩, abs_le.mpr ⟨by linarith, by linarith⟩,
    abs_le.mpr ⟨by linarith, by linarith⟩, abs_le.mpr ⟨by linarith, by linarith⟩⟩

/-- The same with the hypotheses written, as in the code, with absolute values
of the axis components. -/
theorem sat_core_pos_abs (a1 a2 b1 b2 c s t1 t2 : K)
    (ha1 : 0 ≤ a1) (ha2 : 0 ≤ a2) (hb1 : 0 ≤ b1) (hb2 : 0 ≤ b2)
    (hc : 0 < c) (hs : 0 < s) (hcs : c ^ 2 + s ^ 2 = 1)
    (h1 : |t1| ≤ a1 + |c| * b1 + |s| * b2)
    (h2 : |t2| ≤ a2 + |s| * b1 + |c| * b2)
    (h3 : |t1 * c + t2 * s| ≤ b1 + |c| * a1 + |s| * a2)
    (h4 : |-t1 * s + t2 * c| ≤ b2 + |s| * a1 + |c| * a2) :
    ∃ x y, |x| ≤ b1 ∧ |y| ≤ b2 ∧ |t1 + x * c - y * s| ≤ a1 ∧ |t2 + x * s + y * c| ≤ a2 := by
  rw [abs_of_pos hc, abs_of_pos hs] at h1 h2 h3 h4
  exact sat_core_pos a1 a2 b1 b2 c s t1 t2 ha1 ha2 hb1 hb2 hc hs hcs h1 h2 h3 h4

/-- Separating-axis core when box B is aligned with box A (`s = 0`). -/
theorem sat_core_aligned (a1 a2 b1 b2 c t1 t2 : K)
    (ha1 : 0 ≤ a1) (ha2 : 0 ≤ a2) (hb1 : 0 ≤ b1) (hb2 : 0 ≤ b2)
    (hcs : c ^ 2 + (0 : K) ^ 2 = 1)
    (h1 : |t1| ≤ a1 + |c| * b1 + |(0 : K)| * b2)
    (h2 : |t2| ≤ a2 + |(0 : K)| * b1 + |c| * b2) :
    ∃ x y, |x| ≤ b1 ∧ |y| ≤ b2 ∧ |t1 + x * c - y * 0| ≤ a1 ∧ |t2 + x * 0 + y * c| ≤ a2 := by
  have hcc : c * c = 1 := by nlinarith
  have habs : |c| = 1 := by
    have h := abs_mul_abs_self c
    rw [hcc] at h
    have hnn := abs_nonneg c
    nlinarith
  rw [habs, abs_zero] at h1 h2
  obtain ⟨h1l, h1u⟩ := abs_le.mp h1
  obtain ⟨h2l, h2u⟩ := abs_le.mp h2
  obtain ⟨x, hx⟩ := exists_scaled_between ![1, 1] ![-b1, -a1 - t1] ![b1, a1 - t1]
    (by intro i; fin_cases i <;> simp)
    (by intro i j; fin_cases i <;> fin_cases j <;> simp <;> linarith)
  obtain ⟨y, hy⟩ := exists_scaled_between ![1, 1] ![-b2, -a2 - t2] ![b2, a2 - t2]
    (by intro i; fin_cases i <;> simp)
    (by intro i j; fin_cases i <;> fin_cases j <;> simp <;> linarith)
  have x1 := hx 0
  have x2 := hx 1
  have y1 := hy 0
  have y2 := hy 1
  simp at x1 x2 y1 y2
  refine ⟨c * x, c * y, ?_, ?_, ?_, ?_⟩
  · rw [abs_mul, habs, one_mul]; exact abs_le.mpr ⟨x1.1, x1.2⟩
  · rw [abs_mul, habs, one_mul]; exact abs_le.mpr ⟨y1.1, y1.2⟩
  · have : t1 + c * x * c - c * y * 0 = t1 + x := by linear_combination x * hcc
    rw [this]; exact abs_le.mpr ⟨by linarith, by linarith⟩
  · have : t2 + c * x * 0 + c * y * c = t2 + y := by linear_combination y * hcc
    rw [this]; exact abs_le.mpr ⟨by linarith, by linarith⟩

/-- Relabelling box B's axes by a quarter turn (`(c, s)` becomes `(s, -c)`,
the half-extents swap) carries a common point to a common point. -/
theorem sat_core_rot (a1 a2 b1 b2 c s t1 t2 : K)
    (h1 : |t1| ≤ a1 + |c| * b1 + |s| * b2)
    (h2 : |t2| ≤ a2 + |s| * b1 + |c| * b2)
    (h3 : |t1 * c + t2 * s| ≤ b1 + |c| * a1 + |s| * a2)
    (h4 : |-t1 * s + t2 * c| ≤ b2 + |s| * a1 + |c| * a2)
    (ih : |t1| ≤ a1 + |s| * b2 + |-c| * b1 → |t2| ≤ a2 + |-c| * b2 + |s| * b1 →
      |t1 * s + t2 * -c| ≤ b2 + |s| * a1 + |-c| * a2 →
      |-t1 * -c + t2 * s| ≤ b1 + |-c| * a1 + |s| * a2 →
      ∃ x y, |x| ≤ b2 ∧ |y| ≤ b1 ∧ |t1 + x * s - y * -c| ≤ a1 ∧ |t2 + x * -c + y * s| ≤ a2) :
    ∃ x y, |x| ≤ b1 ∧ |y| ≤ b2 ∧ |t1 + x * c - y * s| ≤ a1 ∧ |t2 + x * s + y * c| ≤ a2 := by
  have g1 : |t1| ≤ a1 + |s| * b2 + |-c| * b1 := by rw [abs_neg]; linarith
  have g2 : |t2| ≤ a2 + |-c| * b2 + |s| * b1 := by rw [abs_neg]; linarith
  have g3 : |t1 * s + t2 * -c| ≤ b2 + |s| * a1 + |-c| * a2 := by
    have : t1 * s + t2 * -c = -(-t1 * s + t2 * c) := by ring
    rw [this, abs_neg, abs_neg]; exact h4
  have g4 : |-t1 * -c + t2 * s| ≤ b1 + |-c| * a1 + |s| * a2 := by
    have : -t1 * -c + t2 * s = t1 * c + t2 * s := by ring
    rw [this, abs_neg]; exact h3
  obtain ⟨x, y, hx, hy, hA1, hA2⟩ := ih g1 g2 g3 g4
  refine ⟨y, -x, hy, by rw [abs_neg]; exact hx, ?_, ?_⟩
  · have : t1 + y * c - -x * s = t1 + x * s - y * -c := by ring
    rw [this]; exact hA1
  · have : t2 + y * s + -x * c = t2 + x * -c + y * s := by ring
    rw [this]; exact hA2

/-- Separating-axis theorem for two rectangles, in the frame of box A: if the
projections overlap on the four axes (A's two axes and B's two axes `(c, s)`,
`(-s, c)`), some point `t + x (c, s) + y (-s, c)` of box B, `|x| ≤ b1`,
`|y| ≤ b2`, lies in box A. -/
theorem sat_core (a1 a2 b1 b2 c s t1 t2 : K)
    (ha1 : 0 ≤ a1) (ha2 : 0 ≤ a2) (hb1 : 0 ≤ b1) (hb2 : 0 ≤ b2)
    (hcs : c ^ 2 + s ^ 2 = 1)
    (h1 : |t1| ≤ a1 + |c| * b1 + |s| * b2)
    (h2 : |t2| ≤ a2 + |s| * b1 + |c| * b2)
    (h3 : |t1 * c + t2 * s| ≤ b1 + |c| * a1 + |s| * a2)
    (h4 : |-t1 * s + t2 * c| ≤ b2 + |s| * a1 + |c| * a2) :
    ∃ x y, |x| ≤ b1 ∧ |y| ≤ b2 ∧ |t1 + x * c - y * s| ≤ a1 ∧ |t2 + x * s + y * c| ≤ a2 := by
  rcases lt_trichotomy s 0 with hs | hs | hs
  · rcases lt_trichotomy c 0 with hc | hc | hc
    · -- c < 0, s < 0 : two quarter turns
      refine sat_core_rot a1 a2 b1 b2 c s t1 t2 h1 h2 h3 h4 (fun g1 g2 g3 g4 => ?_)
      refine sat_core_rot a1 a2 b2 b1 s (-c) t1 t2 g1 g2 g3 g4 (fun k1 k2 k3 k4 => ?_)
      exact sat_core_pos_abs a1 a2 b1 b2 (-c) (-s) t1 t2 ha1 ha2 hb1 hb2 (neg_pos.mpr hc)
        (neg_pos.mpr hs) (by rw [neg_sq, neg_sq]; exact hcs) k1 k2 k3 k4
    · -- c = 0 : one quarter turn gives an aligned box
      subst hc
      refine sat_core_rot a1 a2 b1 b2 0 s t1 t2 h1 h2 h3 h4 (fun g1 g2 _ _ => ?_)
      rw [neg_zero] at g1 g2 ⊢
      exact sat_core_aligned a1 a2 b2 b1 s t1 t2 ha1 ha2 hb2 hb1
        (by rw [add_comm]; exact hcs) g1 g2
    · -- c > 0, s < 0 : three quarter turns
      refine sat_core_rot a1 a2 b1 b2 c s t1 t2 h1 h2 h3 h4 (fun g1 g2 g3 g4 => ?_)
      refine sat_core_rot a1 a2 b2 b1 s (-c) t1 t2 g1 g2 g3 g4 (fun k1 k2 k3 k4 => ?_)
      refine sat_core_rot a1 a2 b1 b2 (-c) (-s) t1 t2 k1 k2 k3 k4 (fun l1 l2 l3 l4 => ?_)
      exact sat_core_pos_abs a1 a2 b2 b1 (-s) (- -c) t1 t2 ha1 ha2 hb2 hb1 (neg_pos.mpr hs)
        (by rw [neg_neg]; exact hc) (by rw [neg_sq, neg_sq, neg_sq, add_comm]; exact hcs)
        l1 l2 l3 l4
  · subst hs
    exact sat_core_aligned a1 a2 b1 b2 c t1 t2 ha1 ha2 hb1 hb2 hcs h1 h2
  · rcases lt_trichotomy c 0 with hc | hc | hc
    · -- c < 0, s > 0 : one quarter turn
      refine sat_core_rot a1 a2 b1 b2 c s t1 t2 h1 h2 h3 h4 (fun g1 g2 g3 g4 => ?_)
      exact sat_core_pos_abs a1 a2 b2 b1 s (-c) t1 t2 ha1 ha2 hb2 hb1 hs (neg_pos.mpr hc)
        (by rw [neg_sq, add_comm]; exact hcs) g1 g2 g3 g4
    · subst hc
      refine sat_core_rot a1 a2 b1 b2 0 s t1 t2 h1 h2 h3 h4 (fun g1 g2 _ _ => ?_)
      rw [neg_zero] at g1 g2 ⊢
      exact sat_core_aligned a1 a2 b2 b1 s t1 t2 ha1 ha2 hb2 hb1
        (by rw [add_comm]; exact hcs) g1 g2
    · exact sat_core_pos_abs a1 a2 b1 b2 c s t1 t2 ha1 ha2 hb1 hb2 hc hs hcs h1 h2 h3 h4

/-- The four axis overlaps, with exact unit axes, written in the frame of box
A: `c`, `s` are the components of B's x axis and `t1`, `t2` those of the centre
offset in A's frame. -/
theorem axisOverlap_frame (L : Libm K) (ac aHalf : Vec2 K) (aRot : K) (bc bHalf : Vec2 K)
    (bRot : K)
    (hA : L.cos (DegToRad aRot) ^ 2 + L.sin (DegToRad aRot) ^ 2 = 1)
    (hB : L.cos (DegToRad bRot) ^ 2 + L.sin (DegToRad bRot) ^ 2 = 1) :
    axisOverlap L ac aHalf aRot bc bHalf bRot 0 =
      aHalf.x + |Dot (OBBBases L bRot).x (OBBBases L aRot).x| * bHalf.x +
        |Dot (OBBBases L bRot).x (OBBBases L aRot).y| * bHalf.y -
        |Dot (bc - ac) (OBBBases L aRot).x| ∧
    axisOverlap L ac aHalf aRot bc bHalf bRot 1 =
      aHalf.y + |Dot (OBBBases L bRot).x (OBBBases L aRot).y| * bHalf.x +
        |Dot (OBBBases L bRot).x (OBBBases L aRot).x| * bHalf.y -
        |Dot (bc - ac) (OBBBases L aRot).y| ∧
    axisOverlap L ac aHalf aRot bc bHalf bRot 2 =
      bHalf.x + |Dot (OBBBases L bRot).x (OBBBases L aRot).x| * aHalf.x +
        |Dot (OBBBases L bRot).x (OBBBases L aRot).y| * aHalf.y -
        |Dot (bc - ac) (OBBBases L aRot).x * Dot (OBBBases L bRot).x (OBBBases L aRot).x +
          Dot (bc - ac) (OBBBases L aRot).y * Dot (OBBBases L bRot).x (OBBBases L aRot).y| ∧
    axisOverlap L ac aHalf aRot bc bHalf bRot 3 =
      bHalf.y + |Dot (OBBBases L bRot).x (OBBBases L aRot).y| * aHalf.x +
        |Dot (OBBBases L bRot).x (OBBBases L aRot).x| * aHalf.y -
        |-Dot (bc - ac) (OBBBases L aRot).x * Dot (OBBBases L bRot).x (OBBBases L aRot).y +
          Dot (bc - ac) (OBBBases L aRot).y * Dot (OBBBases L bRot).x (OBBBases L aRot).x| := by
  simp only [axisOverlap, List.getD_cons_zero, List.getD_cons_succ, ProjectRadius, OBBBases,
    Dot, Vec2.sub_x, Vec2.sub_y]
  generalize L.cos (DegToRad aRot) = ca at hA ⊢
  generalize L.sin (DegToRad aRot) = sa at hA ⊢
  generalize L.cos (DegToRad bRot) = cb at hB ⊢
  generalize L.sin (DegToRad bRot) = sb at hB ⊢
  have ua : ca * ca + sa * sa = 1 := by linear_combination hA
  have ub : cb * cb + sb * sb = 1 := by linear_combination hB
  have oa : ca * -sa + sa * ca = 0 := by ring
  have oa' : -sa * ca + ca * sa = 0 := by ring
  have ub' : -sb * -sb + cb * cb = 1 := by linear_combination hB
  have ua' : -sa * -sa + ca * ca = 1 := by linear_combination hA
  have ob : cb * -sb + sb * cb = 0 := by ring
  have ob' : -sb * cb + cb * sb = 0 := by ring
  refine ⟨?_, ?_, ?_, ?_⟩
  · rw [ua, oa, abs_one, abs_zero]
    have e1 : ca * cb + sa * sb = cb * ca + sb * sa := by ring
    have e2 : ca * -sb + sa * cb = -(cb * -sa + sb * ca) := by ring
    rw [e1, e2, abs_neg]
    ring
  · rw [oa', ua', abs_one, abs_zero]
    have e1 : -sa * cb + ca * sb = cb * -sa + sb * ca := by ring
    have e2 : -sa * -sb + ca * cb = cb * ca + sb * sa := by ring
    rw [e1, e2]
    ring
  · rw [ub, ob, abs_one, abs_zero]
    have e3 : (bc.x - ac.x) * cb + (bc.y - ac.y) * sb =
        ((bc.x - ac.x) * ca + (bc.y - ac.y) * sa) * (cb * ca + sb * sa) +
          ((bc.x - ac.x) * -sa + (bc.y - ac.y) * ca) * (cb * -sa + sb * ca) := by
      linear_combination (-((bc.x - ac.x) * cb + (bc.y - ac.y) * sb)) * hA
    rw [e3]
    ring
  · rw [ob', ub', abs_one, abs_zero]
    have e1 : -sb * ca + cb * sa = -(cb * -sa + sb * ca) := by ring
    have e2 : -sb * -sa + cb * ca = cb * ca + sb * sa := by ring
    have e3 : (bc.x - ac.x) * -sb + (bc.y - ac.y) * cb =
        -((bc.x - ac.x) * ca + (bc.y - ac.y) * sa) * (cb * -sa + sb * ca) +
          ((bc.x - ac.x) * -sa + (bc.y - ac.y) * ca) * (cb * ca + sb * sa) := by
      linear_combination (-((bc.x - ac.x) * -sb + (bc.y - ac.y) * cb)) * hA
    rw [e1, e2, e3, abs_neg]
    ring

/-- The components of B's x axis in A's frame satisfy `c^2 + s^2 = 1`. -/
theorem frame_unit (L : Libm K) (aRot bRot : K)
    (hA : L.cos (DegToRad aRot) ^ 2 + L.sin (DegToRad aRot) ^ 2 = 1)
    (hB : L.cos (DegToRad bRot) ^ 2 + L.sin (DegToRad bRot) ^ 2 = 1) :
    Dot (OBBBases L bRot).x (OBBBases L aRot).x ^ 2 +
      Dot (OBBBases L bRot).x (OBBBases L aRot).y ^ 2 = 1 := by
  simp only [OBBBases, Dot]
  generalize L.cos (DegToRad aRot) = ca at hA ⊢
  generalize L.sin (DegToRad aRot) = sa at hA ⊢
  generalize L.cos (DegToRad bRot) = cb at hB ⊢
  generalize L.sin (DegToRad bRot) = sb at hB ⊢
  linear_combination (cb ^ 2 + sb ^ 2) * hA + hB

/-- C5: whenever `Contact_OBB_OBB` reports a contact for two oriented boxes
with non-negative half-extents (exact unit axes), the two boxes really overlap:
some point of the plane lies in both boxes. -/
theorem box_box_hit_implies_overlap (L : Libm K) (ac aHalf : Vec2 K) (aRot : K)
    (bc bHalf : Vec2 K) (bRot : K) (out : ContactPoint K)
    (hA : L.cos (DegToRad aRot) ^ 2 + L.sin (DegToRad aRot) ^ 2 = 1)
    (hB : L.cos (DegToRad bRot) ^ 2 + L.sin (DegToRad bRot) ^ 2 = 1)
    (hsqrt : L.sqrt 1 = 1)
    (hax : 0 ≤ aHalf.x) (hay : 0 ≤ aHalf.y) (hbx : 0 ≤ bHalf.x) (hby : 0 ≤ bHalf.y)
    (hhit : (Contact_OBB_OBB L ac aHalf aRot bc bHalf bRot out).1 = true) :
    ∃ p, InOBB L ac aHalf aRot p ∧ InOBB L bc bHalf bRot p := by
  rw [Contact_OBB_OBB_hit_iff, obbLoop_isSome_iff] at hhit
  have pe := iterPen_eq_axisOverlap L ac aHalf aRot bc bHalf bRot hA hB hsqrt
  obtain ⟨o0, o1, o2, o3⟩ := axisOverlap_frame L ac aHalf aRot bc bHalf bRot hA hB
  have p0 := hhit 0 (by norm_num)
  have p1 := hhit 1 (by norm_num)
  have p2 := hhit 2 (by norm_num)
  have p3 := hhit 3 (by norm_num)
  rw [pe 0 (by norm_num), o0] at p0
  rw [pe 1 (by norm_num), o1] at p1
  rw [pe 2 (by norm_num), o2] at p2
  rw [pe 3 (by norm_num), o3] at p3
  obtain ⟨x, y, hx, hy, h1, h2⟩ := sat_core aHalf.x aHalf.y bHalf.x bHalf.y
    (Dot (OBBBases L bRot).x (OBBBases L aRot).x) (Dot (OBBBases L bRot).x (OBBBases L aRot).y)
    (Dot (bc - ac) (OBBBases L aRot).x) (Dot (bc - ac) (OBBBases L aRot).y)
    hax hay hbx hby (frame_unit L aRot bRot hA hB)
    (by linarith) (by linarith) (by linarith) (by linarith)
  refine ⟨LocalToWorld ⟨x, y⟩ bc (OBBBases L bRot), ?_, ?_⟩
  · unfold InOBB
    have ex : (WorldToLocal (LocalToWorld ⟨x, y⟩ bc (OBBBases L bRot)) ac (OBBBases L aRot)).x =
        Dot (bc - ac) (OBBBases L aRot).x + x * Dot (OBBBases L bRot).x (OBBBases L aRot).x -
          y * Dot (OBBBases L bRot).x (OBBBases L aRot).y := by
      simp only [WorldToLocal, LocalToWorld, OBBBases, Dot, Vec2.add_x, Vec2.add_y, Vec2.sub_x,
        Vec2.sub_y, Vec2.mul_x, Vec2.mul_y]
      ring
    have ey : (WorldToLocal (LocalToWorld ⟨x, y⟩ bc (OBBBases L bRot)) ac (OBBBases L aRot)).y =
        Dot (bc - ac) (OBBBases L aRot).y + x * Dot (OBBBases L bRot).x (OBBBases L aRot).y +
          y * Dot (OBBBases L bRot).x (OBBBases L aRot).x := by
      simp only [WorldToLocal, LocalToWorld, OBBBases, Dot, Vec2.add_x, Vec2.add_y, Vec2.sub_x,
        Vec2.sub_y, Vec2.mul_x, Vec2.mul_y]
      ring
    rw [ex, ey]
    exact ⟨h1, h2⟩
  · unfold InOBB
    rw [WorldToLocal_LocalToWorld L bRot _ bc hB]
    exact ⟨hx, hy⟩

/-- Witness for `box_box_hit_implies_overlap`: unit boxes at `(0, 0)` and
`(1, 0)` with the exact real libm. -/
theorem box_box_hit_implies_overlap_witness :
    ((0 : ℝ) ≤ 1 ∧
      (Contact_OBB_OBB (Libm.mk Real.sqrt Real.cos Real.sin) ⟨0, 0⟩ ⟨1, 1⟩ 0 ⟨1, 0⟩ ⟨1, 1⟩ 0
        cp0).1 = true) ∧
    ∃ p, InOBB (Libm.mk Real.sqrt Real.cos Real.sin) ⟨0, 0⟩ ⟨1, 1⟩ 0 p ∧
      InOBB (Libm.mk Real.sqrt Real.cos Real.sin) ⟨1, 0⟩ ⟨1, 1⟩ 0 p :=
  ⟨⟨zero_le_one,
      (Contact_OBB_OBB_unrotated_x (Libm.mk Real.sqrt Real.cos Real.sin)
        ⟨0, 0⟩ ⟨1, 1⟩ ⟨1, 0⟩ ⟨1, 1⟩ cp0 real_cos_zero real_sin_zero real_sqrt_one
        (by norm_num) (by norm_num) (by norm_num [kTieEps]) (by norm_num [kTieEps])).1⟩,
    box_box_hit_implies_overlap (Libm.mk Real.sqrt Real.cos Real.sin) ⟨0, 0⟩ ⟨1, 1⟩ 0 ⟨1, 0⟩
      ⟨1, 1⟩ 0 cp0 (Real.cos_sq_add_sin_sq _) (Real.cos_sq_add_sin_sq _) real_sqrt_one
      zero_le_one zero_le_one zero_le_one zero_le_one
      (Contact_OBB_OBB_unrotated_x (Libm.mk Real.sqrt Real.cos Real.sin)
        ⟨0, 0⟩ ⟨1, 1⟩ ⟨1, 0⟩ ⟨1, 1⟩ cp0 real_cos_zero real_sin_zero real_sqrt_one
        (by norm_num) (by norm_num) (by norm_num [kTieEps]) (by norm_num [kTieEps])).1⟩

/-! ### Swapping two tied boxes (C3) -/

/-- The normal written by `Contact_Circle_Circle` has a non-negative dot
product with `cb - ca` whenever the computed distance exceeds the `1e-6`
guard. -/
theorem Contact_Circle_Circle_normal_dot (L : Libm K) (ca : Vec2 K) (ra : K) (cb : Vec2 K)
    (rb : K) (out : ContactPoint K)
    (hd : 1e-6 < L.sqrt (max (Dot (cb - ca) (cb - ca)) 1e-8))
    (hit : (Contact_Circle_Circle L ca ra cb rb out).1 = true) :
    0 ≤ Dot (Contact_Circle_Circle L ca ra cb rb out).2.normalA (cb - ca) := by
  have hpos : 0 < L.sqrt (max (Dot (cb - ca) (cb - ca)) 1e-8) :=
    lt_trans (by norm_num) hd
  by_cases h : Dot (cb - ca) (cb - ca) ≥ (ra + rb) * (ra + rb)
  · simp [Contact_Circle_Circle, h] at hit
  · simp only [Contact_Circle_Circle, if_neg h, gt_iff_lt, if_pos hd]
    simp only [Dot, Vec2.div_x, Vec2.div_y]
    have e : (cb - ca).x / L.sqrt (max (Dot (cb - ca) (cb - ca)) 1e-8) * (cb - ca).x +
        (cb - ca).y / L.sqrt (max (Dot (cb - ca) (cb - ca)) 1e-8) * (cb - ca).y =
        ((cb - ca).x * (cb - ca).x + (cb - ca).y * (cb - ca).y) /
          L.sqrt (max (Dot (cb - ca) (cb - ca)) 1e-8) := by ring
    simp only [Dot] at e ⊢
    rw [e]
    exact div_nonneg (add_nonneg (mul_self_nonneg _) (mul_self_nonneg _)) hpos.le

/-- Evaluation of `Contact_OBB_Circle` for a circle of radius 1 centred at
`(1, 0)` inside the unrotated box with half-extents `(2, 2)` at the origin. -/
theorem Contact_OBB_Circle_inside_right (L : Libm K) (out : ContactPoint K)
    (hc : L.cos 0 = 1) (hs : L.sin 0 = 0) (hsqrt : L.sqrt 1 = 1) :
    Contact_OBB_Circle L ⟨1, 0⟩ 1 ⟨0, 0⟩ ⟨2, 2⟩ 0 out =
      (true, { out with penetration := 2, normalA := ⟨1, 0⟩, point := ⟨2, 0⟩ }) := by
  have h1 : ¬ ((1 : K) ≤ 1e-12) := by norm_num
  have c0 : ClampF (0 : K) (-2) 2 = 0 := by norm_num [ClampF]
  have c1 : ClampF (1 : K) (-2) 2 = 1 := by norm_num [ClampF]
  simp [Contact_OBB_Circle, OBBBases_zero L hc hs, LocalToWorld, WorldToLocal, ClampV, c0, c1,
    Dot, NormalizeSafe, kTieEps, hsqrt, h1]
  norm_num
  constructor
  · ext <;> simp
  · ext <;> simp [hsqrt]

/-- C11 (evaluation of the code): a circle (shape A) of radius 1 centred at
`(1, 0)`, inside the unrotated box (shape B) with half-extents `(2, 2)` centred
at the origin.  The inside branch reports the outward normal of the nearest
face, `(1, 0)`, whose dot product with (centre of B - centre of A) `= (-1, 0)`
is `-1`: the normal points from the box centre to the circle, not from A to
B. -/
theorem circle_box_inside_normal_points_away :
    (Contact_OBB_Circle (Libm.mk Real.sqrt Real.cos Real.sin) ⟨1, 0⟩ 1 ⟨0, 0⟩ ⟨2, 2⟩ 0
        cp0).1 = true ∧
    (Contact_OBB_Circle (Libm.mk Real.sqrt Real.cos Real.sin) ⟨1, 0⟩ 1 ⟨0, 0⟩ ⟨2, 2⟩ 0
        cp0).2.normalA = ⟨1, 0⟩ ∧
    Dot (Contact_OBB_Circle (Libm.mk Real.sqrt Real.cos Real.sin) ⟨1, 0⟩ 1 ⟨0, 0⟩ ⟨2, 2⟩ 0
        cp0).2.normalA ((⟨0, 0⟩ : Vec2 ℝ) - ⟨1, 0⟩) = -1 ∧
    ¬ (0 ≤ Dot (Contact_OBB_Circle (Libm.mk Real.sqrt Real.cos Real.sin) ⟨1, 0⟩ 1 ⟨0, 0⟩
        ⟨2, 2⟩ 0 cp0).2.normalA ((⟨0, 0⟩ : Vec2 ℝ) - ⟨1, 0⟩)) := by
  rw [Contact_OBB_Circle_inside_right _ _ real_cos_zero real_sin_zero real_sqrt_one]
  refine ⟨rfl, rfl, ?_, ?_⟩ <;> simp [Dot]

/-! ### Sign of the reported penetration (C12) -/

/-- C12 (evaluation of the code): two circles of radius `1e-5` with the same
centre.  `distSq = 0 < r * r = 4e-10`, so a contact is reported; the clamp
`std::max(distSq, 1e-8f)` makes `dist = 1e-4`, and the reported penetration
`r - dist = 2e-5 - 1e-4` is negative. -/
theorem circle_circle_tiny_negative_penetration :
    (Contact_Circle_Circle (Libm.mk Real.sqrt Real.cos Real.sin) ⟨0, 0⟩ 1e-5 ⟨0, 0⟩ 1e-5
        cp0).1 = true ∧
    (Contact_Circle_Circle (Libm.mk Real.sqrt Real.cos Real.sin) ⟨0, 0⟩ 1e-5 ⟨0, 0⟩ 1e-5
        cp0).2.penetration = -8e-5 ∧
    (Contact_Circle_Circle (Libm.mk Real.sqrt Real.cos Real.sin) ⟨0, 0⟩ 1e-5 ⟨0, 0⟩ 1e-5
        cp0).2.penetration < 0 := by
  have h := Contact_Circle_Circle_coincident (Libm.mk Real.sqrt Real.cos Real.sin)
    ⟨0, 0⟩ 1e-5 1e-5 cp0 (by norm_num) real_sqrt_1e8
  refine ⟨h.1, ?_, ?_⟩
  · rw [h.2.2]; norm_num
  · rw [h.2.2]; norm_num

/-- The penetration reported by `Contact_OBB_Circle` is never negative. -/
theorem Contact_OBB_Circle_penetration_nonneg (L : Libm K) (cc : Vec2 K) (r : K)
    (bc half : Vec2 K) (rotDeg : K) (out : ContactPoint K)
    (hit : (Contact_OBB_Circle L cc r bc half rotDeg out).1 = true) :
    0 ≤ (Contact_OBB_Circle L cc r bc half rotDeg out).2.penetration := by
  unfold Contact_OBB_Circle at hit ⊢
  dsimp only at hit ⊢
  split_ifs at hit ⊢ with h1 h2
  all_goals first
    | exact (not_le.mp h2).le
    | exact le_max_right _ _

/-! ### Shapes with zero extents (C13) -/

/-- Two boxes that both have half-extents `(0, 0)` never report a contact:
the overlap along the first axis is `-|d . axis| <= 0`. -/
theorem Contact_OBB_OBB_zero_zero (L : Libm K) (ac : Vec2 K) (aRotDeg : K) (bc : Vec2 K)
    (bRotDeg : K) (out : ContactPoint K) :
    (Contact_OBB_OBB L ac ⟨0, 0⟩ aRotDeg bc ⟨0, 0⟩ bRotDeg out).1 = false := by
  rw [Bool.eq_false_iff]
  intro h
  have h0 := (obbLoop_isSome_iff L ac ⟨0, 0⟩ aRotDeg bc ⟨0, 0⟩ bRotDeg).mp
    ((Contact_OBB_OBB_hit_iff L ac ⟨0, 0⟩ aRotDeg bc ⟨0, 0⟩ bRotDeg out).mp h) 0 (by norm_num)
  simp only [iterPen, ProjectRadius, mul_zero, add_zero, zero_sub] at h0
  linarith [abs_nonneg (Dot (bc - ac) (iterAxis L [(OBBBases L aRotDeg).x,
    (OBBBases L aRotDeg).y, (OBBBases L bRotDeg).x, (OBBBases L bRotDeg).y] 0))]

/-- C13 (counterexample): a circle of radius 0 placed at the centre of a
unit circle is reported as a contact by `Contact_Circle_Circle`. -/
theorem zero_radius_circle_inside_circle_hits :
    (Contact_Circle_Circle (Libm.mk Real.sqrt Real.cos Real.sin) ⟨0, 0⟩ 0 ⟨0, 0⟩ 1
        cp0).1 = true :=
  (Contact_Circle_Circle_coincident (Libm.mk Real.sqrt Real.cos Real.sin)
    ⟨0, 0⟩ 0 1 cp0 (by norm_num) real_sqrt_1e8).1

/-- C13 (amended): a shape with zero extents is treated as a point.  A circle
of radius 0 against a circle of radius `rb` reports a contact exactly when its
centre lies strictly inside the other circle, hence never when `rb = 0` too;
two boxes with half-extents `(0, 0)` never report a contact; and a circle of
radius 0 whose centre is farther than `1e-6` from a box (squared distance to
the closest box point above `1e-12`) reports no contact with it. -/
theorem zero_extent_contacts (L : Libm K) (ca cb : Vec2 K) (rb : K) (ac bc : Vec2 K)
    (aRotDeg bRotDeg : K) (cc xc half : Vec2 K) (rotDeg : K) (out : ContactPoint K)
    (hfar : 1e-12 < Dot (closestWorld L cc xc half rotDeg - cc)
      (closestWorld L cc xc half rotDeg - cc))
    (hsqrt : 0 ≤ L.sqrt (Dot (closestWorld L cc xc half rotDeg - cc)
      (closestWorld L cc xc half rotDeg - cc))) :
    ((Contact_Circle_Circle L ca 0 cb rb out).1 = true ↔
        Dot (cb - ca) (cb - ca) < rb * rb) ∧
    (Contact_Circle_Circle L ca 0 cb 0 out).1 = false ∧
    (Contact_OBB_OBB L ac ⟨0, 0⟩ aRotDeg bc ⟨0, 0⟩ bRotDeg out).1 = false ∧
    (Contact_OBB_Circle L cc 0 xc half rotDeg out).1 = false := by
  refine ⟨?_, ?_, Contact_OBB_OBB_zero_zero L ac aRotDeg bc bRotDeg out, ?_⟩
  · by_cases h : Dot (cb - ca) (cb - ca) ≥ (0 + rb) * (0 + rb)
    · simp only [Contact_Circle_Circle, if_pos h]
      simp only [zero_add] at h
      simp [not_lt.mpr h]
    · simp only [Contact_Circle_Circle, if_neg h]
      simp only [zero_add, ge_iff_le, not_le] at h
      simp [h]
  · have h : Dot (cb - ca) (cb - ca) ≥ (0 + 0) * (0 + 0) := by
      simp only [add_zero, mul_zero]
      simp only [Dot]
      nlinarith [mul_self_nonneg (cb - ca).x, mul_self_nonneg (cb - ca).y]
    simp only [Contact_Circle_Circle, if_pos h]
  · unfold closestWorld at hfar hsqrt
    have hp : (0 : K) - L.sqrt (Dot (LocalToWorld (ClampV (WorldToLocal cc xc
        (OBBBases L rotDeg)) ⟨-half.x, -half.y⟩ ⟨half.x, half.y⟩) xc (OBBBases L rotDeg) - cc)
        (LocalToWorld (ClampV (WorldToLocal cc xc (OBBBases L rotDeg)) ⟨-half.x, -half.y⟩
        ⟨half.x, half.y⟩) xc (OBBBases L rotDeg) - cc)) ≤ 0 := by linarith
    simp only [Contact_OBB_Circle, gt_iff_lt, if_pos hfar, if_pos hp]

/-- Witness for `zero_extent_contacts`: a point circle at `(3, 0)` and the
unrotated unit box at the origin, exact real libm. -/
theorem zero_extent_contacts_witness :
    (1e-12 : ℝ) < Dot
      (closestWorld (Libm.mk Real.sqrt Real.cos Real.sin) ⟨3, 0⟩ ⟨0, 0⟩ ⟨1, 1⟩ 0 - ⟨3, 0⟩)
      (closestWorld (Libm.mk Real.sqrt Real.cos Real.sin) ⟨3, 0⟩ ⟨0, 0⟩ ⟨1, 1⟩ 0 - ⟨3, 0⟩) ∧
    (((Contact_Circle_Circle (Libm.mk Real.sqrt Real.cos Real.sin) ⟨0, 0⟩ 0 ⟨1, 0⟩ 2
          cp0).1 = true ↔
        Dot ((⟨1, 0⟩ : Vec2 ℝ) - ⟨0, 0⟩) (⟨1, 0⟩ - ⟨0, 0⟩) < 2 * 2) ∧
    (Contact_Circle_Circle (Libm.mk Real.sqrt Real.cos Real.sin) ⟨0, 0⟩ 0 ⟨1, 0⟩ 0
        cp0).1 = false ∧
    (Contact_OBB_OBB (Libm.mk Real.sqrt Real.cos Real.sin) ⟨0, 0⟩ ⟨0, 0⟩ 0 ⟨0, 0⟩ ⟨0, 0⟩ 0
        cp0).1 = false ∧
    (Contact_OBB_Circle (Libm.mk Real.sqrt Real.cos Real.sin) ⟨3, 0⟩ 0 ⟨0, 0⟩ ⟨1, 1⟩ 0
        cp0).1 = false) := by
  have hfar : (1e-12 : ℝ) < Dot
      (closestWorld (Libm.mk Real.sqrt Real.cos Real.sin) ⟨3, 0⟩ ⟨0, 0⟩ ⟨1, 1⟩ 0 - ⟨3, 0⟩)
      (closestWorld (Libm.mk Real.sqrt Real.cos Real.sin) ⟨3, 0⟩ ⟨0, 0⟩ ⟨1, 1⟩ 0 - ⟨3, 0⟩) := by
    rw [closestWorld_unrotated _ _ _ _ real_cos_zero real_sin_zero]
    have c0 : ClampF (0 : ℝ) (-1) 1 = 0 := by norm_num [ClampF]
    have c3 : ClampF (3 : ℝ) (-1) 1 = 1 := by norm_num [ClampF]
    simp only [sub_zero, c0, c3, Dot, Vec2.sub_x, Vec2.sub_y, Vec2.add_x, Vec2.add_y]
    norm_num
  exact ⟨hfar, zero_extent_contacts (Libm.mk Real.sqrt Real.cos Real.sin) ⟨0, 0⟩ ⟨1, 0⟩ 2
    ⟨0, 0⟩ ⟨0, 0⟩ 0 0 ⟨3, 0⟩ ⟨0, 0⟩ ⟨1, 1⟩ 0 cp0 hfar (Real.sqrt_nonneg _)⟩

/-! ### Pair keys (C14) -/

/-- For 32-bit ids the key is `2^32 * max + min`. -/
theorem MakeKey_eq (a b : Nat) (ha : a < 2 ^ 32) (hb : b < 2 ^ 32) :
    MakeKey_ a b = 2 ^ 32 * (if a < b then b else a) + (if a < b then a else b) := by
  have hlo : (if a < b then a else b) < 2 ^ 32 := by split_ifs <;> assumption
  have hhi : (if a < b then b else a) < 2 ^ 32 := by split_ifs <;> assumption
  have e1 : (if a < b then a else b) % 2 ^ 64 = (if a < b then a else b) :=
    Nat.mod_eq_of_lt (lt_trans hlo (by norm_num))
  have e2 : (if a < b then b else a) % 2 ^ 64 = (if a < b then b else a) :=
    Nat.mod_eq_of_lt (lt_trans hhi (by norm_num))
  have e3 : ((if a < b then b else a) <<< 32) % 2 ^ 64 = 2 ^ 32 * (if a < b then b else a) := by
    rw [Nat.shiftLeft_eq, Nat.mul_comm]
    apply Nat.mod_eq_of_lt
    calc 2 ^ 32 * (if a < b then b else a) < 2 ^ 32 * 2 ^ 32 :=
          Nat.mul_lt_mul_of_pos_left hhi (by norm_num)
      _ = 2 ^ 64 := by norm_num
  simp only [MakeKey_, Nat.mod_eq_of_lt ha, Nat.mod_eq_of_lt hb, e1, e2, e3]
  exact (Nat.mul_add_lt_is_or hlo _).symm

/-- C14: for 32-bit entity ids the pair key does not depend on the order of
the two ids, and two pairs with the same key are the same unordered pair. -/
theorem pair_key_identifies_unordered_pair (a b c d : Nat)
    (ha : a < 2 ^ 32) (hb : b < 2 ^ 32) (hc : c < 2 ^ 32) (hd : d < 2 ^ 32) :
    MakeKey_ a b = MakeKey_ b a ∧
    (MakeKey_ a b = MakeKey_ c d ↔ (a = c ∧ b = d) ∨ (a = d ∧ b = c)) := by
  rw [MakeKey_eq a b ha hb, MakeKey_eq b a hb ha, MakeKey_eq c d hc hd]
  norm_num at ha hb hc hd ⊢
  refine ⟨?_, ?_, ?_⟩
  · split_ifs <;> omega
  · intro h
    split_ifs at h <;> omega
  · rintro (⟨rfl, rfl⟩ | ⟨rfl, rfl⟩)
    · rfl
    · split_ifs <;> omega

/-- Witness for `pair_key_identifies_unordered_pair` at the ids 7, 3, 3, 7. -/
theorem pair_key_identifies_unordered_pair_witness :
    MakeKey_ 7 3 = MakeKey_ 3 7 ∧
    (MakeKey_ 7 3 = MakeKey_ 3 7 ↔ ((7 : Nat) = 3 ∧ (3 : Nat) = 7) ∨ ((7 : Nat) = 7 ∧ (3 : Nat) = 3)) :=
  pair_key_identifies_unordered_pair 7 3 3 7 (by norm_num) (by norm_num) (by norm_num)
    (by norm_num)

/-! ### The pair filter `ShouldTest` (C18) -/

/-- C18: `ShouldTest a b` holds exactly when the colliders are distinct, both
have an owning `GameObject` and the owners differ, they are not both
attached to one and the same rigid body, and each layer intersects the other
collider's mask; the test is symmetric in its arguments. -/
theorem should_test_iff (a b : Collider2D K) :
    (ShouldTest a b = true ↔
      a.addr ≠ b.addr ∧
      (∃ ga gb, a.mGameObject = some ga ∧ b.mGameObject = some gb ∧
        ga.ref.addr ≠ gb.ref.addr) ∧
      ¬ (∃ r, (GetAttachedBody a).map Prod.fst = some r ∧
        (GetAttachedBody b).map Prod.fst = some r) ∧
      a.layer_ &&& b.mask_ ≠ 0 ∧ b.layer_ &&& a.mask_ ≠ 0) ∧
    ShouldTest a b = ShouldTest b a := by
  have key : ∀ a b : Collider2D K, (ShouldTest a b = true ↔
      a.addr ≠ b.addr ∧
      (∃ ga gb, a.mGameObject = some ga ∧ b.mGameObject = some gb ∧
        ga.ref.addr ≠ gb.ref.addr) ∧
      ¬ (∃ r, (GetAttachedBody a).map Prod.fst = some r ∧
        (GetAttachedBody b).map Prod.fst = some r) ∧
      a.layer_ &&& b.mask_ ≠ 0 ∧ b.layer_ &&& a.mask_ ≠ 0) := by
    intro a b
    unfold ShouldTest
    by_cases h1 : a.addr = b.addr
    · simp [h1]
    · rcases ha : a.mGameObject with _ | ga
      · simp [h1]
      · rcases hb : b.mGameObject with _ | gb
        · simp [h1]
        · by_cases h2 : ga.ref.addr = gb.ref.addr
          · simp [h1, h2]
          · rcases hra : (GetAttachedBody a).map Prod.fst with _ | ra <;>
            rcases hrb : (GetAttachedBody b).map Prod.fst with _ | rb <;>
            by_cases h3 : a.layer_ &&& b.mask_ = 0 <;>
            by_cases h4 : b.layer_ &&& a.mask_ = 0 <;>
            simp [h1, h2, h3, h4, hra, hrb] <;>
            exact not_congr eq_comm
  refine ⟨key a b, ?_⟩
  rw [Bool.eq_iff_iff, key a b, key b a]
  constructor
  · rintro ⟨h1, ⟨ga, gb, ha, hb, hg⟩, h3, h4, h5⟩
    exact ⟨fun h => h1 h.symm, ⟨gb, ga, hb, ha, fun h => hg h.symm⟩,
      fun ⟨r, x, y⟩ => h3 ⟨r, y, x⟩, h5, h4⟩
  · rintro ⟨h1, ⟨ga, gb, ha, hb, hg⟩, h3, h4, h5⟩
    exact ⟨fun h => h1 h.symm, ⟨gb, ga, hb, ha, fun h => hg h.symm⟩,
      fun ⟨r, x, y⟩ => h3 ⟨r, y, x⟩, h5, h4⟩

/-! ### `WorldAABB` against `WorldOBB` (C19) -/

theorem MakeKey_comm (a b : Nat) : MakeKey_ a b = MakeKey_ b a := by
  unfold MakeKey_
  rcases lt_trichotomy (a % 2 ^ 32) (b % 2 ^ 32) with h | h | h
  · simp only [if_pos h, if_neg (not_lt.mpr h.le)]
  · simp only [h]
  · simp only [if_pos h, if_neg (not_lt.mpr h.le)]

theorem mem_setInsert (s : List Nat) (k x : Nat) : x ∈ setInsert s k ↔ x ∈ s ∨ x = k := by
  unfold setInsert
  split_ifs with h
  · constructor
    · exact Or.inl
    · rintro (h1 | rfl)
      · exact h1
      · exact h
  · simp

theorem mapAssign_keys {V : Type} (l : List (Nat × V)) (k : Nat) (v : V) (x : Nat) :
    x ∈ (mapAssign l k v).map Prod.fst ↔ x = k ∨ x ∈ l.map Prod.fst := by
  induction l with
  | nil => simp [mapAssign]
  | cons e t ih =>
    obtain ⟨k', v'⟩ := e
    unfold mapAssign
    split_ifs with h
    · subst h
      simp
    · simp only [List.map_cons, List.mem_cons, ih]
      tauto

theorem mapAssign_nodup {V : Type} (l : List (Nat × V)) (k : Nat) (v : V)
    (h : (l.map Prod.fst).Nodup) : ((mapAssign l k v).map Prod.fst).Nodup := by
  induction l with
  | nil => simp [mapAssign]
  | cons e t ih =>
    obtain ⟨k', v'⟩ := e
    simp only [List.map_cons, List.nodup_cons] at h
    unfold mapAssign
    split_ifs with hk
    · subst hk
      simpa using h
    · simp only [List.map_cons, List.nodup_cons]
      refine ⟨?_, ih h.2⟩
      rw [mapAssign_keys]
      rintro (h1 | h1)
      · exact hk h1
      · exact h.1 h1

theorem mem_mapAssign {V : Type} (l : List (Nat × V)) (k : Nat) (v : V) (e : Nat × V)
    (h : e ∈ mapAssign l k v) : e = (k, v) ∨ e ∈ l := by
  induction l with
  | nil => simpa [mapAssign] using h
  | cons e' t ih =>
    obtain ⟨k', v'⟩ := e'
    unfold mapAssign at h
    split_ifs at h with hk
    · simp only [List.mem_cons] at h ⊢
      rcases h with h | h
      · exact Or.inl h
      · exact Or.inr (Or.inr h)
    · simp only [List.mem_cons] at h ⊢
      rcases h with h | h
      · exact Or.inr (Or.inl h)
      · rcases ih h with h | h
        · exact Or.inl h
        · exact Or.inr (Or.inr h)

/-- With distinct keys, the entries under a key are exactly the one entry
stored there. -/
theorem filter_key_eq_singleton {V : Type} (l : List (Nat × V)) (k : Nat) (v : V)
    (hn : (l.map Prod.fst).Nodup) (hm : (k, v) ∈ l) :
    l.filter (fun e => decide (e.1 = k)) = [(k, v)] := by
  induction l with
  | nil => simp at hm
  | cons e t ih =>
    simp only [List.map_cons, List.nodup_cons] at hn
    simp only [List.mem_cons] at hm
    rcases hm with hm | hm
    · subst hm
      have ht : t.filter (fun e => decide (e.1 = k)) = [] := by
        rw [List.filter_eq_nil_iff]
        intro x hx
        simp only [decide_eq_true_eq]
        intro hk
        exact hn.1 (List.mem_map.mpr ⟨x, hx, hk⟩)
      simp [List.filter_cons, ht]
    · have hne : e.1 ≠ k := by
        intro h
        apply hn.1
        rw [h]
        exact List.mem_map_of_mem Prod.fst hm
      simp [List.filter_cons, hne, ih hn.2 hm]

/-- Filtering a `flatMap` when the predicate is constant on each block. -/
theorem filter_flatMap_const {α β : Type} (l : List α) (f : α → List β) (p : β → Bool)
    (q : α → Bool) (h : ∀ x ∈ l, ∀ e ∈ f x, p e = q x) :
    (l.flatMap f).filter p = (l.filter q).flatMap f := by
  induction l with
  | nil => rfl
  | cons x t ih =>
    have ht := ih (fun y hy => h y (List.mem_cons_of_mem _ hy))
    have hx := h x (List.mem_cons_self _ _)
    simp only [List.flatMap_cons, List.filter_append, ht, List.filter_cons]
    rcases hq : q x with _ | _
    · have : (f x).filter p = [] := by
        rw [List.filter_eq_nil_iff]
        intro e he
        rw [hx e he, hq]
        simp
      simp [this]
    · have : (f x).filter p = f x := by
        rw [List.filter_eq_self]
        intro e he
        rw [hx e he, hq]
      simp [this]

/-! ### `BuildContacts_` -/

/-- What `BuildContacts_` appends for a pair: both owners are set and differ,
the trigger flag is the disjunction of the two collider flags, and the contact
is the one written by the narrow-phase test. -/
theorem testPair_some [FloorRing K] (L : Libm K) (A B : Collider2D K) (nc : NarrowContact K)
    (h : testPair L A B = some nc) :
    ∃ a b, nc.a = some a ∧ nc.b = some b ∧ a.addr ≠ b.addr ∧
      nc.colA = some A.addr ∧ nc.colB = some B.addr ∧
      nc.isTriggerPair = (A.isTrigger_ || B.isTrigger_) ∧
      nc.contact = (narrowPhase L A B).2 ∧ (narrowPhase L A B).1 = true := by
  unfold testPair at h
  by_cases h1 : ShouldTest A B = true
  swap
  · simp [h1] at h
  by_cases h2 : TestBoxBox (WorldAABB L A) (WorldAABB L B) = true
  swap
  · simp [h1, h2] at h
  by_cases h3 : (narrowPhase L A B).1 = true
  swap
  · simp [h1, h2, h3] at h
  simp only [h1, h2, h3, not_true_eq_false, if_false] at h
  split at h
  · rename_i oa ob _ _
    by_cases h4 : oa.addr = ob.addr
    · simp [h4] at h
    · simp only [if_neg h4, Option.some.injEq] at h
      subst h
      exact ⟨oa, ob, rfl, rfl, h4, rfl, rfl, rfl, rfl, h3⟩
  · cases h

theorem buildStep_fst [FloorRing K] (L : Libm K)
    (acc : List (NarrowContact K) × CollisionManager) (p : Collider2D K × Collider2D K) :
    (buildStep L acc p).1 = acc.1 ++ (testPair L p.1 p.2).toList := by
  unfold buildStep
  rcases h : testPair L p.1 p.2 with _ | nc
  · simp
  · obtain ⟨a, b, ha, hb, -⟩ := testPair_some L _ _ nc h
    simp [ha, hb]

theorem buildStep_frame [FloorRing K] (L : Libm K)
    (acc : List (NarrowContact K) × CollisionManager) (p : Collider2D K × Collider2D K) :
    (buildStep L acc p).2.mRegisteredColliders = acc.2.mRegisteredColliders ∧
    (buildStep L acc p).2.mPrevPairs = acc.2.mPrevPairs ∧
    (buildStep L acc p).2.mPrevInfo = acc.2.mPrevInfo := by
  unfold buildStep
  rcases h : testPair L p.1 p.2 with _ | nc
  · simp
  · obtain ⟨a, b, ha, hb, -⟩ := testPair_some L _ _ nc h
    simp [ha, hb]

theorem NarrowContact.key_eq (c : NarrowContact K) (a b : GameObjectRef) (ha : c.a = some a)
    (hb : c.b = some b) : c.key = some (MakeKey_ a.id b.id) := by
  simp [NarrowContact.key, ha, hb]

/-- Appending one contact keeps the records exact. -/
theorem Records_snoc (cs : List (NarrowContact K)) (pairs : List Nat)
    (info : List (Nat × PairInfo)) (nc : NarrowContact K) (a b : GameObjectRef)
    (ha : nc.a = some a) (hb : nc.b = some b) (h : Records cs pairs info) :
    Records (cs ++ [nc]) (setInsert pairs (MakeKey_ a.id b.id))
      (mapAssign info (MakeKey_ a.id b.id) nc.info) := by
  obtain ⟨h1, h2, h3, h4, h5⟩ := h
  have hk := NarrowContact.key_eq nc a b ha hb
  refine ⟨?_, ?_, mapAssign_nodup _ _ _ h3, ?_, ?_⟩
  · intro c hc
    rcases List.mem_append.mp hc with hc | hc
    · exact h1 c hc
    · rw [List.mem_singleton] at hc
      subst hc
      exact ⟨a, b, ha, hb⟩
  · intro k
    rw [mem_setInsert, h2]
    constructor
    · rintro (⟨c, hc, hck⟩ | rfl)
      · exact ⟨c, List.mem_append_left _ hc, hck⟩
      · exact ⟨nc, List.mem_append_right _ (List.mem_singleton_self _), hk⟩
    · rintro ⟨c, hc, hck⟩
      rcases List.mem_append.mp hc with hc | hc
      · exact Or.inl ⟨c, hc, hck⟩
      · rw [List.mem_singleton] at hc
        subst hc
        rw [hk] at hck
        exact Or.inr (Option.some.inj hck).symm
  · intro e he
    rcases mem_mapAssign _ _ _ _ he with rfl | he
    · exact ⟨nc, List.mem_append_right _ (List.mem_singleton_self _), hk, rfl⟩
    · obtain ⟨c, hc, hck, hci⟩ := h4 e he
      exact ⟨c, List.mem_append_left _ hc, hck, hci⟩
  · intro c hc k hck
    rw [mapAssign_keys]
    rcases List.mem_append.mp hc with hc | hc
    · exact Or.inr (h5 c hc k hck)
    · rw [List.mem_singleton] at hc
      subst hc
      rw [hk] at hck
      exact Or.inl (Option.some.inj hck).symm

theorem buildStep_records [FloorRing K] (L : Libm K)
    (acc : List (NarrowContact K) × CollisionManager) (p : Collider2D K × Collider2D K)
    (h : Records acc.1 acc.2.mCurrPairs acc.2.mCurrInfo) :
    Records (buildStep L acc p).1 (buildStep L acc p).2.mCurrPairs
      (buildStep L acc p).2.mCurrInfo := by
  unfold buildStep
  rcases ht : testPair L p.1 p.2 with _ | nc
  · simpa using h
  · obtain ⟨a, b, ha, hb, -⟩ := testPair_some L _ _ nc ht
    simp only [ha, hb]
    have := Records_snoc acc.1 acc.2.mCurrPairs acc.2.mCurrInfo nc a b ha hb h
    simpa [NarrowContact.info, ha, hb] using this

theorem buildFold [FloorRing K] (L : Libm K) (ps : List (Collider2D K × Collider2D K))
    (acc : List (NarrowContact K) × CollisionManager)
    (h : Records acc.1 acc.2.mCurrPairs acc.2.mCurrInfo) :
    (ps.foldl (buildStep L) acc).1 = acc.1 ++ ps.filterMap (fun p => testPair L p.1 p.2) ∧
    (ps.foldl (buildStep L) acc).2.mRegisteredColliders = acc.2.mRegisteredColliders ∧
    (ps.foldl (buildStep L) acc).2.mPrevPairs = acc.2.mPrevPairs ∧
    (ps.foldl (buildStep L) acc).2.mPrevInfo = acc.2.mPrevInfo ∧
    Records (ps.foldl (buildStep L) acc).1 (ps.foldl (buildStep L) acc).2.mCurrPairs
      (ps.foldl (buildStep L) acc).2.mCurrInfo := by
  induction ps generalizing acc with
  | nil => simpa using h
  | cons p t ih =>
    obtain ⟨i1, i2, i3, i4, i5⟩ := ih (buildStep L acc p) (buildStep_records L acc p h)
    obtain ⟨f1, f2, f3⟩ := buildStep_frame L acc p
    refine ⟨?_, ?_, ?_, ?_, i5⟩
    · rw [List.foldl_cons, i1, buildStep_fst, List.filterMap_cons]
      rcases testPair L p.1 p.2 with _ | nc <;> simp
    · rw [List.foldl_cons, i2, f1]
    · rw [List.foldl_cons, i3, f2]
    · rw [List.foldl_cons, i4, f3]

theorem Records_nil : Records ([] : List (NarrowContact K)) [] [] := by
  refine ⟨?_, ?_, ?_, ?_, ?_⟩ <;> simp

/-- The contacts of a frame depend on the manager only through the
registry. -/
theorem frameContacts_eq [FloorRing K] (L : Libm K) (mem : Nat → Collider2D K)
    (st : CollisionManager) :
    frameContacts L mem st =
      (loopPairs (((st.mRegisteredColliders.filter (fun e => e.2)).map
        (fun e => mem e.1)).insertionSort (fun a b => colliderLess b a = false))).filterMap
        (fun p => testPair L p.1 p.2) := by
  unfold frameContacts BuildContacts_
  rw [(buildFold L _ _ Records_nil).1]
  simp [activeColliders]

theorem frameContacts_congr [FloorRing K] (L : Libm K) (mem : Nat → Collider2D K)
    (st st' : CollisionManager) (h : st.mRegisteredColliders = st'.mRegisteredColliders) :
    frameContacts L mem st = frameContacts L mem st' := by
  rw [frameContacts_eq, frameContacts_eq, h]

/-- `DetectAndDispatch` in terms of the contacts of the frame: the events, the
registry, and the new history, which records exactly those contacts. -/
theorem DetectAndDispatch_spec [FloorRing K] (L : Libm K) (mem : Nat → Collider2D K)
    (st : CollisionManager) :
    (DetectAndDispatch L mem st).2 =
      (frameContacts L mem st).flatMap (enterStayEvents st.mPrevPairs) ++
        st.mPrevInfo.flatMap (exitEvents (DetectAndDispatch L mem st).1.mPrevPairs) ∧
    (DetectAndDispatch L mem st).1.mRegisteredColliders = st.mRegisteredColliders ∧
    Records (frameContacts L mem st) (DetectAndDispatch L mem st).1.mPrevPairs
      (DetectAndDispatch L mem st).1.mPrevInfo := by
  obtain ⟨-, h2, h3, h4, h5⟩ := buildFold L
    (loopPairs (activeColliders mem { st with mCurrInfo := [], mCurrPairs := [] }))
    ([], { st with mCurrInfo := [], mCurrPairs := [] }) Records_nil
  refine ⟨?_, ?_, ?_⟩
  · simp only [DetectAndDispatch, Dispatch_, frameContacts, BuildContacts_]
    rw [h3, h4]
  · simp only [DetectAndDispatch, BuildContacts_]
    rw [h2]
  · simp only [DetectAndDispatch, frameContacts, BuildContacts_]
    exact h5

theorem Records.infoWF {cs : List (NarrowContact K)} {pairs : List Nat}
    {info : List (Nat × PairInfo)} (h : Records cs pairs info) : InfoWF info := by
  obtain ⟨h1, -, h3, h4, -⟩ := h
  refine ⟨h3, ?_⟩
  intro e he
  obtain ⟨c, hc, hck, hci⟩ := h4 e he
  obtain ⟨a, b, ha, hb⟩ := h1 c hc
  refine ⟨a, b, by rw [hci]; exact ha, by rw [hci]; exact hb, ?_⟩
  rw [NarrowContact.key_eq c a b ha hb] at hck
  exact (Option.some.inj hck).symm

/-! ### Events of a frame -/

theorem enterStayEvents_eq (prev : List Nat) (c : NarrowContact K) (a b : GameObjectRef)
    (ha : c.a = some a) (hb : c.b = some b) :
    enterStayEvents prev c =
      [⟨a, (if c.isTriggerPair then
              (if MakeKey_ a.id b.id ∈ prev then Callback.OnTriggerStay
                else Callback.OnTriggerEnter)
            else (if MakeKey_ a.id b.id ∈ prev then Callback.OnCollisionStay
                else Callback.OnCollisionEnter)),
          { self := some a, other := some b, selfCollider := c.colA, otherCollider := c.colB
            contacts := if c.isTriggerPair then [] else [c.contact] }⟩,
        ⟨b, (if c.isTriggerPair then
              (if MakeKey_ a.id b.id ∈ prev then Callback.OnTriggerStay
                else Callback.OnTriggerEnter)
            else (if MakeKey_ a.id b.id ∈ prev then Callback.OnCollisionStay
                else Callback.OnCollisionEnter)),
          { self := some b, other := some a, selfCollider := c.colB, otherCollider := c.colA
            contacts := if c.isTriggerPair then []
              else [{ point := c.contact.point, normalA := -c.contact.normalA
                      normalB := -c.contact.normalB
                      penetration := c.contact.penetration }] }⟩] := by
  unfold enterStayEvents
  simp only [ha, hb]
  by_cases ht : c.isTriggerPair = true <;> by_cases hw : MakeKey_ a.id b.id ∈ prev <;>
    simp [ht, hw, FlipContactForB_]

theorem enterStayEvents_none (prev : List Nat) (c : NarrowContact K)
    (h : c.key = none) : enterStayEvents prev c = [] := by
  unfold enterStayEvents
  unfold NarrowContact.key at h
  rcases ha : c.a with _ | a <;> rcases hb : c.b with _ | b <;> simp [ha, hb] at h ⊢

theorem enterStayEvents_key (prev : List Nat) (c : NarrowContact K) (e : Event K)
    (he : e ∈ enterStayEvents prev c) : e.key = c.key := by
  rcases ha : c.a with _ | a
  · rw [enterStayEvents_none prev c (by simp [NarrowContact.key, ha])] at he
    simp at he
  rcases hb : c.b with _ | b
  · rw [enterStayEvents_none prev c (by simp [NarrowContact.key, ha, hb])] at he
    simp at he
  rw [enterStayEvents_eq prev c a b ha hb] at he
  simp only [List.mem_cons, List.mem_singleton, List.not_mem_nil, or_false] at he
  rcases he with rfl | rfl
  · simp [Event.key, NarrowContact.key, ha, hb]
  · simp [Event.key, NarrowContact.key, ha, hb, MakeKey_comm b.id a.id]

theorem enterStayEvents_trace (prev : List Nat) (c : NarrowContact K) (a b : GameObjectRef)
    (ha : c.a = some a) (hb : c.b = some b) :
    (enterStayEvents prev c).map (fun e => (e.target, e.callback.phase)) =
      [(a, if MakeKey_ a.id b.id ∈ prev then Phase.Stay else Phase.Enter),
        (b, if MakeKey_ a.id b.id ∈ prev then Phase.Stay else Phase.Enter)] := by
  rw [enterStayEvents_eq prev c a b ha hb]
  by_cases ht : c.isTriggerPair = true <;> by_cases hw : MakeKey_ a.id b.id ∈ prev <;>
    simp [ht, hw, Callback.phase]

/-- The two callbacks of a contact: receivers and phase. -/
theorem enterStayEvents_pair (prev : List Nat) (c : NarrowContact K) (a b : GameObjectRef)
    (ha : c.a = some a) (hb : c.b = some b) :
    ∃ e1 e2, enterStayEvents prev c = [e1, e2] ∧ e1.target = a ∧ e2.target = b ∧
      e1.callback.phase = (if MakeKey_ a.id b.id ∈ prev then Phase.Stay else Phase.Enter) ∧
      e2.callback.phase = (if MakeKey_ a.id b.id ∈ prev then Phase.Stay else Phase.Enter) := by
  refine ⟨_, _, enterStayEvents_eq prev c a b ha hb, rfl, rfl, ?_, ?_⟩ <;>
    by_cases ht : c.isTriggerPair = true <;> by_cases hw : MakeKey_ a.id b.id ∈ prev <;>
    simp [ht, hw, Callback.phase]

theorem exitEvents_eq (curr : List Nat) (x : Nat × PairInfo) (a b : GameObjectRef)
    (ha : x.2.a = some a) (hb : x.2.b = some b) (hx : x.1 ∉ curr) :
    (exitEvents curr x : List (Event K)) =
      [⟨a, (if x.2.isTriggerPair then Callback.OnTriggerExit else Callback.OnCollisionExit),
          { self := some a, other := some b, selfCollider := x.2.colA
            otherCollider := x.2.colB, contacts := [] }⟩,
        ⟨b, (if x.2.isTriggerPair then Callback.OnTriggerExit else Callback.OnCollisionExit),
          { self := some b, other := some a, selfCollider := x.2.colB
            otherCollider := x.2.colA, contacts := [] }⟩] := by
  unfold exitEvents
  simp only [if_neg hx, ha, hb]
  by_cases ht : x.2.isTriggerPair = true <;> simp [ht]

theorem exitEvents_of_mem (curr : List Nat) (x : Nat × PairInfo) (hx : x.1 ∈ curr) :
    (exitEvents curr x : List (Event K)) = [] := by
  unfold exitEvents
  simp only [if_pos hx]

theorem exitEvents_key (curr : List Nat) (x : Nat × PairInfo) (a b : GameObjectRef)
    (ha : x.2.a = some a) (hb : x.2.b = some b) (hk : x.1 = MakeKey_ a.id b.id) (e : Event K)
    (he : e ∈ exitEvents curr x) : e.key = some x.1 := by
  by_cases hx : x.1 ∈ curr
  · rw [exitEvents_of_mem curr x hx] at he
    simp at he
  rw [exitEvents_eq curr x a b ha hb hx] at he
  simp only [List.mem_cons, List.mem_singleton, List.not_mem_nil, or_false] at he
  rcases he with rfl | rfl
  · simp [Event.key, hk]
  · simp [Event.key, hk, MakeKey_comm b.id a.id]

theorem exitEvents_trace (curr : List Nat) (x : Nat × PairInfo) (a b : GameObjectRef)
    (ha : x.2.a = some a) (hb : x.2.b = some b) (hx : x.1 ∉ curr) :
    (exitEvents curr x : List (Event K)).map (fun e => (e.target, e.callback.phase)) =
      [(a, Phase.Exit), (b, Phase.Exit)] := by
  rw [exitEvents_eq curr x a b ha hb hx]
  by_cases ht : x.2.isTriggerPair = true <;> simp [ht, Callback.phase]

/-- The callbacks about one pair key in a frame come from the contacts with
that key and from the stored info under that key. -/
theorem pairTrace_frame [FloorRing K] (L : Libm K) (mem : Nat → Collider2D K)
    (st : CollisionManager) (hwf : InfoWF st.mPrevInfo) (k : Nat) :
    pairTrace k (DetectAndDispatch L mem st).2 =
      (((frameContacts L mem st).filter (fun c => decide (c.key = some k))).flatMap
          (enterStayEvents st.mPrevPairs)).map (fun e => (e.target, e.callback.phase)) ++
        ((st.mPrevInfo.filter (fun x => decide (x.1 = k))).flatMap
          (exitEvents (DetectAndDispatch L mem st).1.mPrevPairs)).map
          (fun e : Event K => (e.target, e.callback.phase)) := by
  unfold pairTrace
  rw [(DetectAndDispatch_spec L mem st).1, List.filter_append, List.map_append]
  congr 2
  · apply filter_flatMap_const
    intro c _ e he
    rw [enterStayEvents_key _ c e he]
  · apply filter_flatMap_const
    intro x hx e he
    obtain ⟨a, b, ha, hb, hk⟩ := hwf.2 x hx
    rw [exitEvents_key _ x a b ha hb hk e he]
    simp

theorem flatMap_eq_nil_of_forall {α β : Type} (l : List α) (f : α → List β)
    (h : ∀ x ∈ l, f x = []) : l.flatMap f = [] := by
  induction l with
  | nil => rfl
  | cons x t ih =>
    rw [List.flatMap_cons, h x (List.mem_cons_self _ _),
      ih (fun y hy => h y (List.mem_cons_of_mem _ hy))]
    rfl

/-- A pair with exactly one contact in the frame: both owners get `Stay` when
the key is in the previous-pair set and `Enter` otherwise, and no `Exit`. -/
theorem pairTrace_present [FloorRing K] (L : Libm K) (mem : Nat → Collider2D K)
    (st : CollisionManager) (hwf : InfoWF st.mPrevInfo) (c : NarrowContact K)
    (a b : GameObjectRef) (ha : c.a = some a) (hb : c.b = some b)
    (hf : (frameContacts L mem st).filter
      (fun c => decide (c.key = some (MakeKey_ a.id b.id))) = [c]) :
    pairTrace (MakeKey_ a.id b.id) (DetectAndDispatch L mem st).2 =
      [(a, if MakeKey_ a.id b.id ∈ st.mPrevPairs then Phase.Stay else Phase.Enter),
        (b, if MakeKey_ a.id b.id ∈ st.mPrevPairs then Phase.Stay else Phase.Enter)] := by
  rw [pairTrace_frame L mem st hwf, hf]
  have hc : c ∈ frameContacts L mem st := by
    have : c ∈ (frameContacts L mem st).filter
        (fun c => decide (c.key = some (MakeKey_ a.id b.id))) := by rw [hf]; simp
    exact (List.mem_filter.mp this).1
  have hcur : MakeKey_ a.id b.id ∈ (DetectAndDispatch L mem st).1.mPrevPairs :=
    ((DetectAndDispatch_spec L mem st).2.2.2.1 _).mpr ⟨c, hc, NarrowContact.key_eq c a b ha hb⟩
  have hex : (st.mPrevInfo.filter (fun x => decide (x.1 = MakeKey_ a.id b.id))).flatMap
      (exitEvents (DetectAndDispatch L mem st).1.mPrevPairs) = ([] : List (Event K)) := by
    apply flatMap_eq_nil_of_forall
    intro x hx
    have hx1 : x.1 = MakeKey_ a.id b.id := by simpa using (List.mem_filter.mp hx).2
    exact exitEvents_of_mem _ x (hx1 ▸ hcur)
  rw [hex]
  simp only [List.flatMap_cons, List.flatMap_nil, List.append_nil, List.map_nil]
  exact enterStayEvents_trace _ c a b ha hb

/-- A pair without contact in the frame whose info is stored from the
previous frame: both owners get `Exit`. -/
theorem pairTrace_exit [FloorRing K] (L : Libm K) (mem : Nat → Collider2D K)
    (st : CollisionManager) (hwf : InfoWF st.mPrevInfo) (k : Nat) (v : PairInfo)
    (a b : GameObjectRef) (hv : (k, v) ∈ st.mPrevInfo) (ha : v.a = some a) (hb : v.b = some b)
    (hno : ∀ c ∈ frameContacts L mem st, c.key ≠ some k) :
    pairTrace k (DetectAndDispatch L mem st).2 = [(a, Phase.Exit), (b, Phase.Exit)] := by
  rw [pairTrace_frame L mem st hwf]
  have h1 : (frameContacts L mem st).filter (fun c => decide (c.key = some k)) = [] := by
    rw [List.filter_eq_nil_iff]
    intro c hc
    simpa using hno c hc
  have hcur : k ∉ (DetectAndDispatch L mem st).1.mPrevPairs := by
    intro h
    obtain ⟨c, hc, hck⟩ := ((DetectAndDispatch_spec L mem st).2.2.2.1 _).mp h
    exact hno c hc hck
  rw [h1, filter_key_eq_singleton _ k v hwf.1 hv]
  simp only [List.flatMap_nil, List.map_nil, List.nil_append, List.flatMap_cons,
    List.append_nil]
  exact exitEvents_trace _ (k, v) a b ha hb hcur

/-- A pair without contact in the frame and without stored info: nothing is
dispatched about it. -/
theorem pairTrace_none [FloorRing K] (L : Libm K) (mem : Nat → Collider2D K)
    (st : CollisionManager) (hwf : InfoWF st.mPrevInfo) (k : Nat)
    (hk : k ∉ st.mPrevInfo.map Prod.fst)
    (hno : ∀ c ∈ frameContacts L mem st, c.key ≠ some k) :
    pairTrace k (DetectAndDispatch L mem st).2 = [] := by
  rw [pairTrace_frame L mem st hwf]
  have h1 : (frameContacts L mem st).filter (fun c => decide (c.key = some k)) = [] := by
    rw [List.filter_eq_nil_iff]
    intro c hc
    simpa using hno c hc
  have h2 : st.mPrevInfo.filter (fun x => decide (x.1 = k)) = [] := by
    rw [List.filter_eq_nil_iff]
    intro x hx
    simp only [decide_eq_true_eq]
    intro hxk
    exact hk (List.mem_map.mpr ⟨x, hx, hxk⟩)
  rw [h1, h2]
  rfl

/-! ### Lifecycle of a pair (C15) -/

/-- While a pair stays separated and has no stored info, nothing is
dispatched about it, for any number of frames. -/
theorem separated_run_silent [FloorRing K] (L : Libm K) (k : Nat)
    (later : List (Nat → Collider2D K)) (st : CollisionManager) (hwf : InfoWF st.mPrevInfo)
    (hk : k ∉ st.mPrevInfo.map Prod.fst)
    (hsep : ∀ x ∈ runFrames L st later, ∀ c ∈ frameContacts L x.mem x.before, c.key ≠ some k) :
    ∀ x ∈ runFrames L st later, pairTrace k x.events = [] := by
  induction later generalizing st with
  | nil => intro x hx; simp [runFrames] at hx
  | cons m ms ih =>
    intro x hx
    simp only [runFrames, List.mem_cons] at hx hsep
    have hno : ∀ c ∈ frameContacts L m st, c.key ≠ some k :=
      hsep ⟨m, st, (DetectAndDispatch L m st).2⟩ (Or.inl rfl)
    rcases hx with rfl | hx
    · exact pairTrace_none L m st hwf k hk hno
    · have hrec := (DetectAndDispatch_spec L m st).2.2
      apply ih (DetectAndDispatch L m st).1 hrec.infoWF _ (fun y hy => hsep y (Or.inr hy)) x hx
      intro hmem
      obtain ⟨e, he, hek⟩ := List.mem_map.mp hmem
      obtain ⟨c, hc, hck, -⟩ := hrec.2.2.2.1 e he
      exact hno c hc (hek ▸ hck)

/-- Four consecutive calls written out: one contact of the pair in each of
the first three, none in the fourth and in the later ones. -/
theorem four_frames_lifecycle [FloorRing K] (L : Libm K) (mem1 mem2 mem3 mem4 : Nat → Collider2D K)
    (later : List (Nat → Collider2D K)) (st0 st1 st2 st3 st4 : CollisionManager)
    (a b : GameObjectRef) (c1 c2 c3 : NarrowContact K)
    (hp : st0.mPrevPairs = []) (hi : st0.mPrevInfo = [])
    (e1 : st1 = (DetectAndDispatch L mem1 st0).1) (e2 : st2 = (DetectAndDispatch L mem2 st1).1)
    (e3 : st3 = (DetectAndDispatch L mem3 st2).1) (e4 : st4 = (DetectAndDispatch L mem4 st3).1)
    (h1 : (frameContacts L mem1 st0).filter
      (fun c => decide (c.key = some (MakeKey_ a.id b.id))) = [c1])
    (h2 : (frameContacts L mem2 st1).filter
      (fun c => decide (c.key = some (MakeKey_ a.id b.id))) = [c2])
    (h3 : (frameContacts L mem3 st2).filter
      (fun c => decide (c.key = some (MakeKey_ a.id b.id))) = [c3])
    (o1 : c1.a = some a ∧ c1.b = some b) (o2 : c2.a = some a ∧ c2.b = some b)
    (o3 : c3.a = some a ∧ c3.b = some b)
    (h4 : ∀ c ∈ frameContacts L mem4 st3, c.key ≠ some (MakeKey_ a.id b.id))
    (h5 : ∀ x ∈ runFrames L st4 later, ∀ c ∈ frameContacts L x.mem x.before,
      c.key ≠ some (MakeKey_ a.id b.id)) :
    pairTrace (MakeKey_ a.id b.id) (DetectAndDispatch L mem1 st0).2 =
      [(a, Phase.Enter), (b, Phase.Enter)] ∧
    pairTrace (MakeKey_ a.id b.id) (DetectAndDispatch L mem2 st1).2 =
      [(a, Phase.Stay), (b, Phase.Stay)] ∧
    pairTrace (MakeKey_ a.id b.id) (DetectAndDispatch L mem3 st2).2 =
      [(a, Phase.Stay), (b, Phase.Stay)] ∧
    pairTrace (MakeKey_ a.id b.id) (DetectAndDispatch L mem4 st3).2 =
      [(a, Phase.Exit), (b, Phase.Exit)] ∧
    ∀ x ∈ runFrames L st4 later, pairTrace (MakeKey_ a.id b.id) x.events = [] := by
  have r1 := (DetectAndDispatch_spec L mem1 st0).2.2
  have r2 := (DetectAndDispatch_spec L mem2 st1).2.2
  have r3 := (DetectAndDispatch_spec L mem3 st2).2.2
  have r4 := (DetectAndDispatch_spec L mem4 st3).2.2
  rw [← e1] at r1
  rw [← e2] at r2
  rw [← e3] at r3
  rw [← e4] at r4
  have mem_of : ∀ (l : List (NarrowContact K)) (c : NarrowContact K),
      l.filter (fun c => decide (c.key = some (MakeKey_ a.id b.id))) = [c] → c ∈ l := by
    intro l c h
    have : c ∈ l.filter (fun c => decide (c.key = some (MakeKey_ a.id b.id))) := by
      rw [h]; simp
    exact (List.mem_filter.mp this).1
  have k1 : MakeKey_ a.id b.id ∈ st1.mPrevPairs :=
    (r1.2.1 _).mpr ⟨c1, mem_of _ _ h1, NarrowContact.key_eq c1 a b o1.1 o1.2⟩
  have k2 : MakeKey_ a.id b.id ∈ st2.mPrevPairs :=
    (r2.2.1 _).mpr ⟨c2, mem_of _ _ h2, NarrowContact.key_eq c2 a b o2.1 o2.2⟩
  have w0 : InfoWF st0.mPrevInfo := by rw [hi]; exact ⟨by simp, by simp⟩
  refine ⟨?_, ?_, ?_, ?_, ?_⟩
  · rw [pairTrace_present L mem1 st0 w0 c1 a b o1.1 o1.2 h1, hp]
    simp
  · rw [pairTrace_present L mem2 st1 r1.infoWF c2 a b o2.1 o2.2 h2]
    simp [k1]
  · rw [pairTrace_present L mem3 st2 r2.infoWF c3 a b o3.1 o3.2 h3]
    simp [k2]
  · have hkey : MakeKey_ a.id b.id ∈ st3.mPrevInfo.map Prod.fst :=
      r3.2.2.2.2 c3 (mem_of _ _ h3) _ (NarrowContact.key_eq c3 a b o3.1 o3.2)
    obtain ⟨e, he, hek⟩ := List.mem_map.mp hkey
    obtain ⟨c, hc, hck, hci⟩ := r3.2.2.2.1 e he
    have hc3 : c = c3 := by
      have : c ∈ (frameContacts L mem3 st2).filter
          (fun c => decide (c.key = some (MakeKey_ a.id b.id))) :=
        List.mem_filter.mpr ⟨hc, by simpa [hek] using hck⟩
      rw [h3] at this
      simpa using this
    subst hc3
    have he' : (MakeKey_ a.id b.id, e.2) ∈ st3.mPrevInfo := by
      rw [← hek]
      exact he
    exact pairTrace_exit L mem4 st3 r3.infoWF _ e.2 a b he' (by rw [hci]; exact o3.1)
      (by rw [hci]; exact o3.2) h4
  · apply separated_run_silent L _ later st4 r4.infoWF _ h5
    intro hmem
    obtain ⟨e, he, hek⟩ := List.mem_map.mp hmem
    obtain ⟨c, hc, hck, -⟩ := r4.2.2.2.1 e he
    exact h4 c hc (hek ▸ hck)

/-- C15: starting from an empty pair history, run any number of consecutive
`DetectAndDispatch` calls in which the pair of owners `a`, `b` has exactly one
contact in each of the first three calls and none in the fourth and in the
`n` later calls.  The callbacks about that pair are then `Enter` in the first
call, `Stay` in the second and third, `Exit` in the fourth (each time first
to `a`, then to `b`), and nothing in the later calls. -/
theorem pair_lifecycle [FloorRing K] (L : Libm K) (ms : List (Nat → Collider2D K))
    (st0 : CollisionManager) (a b : GameObjectRef) (c1 c2 c3 : NarrowContact K) (n : Nat)
    (hp : st0.mPrevPairs = []) (hi : st0.mPrevInfo = [])
    (h : (runFrames L st0 ms).map (fun x => (frameContacts L x.mem x.before).filter
        (fun c => decide (c.key = some (MakeKey_ a.id b.id)))) =
      [c1] :: [c2] :: [c3] :: List.replicate (n + 1) [])
    (o1 : c1.a = some a ∧ c1.b = some b) (o2 : c2.a = some a ∧ c2.b = some b)
    (o3 : c3.a = some a ∧ c3.b = some b) :
    (runFrames L st0 ms).map (fun x => pairTrace (MakeKey_ a.id b.id) x.events) =
      [(a, Phase.Enter), (b, Phase.Enter)] :: [(a, Phase.Stay), (b, Phase.Stay)] ::
        [(a, Phase.Stay), (b, Phase.Stay)] :: [(a, Phase.Exit), (b, Phase.Exit)] ::
        List.replicate n [] := by
  rcases ms with _ | ⟨m1, _ | ⟨m2, _ | ⟨m3, _ | ⟨m4, later⟩⟩⟩⟩
  · simp [runFrames] at h
  · simp [runFrames] at h
  · simp [runFrames] at h
  · simp [runFrames, List.replicate_succ] at h
  simp only [runFrames, List.map_cons, List.replicate_succ, List.cons.injEq] at h ⊢
  obtain ⟨h1, h2, h3, h4, h5⟩ := h
  have h4' : ∀ c ∈ frameContacts L m4 (DetectAndDispatch L m3 (DetectAndDispatch L m2
      (DetectAndDispatch L m1 st0).1).1).1, c.key ≠ some (MakeKey_ a.id b.id) := by
    intro c hc
    simpa using (List.filter_eq_nil_iff.mp h4) c hc
  obtain ⟨h5len, h5all⟩ := List.eq_replicate_iff.mp h5
  have h5' : ∀ x ∈ runFrames L (DetectAndDispatch L m4 (DetectAndDispatch L m3
      (DetectAndDispatch L m2 (DetectAndDispatch L m1 st0).1).1).1).1 later,
      ∀ c ∈ frameContacts L x.mem x.before, c.key ≠ some (MakeKey_ a.id b.id) := by
    intro x hx c hc
    have := h5all _ (List.mem_map.mpr ⟨x, hx, rfl⟩)
    simpa using (List.filter_eq_nil_iff.mp this) c hc
  obtain ⟨t1, t2, t3, t4, t5⟩ := four_frames_lifecycle L m1 m2 m3 m4 later st0 _ _ _ _ a b
    c1 c2 c3 hp hi rfl rfl rfl rfl h1 h2 h3 o1 o2 o3 h4' h5'
  refine ⟨t1, t2, t3, t4, ?_⟩
  rw [List.eq_replicate_iff]
  refine ⟨?_, ?_⟩
  · rw [List.length_map]
    rw [List.length_map] at h5len
    exact h5len
  · intro t ht
    obtain ⟨x, hx, rfl⟩ := List.mem_map.mp ht
    exact t5 x hx

/-! ### Registration calls between frames (C16) -/

theorem applyCalls_history (st : CollisionManager) (calls : List RegCall)
    (h : ∀ r ∈ calls, r.isRemove = false) :
    (applyCalls st calls).mPrevPairs = st.mPrevPairs ∧
    (applyCalls st calls).mPrevInfo = st.mPrevInfo := by
  induction calls generalizing st with
  | nil => exact ⟨rfl, rfl⟩
  | cons r t ih =>
    obtain ⟨i1, i2⟩ := ih (RegCall.apply st r) (fun x hx => h x (List.mem_cons_of_mem _ hx))
    have hr := h r (List.mem_cons_self _ _)
    have hstep : (RegCall.apply st r).mPrevPairs = st.mPrevPairs ∧
        (RegCall.apply st r).mPrevInfo = st.mPrevInfo := by
      rcases r with c | c | ⟨c, act⟩
      · rcases c with _ | p <;> exact ⟨rfl, rfl⟩
      · rcases c with _ | p
        · exact ⟨rfl, rfl⟩
        · simp [RegCall.isRemove] at hr
      · rcases c with _ | p <;> exact ⟨rfl, rfl⟩
    unfold applyCalls at i1 i2 ⊢
    rw [List.foldl_cons]
    exact ⟨i1.trans hstep.1, i2.trans hstep.2⟩

/-- C16 (amended): a pair that has a contact in two consecutive
`DetectAndDispatch` calls, with any `RegisterCollider` / `SetColliderActive`
calls but no `RemoveCollider` call in between, gets only `Stay` callbacks in
the second call (no `Enter`, no `Exit`), one for each owner. -/
theorem stay_when_no_remove [FloorRing K] (L : Libm K) (mem1 mem2 : Nat → Collider2D K)
    (st0 : CollisionManager) (calls : List RegCall) (c : NarrowContact K)
    (a b : GameObjectRef)
    (hcalls : ∀ r ∈ calls, r.isRemove = false)
    (hprev : ∃ c' ∈ frameContacts L mem1 st0, c'.key = c.key)
    (hc : c ∈ frameContacts L mem2 (applyCalls (DetectAndDispatch L mem1 st0).1 calls))
    (ha : c.a = some a) (hb : c.b = some b) :
    (∀ e ∈ (DetectAndDispatch L mem2 (applyCalls (DetectAndDispatch L mem1 st0).1 calls)).2,
      e.key = c.key → e.callback.phase = Phase.Stay) ∧
    (∃ e ∈ (DetectAndDispatch L mem2 (applyCalls (DetectAndDispatch L mem1 st0).1 calls)).2,
      e.target = a ∧ e.key = c.key ∧ e.callback.phase = Phase.Stay) ∧
    (∃ e ∈ (DetectAndDispatch L mem2 (applyCalls (DetectAndDispatch L mem1 st0).1 calls)).2,
      e.target = b ∧ e.key = c.key ∧ e.callback.phase = Phase.Stay) := by
  obtain ⟨hpp, hpi⟩ := applyCalls_history (DetectAndDispatch L mem1 st0).1 calls hcalls
  have r1 := (DetectAndDispatch_spec L mem1 st0).2.2
  have hkey := NarrowContact.key_eq c a b ha hb
  have hin : MakeKey_ a.id b.id ∈
      (applyCalls (DetectAndDispatch L mem1 st0).1 calls).mPrevPairs := by
    rw [hpp]
    obtain ⟨c', hc', hk'⟩ := hprev
    exact (r1.2.1 _).mpr ⟨c', hc', hk'.trans hkey⟩
  have hwf : InfoWF (applyCalls (DetectAndDispatch L mem1 st0).1 calls).mPrevInfo := by
    rw [hpi]
    exact r1.infoWF
  have hev := (DetectAndDispatch_spec L mem2
    (applyCalls (DetectAndDispatch L mem1 st0).1 calls)).1
  have hcur : MakeKey_ a.id b.id ∈ (DetectAndDispatch L mem2
      (applyCalls (DetectAndDispatch L mem1 st0).1 calls)).1.mPrevPairs :=
    ((DetectAndDispatch_spec L mem2 _).2.2.2.1 _).mpr ⟨c, hc, hkey⟩
  refine ⟨?_, ?_, ?_⟩
  · intro e he hek
    rw [hev, List.mem_append, List.mem_flatMap, List.mem_flatMap] at he
    rcases he with ⟨c', hc', he⟩ | ⟨x, hx, he⟩
    · have hk' : c'.key = some (MakeKey_ a.id b.id) := by
        rw [← enterStayEvents_key _ c' e he, hek, hkey]
      rcases ha' : c'.a with _ | a'
      · simp [NarrowContact.key, ha'] at hk'
      rcases hb' : c'.b with _ | b'
      · simp [NarrowContact.key, ha', hb'] at hk'
      have hk2 : MakeKey_ a'.id b'.id = MakeKey_ a.id b.id := by
        rw [NarrowContact.key_eq c' a' b' ha' hb'] at hk'
        exact Option.some.inj hk'
      rw [enterStayEvents_eq _ c' a' b' ha' hb', hk2] at he
      simp only [List.mem_cons, List.mem_singleton, List.not_mem_nil, or_false] at he
      rcases he with rfl | rfl <;> by_cases ht : c'.isTriggerPair = true <;>
        simp [ht, hin, Callback.phase]
    · obtain ⟨a', b', ha', hb', hk'⟩ := hwf.2 x hx
      have hxk : e.key = some x.1 := exitEvents_key _ x a' b' ha' hb' hk' e he
      have hx1 : x.1 = MakeKey_ a.id b.id := by
        rw [hek, hkey] at hxk
        exact (Option.some.inj hxk).symm
      rw [exitEvents_of_mem _ x (hx1 ▸ hcur)] at he
      simp at he
  · obtain ⟨e1, e2, hl, t1, -, p1, -⟩ := enterStayEvents_pair
      (applyCalls (DetectAndDispatch L mem1 st0).1 calls).mPrevPairs c a b ha hb
    have hm : e1 ∈ enterStayEvents
        (applyCalls (DetectAndDispatch L mem1 st0).1 calls).mPrevPairs c := by
      rw [hl]; exact List.mem_cons_self _ _
    refine ⟨e1, ?_, t1, enterStayEvents_key _ c e1 hm, ?_⟩
    · rw [hev, List.mem_append, List.mem_flatMap]
      exact Or.inl ⟨c, hc, hm⟩
    · rw [p1, if_pos hin]
  · obtain ⟨e1, e2, hl, -, t2, -, p2⟩ := enterStayEvents_pair
      (applyCalls (DetectAndDispatch L mem1 st0).1 calls).mPrevPairs c a b ha hb
    have hm : e2 ∈ enterStayEvents
        (applyCalls (DetectAndDispatch L mem1 st0).1 calls).mPrevPairs c := by
      rw [hl]; exact List.mem_cons_of_mem _ (List.mem_cons_self _ _)
    refine ⟨e2, ?_, t2, enterStayEvents_key _ c e2 hm, ?_⟩
    · rw [hev, List.mem_append, List.mem_flatMap]
      exact Or.inl ⟨c, hc, hm⟩
    · rw [p2, if_pos hin]

/-! ### Callback infos (C17) -/

/-- Two example circles whose centres are less than 2 apart give a contact
with owners `a`, `b`. -/
theorem testPair_example_near [FloorRing K] (L : Libm K) (p q : Nat) (x y : K) (hpq : p ≠ q)
    (h1 : x ≤ y) (h2 : y - x < 2) :
    testPair L (exampleCircle p x) (exampleCircle q y) =
      some { a := some ⟨p, p⟩, b := some ⟨q, q⟩, colA := some p, colB := some q
             isTriggerPair := false
             contact := (Contact_Circle_Circle L ⟨x, 0⟩ 1 ⟨y, 0⟩ 1 cp0).2 } := by
  have hs : ShouldTest (exampleCircle p x) (exampleCircle q y) = true := by
    simp [ShouldTest, exampleCircle, GameObject.ref, GetAttachedBody, GameObject.findBody, hpq]
  have hb : TestBoxBox (WorldAABB L (exampleCircle p x)) (WorldAABB L (exampleCircle q y))
      = true := by
    simp only [TestBoxBox, Rect.Overlaps, WorldAABB, exampleCircle, Collider2D.tr,
      GameObject.transform, Option.bind, Rect.Left, Rect.Right, Rect.Top, Rect.Bottom]
    simp only [Bool.false_eq_true, if_false, if_true, max_self, mul_one, mul_zero, add_zero]
    simp only [Bool.not_eq_true', Bool.or_eq_false_iff, decide_eq_false_iff_not, not_lt]
    refine ⟨⟨⟨?_, ?_⟩, ?_⟩, ?_⟩ <;> linarith
  have hn : (narrowPhase L (exampleCircle p x) (exampleCircle q y)) =
      Contact_Circle_Circle L ⟨x, 0⟩ 1 ⟨y, 0⟩ 1 cp0 := by
    simp [narrowPhase, exampleCircle, WorldCircle, WorldCircleAt, Collider2D.tr,
      GameObject.transform]
  have hhit : (Contact_Circle_Circle L ⟨x, 0⟩ 1 ⟨y, 0⟩ 1 cp0).1 = true := by
    have : ¬ (Dot ((⟨y, 0⟩ : Vec2 K) - ⟨x, 0⟩) (⟨y, 0⟩ - ⟨x, 0⟩) ≥ (1 + 1) * (1 + 1)) := by
      simp only [Dot, Vec2.sub_x, Vec2.sub_y]
      nlinarith
    simp only [Contact_Circle_Circle, if_neg this]
  unfold testPair
  simp only [hs, hb, hn, hhit, not_true_eq_false, if_false]
  simp [exampleCircle, GetAttachedBody, GameObject.findBody, GameObject.ref, hpq]

/-- Two example circles whose centres are more than 2 apart give no contact:
the broad phase rejects them. -/
theorem testPair_example_far [FloorRing K] (L : Libm K) (p q : Nat) (x y : K)
    (h : x + 2 < y) :
    testPair L (exampleCircle p x) (exampleCircle q y) = none := by
  have hb : TestBoxBox (WorldAABB L (exampleCircle p x)) (WorldAABB L (exampleCircle q y))
      = false := by
    simp only [TestBoxBox, Rect.Overlaps, WorldAABB, exampleCircle, Collider2D.tr,
      GameObject.transform, Option.bind, Rect.Left, Rect.Right, Rect.Top, Rect.Bottom]
    simp only [Bool.false_eq_true, if_false, if_true, max_self, mul_one, mul_zero, add_zero]
    simp only [Bool.not_eq_false', Bool.or_eq_true, decide_eq_true_eq]
    left; left; left
    linarith
  unfold testPair
  simp [hb]

theorem sort_two (a b : Collider2D K) (h : colliderLess b a = false) :
    [a, b].insertionSort (fun a b => colliderLess b a = false) = [a, b] := by
  simp only [List.insertionSort, List.orderedInsert, h, if_true]

theorem sort_three (a b c : Collider2D K) (h1 : colliderLess b a = false)
    (h2 : colliderLess c b = false) :
    [a, b, c].insertionSort (fun a b => colliderLess b a = false) = [a, b, c] := by
  simp only [List.insertionSort, List.orderedInsert, h1, h2, if_true]

theorem loopPairs_two {α : Type} (a b : α) : loopPairs [a, b] = [(a, b)] := by
  simp only [loopPairs, List.map_cons, List.map_nil, List.append_nil, List.cons_append,
    List.nil_append]

theorem loopPairs_three {α : Type} (a b c : α) :
    loopPairs [a, b, c] = [(a, b), (a, c), (b, c)] := by
  simp only [loopPairs, List.map_cons, List.map_nil, List.append_nil, List.cons_append,
    List.nil_append]

theorem exampleCircle_order (p q : Nat) (x y : K) (h : p < q) :
    colliderLess (exampleCircle q y) (exampleCircle p x) = false := by
  simp only [colliderLess, exampleCircle, GameObject.ref]
  have h1 : q ≠ p := by omega
  have h2 : ¬ q < p := by omega
  simp [h1, h2]

theorem filterMap_one {α β : Type} (f : α → Option β) (a : α) :
    [a].filterMap f = (f a).toList := by
  rw [List.filterMap_cons, List.filterMap_nil]
  rcases f a with _ | b <;> rfl

theorem filterMap_three {α β : Type} (f : α → Option β) (a b c : α) :
    [a, b, c].filterMap f = (f a).toList ++ ((f b).toList ++ (f c).toList) := by
  rw [List.filterMap_cons, List.filterMap_cons, List.filterMap_cons, List.filterMap_nil]
  rcases f a with _ | x <;> rcases f b with _ | y <;> rcases f c with _ | z <;> rfl

/-- Contacts of a frame with the example colliders 1 and 2 registered. -/
theorem frameContacts_example_two [FloorRing K] (L : Libm K) (xs : Nat → K)
    (st : CollisionManager) (hreg : st.mRegisteredColliders = [(1, true), (2, true)]) :
    frameContacts L (exampleScene xs) st =
      (testPair L (exampleCircle 1 (xs 1)) (exampleCircle 2 (xs 2))).toList := by
  have hf : ([(1, true), (2, true)] : List (Nat × Bool)).filter (fun e => e.2) =
      [(1, true), (2, true)] := by
    simp only [List.filter_cons, List.filter_nil, if_true]
  have hm : ([(1, true), (2, true)] : List (Nat × Bool)).map
      (fun e => exampleScene xs e.1) = [exampleCircle 1 (xs 1), exampleCircle 2 (xs 2)] := by
    simp only [List.map_cons, List.map_nil, exampleScene]
  rw [frameContacts_eq, hreg, hf, hm,
    sort_two _ _ (exampleCircle_order 1 2 _ _ (by norm_num)), loopPairs_two, filterMap_one]

/-- Contacts of a frame with the example colliders 1, 2 and 3 registered. -/
theorem frameContacts_example_three [FloorRing K] (L : Libm K) (xs : Nat → K)
    (st : CollisionManager)
    (hreg : st.mRegisteredColliders = [(1, true), (2, true), (3, true)]) :
    frameContacts L (exampleScene xs) st =
      (testPair L (exampleCircle 1 (xs 1)) (exampleCircle 2 (xs 2))).toList ++
        ((testPair L (exampleCircle 1 (xs 1)) (exampleCircle 3 (xs 3))).toList ++
          (testPair L (exampleCircle 2 (xs 2)) (exampleCircle 3 (xs 3))).toList) := by
  have hf : ([(1, true), (2, true), (3, true)] : List (Nat × Bool)).filter (fun e => e.2) =
      [(1, true), (2, true), (3, true)] := by
    simp only [List.filter_cons, List.filter_nil, if_true]
  have hm : ([(1, true), (2, true), (3, true)] : List (Nat × Bool)).map
      (fun e => exampleScene xs e.1) =
      [exampleCircle 1 (xs 1), exampleCircle 2 (xs 2), exampleCircle 3 (xs 3)] := by
    simp only [List.map_cons, List.map_nil, exampleScene]
  rw [frameContacts_eq, hreg, hf, hm,
    sort_three _ _ _ (exampleCircle_order 1 2 _ _ (by norm_num))
      (exampleCircle_order 2 3 _ _ (by norm_num)), loopPairs_three, filterMap_three]

theorem examplePositions_1 (gap : K) : examplePositions gap 1 = 0 := by
  simp [examplePositions]

theorem examplePositions_2 (gap : K) : examplePositions gap 2 = gap := by
  simp [examplePositions]

theorem examplePositions_3 (gap : K) : examplePositions gap 3 = 100 := by
  simp [examplePositions]

/-- Near scene, colliders 1 and 2 registered: one contact. -/
theorem near_contacts_two [FloorRing K] (L : Libm K) (st : CollisionManager)
    (hreg : st.mRegisteredColliders = [(1, true), (2, true)]) :
    frameContacts L (exampleScene (examplePositions 1)) st = [exampleContact L 1] := by
  rw [frameContacts_example_two L _ st hreg, examplePositions_1, examplePositions_2,
    testPair_example_near L 1 2 0 1 (by norm_num) (by norm_num) (by norm_num)]
  rfl

/-- Far scene, colliders 1 and 2 registered: no contact. -/
theorem far_contacts_two [FloorRing K] (L : Libm K) (st : CollisionManager)
    (hreg : st.mRegisteredColliders = [(1, true), (2, true)]) :
    frameContacts L (exampleScene (examplePositions 10)) st = [] := by
  rw [frameContacts_example_two L _ st hreg, examplePositions_1, examplePositions_2,
    testPair_example_far L 1 2 0 10 (by norm_num)]
  rfl

/-- Near scene, colliders 1, 2 and 3 registered: one contact, between 1 and
2. -/
theorem near_contacts_three [FloorRing K] (L : Libm K) (st : CollisionManager)
    (hreg : st.mRegisteredColliders = [(1, true), (2, true), (3, true)]) :
    frameContacts L (exampleScene (examplePositions 1)) st = [exampleContact L 1] := by
  rw [frameContacts_example_three L _ st hreg, examplePositions_1, examplePositions_2,
    examplePositions_3,
    testPair_example_near L 1 2 0 1 (by norm_num) (by norm_num) (by norm_num),
    testPair_example_far L 1 3 0 100 (by norm_num),
    testPair_example_far L 2 3 1 100 (by norm_num)]
  rfl

theorem exampleContact_filter (L : Libm K) (gap : K) :
    [exampleContact L gap].filter (fun c => decide (c.key = some (MakeKey_ 1 2))) =
      [exampleContact L gap] := by
  have : (exampleContact L gap).key = some (MakeKey_ 1 2) := rfl
  simp [List.filter_cons, this]

/-- The registry and the memories of the frames of a run. -/
theorem runFrames_mem [FloorRing K] (L : Libm K) (ms : List (Nat → Collider2D K))
    (st : CollisionManager) :
    ∀ x ∈ runFrames L st ms,
      x.before.mRegisteredColliders = st.mRegisteredColliders ∧ x.mem ∈ ms := by
  induction ms generalizing st with
  | nil => intro x hx; simp [runFrames] at hx
  | cons m t ih =>
    intro x hx
    simp only [runFrames, List.mem_cons] at hx
    rcases hx with rfl | hx
    · exact ⟨rfl, List.mem_cons_self _ _⟩
    · obtain ⟨h1, h2⟩ := ih _ x hx
      exact ⟨h1.trans (DetectAndDispatch_spec L m st).2.1, List.mem_cons_of_mem _ h2⟩

theorem registry_after [FloorRing K] (L : Libm K) (mem : Nat → Collider2D K)
    (st : CollisionManager) (reg : List (Nat × Bool)) (h : st.mRegisteredColliders = reg) :
    (DetectAndDispatch L mem st).1.mRegisteredColliders = reg :=
  (DetectAndDispatch_spec L mem st).2.1.trans h

theorem RemoveCollider_some (st : CollisionManager) (p : Nat) :
    (RemoveCollider st (some p)).mPrevPairs = [] ∧
    (RemoveCollider st (some p)).mPrevInfo = st.mPrevInfo ∧
    (RemoveCollider st (some p)).mRegisteredColliders =
      st.mRegisteredColliders.filter (fun e => e.1 ≠ p) := by
  unfold RemoveCollider
  rcases h : st.mPrevPairs with _ | ⟨k, t⟩ <;> simp [h]

/-- Witness for `pair_lifecycle`: the example colliders 1 and 2 with centres 1
apart for three frames, then 10 apart for three frames. -/
theorem pair_lifecycle_witness :
    (runFrames (Libm.mk Real.sqrt Real.cos Real.sin)
        (CollisionManager.mk [(1, true), (2, true)] [] [] [] [])
        [exampleScene (examplePositions (1 : ℝ)), exampleScene (examplePositions 1),
          exampleScene (examplePositions 1), exampleScene (examplePositions 10),
          exampleScene (examplePositions 10), exampleScene (examplePositions 10)]).map
      (fun x => pairTrace (MakeKey_ 1 2) x.events) =
      [[(⟨1, 1⟩, Phase.Enter), (⟨2, 2⟩, Phase.Enter)],
        [(⟨1, 1⟩, Phase.Stay), (⟨2, 2⟩, Phase.Stay)],
        [(⟨1, 1⟩, Phase.Stay), (⟨2, 2⟩, Phase.Stay)],
        [(⟨1, 1⟩, Phase.Exit), (⟨2, 2⟩, Phase.Exit)], [], []] := by
  refine pair_lifecycle (Libm.mk Real.sqrt Real.cos Real.sin) _ _ ⟨1, 1⟩ ⟨2, 2⟩
    (exampleContact (Libm.mk Real.sqrt Real.cos Real.sin) 1)
    (exampleContact (Libm.mk Real.sqrt Real.cos Real.sin) 1)
    (exampleContact (Libm.mk Real.sqrt Real.cos Real.sin) 1) 2 rfl rfl ?_
    ⟨rfl, rfl⟩ ⟨rfl, rfl⟩ ⟨rfl, rfl⟩
  simp only [runFrames, List.map_cons, List.map_nil]
  have g1 := registry_after (Libm.mk Real.sqrt Real.cos Real.sin)
    (exampleScene (examplePositions (1 : ℝ)))
    (CollisionManager.mk [(1, true), (2, true)] [] [] [] []) _ rfl
  have g2 := registry_after (Libm.mk Real.sqrt Real.cos Real.sin)
    (exampleScene (examplePositions (1 : ℝ))) _ _ g1
  have g3 := registry_after (Libm.mk Real.sqrt Real.cos Real.sin)
    (exampleScene (examplePositions (1 : ℝ))) _ _ g2
  have g4 := registry_after (Libm.mk Real.sqrt Real.cos Real.sin)
    (exampleScene (examplePositions (10 : ℝ))) _ _ g3
  have g5 := registry_after (Libm.mk Real.sqrt Real.cos Real.sin)
    (exampleScene (examplePositions (10 : ℝ))) _ _ g4
  rw [near_contacts_two _ _ rfl, near_contacts_two _ _ g1, near_contacts_two _ _ g2,
    far_contacts_two _ _ g3, far_contacts_two _ _ g4, far_contacts_two _ _ g5,
    exampleContact_filter]
  rfl

/-- C16 (counterexample): the example colliders 1, 2 (overlapping) and 3 (far
away) are registered.  The first `DetectAndDispatch` call dispatches `Enter`
to the owners of 1 and 2.  After `RemoveCollider` of collider 3 the second
call dispatches `Enter` to them again, with no `Stay` and no `Exit`, although
the pair overlaps in both calls. -/
theorem enter_again_after_remove :
    pairTrace (MakeKey_ 1 2)
        (DetectAndDispatch (Libm.mk Real.sqrt Real.cos Real.sin)
          (exampleScene (examplePositions (1 : ℝ)))
          (CollisionManager.mk [(1, true), (2, true), (3, true)] [] [] [] [])).2 =
      [(⟨1, 1⟩, Phase.Enter), (⟨2, 2⟩, Phase.Enter)] ∧
    pairTrace (MakeKey_ 1 2)
        (DetectAndDispatch (Libm.mk Real.sqrt Real.cos Real.sin)
          (exampleScene (examplePositions (1 : ℝ)))
          (RemoveCollider
            (DetectAndDispatch (Libm.mk Real.sqrt Real.cos Real.sin)
              (exampleScene (examplePositions (1 : ℝ)))
              (CollisionManager.mk [(1, true), (2, true), (3, true)] [] [] [] [])).1
            (some 3))).2 =
      [(⟨1, 1⟩, Phase.Enter), (⟨2, 2⟩, Phase.Enter)] := by
  have g1 := DetectAndDispatch_spec (Libm.mk Real.sqrt Real.cos Real.sin)
    (exampleScene (examplePositions (1 : ℝ)))
    (CollisionManager.mk [(1, true), (2, true), (3, true)] [] [] [] [])
  obtain ⟨r1, r2, r3⟩ := RemoveCollider_some
    (DetectAndDispatch (Libm.mk Real.sqrt Real.cos Real.sin)
      (exampleScene (examplePositions (1 : ℝ)))
      (CollisionManager.mk [(1, true), (2, true), (3, true)] [] [] [] [])).1 3
  constructor
  · have h := pairTrace_present (Libm.mk Real.sqrt Real.cos Real.sin)
      (exampleScene (examplePositions (1 : ℝ)))
      (CollisionManager.mk [(1, true), (2, true), (3, true)] [] [] [] [])
      ⟨by simp, by simp⟩ (exampleContact (Libm.mk Real.sqrt Real.cos Real.sin) 1)
      ⟨1, 1⟩ ⟨2, 2⟩ rfl rfl
      (by rw [near_contacts_three _ _ rfl]; exact exampleContact_filter _ _)
    simpa using h
  · have hreg := r3.trans (congrArg (List.filter (fun e => decide (e.1 ≠ 3))) g1.2.1)
    have hwf := g1.2.2.infoWF
    rw [← r2] at hwf
    have h := pairTrace_present (Libm.mk Real.sqrt Real.cos Real.sin)
      (exampleScene (examplePositions (1 : ℝ))) _ hwf
      (exampleContact (Libm.mk Real.sqrt Real.cos Real.sin) 1) ⟨1, 1⟩ ⟨2, 2⟩ rfl rfl
      (by rw [near_contacts_two _ _ (hreg.trans (by decide))]
          exact exampleContact_filter _ _)
    rw [r1] at h
    simpa using h

/-- Witness for `stay_when_no_remove`: the same scene, with collider 3
deactivated and registered again between the two calls. -/
theorem stay_when_no_remove_witness :
    (∀ e ∈ (DetectAndDispatch (Libm.mk Real.sqrt Real.cos Real.sin)
        (exampleScene (examplePositions (1 : ℝ)))
        (applyCalls
          (DetectAndDispatch (Libm.mk Real.sqrt Real.cos Real.sin)
            (exampleScene (examplePositions (1 : ℝ)))
            (CollisionManager.mk [(1, true), (2, true), (3, true)] [] [] [] [])).1
          [RegCall.setActive (some 3) false, RegCall.register (some 3)])).2,
      e.key = (exampleContact (Libm.mk Real.sqrt Real.cos Real.sin) 1).key →
        e.callback.phase = Phase.Stay) ∧
    (∃ e ∈ (DetectAndDispatch (Libm.mk Real.sqrt Real.cos Real.sin)
        (exampleScene (examplePositions (1 : ℝ)))
        (applyCalls
          (DetectAndDispatch (Libm.mk Real.sqrt Real.cos Real.sin)
            (exampleScene (examplePositions (1 : ℝ)))
            (CollisionManager.mk [(1, true), (2, true), (3, true)] [] [] [] [])).1
          [RegCall.setActive (some 3) false, RegCall.register (some 3)])).2,
      e.target = ⟨1, 1⟩ ∧
        e.key = (exampleContact (Libm.mk Real.sqrt Real.cos Real.sin) 1).key ∧
        e.callback.phase = Phase.Stay) ∧
    (∃ e ∈ (DetectAndDispatch (Libm.mk Real.sqrt Real.cos Real.sin)
        (exampleScene (examplePositions (1 : ℝ)))
        (applyCalls
          (DetectAndDispatch (Libm.mk Real.sqrt Real.cos Real.sin)
            (exampleScene (examplePositions (1 : ℝ)))
            (CollisionManager.mk [(1, true), (2, true), (3, true)] [] [] [] [])).1
          [RegCall.setActive (some 3) false, RegCall.register (some 3)])).2,
      e.target = ⟨2, 2⟩ ∧
        e.key = (exampleContact (Libm.mk Real.sqrt Real.cos Real.sin) 1).key ∧
        e.callback.phase = Phase.Stay) := by
  have g1 := (DetectAndDispatch_spec (Libm.mk Real.sqrt Real.cos Real.sin)
    (exampleScene (examplePositions (1 : ℝ)))
    (CollisionManager.mk [(1, true), (2, true), (3, true)] [] [] [] [])).2.1
  have hreg : (applyCalls
      (DetectAndDispatch (Libm.mk Real.sqrt Real.cos Real.sin)
        (exampleScene (examplePositions (1 : ℝ)))
        (CollisionManager.mk [(1, true), (2, true), (3, true)] [] [] [] [])).1
      [RegCall.setActive (some 3) false, RegCall.register (some 3)]).mRegisteredColliders =
      [(1, true), (2, true), (3, true)] := by
    simp only [applyCalls, List.foldl_cons, List.foldl_nil, RegCall.apply, SetColliderActive,
      RegisterCollider, g1]
    decide
  refine stay_when_no_remove (Libm.mk Real.sqrt Real.cos Real.sin)
    (exampleScene (examplePositions (1 : ℝ))) (exampleScene (examplePositions (1 : ℝ)))
    (CollisionManager.mk [(1, true), (2, true), (3, true)] [] [] [] [])
    [RegCall.setActive (some 3) false, RegCall.register (some 3)]
    (exampleContact (Libm.mk Real.sqrt Real.cos Real.sin) 1) ⟨1, 1⟩ ⟨2, 2⟩ ?_ ?_ ?_ rfl rfl
  · intro r hr
    simp only [List.mem_cons, List.mem_singleton, List.not_mem_nil, or_false] at hr
    rcases hr with rfl | rfl <;> rfl
  · exact ⟨exampleContact (Libm.mk Real.sqrt Real.cos Real.sin) 1,
      by rw [near_contacts_three _ _ rfl]; simp, rfl⟩
  · rw [near_contacts_three _ _ hreg]
    simp

/-! ### Static bodies across a physics step (C20) -/

theorem setBody_body (s : PhysicsScene K) (k : Nat) (rb : RigidBody2D K) (g : Nat) :
    (s.setBody k rb).body g = if g = k then some rb else s.body g := by
  simp only [PhysicsScene.setBody, Function.update_apply]

theorem setBody_transform (s : PhysicsScene K) (k : Nat) (rb : RigidBody2D K) :
    (s.setBody k rb).transform = s.transform := rfl

theorem setTransform_body (s : PhysicsScene K) (k : Nat) (t : Transform K) :
    (s.setTransform k t).body = s.body := rfl

theorem setTransform_transform (s : PhysicsScene K) (k : Nat) (t : Transform K) (g : Nat) :
    (s.setTransform k t).transform g = if g = k then some t else s.transform g := by
  simp only [PhysicsScene.setTransform, Function.update_apply]

theorem setBody_parents (s : PhysicsScene K) (k : Nat) (rb : RigidBody2D K) :
    (s.setBody k rb).parents = s.parents := rfl

theorem setTransform_parents (s : PhysicsScene K) (k : Nat) (t : Transform K) :
    (s.setTransform k t).parents = s.parents := rfl

theorem setTransform_twice (s : PhysicsScene K) (k : Nat) (t t' : Transform K) :
    (s.setTransform k t).setTransform k t' = s.setTransform k t' := by
  simp only [PhysicsScene.setTransform, Function.update_idem]

/-! ### World pose and local pose of an object without parent -/

theorem node_root (s : PhysicsScene K) (g : Nat) (t : Transform K) (hp : s.parents g = [])
    (ht : s.transform g = some t) : s.node g = some ⟨t.toData, [], []⟩ := by
  simp only [PhysicsScene.node, ht, hp, PhysicsScene.chain, Option.map_some']

theorem node_none (s : PhysicsScene K) (g : Nat) (ht : s.transform g = none) :
    s.node g = none := by
  simp only [PhysicsScene.node, ht, Option.map_none']

/-- An object has a world pose exactly when it has a `Transform`. -/
theorem world_eq_none (L : Libm K) (s : PhysicsScene K) (g : Nat) :
    s.world L g = none ↔ s.transform g = none := by
  simp only [PhysicsScene.world, PhysicsScene.node, Option.map_eq_none']

/-- The world pose of an object without parent is its local pose. -/
theorem world_root (L : Libm K) (s : PhysicsScene K) (g : Nat) (hp : s.parents g = []) :
    s.world L g = s.transform g := by
  rcases ht : s.transform g with _ | t
  · exact (world_eq_none L s g).mpr ht
  · simp only [PhysicsScene.world, node_root s g t hp ht, Option.map_some',
      TransformAt.RecalcWorld_, TransformData.RecalcWorld_, Transform.toData,
      TransformData.fresh, TransformData.worldPose, not_true_eq_false, if_false]

theorem chain_congr (s s' : PhysicsScene K) (l : List Nat)
    (h : ∀ p ∈ l, s'.transform p = s.transform p) : s'.chain l = s.chain l := by
  induction l with
  | nil => rfl
  | cons p ps ih =>
    simp only [PhysicsScene.chain, h p (List.mem_cons_self _ _),
      ih (fun q hq => h q (List.mem_cons_of_mem _ hq))]

/-- The world pose of an object depends on its local pose, its chain of
ancestors and their local poses only. -/
theorem world_congr (L : Libm K) (s s' : PhysicsScene K) (g : Nat)
    (h0 : s'.parents g = s.parents g) (h1 : s'.transform g = s.transform g)
    (h2 : ∀ p ∈ s.parents g, s'.transform p = s.transform p) :
    s'.world L g = s.world L g := by
  simp only [PhysicsScene.world, PhysicsScene.node, h0, h1, chain_congr s s' _ h2]

/-- `tr->position = p` on an object without parent stores `p` as the local
position. -/
theorem writePosition_root (L : Libm K) (s : PhysicsScene K) (g : Nat) (t : Transform K)
    (p : Vec2 K) (hp : s.parents g = []) (ht : s.transform g = some t) :
    s.writePosition L g p = s.setTransform g { t with position := p } := by
  simp only [PhysicsScene.writePosition, node_root s g t hp ht, TransformAt.SetWorldPosition,
    TransformAt.MarkDirty, TransformData.localPose, Transform.toData, TransformData.fresh]

/-- `tr->rotation = r` on an object without parent stores `r` as the local
rotation. -/
theorem writeRotation_root (L : Libm K) (s : PhysicsScene K) (g : Nat) (t : Transform K)
    (r : K) (hp : s.parents g = []) (ht : s.transform g = some t) :
    s.writeRotation L g r = s.setTransform g { t with rotationZ := r } := by
  simp only [PhysicsScene.writeRotation, node_root s g t hp ht, TransformAt.SetWorldRotation,
    TransformAt.MarkDirty, TransformData.localPose, Transform.toData, TransformData.fresh]

theorem turn_root (L : Libm K) (s : PhysicsScene K) (g : Nat) (t : Transform K)
    (d : K) (hp : s.parents g = []) (ht : s.transform g = some t) :
    s.turn L g d = s.setTransform g { t with rotationZ := t.rotationZ + d } := by
  simp only [PhysicsScene.turn, world_root L s g hp, ht, writeRotation_root L s g t _ hp ht]

/-- The two transform writes of `Integrate_` on an object without parent. -/
theorem move_root (L : Libm K) (s : PhysicsScene K) (g : Nat) (t : Transform K)
    (p : Vec2 K) (d : K) (hp : s.parents g = []) (ht : s.transform g = some t) :
    (s.writePosition L g p).turn L g d =
      s.setTransform g { t with position := p, rotationZ := t.rotationZ + d } := by
  have h1 : (s.setTransform g { t with position := p }).transform g =
      some { t with position := p } := (setTransform_transform _ _ _ _).trans (if_pos rfl)
  rw [writePosition_root L s g t p hp ht,
    turn_root L (s.setTransform g { t with position := p }) g _ d hp h1, setTransform_twice]

/-! ### What a transform write leaves alone -/

theorem writePosition_body (L : Libm K) (s : PhysicsScene K) (k : Nat) (p : Vec2 K) :
    (s.writePosition L k p).body = s.body := by
  unfold PhysicsScene.writePosition
  rcases s.node k with _ | t <;> rfl

theorem writePosition_parents (L : Libm K) (s : PhysicsScene K) (k : Nat) (p : Vec2 K) :
    (s.writePosition L k p).parents = s.parents := by
  unfold PhysicsScene.writePosition
  rcases s.node k with _ | t <;> rfl

theorem writePosition_transform (L : Libm K) (s : PhysicsScene K) (k : Nat) (p : Vec2 K)
    (g : Nat) (h : g ≠ k) : (s.writePosition L k p).transform g = s.transform g := by
  unfold PhysicsScene.writePosition
  rcases s.node k with _ | t
  · rfl
  · simp only [setTransform_transform, if_neg h]

theorem writeRotation_body (L : Libm K) (s : PhysicsScene K) (k : Nat) (r : K) :
    (s.writeRotation L k r).body = s.body := by
  unfold PhysicsScene.writeRotation
  rcases s.node k with _ | t <;> rfl

theorem writeRotation_parents (L : Libm K) (s : PhysicsScene K) (k : Nat) (r : K) :
    (s.writeRotation L k r).parents = s.parents := by
  unfold PhysicsScene.writeRotation
  rcases s.node k with _ | t <;> rfl

theorem writeRotation_transform (L : Libm K) (s : PhysicsScene K) (k : Nat) (r : K)
    (g : Nat) (h : g ≠ k) : (s.writeRotation L k r).transform g = s.transform g := by
  unfold PhysicsScene.writeRotation
  rcases s.node k with _ | t
  · rfl
  · simp only [setTransform_transform, if_neg h]

theorem turn_body (L : Libm K) (s : PhysicsScene K) (k : Nat) (d : K) :
    (s.turn L k d).body = s.body := by
  unfold PhysicsScene.turn
  rcases s.world L k with _ | w
  · rfl
  · exact writeRotation_body L s k _

theorem turn_parents (L : Libm K) (s : PhysicsScene K) (k : Nat) (d : K) :
    (s.turn L k d).parents = s.parents := by
  unfold PhysicsScene.turn
  rcases s.world L k with _ | w
  · rfl
  · exact writeRotation_parents L s k _

theorem turn_transform (L : Libm K) (s : PhysicsScene K) (k : Nat) (d : K) (g : Nat)
    (h : g ≠ k) : (s.turn L k d).transform g = s.transform g := by
  unfold PhysicsScene.turn
  rcases s.world L k with _ | w
  · rfl
  · exact writeRotation_transform L s k _ g h

/-- The body and the local pose of every other object after the two transform
writes of `Integrate_`. -/
theorem move_other (L : Libm K) (s : PhysicsScene K) (k : Nat) (p : Vec2 K) (d : K) (g : Nat)
    (h : g ≠ k) :
    ((s.writePosition L k p).turn L k d).body = s.body ∧
    ((s.writePosition L k p).turn L k d).transform g = s.transform g := by
  exact ⟨(turn_body L _ k d).trans (writePosition_body L s k p),
    (turn_transform L _ k d g h).trans (writePosition_transform L s k p g h)⟩

theorem move_parents (L : Libm K) (s : PhysicsScene K) (k : Nat) (p : Vec2 K) (d : K) :
    ((s.writePosition L k p).turn L k d).parents = s.parents :=
  (turn_parents L _ k d).trans (writePosition_parents L s k p)

theorem ClearForces_fields (rb : RigidBody2D K) :
    rb.ClearForces.bodyType_ = rb.bodyType_ ∧ rb.ClearForces.velocity_ = rb.velocity_ ∧
    rb.ClearForces.angularVelocity_ = rb.angularVelocity_ := by
  unfold RigidBody2D.ClearForces
  split_ifs <;> exact ⟨rfl, rfl, rfl⟩

theorem AddForce_static (rb : RigidBody2D K) (f : Vec2 K) (mode : ForceMode)
    (h : rb.bodyType_ = BodyType.Static) : rb.AddForce f mode = rb := by
  unfold RigidBody2D.AddForce
  split_ifs <;> rfl

theorem AddTorque_static (rb : RigidBody2D K) (t : K) (mode : ForceMode)
    (h : rb.bodyType_ = BodyType.Static) : rb.AddTorque t mode = rb := by
  unfold RigidBody2D.AddTorque
  split_ifs <;> rfl

/-- `AddForce` and `AddTorque` calls leave a Static body as it is. -/
theorem applyForces_static (s : PhysicsScene K) (g : Nat) (rb : RigidBody2D K)
    (calls : List (ForceCall K)) (hb : s.body g = some rb)
    (hs : rb.bodyType_ = BodyType.Static) :
    (applyForces s g calls).body g = some rb ∧
    (applyForces s g calls).transform = s.transform := by
  have hfold : calls.foldl ForceCall.apply rb = rb := by
    induction calls with
    | nil => rfl
    | cons c t ih =>
      rw [List.foldl_cons]
      have : ForceCall.apply rb c = rb := by
        cases c with
        | addForce f mode => exact AddForce_static rb f mode hs
        | addTorque t mode => exact AddTorque_static rb t mode hs
      rw [this, ih]
  unfold applyForces
  rw [hb]
  simp only [hfold, setBody_body, if_true, setBody_transform, and_self]

/-- One iteration of `Integrate_` keeps a Static body Static, does not move
it, and leaves each velocity unchanged or zero. -/
theorem integrateBody_static (L : Libm K) (pm : PhysicsManager K) (dt : K) (s : PhysicsScene K)
    (e : Nat × Bool) (g : Nat) (T0 : Option (Transform K)) (v0 : Vec2 K) (w0 : K)
    (h : StaticAt s g T0 v0 w0) : StaticAt (integrateBody L pm dt s e) g T0 v0 w0 := by
  obtain ⟨rb, hb, hs, hv, hw, ht⟩ := h
  unfold integrateBody
  by_cases he : e.2 = true
  swap
  · simp only [he, not_false_eq_true, if_true]
    exact ⟨rb, hb, hs, hv, hw, ht⟩
  simp only [he, not_true_eq_false, if_false]
  by_cases hg : e.1 = g
  · rw [hg, hb]
    simp only
    rcases s.world L g with _ | tr
    · simp only
      refine ⟨rb.ClearForces, ?_, ?_, ?_, ?_, ?_⟩
      · simp [setBody_body]
      · rw [(ClearForces_fields rb).1]; exact hs
      · rw [(ClearForces_fields rb).2.1]; exact hv
      · rw [(ClearForces_fields rb).2.2]; exact hw
      · rw [setBody_transform]; exact ht
    · simp only [hs]
      refine ⟨_, (setBody_body _ _ _ _).trans (if_pos rfl), ?_, ?_, ?_, ?_⟩
      · rw [(ClearForces_fields _).1]
      · rw [(ClearForces_fields _).2.1]; exact Or.inr rfl
      · rw [(ClearForces_fields _).2.2]; exact Or.inr rfl
      · rw [setBody_transform]; exact ht
  · have hg' : g ≠ e.1 := fun h => hg h.symm
    have keep : ∀ s' : PhysicsScene K, s'.body g = s.body g → s'.transform g = s.transform g →
        StaticAt s' g T0 v0 w0 := by
      intro s' h1 h2
      exact ⟨rb, h1.trans hb, hs, hv, hw, h2.trans ht⟩
    rcases hbe : s.body e.1 with _ | rbe
    · exact keep _ rfl rfl
    · simp only
      rcases s.world L e.1 with _ | tre
      · simp only
        apply keep
        · rw [setBody_body, if_neg hg']
        · rw [setBody_transform]
      · simp only
        rcases rbe.bodyType_ with _ | _ | _
        · simp only
          apply keep
          · rw [setBody_body, if_neg hg']
          · rw [setBody_transform]
        · simp only
          apply keep
          · rw [setBody_body, if_neg hg', (move_other L s e.1 _ _ g hg').1]
          · rw [setBody_transform, (move_other L s e.1 _ _ g hg').2]
        · simp only
          apply keep
          · rw [setBody_body, if_neg hg', (move_other L s e.1 _ _ g hg').1]
          · rw [setBody_transform, (move_other L s e.1 _ _ g hg').2]

theorem writeVelocity_body (s : PhysicsScene K) (k : Nat) (v : Vec2 K) (w : K) (g : Nat)
    (h : g ≠ k) : (s.writeVelocity k v w).body g = s.body g := by
  unfold PhysicsScene.writeVelocity
  rcases s.body k with _ | r
  · rfl
  · simp only [setBody_body, if_neg h]

theorem writeVelocity_transform (s : PhysicsScene K) (k : Nat) (v : Vec2 K) (w : K) :
    (s.writeVelocity k v w).transform = s.transform := by
  unfold PhysicsScene.writeVelocity
  rcases s.body k with _ | r <;> rfl

/-- Velocity writes guarded by the Dynamic test do not touch a body that is
not Dynamic. -/
theorem guarded_velocity_writes (s : PhysicsScene K) (ga gb : Nat) (vA vB : Vec2 K) (wA wB : K)
    (g : Nat) (hg : s.isDynamic g = false) :
    (if s.isDynamic gb = true then
        (if s.isDynamic ga = true then s.writeVelocity ga vA wA else s).writeVelocity gb vB wB
      else (if s.isDynamic ga = true then s.writeVelocity ga vA wA else s)).body g = s.body g ∧
    (if s.isDynamic gb = true then
        (if s.isDynamic ga = true then s.writeVelocity ga vA wA else s).writeVelocity gb vB wB
      else (if s.isDynamic ga = true then s.writeVelocity ga vA wA else s)).transform =
      s.transform := by
  have h1 : (if s.isDynamic ga = true then s.writeVelocity ga vA wA else s).body g = s.body g ∧
      (if s.isDynamic ga = true then s.writeVelocity ga vA wA else s).transform = s.transform := by
    by_cases ha : s.isDynamic ga = true
    · have hne : g ≠ ga := by
        rintro rfl
        rw [hg] at ha
        exact Bool.false_ne_true ha
      simp only [ha, if_true]
      exact ⟨writeVelocity_body s ga vA wA g hne, writeVelocity_transform s ga vA wA⟩
    · simp only [ha]
      exact ⟨rfl, rfl⟩
  by_cases hb : s.isDynamic gb = true
  · have hne : g ≠ gb := by
      rintro rfl
      rw [hg] at hb
      exact Bool.false_ne_true hb
    simp only [hb, if_true]
    exact ⟨(writeVelocity_body _ gb vB wB g hne).trans h1.1,
      (writeVelocity_transform _ gb vB wB).trans h1.2⟩
  · simp only [hb]
    exact h1

/-- `SolveContacts_` for one contact changes neither the body of an object
that is not Dynamic nor any transform. -/
theorem solveContact_keeps (L : Libm K) (pm : PhysicsManager K) (dt : K) (s : PhysicsScene K)
    (c : NarrowContact K) (g : Nat) (hg : s.isDynamic g = false) :
    (solveContact L pm dt s c).body g = s.body g ∧
    (solveContact L pm dt s c).transform = s.transform := by
  unfold solveContact
  split
  · split
    · exact ⟨rfl, rfl⟩
    · split
      · exact ⟨rfl, rfl⟩
      · split
        · split
          · exact ⟨rfl, rfl⟩
          · exact guarded_velocity_writes s _ _ _ _ _ _ g hg
        · exact ⟨rfl, rfl⟩
  · exact ⟨rfl, rfl⟩

/-- Position writes guarded by the Dynamic test do not touch the transform of
an object whose body is not Dynamic. -/
theorem guarded_position_writes (L : Libm K) (s : PhysicsScene K) (ga gb : Nat) (pA pB : Vec2 K)
    (g : Nat) (hg : s.isDynamic g = false) :
    (if s.isDynamic gb = true then
        (if s.isDynamic ga = true then s.writePosition L ga pA else s).writePosition L gb pB
      else (if s.isDynamic ga = true then s.writePosition L ga pA else s)).transform g =
      s.transform g ∧
    (if s.isDynamic gb = true then
        (if s.isDynamic ga = true then s.writePosition L ga pA else s).writePosition L gb pB
      else (if s.isDynamic ga = true then s.writePosition L ga pA else s)).body = s.body := by
  have h1 : (if s.isDynamic ga = true then s.writePosition L ga pA else s).transform g =
      s.transform g ∧
      (if s.isDynamic ga = true then s.writePosition L ga pA else s).body = s.body := by
    by_cases ha : s.isDynamic ga = true
    · have hne : g ≠ ga := by
        rintro rfl
        rw [hg] at ha
        exact Bool.false_ne_true ha
      simp only [ha, if_true]
      exact ⟨writePosition_transform L s ga pA g hne, writePosition_body L s ga pA⟩
    · simp only [ha]
      exact ⟨rfl, rfl⟩
  by_cases hb : s.isDynamic gb = true
  · have hne : g ≠ gb := by
      rintro rfl
      rw [hg] at hb
      exact Bool.false_ne_true hb
    simp only [hb, if_true]
    exact ⟨(writePosition_transform L _ gb pB g hne).trans h1.1,
      (writePosition_body L _ gb pB).trans h1.2⟩
  · simp only [hb]
    exact h1

/-- `PositionalCorrection_` for one contact changes neither the transform of
an object whose body is not Dynamic nor any body. -/
theorem correctContact_keeps (L : Libm K) (pm : PhysicsManager K) (s : PhysicsScene K)
    (c : NarrowContact K) (g : Nat) (hg : s.isDynamic g = false) :
    (correctContact L pm s c).transform g = s.transform g ∧
    (correctContact L pm s c).body = s.body := by
  unfold correctContact
  split
  · split
    · exact ⟨rfl, rfl⟩
    · split
      · exact ⟨rfl, rfl⟩
      · split
        · split
          · exact ⟨rfl, rfl⟩
          · exact guarded_position_writes L s _ _ _ _ g hg
        · exact ⟨rfl, rfl⟩
  · exact ⟨rfl, rfl⟩

theorem isDynamic_congr (s s' : PhysicsScene K) (g : Nat) (h : s'.body g = s.body g) :
    s'.isDynamic g = s.isDynamic g := by
  unfold PhysicsScene.isDynamic
  rw [h]

theorem SolveContacts_keeps (L : Libm K) (pm : PhysicsManager K)
    (contacts : List (NarrowContact K)) (dt : K) (s : PhysicsScene K) (g : Nat)
    (hg : s.isDynamic g = false) :
    (SolveContacts_ L pm contacts dt s).body g = s.body g ∧
    (SolveContacts_ L pm contacts dt s).transform = s.transform := by
  unfold SolveContacts_
  induction contacts generalizing s with
  | nil => exact ⟨rfl, rfl⟩
  | cons c t ih =>
    obtain ⟨h1, h2⟩ := solveContact_keeps L pm dt s c g hg
    obtain ⟨i1, i2⟩ := ih (solveContact L pm dt s c)
      ((isDynamic_congr s _ g h1).trans hg)
    rw [List.foldl_cons]
    exact ⟨i1.trans h1, i2.trans h2⟩

theorem PositionalCorrection_keeps (L : Libm K) (pm : PhysicsManager K)
    (contacts : List (NarrowContact K)) (s : PhysicsScene K) (g : Nat)
    (hg : s.isDynamic g = false) :
    (PositionalCorrection_ L pm contacts s).transform g = s.transform g ∧
    (PositionalCorrection_ L pm contacts s).body = s.body := by
  unfold PositionalCorrection_
  induction contacts generalizing s with
  | nil => exact ⟨rfl, rfl⟩
  | cons c t ih =>
    obtain ⟨h1, h2⟩ := correctContact_keeps L pm s c g hg
    obtain ⟨i1, i2⟩ := ih (correctContact L pm s c)
      ((isDynamic_congr s _ g (congrFun h2 g)).trans hg)
    rw [List.foldl_cons]
    exact ⟨i1.trans h1, i2.trans h2⟩

/-! ### The hierarchy is not changed by the physics step -/

theorem writeVelocity_parents (s : PhysicsScene K) (k : Nat) (v : Vec2 K) (w : K) :
    (s.writeVelocity k v w).parents = s.parents := by
  unfold PhysicsScene.writeVelocity
  rcases s.body k with _ | r <;> rfl

theorem integrateBody_parents (L : Libm K) (pm : PhysicsManager K) (dt : K)
    (s : PhysicsScene K) (e : Nat × Bool) : (integrateBody L pm dt s e).parents = s.parents := by
  unfold integrateBody
  by_cases he : e.2 = true
  swap
  · simp only [he, Bool.false_eq_true, not_false_eq_true, if_true]
  simp only [he, not_true_eq_false, if_false]
  rcases s.body e.1 with _ | rbe
  · rfl
  · simp only
    rcases s.world L e.1 with _ | tre
    · rfl
    · simp only
      rcases rbe.bodyType_ with _ | _ | _
      · rfl
      · simp only [setBody_parents, move_parents]
      · simp only [setBody_parents, move_parents]

theorem Integrate_parents (L : Libm K) (pm : PhysicsManager K) (dt : K) (s : PhysicsScene K) :
    (Integrate_ L pm dt s).parents = s.parents := by
  unfold Integrate_
  generalize pm.mBodies = l
  induction l generalizing s with
  | nil => rfl
  | cons e t ih =>
    rw [List.foldl_cons, ih, integrateBody_parents]

theorem solveContact_parents (L : Libm K) (pm : PhysicsManager K) (dt : K) (s : PhysicsScene K)
    (c : NarrowContact K) : (solveContact L pm dt s c).parents = s.parents := by
  unfold solveContact
  split
  · split
    · rfl
    · split
      · rfl
      · split
        · split
          · rfl
          · split_ifs <;> simp only [writeVelocity_parents]
        · rfl
  · rfl

theorem SolveContacts_parents (L : Libm K) (pm : PhysicsManager K)
    (contacts : List (NarrowContact K)) (dt : K) (s : PhysicsScene K) :
    (SolveContacts_ L pm contacts dt s).parents = s.parents := by
  unfold SolveContacts_
  induction contacts generalizing s with
  | nil => rfl
  | cons c t ih => rw [List.foldl_cons, ih, solveContact_parents]

theorem correctContact_parents (L : Libm K) (pm : PhysicsManager K) (s : PhysicsScene K)
    (c : NarrowContact K) : (correctContact L pm s c).parents = s.parents := by
  unfold correctContact
  split
  · split
    · rfl
    · split
      · rfl
      · split
        · split
          · rfl
          · split_ifs <;> simp only [writePosition_parents]
        · rfl
  · rfl

theorem PositionalCorrection_parents (L : Libm K) (pm : PhysicsManager K)
    (contacts : List (NarrowContact K)) (s : PhysicsScene K) :
    (PositionalCorrection_ L pm contacts s).parents = s.parents := by
  unfold PositionalCorrection_
  induction contacts generalizing s with
  | nil => rfl
  | cons c t ih => rw [List.foldl_cons, ih, correctContact_parents]

theorem substep_parents [FloorRing K] (L : Libm K) (pm : PhysicsManager K) (dt : K)
    (w : PhysicsScene K × CollisionManager) : (substep L pm dt w).1.parents = w.1.parents := by
  have hsolve : ∀ (cs : List (NarrowContact K)) (l : List Nat) (s : PhysicsScene K),
      (l.foldl (fun s _ => SolveContacts_ L pm cs dt s) s).parents = s.parents := by
    intro cs l
    induction l with
    | nil => intro s; rfl
    | cons i t ih => intro s; rw [List.foldl_cons, ih, SolveContacts_parents]
  unfold substep
  simp only
  rw [PositionalCorrection_parents, hsolve, Integrate_parents]

/-- `Step` changes no parent link. -/
theorem Step_parents [FloorRing K] (L : Libm K) (pm : PhysicsManager K) (fixedDt : K)
    (s : PhysicsScene K) (collision : Option CollisionManager) :
    (Step L pm fixedDt s collision).1.parents = s.parents := by
  have hfold : ∀ (dt : K) (l : List Nat) (w : PhysicsScene K × CollisionManager),
      (l.foldl (fun w _ => substep L pm dt w) w).1.parents = w.1.parents := by
    intro dt l
    induction l with
    | nil => intro w; rfl
    | cons i t ih => intro w; rw [List.foldl_cons, ih, substep_parents]
  unfold Step
  rcases collision with _ | cm
  · rfl
  · exact hfold _ _ _

theorem applyForces_parents (s : PhysicsScene K) (g : Nat) (calls : List (ForceCall K)) :
    (applyForces s g calls).parents = s.parents := by
  unfold applyForces
  rcases s.body g with _ | rb <;> rfl

theorem StaticAt.not_dynamic {s : PhysicsScene K} {g : Nat} {T0 : Option (Transform K)}
    {v0 : Vec2 K} {w0 : K} (h : StaticAt s g T0 v0 w0) : s.isDynamic g = false := by
  obtain ⟨rb, hb, hs, -⟩ := h
  simp [PhysicsScene.isDynamic, hb, hs]

theorem StaticAt.of_eq {s s' : PhysicsScene K} {g : Nat} {T0 : Option (Transform K)}
    {v0 : Vec2 K} {w0 : K} (h : StaticAt s g T0 v0 w0) (h1 : s'.body g = s.body g)
    (h2 : s'.transform g = s.transform g) : StaticAt s' g T0 v0 w0 := by
  obtain ⟨rb, hb, hs, hv, hw, ht⟩ := h
  exact ⟨rb, h1.trans hb, hs, hv, hw, h2.trans ht⟩

theorem Integrate_static (L : Libm K) (pm : PhysicsManager K) (dt : K) (s : PhysicsScene K) (g : Nat)
    (T0 : Option (Transform K)) (v0 : Vec2 K) (w0 : K) (h : StaticAt s g T0 v0 w0) :
    StaticAt (Integrate_ L pm dt s) g T0 v0 w0 := by
  unfold Integrate_
  generalize pm.mBodies = l
  induction l generalizing s with
  | nil => exact h
  | cons e t ih => exact ih _ (integrateBody_static L pm dt s e g T0 v0 w0 h)

/-- Integrating an active registered Static body that has a transform sets
both of its velocities to zero. -/
theorem integrateBody_zero (L : Libm K) (pm : PhysicsManager K) (dt : K) (s : PhysicsScene K) (g : Nat)
    (T : Transform K) (v0 : Vec2 K) (w0 : K) (h : StaticAt s g (some T) v0 w0) :
    StaticAt (integrateBody L pm dt s (g, true)) g (some T) ⟨0, 0⟩ 0 := by
  obtain ⟨rb, hb, hs, -, -, ht⟩ := h
  obtain ⟨tr, hw⟩ : ∃ tr, s.world L g = some tr := by
    rcases hw : s.world L g with _ | tr
    · rw [(world_eq_none L s g).mp hw] at ht
      exact absurd ht (by simp)
    · exact ⟨tr, rfl⟩
  unfold integrateBody
  simp only [not_true_eq_false, if_false, hb, hw, hs]
  refine ⟨_, (setBody_body _ _ _ _).trans (if_pos rfl), ?_, ?_, ?_, ?_⟩
  · rw [(ClearForces_fields _).1]
  · rw [(ClearForces_fields _).2.1]; exact Or.inl rfl
  · rw [(ClearForces_fields _).2.2]; exact Or.inl rfl
  · rw [setBody_transform]; exact ht

theorem Integrate_zero (L : Libm K) (pm : PhysicsManager K) (dt : K) (s : PhysicsScene K) (g : Nat)
    (T : Transform K) (v0 : Vec2 K) (w0 : K) (h : StaticAt s g (some T) v0 w0)
    (hreg : (g, true) ∈ pm.mBodies) :
    StaticAt (Integrate_ L pm dt s) g (some T) ⟨0, 0⟩ 0 := by
  unfold Integrate_
  generalize pm.mBodies = l at hreg
  induction l generalizing s with
  | nil => simp at hreg
  | cons e t ih =>
    rw [List.foldl_cons]
    rcases List.mem_cons.mp hreg with he | he
    · rw [← he]
      have hz := integrateBody_zero L pm dt s g T v0 w0 h
      exact Integrate_static L { pm with mBodies := t } dt _ g (some T) ⟨0, 0⟩ 0 hz
    · exact ih _ (integrateBody_static L pm dt s e g (some T) v0 w0 h) he

/-- The solver iterations and the positional correction of a substep leave a
Static body and its transform as they are. -/
theorem substep_tail_static [FloorRing K] (L : Libm K) (pm : PhysicsManager K) (dt : K)
    (contacts : List (NarrowContact K)) (s : PhysicsScene K) (g : Nat)
    (T0 : Option (Transform K)) (v0 : Vec2 K) (w0 : K) (h : StaticAt s g T0 v0 w0) :
    StaticAt (PositionalCorrection_ L pm contacts
      ((List.range 8).foldl (fun s _ => SolveContacts_ L pm contacts dt s) s)) g T0 v0 w0 := by
  have hsolve : ∀ (l : List Nat) (s : PhysicsScene K), StaticAt s g T0 v0 w0 →
      StaticAt (l.foldl (fun s _ => SolveContacts_ L pm contacts dt s) s) g T0 v0 w0 := by
    intro l
    induction l with
    | nil => intro s hs; exact hs
    | cons i t ih =>
      intro s hs
      rw [List.foldl_cons]
      obtain ⟨h1, h2⟩ := SolveContacts_keeps L pm contacts dt s g hs.not_dynamic
      exact ih _ (hs.of_eq h1 (congrFun h2 g))
  have h8 := hsolve (List.range 8) s h
  obtain ⟨h1, h2⟩ := PositionalCorrection_keeps L pm contacts _ g h8.not_dynamic
  exact h8.of_eq (congrFun h2 g) h1

theorem substep_static [FloorRing K] (L : Libm K) (pm : PhysicsManager K) (dt : K)
    (w : PhysicsScene K × CollisionManager) (g : Nat) (T0 : Option (Transform K))
    (v0 : Vec2 K) (w0 : K) (h : StaticAt w.1 g T0 v0 w0) :
    StaticAt (substep L pm dt w).1 g T0 v0 w0 := by
  unfold substep
  exact substep_tail_static L pm dt _ _ g T0 v0 w0 (Integrate_static L pm dt w.1 g T0 v0 w0 h)

theorem substep_zero [FloorRing K] (L : Libm K) (pm : PhysicsManager K) (dt : K)
    (w : PhysicsScene K × CollisionManager) (g : Nat) (T : Transform K)
    (v0 : Vec2 K) (w0 : K) (h : StaticAt w.1 g (some T) v0 w0)
    (hreg : (g, true) ∈ pm.mBodies) :
    StaticAt (substep L pm dt w).1 g (some T) ⟨0, 0⟩ 0 := by
  unfold substep
  exact substep_tail_static L pm dt _ _ g (some T) ⟨0, 0⟩ 0
    (Integrate_zero L pm dt w.1 g T v0 w0 h hreg)

theorem substepsBody_ge [FloorRing K] (L : Libm K) (pm : PhysicsManager K) (dt : K)
    (s : PhysicsScene K) (steps : Int) (e : Nat × Bool) :
    steps ≤ substepsBody L pm dt s steps e := by
  unfold substepsBody
  split
  · exact le_rfl
  · split
    · exact le_rfl
    · split
      · exact le_rfl
      · split
        · exact le_rfl
        · split
          · exact le_rfl
          · exact le_max_left _ _

/-- With `maxSubsteps >= 1` the number of substeps is at least 1. -/
theorem ComputeSubsteps_pos [FloorRing K] (L : Libm K) (pm : PhysicsManager K) (dt : K)
    (s : PhysicsScene K) (h : 1 ≤ pm.maxSubsteps) : 1 ≤ ComputeSubsteps_ L pm dt s := by
  have hfold : ∀ (l : List (Nat × Bool)) (n : Int), 1 ≤ n →
      1 ≤ l.foldl (substepsBody L pm dt s) n := by
    intro l
    induction l with
    | nil => intro n hn; exact hn
    | cons e t ih =>
      intro n hn
      rw [List.foldl_cons]
      exact ih _ (le_trans hn (substepsBody_ge L pm dt s n e))
  have h1 := hfold pm.mBodies 1 le_rfl
  unfold ComputeSubsteps_
  simp only
  split_ifs with a b
  · exact le_rfl
  · exact h
  · exact h1

theorem substeps_static [FloorRing K] (L : Libm K) (pm : PhysicsManager K) (dt : K) (g : Nat)
    (T0 : Option (Transform K)) (v0 : Vec2 K) (w0 : K) (l : List Nat)
    (w : PhysicsScene K × CollisionManager) (h : StaticAt w.1 g T0 v0 w0) :
    StaticAt (l.foldl (fun w _ => substep L pm dt w) w).1 g T0 v0 w0 := by
  induction l generalizing w with
  | nil => exact h
  | cons i t ih =>
    rw [List.foldl_cons]
    exact ih _ (substep_static L pm dt w g T0 v0 w0 h)

/-- `Step` keeps a Static body Static, does not change its transform, and
leaves each of its velocities unchanged or zero. -/
theorem Step_static [FloorRing K] (L : Libm K) (pm : PhysicsManager K) (fixedDt : K)
    (s : PhysicsScene K) (collision : Option CollisionManager) (g : Nat)
    (T0 : Option (Transform K)) (v0 : Vec2 K) (w0 : K) (h : StaticAt s g T0 v0 w0) :
    StaticAt (Step L pm fixedDt s collision).1 g T0 v0 w0 := by
  unfold Step
  rcases collision with _ | cm
  · exact h
  · exact substeps_static L pm _ g T0 v0 w0 _ (s, cm) h

/-- `Step` with a collision manager and `maxSubsteps >= 1` sets both
velocities of an active registered Static body with a transform to zero. -/
theorem Step_zero [FloorRing K] (L : Libm K) (pm : PhysicsManager K) (fixedDt : K)
    (s : PhysicsScene K) (cm : CollisionManager) (g : Nat) (T : Transform K) (v0 : Vec2 K)
    (w0 : K) (h : StaticAt s g (some T) v0 w0) (hreg : (g, true) ∈ pm.mBodies)
    (hmax : 1 ≤ pm.maxSubsteps) :
    StaticAt (Step L pm fixedDt s (some cm)).1 g (some T) ⟨0, 0⟩ 0 := by
  unfold Step
  simp only
  obtain ⟨n, hn⟩ : ∃ n : Nat, (ComputeSubsteps_ L pm fixedDt s).toNat = n + 1 := by
    have := ComputeSubsteps_pos L pm fixedDt s hmax
    exact ⟨(ComputeSubsteps_ L pm fixedDt s).toNat - 1, by omega⟩
  rw [hn, List.range_succ, List.foldl_append]
  simp only [List.foldl_cons, List.foldl_nil]
  exact substep_zero L pm _ _ g T v0 w0
    (substeps_static L pm _ g (some T) v0 w0 _ (s, cm) h) hreg

/-- A registered, active Static body whose linear velocity is `(1, 0)`
(example scene, default configuration, an empty collision manager): after an
`AddForce` impulse call and `Step(1/60)` its linear velocity is `(0, 0)`, not
the value `(1, 0)` it had before. -/
theorem static_velocity_reset_by_step :
    ∃ rb, (Step (Libm.mk Real.sqrt Real.cos Real.sin) examplePhysics (1 / 60)
        (applyForces (exampleStaticScene (⟨1, 0⟩ : Vec2 ℝ)) 1
          [ForceCall.addForce ⟨5, 0⟩ ForceMode.Impulse])
        (some (CollisionManager.mk [] [] [] [] []))).1.body 1 = some rb ∧
      rb.velocity_ = ⟨0, 0⟩ ∧ rb.velocity_ ≠ (exampleStaticBody (⟨1, 0⟩ : Vec2 ℝ)).velocity_ := by
  obtain ⟨h1, h2⟩ := applyForces_static (exampleStaticScene (⟨1, 0⟩ : Vec2 ℝ)) 1
    (exampleStaticBody ⟨1, 0⟩) [ForceCall.addForce ⟨5, 0⟩ ForceMode.Impulse] rfl rfl
  have h0 : StaticAt (applyForces (exampleStaticScene (⟨1, 0⟩ : Vec2 ℝ)) 1
      [ForceCall.addForce ⟨5, 0⟩ ForceMode.Impulse]) 1 (some ⟨⟨0, 0⟩, ⟨1, 1⟩, 0⟩) ⟨1, 0⟩ 0 :=
    ⟨_, h1, rfl, Or.inl rfl, Or.inl rfl, by rw [h2]; rfl⟩
  obtain ⟨rb, hb, -, hv, -, -⟩ := Step_zero (Libm.mk Real.sqrt Real.cos Real.sin)
    examplePhysics (1 / 60) _ (CollisionManager.mk [] [] [] [] []) 1 _ _ _ h0
    (by simp [examplePhysics]) (by simp [examplePhysics])
  have hv0 : rb.velocity_ = ⟨0, 0⟩ := hv.elim id id
  refine ⟨rb, hb, hv0, ?_⟩
  rw [hv0]
  simp [exampleStaticBody]

/-- C20 (amended): for a Static body, a sequence of `AddForce` / `AddTorque`
calls changes neither the body nor any transform, and a following
`Step(fixedDt)` leaves the local pose of its object (position, rotation and
scale relative to the parent) unchanged, hence its world pose when the object
has no parent, and the body Static, and leaves its linear and its angular
velocity either unchanged or reset to zero; they are reset to zero when the
body is registered and active, its object has a transform, a collision manager
exists and `maxSubsteps >= 1`.  In particular velocities that were zero stay
zero. -/
theorem static_body_step [FloorRing K] (L : Libm K) (pm : PhysicsManager K) (fixedDt : K)
    (s : PhysicsScene K) (collision : Option CollisionManager) (g : Nat) (rb : RigidBody2D K)
    (calls : List (ForceCall K)) (hb : s.body g = some rb)
    (hs : rb.bodyType_ = BodyType.Static) :
    (applyForces s g calls).body g = some rb ∧
    (applyForces s g calls).transform = s.transform ∧
    (Step L pm fixedDt (applyForces s g calls) collision).1.transform g = s.transform g ∧
    (s.parents g = [] →
      (Step L pm fixedDt (applyForces s g calls) collision).1.world L g = s.world L g) ∧
    ∃ rb', (Step L pm fixedDt (applyForces s g calls) collision).1.body g = some rb' ∧
      rb'.bodyType_ = BodyType.Static ∧
      (rb'.velocity_ = rb.velocity_ ∨ rb'.velocity_ = ⟨0, 0⟩) ∧
      (rb'.angularVelocity_ = rb.angularVelocity_ ∨ rb'.angularVelocity_ = 0) ∧
      ((g, true) ∈ pm.mBodies → collision.isSome = true → 1 ≤ pm.maxSubsteps →
        (s.transform g).isSome = true →
        rb'.velocity_ = ⟨0, 0⟩ ∧ rb'.angularVelocity_ = 0) := by
  obtain ⟨h1, h2⟩ := applyForces_static s g rb calls hb hs
  have h0 : StaticAt (applyForces s g calls) g (s.transform g) rb.velocity_
      rb.angularVelocity_ :=
    ⟨rb, h1, hs, Or.inl rfl, Or.inl rfl, by rw [h2]⟩
  obtain ⟨rb', hb', hs', hv', hw', ht'⟩ := Step_static L pm fixedDt _ collision g _ _ _ h0
  have hworld : s.parents g = [] →
      (Step L pm fixedDt (applyForces s g calls) collision).1.world L g = s.world L g := by
    intro hp
    have hp' : (Step L pm fixedDt (applyForces s g calls) collision).1.parents g = [] := by
      rw [Step_parents, applyForces_parents]
      exact hp
    rw [world_root L _ g hp', world_root L s g hp, ht']
  refine ⟨h1, h2, ht', hworld, rb', hb', hs', hv', hw', ?_⟩
  intro hreg hcol hmax htr
  obtain ⟨cm, rfl⟩ := Option.isSome_iff_exists.mp hcol
  obtain ⟨T, hT⟩ := Option.isSome_iff_exists.mp htr
  rw [hT] at h0
  obtain ⟨rb2, hb2, -, hv2, hw2, -⟩ := Step_zero L pm fixedDt _ cm g T _ _ h0 hreg hmax
  rw [hb'] at hb2
  obtain rfl := Option.some.inj hb2
  exact ⟨hv2.elim id id, hw2.elim id id⟩

/-- Witness for `static_body_step`: the example scene with the Static body at
rest. -/
theorem static_body_step_witness :
    (applyForces (exampleStaticScene (⟨0, 0⟩ : Vec2 ℝ)) 1
        [ForceCall.addForce ⟨5, 0⟩ ForceMode.Impulse,
          ForceCall.addTorque 3 ForceMode.Force]).body 1 =
      some (exampleStaticBody ⟨0, 0⟩) ∧
    (applyForces (exampleStaticScene (⟨0, 0⟩ : Vec2 ℝ)) 1
        [ForceCall.addForce ⟨5, 0⟩ ForceMode.Impulse,
          ForceCall.addTorque 3 ForceMode.Force]).transform =
      (exampleStaticScene (⟨0, 0⟩ : Vec2 ℝ)).transform ∧
    (Step (Libm.mk Real.sqrt Real.cos Real.sin) examplePhysics (1 / 60)
        (applyForces (exampleStaticScene (⟨0, 0⟩ : Vec2 ℝ)) 1
          [ForceCall.addForce ⟨5, 0⟩ ForceMode.Impulse, ForceCall.addTorque 3 ForceMode.Force])
        (some (CollisionManager.mk [] [] [] [] []))).1.transform 1 =
      (exampleStaticScene (⟨0, 0⟩ : Vec2 ℝ)).transform 1 ∧
    ((exampleStaticScene (⟨0, 0⟩ : Vec2 ℝ)).parents 1 = [] →
      (Step (Libm.mk Real.sqrt Real.cos Real.sin) examplePhysics (1 / 60)
          (applyForces (exampleStaticScene (⟨0, 0⟩ : Vec2 ℝ)) 1
            [ForceCall.addForce ⟨5, 0⟩ ForceMode.Impulse,
              ForceCall.addTorque 3 ForceMode.Force])
          (some (CollisionManager.mk [] [] [] [] []))).1.world
          (Libm.mk Real.sqrt Real.cos Real.sin) 1 =
        (exampleStaticScene (⟨0, 0⟩ : Vec2 ℝ)).world (Libm.mk Real.sqrt Real.cos Real.sin) 1) ∧
    ∃ rb', (Step (Libm.mk Real.sqrt Real.cos Real.sin) examplePhysics (1 / 60)
        (applyForces (exampleStaticScene (⟨0, 0⟩ : Vec2 ℝ)) 1
          [ForceCall.addForce ⟨5, 0⟩ ForceMode.Impulse, ForceCall.addTorque 3 ForceMode.Force])
        (some (CollisionManager.mk [] [] [] [] []))).1.body 1 = some rb' ∧
      rb'.bodyType_ = BodyType.Static ∧
      (rb'.velocity_ = (exampleStaticBody (⟨0, 0⟩ : Vec2 ℝ)).velocity_ ∨
        rb'.velocity_ = ⟨0, 0⟩) ∧
      (rb'.angularVelocity_ = (exampleStaticBody (⟨0, 0⟩ : Vec2 ℝ)).angularVelocity_ ∨
        rb'.angularVelocity_ = 0) ∧
      ((1, true) ∈ (examplePhysics : PhysicsManager ℝ).mBodies →
        (some (CollisionManager.mk [] [] [] [] [])).isSome = true →
        1 ≤ (examplePhysics : PhysicsManager ℝ).maxSubsteps →
        ((exampleStaticScene (⟨0, 0⟩ : Vec2 ℝ)).transform 1).isSome = true →
        rb'.velocity_ = ⟨0, 0⟩ ∧ rb'.angularVelocity_ = 0) :=
  static_body_step (Libm.mk Real.sqrt Real.cos Real.sin) examplePhysics (1 / 60)
    (exampleStaticScene ⟨0, 0⟩) (some (CollisionManager.mk [] [] [] [] [])) 1
    (exampleStaticBody ⟨0, 0⟩)
    [ForceCall.addForce ⟨5, 0⟩ ForceMode.Impulse, ForceCall.addTorque 3 ForceMode.Force]
    rfl rfl

/-! ### Bodies that the solver never touches (C25) -/

theorem isDynamic_false_iff (s : PhysicsScene K) (g : Nat) :
    s.isDynamic g = false ↔
      ∀ rb, s.body g = some rb →
        rb.bodyType_ = BodyType.Static ∨ rb.bodyType_ = BodyType.Kinematic := by
  unfold PhysicsScene.isDynamic
  rcases s.body g with _ | r
  · simp
  · rcases h : r.bodyType_ with _ | _ | _ <;> simp [h]

/-- One contact whose two owners are not Dynamic, or that is a trigger pair,
is skipped by the velocity solver. -/
theorem solveContact_skip (L : Libm K) (pm : PhysicsManager K) (dt : K) (s : PhysicsScene K)
    (c : NarrowContact K)
    (h : c.isTriggerPair = true ∨
      ((∀ a, c.a = some a → s.isDynamic a.addr = false) ∧
        (∀ b, c.b = some b → s.isDynamic b.addr = false))) :
    solveContact L pm dt s c = s := by
  unfold solveContact
  split
  · rename_i a b ha hb
    split
    · rfl
    · rename_i htrig
      split
      · rfl
      · split
        · split
          · rfl
          · rcases h with h | ⟨h1, h2⟩
            · exact absurd h htrig
            · simp only [h1 a ha, h2 b hb, Bool.false_eq_true, if_false]
        · rfl
  · rfl

/-- One contact whose two owners are not Dynamic, or that is a trigger pair,
is skipped by the positional correction. -/
theorem correctContact_skip (L : Libm K) (pm : PhysicsManager K) (s : PhysicsScene K)
    (c : NarrowContact K)
    (h : c.isTriggerPair = true ∨
      ((∀ a, c.a = some a → s.isDynamic a.addr = false) ∧
        (∀ b, c.b = some b → s.isDynamic b.addr = false))) :
    correctContact L pm s c = s := by
  unfold correctContact
  split
  · rename_i a b ha hb
    split
    · rfl
    · rename_i htrig
      split
      · rfl
      · split
        · split
          · rfl
          · rcases h with h | ⟨h1, h2⟩
            · exact absurd h htrig
            · simp only [h1 a ha, h2 b hb, Bool.false_eq_true, if_false]
        · rfl
  · rfl

/-- C25 (amended): `SolveContacts_` and `PositionalCorrection_` leave the
rigid body (linear velocity, angular velocity and every other member) and the
local pose of an object unchanged when its body is Static or Kinematic or it
has no rigid body; `SolveContacts_` leaves its world pose unchanged, and so
does `PositionalCorrection_` when none of the ancestors of the object carries
a Dynamic body (in particular when it has no parent); and a pass over contacts
that are trigger pairs or have no Dynamic owner changes nothing at all. -/
theorem solver_spares_non_dynamic (L : Libm K) (pm : PhysicsManager K)
    (contacts : List (NarrowContact K)) (dt : K) (s : PhysicsScene K) :
    (∀ g, (∀ rb, s.body g = some rb →
          rb.bodyType_ = BodyType.Static ∨ rb.bodyType_ = BodyType.Kinematic) →
      (SolveContacts_ L pm contacts dt s).body g = s.body g ∧
      (SolveContacts_ L pm contacts dt s).transform g = s.transform g ∧
      (SolveContacts_ L pm contacts dt s).world L g = s.world L g ∧
      (PositionalCorrection_ L pm contacts s).body g = s.body g ∧
      (PositionalCorrection_ L pm contacts s).transform g = s.transform g ∧
      ((∀ p ∈ s.parents g, ∀ rb, s.body p = some rb →
          rb.bodyType_ = BodyType.Static ∨ rb.bodyType_ = BodyType.Kinematic) →
        (PositionalCorrection_ L pm contacts s).world L g = s.world L g)) ∧
    ((∀ c ∈ contacts, c.isTriggerPair = true ∨
        ((∀ a rb, c.a = some a → s.body a.addr = some rb →
            rb.bodyType_ = BodyType.Static ∨ rb.bodyType_ = BodyType.Kinematic) ∧
          (∀ b rb, c.b = some b → s.body b.addr = some rb →
            rb.bodyType_ = BodyType.Static ∨ rb.bodyType_ = BodyType.Kinematic))) →
      SolveContacts_ L pm contacts dt s = s ∧ PositionalCorrection_ L pm contacts s = s) := by
  constructor
  · intro g hg
    have hd : s.isDynamic g = false := (isDynamic_false_iff s g).mpr hg
    obtain ⟨h1, h2⟩ := SolveContacts_keeps L pm contacts dt s g hd
    obtain ⟨h3, h4⟩ := PositionalCorrection_keeps L pm contacts s g hd
    refine ⟨h1, congrFun h2 g, ?_, congrFun h4 g, h3, ?_⟩
    · exact world_congr L s _ g (congrFun (SolveContacts_parents L pm contacts dt s) g)
        (congrFun h2 g) (fun p _ => congrFun h2 p)
    · intro hanc
      exact world_congr L s _ g (congrFun (PositionalCorrection_parents L pm contacts s) g) h3
        (fun p hp => (PositionalCorrection_keeps L pm contacts s p
          ((isDynamic_false_iff s p).mpr (hanc p hp))).1)
  · intro h
    have h' : ∀ c ∈ contacts, c.isTriggerPair = true ∨
        ((∀ a, c.a = some a → s.isDynamic a.addr = false) ∧
          (∀ b, c.b = some b → s.isDynamic b.addr = false)) := by
      intro c hc
      rcases h c hc with h1 | ⟨h1, h2⟩
      · exact Or.inl h1
      · exact Or.inr ⟨fun a ha => (isDynamic_false_iff s _).mpr (fun rb hrb => h1 a rb ha hrb),
          fun b hb => (isDynamic_false_iff s _).mpr (fun rb hrb => h2 b rb hb hrb)⟩
    clear h
    unfold SolveContacts_ PositionalCorrection_
    induction contacts with
    | nil => exact ⟨rfl, rfl⟩
    | cons c t ih =>
      rw [List.foldl_cons, List.foldl_cons,
        solveContact_skip L pm dt s c (h' c (List.mem_cons_self _ _)),
        correctContact_skip L pm s c (h' c (List.mem_cons_self _ _))]
      exact ih (fun c' hc' => h' c' (List.mem_cons_of_mem _ hc'))

/-- Witness for `solver_spares_non_dynamic`: a Kinematic body (object 1,
without parent) hit by a Dynamic body (object 2) keeps its body and its world
pose, and a trigger contact between two Dynamic bodies changes nothing. -/
theorem solver_spares_non_dynamic_witness :
    ((SolveContacts_ (Libm.mk Real.sqrt Real.cos Real.sin) examplePhysics
        [exampleBodyContact false 1] (1 / 60)
        (exampleTwoBodies (some (exampleBody BodyType.Kinematic 1 (⟨1, 0⟩ : Vec2 ℝ) 0))
          (some (exampleBody BodyType.Dynamic 1 ⟨0, 0⟩ 0)))).body 1 =
      some (exampleBody BodyType.Kinematic 1 ⟨1, 0⟩ 0) ∧
    (PositionalCorrection_ (Libm.mk Real.sqrt Real.cos Real.sin) examplePhysics
        [exampleBodyContact false 1]
        (exampleTwoBodies (some (exampleBody BodyType.Kinematic 1 (⟨1, 0⟩ : Vec2 ℝ) 0))
          (some (exampleBody BodyType.Dynamic 1 ⟨0, 0⟩ 0)))).world
        (Libm.mk Real.sqrt Real.cos Real.sin) 1 =
      some ⟨⟨0, 0⟩, ⟨1, 1⟩, 0⟩) ∧
    SolveContacts_ (Libm.mk Real.sqrt Real.cos Real.sin) examplePhysics
        [exampleBodyContact true 1] (1 / 60)
        (exampleTwoBodies (some (exampleBody BodyType.Dynamic 1 (⟨1, 0⟩ : Vec2 ℝ) 0))
          (some (exampleBody BodyType.Dynamic 1 ⟨0, 0⟩ 0))) =
      exampleTwoBodies (some (exampleBody BodyType.Dynamic 1 ⟨1, 0⟩ 0))
        (some (exampleBody BodyType.Dynamic 1 ⟨0, 0⟩ 0)) := by
  refine ⟨?_, ?_⟩
  · have h := (solver_spares_non_dynamic (Libm.mk Real.sqrt Real.cos Real.sin) examplePhysics
      [exampleBodyContact false 1] (1 / 60)
      (exampleTwoBodies (some (exampleBody BodyType.Kinematic 1 (⟨1, 0⟩ : Vec2 ℝ) 0))
        (some (exampleBody BodyType.Dynamic 1 ⟨0, 0⟩ 0)))).1 1
      (by
        intro rb hrb
        have : rb = exampleBody BodyType.Kinematic 1 (⟨1, 0⟩ : Vec2 ℝ) 0 :=
          (Option.some.inj hrb).symm
        rw [this]
        exact Or.inr rfl)
    refine ⟨h.1, (h.2.2.2.2.2 (by intro p hp; simp [exampleTwoBodies] at hp)).trans ?_⟩
    exact world_root _ _ 1 rfl
  · exact ((solver_spares_non_dynamic (Libm.mk Real.sqrt Real.cos Real.sin) examplePhysics
      [exampleBodyContact true 1] (1 / 60)
      (exampleTwoBodies (some (exampleBody BodyType.Dynamic 1 (⟨1, 0⟩ : Vec2 ℝ) 0))
        (some (exampleBody BodyType.Dynamic 1 ⟨0, 0⟩ 0)))).2
      (by
        intro c hc
        rw [List.mem_singleton] at hc
        rw [hc]
        exact Or.inl rfl)).1

/-! ### Integration of a Dynamic body (C21) -/

/-- Integrating the entry of another body changes neither the body nor the
local pose of the object at address `g`. -/
theorem integrateBody_other (L : Libm K) (pm : PhysicsManager K) (dt : K) (s : PhysicsScene K)
    (e : Nat × Bool) (g : Nat) (hg : e.1 ≠ g) :
    (integrateBody L pm dt s e).body g = s.body g ∧
    (integrateBody L pm dt s e).transform g = s.transform g := by
  have hg' : g ≠ e.1 := fun h => hg h.symm
  unfold integrateBody
  by_cases he : e.2 = true
  swap
  · simp only [he, Bool.false_eq_true, not_false_eq_true, if_true, and_self]
  simp only [he, not_true_eq_false, if_false]
  rcases hbe : s.body e.1 with _ | rbe
  · exact ⟨rfl, rfl⟩
  · simp only
    rcases s.world L e.1 with _ | tre
    · simp only
      exact ⟨by rw [setBody_body, if_neg hg'], by rw [setBody_transform]⟩
    · simp only
      rcases rbe.bodyType_ with _ | _ | _
      · simp only
        exact ⟨by rw [setBody_body, if_neg hg'], by rw [setBody_transform]⟩
      · simp only
        exact ⟨by rw [setBody_body, if_neg hg', (move_other L s e.1 _ _ g hg').1],
          by rw [setBody_transform, (move_other L s e.1 _ _ g hg').2]⟩
      · simp only
        exact ⟨by rw [setBody_body, if_neg hg', (move_other L s e.1 _ _ g hg').1],
          by rw [setBody_transform, (move_other L s e.1 _ _ g hg').2]⟩

/-- Entries of other bodies leave the object at address `g` as it is. -/
theorem integrate_others (L : Libm K) (pm : PhysicsManager K) (dt : K) (l : List (Nat × Bool))
    (s : PhysicsScene K) (g : Nat) (hl : g ∉ l.map Prod.fst) :
    (l.foldl (integrateBody L pm dt) s).body g = s.body g ∧
    (l.foldl (integrateBody L pm dt) s).transform g = s.transform g := by
  induction l generalizing s with
  | nil => exact ⟨rfl, rfl⟩
  | cons e t ih =>
    rw [List.map_cons, List.mem_cons, not_or] at hl
    obtain ⟨h1, h2⟩ := integrateBody_other L pm dt s e g (fun h => hl.1 h.symm)
    obtain ⟨i1, i2⟩ := ih (integrateBody L pm dt s e) hl.2
    rw [List.foldl_cons]
    exact ⟨i1.trans h1, i2.trans h2⟩

/-- In a registry with one entry per body, `Integrate_` acts on the object at
address `g` exactly as the iteration for its own (active) entry does. -/
theorem Integrate_at (L : Libm K) (pm : PhysicsManager K) (dt : K) (s : PhysicsScene K) (g : Nat)
    (hreg : (g, true) ∈ pm.mBodies) (hnodup : (pm.mBodies.map Prod.fst).Nodup) :
    ∃ s0 : PhysicsScene K, s0.parents = s.parents ∧ s0.body g = s.body g ∧
      s0.transform g = s.transform g ∧
      (Integrate_ L pm dt s).body g = (integrateBody L pm dt s0 (g, true)).body g ∧
      (Integrate_ L pm dt s).transform g = (integrateBody L pm dt s0 (g, true)).transform g := by
  unfold Integrate_
  generalize pm.mBodies = l at hreg hnodup
  induction l generalizing s with
  | nil => simp at hreg
  | cons e t ih =>
    rw [List.map_cons, List.nodup_cons] at hnodup
    rw [List.foldl_cons]
    rcases List.mem_cons.mp hreg with he | he
    · rw [← he] at hnodup ⊢
      obtain ⟨h1, h2⟩ := integrate_others L pm dt t (integrateBody L pm dt s (g, true)) g hnodup.1
      exact ⟨s, rfl, rfl, rfl, h1, h2⟩
    · have hne : e.1 ≠ g := by
        intro h
        apply hnodup.1
        rw [h]
        exact List.mem_map_of_mem Prod.fst he
      obtain ⟨h1, h2⟩ := integrateBody_other L pm dt s e g hne
      obtain ⟨s0, a0, a1, a2, a3, a4⟩ := ih (integrateBody L pm dt s e) he hnodup.2
      exact ⟨s0, a0.trans (integrateBody_parents L pm dt s e), a1.trans h1, a2.trans h2, a3, a4⟩

/-- `ClearForces` on an awake, enabled body of an active object. -/
theorem ClearForces_active (rb : RigidBody2D K) (h1 : rb.mAwoken = true)
    (h2 : rb.mEnabled = true) (h3 : rb.gameObjectActive = true) :
    rb.ClearForces = { rb with accumForce_ := ⟨0, 0⟩, accumAccel_ := ⟨0, 0⟩, accumTorque_ := 0
                               accumAngularAccel_ := 0 } := by
  unfold RigidBody2D.ClearForces
  simp [h1, h2, h3]

/-- The iteration of `Integrate_` for the active entry of a Dynamic body
without position-freeze flags whose object has no parent. -/
theorem integrateBody_dynamic (L : Libm K) (pm : PhysicsManager K) (dt : K)
    (s : PhysicsScene K) (g : Nat) (rb : RigidBody2D K) (tr : Transform K)
    (hp : s.parents g = []) (hb : s.body g = some rb)
    (ht : s.transform g = some tr) (hdyn : rb.bodyType_ = BodyType.Dynamic)
    (hx : hasFlag rb.constraints_ FreezePosX = false)
    (hy : hasFlag rb.constraints_ FreezePosY = false) :
    ∃ (rb' : RigidBody2D K) (tr' : Transform K), (integrateBody L pm dt s (g, true)).body g = some rb'.ClearForces ∧
      (integrateBody L pm dt s (g, true)).transform g = some tr' ∧
      rb'.mAwoken = rb.mAwoken ∧ rb'.mEnabled = rb.mEnabled ∧
      rb'.gameObjectActive = rb.gameObjectActive ∧
      rb'.velocity_ =
        (if rb.linearDamping_ > 0 then
          (rb.velocity_ + (rb.accumForce_ * rb.InvMass_ + rb.accumAccel_ +
            pm.gravity * rb.gravityScale_) * dt) * max 0 (1 - rb.linearDamping_ * dt)
        else rb.velocity_ + (rb.accumForce_ * rb.InvMass_ + rb.accumAccel_ +
            pm.gravity * rb.gravityScale_) * dt) ∧
      tr'.position = tr.position + rb'.velocity_ * dt := by
  unfold integrateBody
  simp only [not_true_eq_false, if_false, hb, world_root L s g hp, ht, hdyn, hx, hy,
    Bool.false_eq_true]
  rw [move_root L s g tr _ _ hp ht, setBody_body, if_pos rfl, setBody_transform,
    setTransform_transform, if_pos rfl]
  exact ⟨_, _, rfl, rfl, rfl, rfl, rfl, rfl, rfl⟩

/-- The body written by the iteration of `Integrate_` for the active entry of
a Dynamic body without position-freeze flags, with or without parent. -/
theorem integrateBody_dynamic_body (L : Libm K) (pm : PhysicsManager K) (dt : K)
    (s : PhysicsScene K) (g : Nat) (rb : RigidBody2D K) (hb : s.body g = some rb)
    (ht : (s.transform g).isSome = true) (hdyn : rb.bodyType_ = BodyType.Dynamic)
    (hx : hasFlag rb.constraints_ FreezePosX = false)
    (hy : hasFlag rb.constraints_ FreezePosY = false) :
    ∃ rb' : RigidBody2D K, (integrateBody L pm dt s (g, true)).body g = some rb'.ClearForces ∧
      rb'.mAwoken = rb.mAwoken ∧ rb'.mEnabled = rb.mEnabled ∧
      rb'.gameObjectActive = rb.gameObjectActive ∧
      rb'.velocity_ =
        (if rb.linearDamping_ > 0 then
          (rb.velocity_ + (rb.accumForce_ * rb.InvMass_ + rb.accumAccel_ +
            pm.gravity * rb.gravityScale_) * dt) * max 0 (1 - rb.linearDamping_ * dt)
        else rb.velocity_ + (rb.accumForce_ * rb.InvMass_ + rb.accumAccel_ +
            pm.gravity * rb.gravityScale_) * dt) := by
  obtain ⟨w, hw⟩ : ∃ w, s.world L g = some w := by
    rcases h : s.world L g with _ | w
    · rw [(world_eq_none L s g).mp h] at ht
      exact absurd ht (by simp)
    · exact ⟨w, rfl⟩
  unfold integrateBody
  simp only [not_true_eq_false, if_false, hb, hw, hdyn, hx, hy, Bool.false_eq_true]
  rw [setBody_body, if_pos rfl]
  exact ⟨_, rfl, rfl, rfl, rfl, rfl⟩

/-- C21 (amended): for a Dynamic body without freeze constraints that is
registered and active (its registry entry is set, the component is awake and
enabled, its `GameObject` is active and has a `Transform`), with a linear
damping that is not negative (as `SetLinearDamping` guarantees), one
`Integrate_(dt)` gives the velocity
`v' = (v + (F * invMass + accumAccel + gravity * gravityScale) * dt) * k`
with `k = max(0, 1 - linearDamping * dt)` (so `k = 1` and no factor when the
damping is 0) and leaves the four accumulators zero; when the object has no
parent, the position afterwards is `position + v' * dt`, from the new
velocity. -/
theorem integrate_dynamic_semi_implicit (L : Libm K) (pm : PhysicsManager K) (dt : K)
    (s : PhysicsScene K) (g : Nat) (rb : RigidBody2D K) (tr : Transform K)
    (hreg : (g, true) ∈ pm.mBodies) (hnodup : (pm.mBodies.map Prod.fst).Nodup)
    (hb : s.body g = some rb) (ht : s.world L g = some tr)
    (hact : rb.mAwoken = true ∧ rb.mEnabled = true ∧ rb.gameObjectActive = true)
    (hdyn : rb.bodyType_ = BodyType.Dynamic)
    (hfree : hasFlag rb.constraints_ FreezePosX = false ∧
      hasFlag rb.constraints_ FreezePosY = false ∧ hasFlag rb.constraints_ FreezeRot = false)
    (hld : 0 ≤ rb.linearDamping_) :
    ∃ rb' : RigidBody2D K, (Integrate_ L pm dt s).body g = some rb' ∧
      rb'.velocity_ =
        (rb.velocity_ + (rb.accumForce_ * rb.InvMass_ + rb.accumAccel_ +
          pm.gravity * rb.gravityScale_) * dt) * max 0 (1 - rb.linearDamping_ * dt) ∧
      (rb.linearDamping_ = 0 →
        rb'.velocity_ = rb.velocity_ + (rb.accumForce_ * rb.InvMass_ + rb.accumAccel_ +
          pm.gravity * rb.gravityScale_) * dt) ∧
      (s.parents g = [] →
        ∃ tr' : Transform K, (Integrate_ L pm dt s).world L g = some tr' ∧
          tr'.position = tr.position + rb'.velocity_ * dt) ∧
      rb'.accumForce_ = ⟨0, 0⟩ ∧ rb'.accumAccel_ = ⟨0, 0⟩ ∧ rb'.accumTorque_ = 0 ∧
      rb'.accumAngularAccel_ = 0 := by
  obtain ⟨s0, a0, a1, a2, a3, a4⟩ := Integrate_at L pm dt s g hreg hnodup
  have hsome : (s.transform g).isSome = true := by
    rcases h : s.transform g with _ | t
    · rw [(world_eq_none L s g).mpr h] at ht
      exact absurd ht (by simp)
    · rfl
  obtain ⟨rb', b1, e1, e2, e3, hv⟩ :=
    integrateBody_dynamic_body L pm dt s0 g rb (a1.trans hb) (by rw [a2]; exact hsome) hdyn
      hfree.1 hfree.2.1
  have hc := ClearForces_active rb' (e1.trans hact.1) (e2.trans hact.2.1) (e3.trans hact.2.2)
  have hv' : rb'.ClearForces.velocity_ = rb'.velocity_ := (ClearForces_fields rb').2.1
  refine ⟨rb'.ClearForces, a3.trans b1, ?_, ?_, ?_, ?_, ?_, ?_, ?_⟩
  · rw [hv', hv]
    split_ifs with h
    · rfl
    · have h0 : rb.linearDamping_ = 0 := le_antisymm (not_lt.mp h) hld
      rw [h0, zero_mul, sub_zero, max_eq_right (zero_le_one' K)]
      ext <;> simp
  · intro h0
    rw [hv', hv, if_neg (by rw [h0]; exact lt_irrefl 0)]
  · intro hroot
    have ht' : s.transform g = some tr := (world_root L s g hroot).symm.trans ht
    have hroot' : (Integrate_ L pm dt s).parents g = [] := by
      rw [Integrate_parents]
      exact hroot
    obtain ⟨rb2, tr', c1, c2, -, -, -, -, hp⟩ :=
      integrateBody_dynamic L pm dt s0 g rb tr (by rw [a0]; exact hroot) (a1.trans hb)
        (a2.trans ht') hdyn hfree.1 hfree.2.1
    have hsame : rb2.ClearForces = rb'.ClearForces := Option.some.inj (c1.symm.trans b1)
    have hvel : rb2.velocity_ = rb'.ClearForces.velocity_ := by
      rw [← hsame]
      exact ((ClearForces_fields rb2).2.1).symm
    refine ⟨tr', (world_root L _ g hroot').trans (a4.trans c2), ?_⟩
    rw [← hvel]
    exact hp
  · rw [hc]
  · rw [hc]
  · rw [hc]
  · rw [hc]

/-- Witness for `integrate_dynamic_semi_implicit`: the Dynamic body of object
1 of the example scene, which has no parent, moving at `(1, 0)`, under the
default configuration. -/
theorem integrate_dynamic_semi_implicit_witness :
    ∃ (rb' : RigidBody2D ℝ) (tr' : Transform ℝ),
      (Integrate_ (Libm.mk Real.sqrt Real.cos Real.sin) examplePhysics (1 / 60 : ℝ)
        (exampleTwoBodies (some (exampleBody BodyType.Dynamic 1 (⟨1, 0⟩ : Vec2 ℝ) 0))
          none)).body 1 = some rb' ∧
      (Integrate_ (Libm.mk Real.sqrt Real.cos Real.sin) examplePhysics (1 / 60 : ℝ)
        (exampleTwoBodies (some (exampleBody BodyType.Dynamic 1 (⟨1, 0⟩ : Vec2 ℝ) 0))
          none)).world (Libm.mk Real.sqrt Real.cos Real.sin) 1 = some tr' ∧
      rb'.velocity_ =
        ((exampleBody BodyType.Dynamic 1 (⟨1, 0⟩ : Vec2 ℝ) 0).velocity_ +
          ((exampleBody BodyType.Dynamic 1 (⟨1, 0⟩ : Vec2 ℝ) 0).accumForce_ *
              (exampleBody BodyType.Dynamic 1 (⟨1, 0⟩ : Vec2 ℝ) 0).InvMass_ +
            (exampleBody BodyType.Dynamic 1 (⟨1, 0⟩ : Vec2 ℝ) 0).accumAccel_ +
            (examplePhysics : PhysicsManager ℝ).gravity *
              (exampleBody BodyType.Dynamic 1 (⟨1, 0⟩ : Vec2 ℝ) 0).gravityScale_) * (1 / 60 : ℝ)) *
          max 0 (1 - (exampleBody BodyType.Dynamic 1 (⟨1, 0⟩ : Vec2 ℝ) 0).linearDamping_ *
            (1 / 60 : ℝ)) ∧
      tr'.position = (⟨0, 0⟩ : Vec2 ℝ) + rb'.velocity_ * (1 / 60 : ℝ) ∧
      rb'.accumForce_ = ⟨0, 0⟩ ∧ rb'.accumAccel_ = ⟨0, 0⟩ ∧ rb'.accumTorque_ = 0 ∧
      rb'.accumAngularAccel_ = 0 := by
  obtain ⟨rb', h1, h2, -, h4, h5⟩ :=
    integrate_dynamic_semi_implicit (Libm.mk Real.sqrt Real.cos Real.sin) examplePhysics
      (1 / 60 : ℝ)
      (exampleTwoBodies (some (exampleBody BodyType.Dynamic 1 (⟨1, 0⟩ : Vec2 ℝ) 0)) none) 1
      (exampleBody BodyType.Dynamic 1 ⟨1, 0⟩ 0) ⟨⟨0, 0⟩, ⟨1, 1⟩, 0⟩
      (by simp [examplePhysics]) (by simp [examplePhysics]) rfl (world_root _ _ 1 rfl)
      ⟨rfl, rfl, rfl⟩ rfl ⟨by decide, by decide, by decide⟩ (le_refl _)
  obtain ⟨tr', h6, h7⟩ := h4 rfl
  exact ⟨rb', tr', h1, h6, h2, h7, h5⟩

/-! ### A child of an unrotated parent of unit scale -/

/-- The world pose of a child of an unrotated parent of unit scale without
parent of its own: the local pose shifted by the position of the parent. -/
theorem world_child (L : Libm K) (hc : L.cos 0 = 1) (hs : L.sin 0 = 0) (s : PhysicsScene K)
    (g p : Nat) (t : Transform K) (pp : Vec2 K) (hg : s.parents g = [p])
    (ht : s.transform g = some t) (hpt : s.transform p = some ⟨pp, ⟨1, 1⟩, 0⟩) :
    s.world L g =
      some ⟨⟨pp.x + t.position.x, pp.y + t.position.y⟩, t.scale, t.rotationZ⟩ := by
  simp [PhysicsScene.world, PhysicsScene.node, PhysicsScene.chain, hg, ht, hpt,
    TransformAt.RecalcWorld_, TransformData.RecalcWorld_, Transform.toData,
    TransformData.fresh, TransformData.worldPose, TransformData.Rot2D, DegToRad, hc, hs]

/-- `tr->position = q` on such a child stores the position relative to the
parent. -/
theorem writePosition_child (L : Libm K) (hc : L.cos 0 = 1) (hs : L.sin 0 = 0)
    (s : PhysicsScene K) (g p : Nat) (t : Transform K) (pp q : Vec2 K)
    (hg : s.parents g = [p]) (ht : s.transform g = some t)
    (hpt : s.transform p = some ⟨pp, ⟨1, 1⟩, 0⟩) :
    s.writePosition L g q =
      s.setTransform g { t with position := ⟨q.x - pp.x, q.y - pp.y⟩ } := by
  have h1 : |(1 : K)| > 1e-8 := by rw [abs_one]; norm_num
  simp [PhysicsScene.writePosition, PhysicsScene.node, PhysicsScene.chain, hg, ht, hpt,
    TransformAt.SetWorldPosition, TransformAt.MarkDirty, TransformData.RecalcWorld_,
    Transform.toData, TransformData.fresh, TransformData.localPose, TransformData.Rot2D,
    DegToRad, hc, hs, TransformTree.MarkDirtyAll, h1]

/-- `rot.z += d` on such a child. -/
theorem turn_child (L : Libm K) (s : PhysicsScene K) (g p : Nat) (t : Transform K) (pp : Vec2 K)
    (d : K) (hg : s.parents g = [p]) (ht : s.transform g = some t)
    (hpt : s.transform p = some ⟨pp, ⟨1, 1⟩, 0⟩) :
    (s.turn L g d).transform g = some { t with rotationZ := t.rotationZ + d } := by
  simp [PhysicsScene.turn, PhysicsScene.writeRotation, PhysicsScene.world,
    PhysicsScene.node, PhysicsScene.chain, hg, ht, hpt,
    TransformAt.SetWorldRotation, TransformAt.MarkDirty, TransformAt.RecalcWorld_,
    TransformData.RecalcWorld_,
    Transform.toData, TransformData.fresh, TransformData.localPose, TransformData.worldPose,
    TransformTree.MarkDirtyAll, setTransform_transform]

/-- C21 (counterexample): object 1 is a child of object 2; both carry an
active Dynamic body at rest without constraints, under gravity `(0, 9.81)`.
Before `Integrate_(1)` the world position of the child is `(0, 0)`; its new
velocity is `v' = (0, 9.81)`, so the claimed position is
`(0, 0) + v' * 1 = (0, 9.81)`.  The parent moves by `(0, 9.81)` as well and
carries the child with it: the world position of the child afterwards is
`(0, 19.62)`. -/
theorem child_body_moves_with_parent :
    (exampleParented (some (exampleBody BodyType.Dynamic 1 (⟨0, 0⟩ : Vec2 ℝ) 0))
        (some (exampleBody BodyType.Dynamic 1 ⟨0, 0⟩ 0))).world
      (Libm.mk Real.sqrt Real.cos Real.sin) 1 = some ⟨⟨0, 0⟩, ⟨1, 1⟩, 0⟩ ∧
    ((Integrate_ (Libm.mk Real.sqrt Real.cos Real.sin)
        (examplePhysicsBodies [(1, true), (2, true)]) 1
        (exampleParented (some (exampleBody BodyType.Dynamic 1 (⟨0, 0⟩ : Vec2 ℝ) 0))
          (some (exampleBody BodyType.Dynamic 1 ⟨0, 0⟩ 0)))).body 1).map
      (fun rb => rb.velocity_) = some ⟨0, 9.81⟩ ∧
    (Integrate_ (Libm.mk Real.sqrt Real.cos Real.sin)
        (examplePhysicsBodies [(1, true), (2, true)]) 1
        (exampleParented (some (exampleBody BodyType.Dynamic 1 (⟨0, 0⟩ : Vec2 ℝ) 0))
          (some (exampleBody BodyType.Dynamic 1 ⟨0, 0⟩ 0)))).world
      (Libm.mk Real.sqrt Real.cos Real.sin) 1 = some ⟨⟨0, 19.62⟩, ⟨1, 1⟩, 0⟩ ∧
    (⟨0, 0⟩ : Vec2 ℝ) + (⟨0, 9.81⟩ : Vec2 ℝ) * (1 : ℝ) ≠ ⟨0, 19.62⟩ := by
  refine ⟨(world_child _ real_cos_zero real_sin_zero _ 1 2 _ ⟨1, 0⟩ rfl rfl rfl).trans
    (by simp), ?_, ?_, ?_⟩
  · simp [Integrate_, integrateBody, examplePhysicsBodies, examplePhysics, exampleParented,
      exampleBody, PhysicsScene.world, PhysicsScene.node, PhysicsScene.chain,
      PhysicsScene.writePosition, PhysicsScene.turn, PhysicsScene.writeRotation,
      PhysicsScene.setBody, PhysicsScene.setTransform, Function.update_apply,
      TransformAt.RecalcWorld_, TransformData.RecalcWorld_, TransformAt.SetWorldPosition,
      TransformAt.SetWorldRotation, TransformAt.MarkDirty, TransformTree.MarkDirtyAll,
      Transform.toData, TransformData.fresh, TransformData.worldPose, TransformData.localPose,
      TransformData.Rot2D, DegToRad, RigidBody2D.ClearForces, RigidBody2D.InvMass_,
      RigidBody2D.InvInertia_, hasFlag, FreezePosX, FreezePosY, FreezeRot]
    ext <;> simp
  · simp [Integrate_, integrateBody, examplePhysicsBodies, examplePhysics, exampleParented,
      exampleBody, PhysicsScene.world, PhysicsScene.node, PhysicsScene.chain,
      PhysicsScene.writePosition, PhysicsScene.turn, PhysicsScene.writeRotation,
      PhysicsScene.setBody, PhysicsScene.setTransform, Function.update_apply,
      TransformAt.RecalcWorld_, TransformData.RecalcWorld_, TransformAt.SetWorldPosition,
      TransformAt.SetWorldRotation, TransformAt.MarkDirty, TransformTree.MarkDirtyAll,
      Transform.toData, TransformData.fresh, TransformData.worldPose, TransformData.localPose,
      TransformData.Rot2D, DegToRad, RigidBody2D.ClearForces, RigidBody2D.InvMass_,
      RigidBody2D.InvInertia_, hasFlag, FreezePosX, FreezePosY, FreezeRot]
    norm_num
  · intro h
    have := congrArg Vec2.y h
    norm_num at this

/-! ### The loop bodies of the solver in terms of their local variables -/

theorem contactImpulse_eq (L : Libm K) (pm : PhysicsManager K) (dt : K) (s : PhysicsScene K)
    (c : NarrowContact K) (a b : GameObjectRef) (trA trB : Transform K) :
    contactImpulse L pm dt s c a b trA trB =
      if s.invM a.addr + s.invM b.addr ≤ 0 then none
      else if contactDenom L s c a b trA trB ≤ 1e-8 then none
      else some
        (s.vel a.addr - freezeMask (s.cons a.addr)
            (contactNormal L s c trA trB * contactJ L pm dt s c a b trA trB * s.invM a.addr),
          if s.invI a.addr > 0 then
            s.angVel a.addr - Cross (contactArm L s c c.colA trA) (contactNormal L s c trA trB) *
              contactJ L pm dt s c a b trA trB * s.invI a.addr
          else 0,
          s.vel b.addr + freezeMask (s.cons b.addr)
            (contactNormal L s c trA trB * contactJ L pm dt s c a b trA trB * s.invM b.addr),
          if s.invI b.addr > 0 then
            s.angVel b.addr + Cross (contactArm L s c c.colB trB) (contactNormal L s c trA trB) *
              contactJ L pm dt s c a b trA trB * s.invI b.addr
          else 0) := by
  rfl

theorem contactCorrection_eq (L : Libm K) (pm : PhysicsManager K) (s : PhysicsScene K)
    (c : NarrowContact K) (a b : GameObjectRef) (trA trB : Transform K) :
    contactCorrection L pm s c a b trA trB =
      if s.invM a.addr + s.invM b.addr ≤ 0 then none
      else if correctionMag pm s c a b ≤ 0 then none
      else some
        (⟨trA.position.x - (freezeMask (s.cons a.addr)
              (contactNormal L s c trA trB * correctionMag pm s c a b * s.invM a.addr)).x,
            trA.position.y - (freezeMask (s.cons a.addr)
              (contactNormal L s c trA trB * correctionMag pm s c a b * s.invM a.addr)).y⟩,
          ⟨trB.position.x + (freezeMask (s.cons b.addr)
              (contactNormal L s c trA trB * correctionMag pm s c a b * s.invM b.addr)).x,
            trB.position.y + (freezeMask (s.cons b.addr)
              (contactNormal L s c trA trB * correctionMag pm s c a b * s.invM b.addr)).y⟩) := by
  rfl

theorem isDynamic_eq_true (s : PhysicsScene K) (g : Nat) :
    s.isDynamic g = true ↔ ∃ rb, s.body g = some rb ∧ rb.bodyType_ = BodyType.Dynamic := by
  unfold PhysicsScene.isDynamic
  rcases s.body g with _ | r
  · simp
  · simp

/-- A guarded velocity write, body by body. -/
theorem guardedWrite_body (s : PhysicsScene K) (k : Nat) (v : Vec2 K) (w : K) (g : Nat) :
    (if s.isDynamic k = true then s.writeVelocity k v w else s).body g =
      (s.body g).map (setVel g k v w) := by
  by_cases hg : g = k
  · subst hg
    rcases hb : s.body g with _ | r
    · have hd : s.isDynamic g = false := by simp [PhysicsScene.isDynamic, hb]
      simp only [hd, Bool.false_eq_true, if_false, hb, Option.map_none']
    · by_cases ht : r.bodyType_ = BodyType.Dynamic
      · have hd : s.isDynamic g = true := (isDynamic_eq_true s g).mpr ⟨r, hb, ht⟩
        simp only [hd, if_true, Option.map_some', setVel, ht, and_self]
        unfold PhysicsScene.writeVelocity
        simp only [hb, setBody_body, if_true]
        rw [ht]
      · have hd : s.isDynamic g = false := by simp [PhysicsScene.isDynamic, hb, ht]
        simp only [hd, Bool.false_eq_true, if_false, hb, Option.map_some', setVel, ht,
          and_false]
  · have hf : ∀ rb : RigidBody2D K, setVel g k v w rb = rb := by
      intro rb
      simp only [setVel, hg, false_and, if_false]
    have hmap : (s.body g).map (setVel g k v w) = s.body g := by
      rcases s.body g with _ | r
      · rfl
      · simp only [Option.map_some', hf]
    rw [hmap]
    split_ifs
    · exact writeVelocity_body s k v w g hg
    · rfl

theorem guardedWrite_transform (s : PhysicsScene K) (k : Nat) (v : Vec2 K) (w : K) :
    (if s.isDynamic k = true then s.writeVelocity k v w else s).transform = s.transform := by
  split_ifs
  · exact writeVelocity_transform s k v w
  · rfl

theorem setVel_type (g k : Nat) (v : Vec2 K) (w : K) (rb : RigidBody2D K) :
    (setVel g k v w rb).bodyType_ = rb.bodyType_ := by
  unfold setVel
  split_ifs <;> rfl

theorem isDynamic_of_type (s s' : PhysicsScene K) (g : Nat)
    (h : (s'.body g).map (fun r => r.bodyType_) = (s.body g).map (fun r => r.bodyType_)) :
    s'.isDynamic g = s.isDynamic g := by
  unfold PhysicsScene.isDynamic
  rcases h1 : s'.body g with _ | r' <;> rcases h2 : s.body g with _ | r <;>
    simp only [h1, h2, Option.map_none', Option.map_some', Option.some.injEq] at h
  · rfl
  · exact absurd h (by simp)
  · exact absurd h (by simp)
  · simp only [h]

theorem guardedWrite_isDynamic (s : PhysicsScene K) (k : Nat) (v : Vec2 K) (w : K) (g : Nat) :
    (if s.isDynamic k = true then s.writeVelocity k v w else s).isDynamic g = s.isDynamic g := by
  apply isDynamic_of_type
  rw [guardedWrite_body s k v w g]
  rcases s.body g with _ | r
  · rfl
  · simp only [Option.map_some', setVel_type]

/-- The two guarded velocity writes at the end of the loop body of
`SolveContacts_`, body by body. -/
theorem velocityWrites_body (s : PhysicsScene K) (ga gb : Nat) (vA vB : Vec2 K) (wA wB : K)
    (g : Nat) :
    (if s.isDynamic gb = true then
        (if s.isDynamic ga = true then s.writeVelocity ga vA wA else s).writeVelocity gb vB wB
      else (if s.isDynamic ga = true then s.writeVelocity ga vA wA else s)).body g =
      ((s.body g).map (setVel g ga vA wA)).map (setVel g gb vB wB) := by
  have h1 := guardedWrite_body s ga vA wA g
  have h2 := guardedWrite_body (if s.isDynamic ga = true then s.writeVelocity ga vA wA else s)
    gb vB wB g
  rw [guardedWrite_isDynamic s ga vA wA gb, h1] at h2
  exact h2

theorem velocityWrites_transform (s : PhysicsScene K) (ga gb : Nat) (vA vB : Vec2 K)
    (wA wB : K) :
    (if s.isDynamic gb = true then
        (if s.isDynamic ga = true then s.writeVelocity ga vA wA else s).writeVelocity gb vB wB
      else (if s.isDynamic ga = true then s.writeVelocity ga vA wA else s)).transform =
      s.transform := by
  have h2 := guardedWrite_transform
    (if s.isDynamic ga = true then s.writeVelocity ga vA wA else s) gb vB wB
  rw [guardedWrite_isDynamic s ga vA wA gb, guardedWrite_transform s ga vA wA] at h2
  exact h2

/-- A guarded position write, seen at the local pose of an object without
parent. -/
theorem guardedPos_transform (L : Libm K) (s : PhysicsScene K) (k : Nat) (p : Vec2 K) (g : Nat)
    (hroot : s.parents g = []) :
    (if s.isDynamic k = true then s.writePosition L k p else s).transform g =
      (s.transform g).map (setPos g k (s.isDynamic k) p) := by
  by_cases hd : s.isDynamic k = true
  · simp only [hd, if_true]
    by_cases hg : g = k
    · subst hg
      rcases ht : s.transform g with _ | t
      · unfold PhysicsScene.writePosition
        simp only [node_none s g ht, ht, Option.map_none']
      · rw [writePosition_root L s g t p hroot ht]
        simp only [setTransform_transform, if_true, Option.map_some', setPos, and_self]
    · rw [writePosition_transform L s k p g hg]
      rcases s.transform g with _ | t
      · rfl
      · simp only [Option.map_some', setPos, hg, false_and, if_false]
  · have hd' : s.isDynamic k = false := by simpa using hd
    rw [hd']
    simp only [Bool.false_eq_true, if_false]
    rcases s.transform g with _ | t
    · rfl
    · simp only [Option.map_some', setPos, Bool.false_eq_true, and_false, if_false]

theorem guardedPos_body (L : Libm K) (s : PhysicsScene K) (k : Nat) (p : Vec2 K) :
    (if s.isDynamic k = true then s.writePosition L k p else s).body = s.body := by
  split_ifs
  · exact writePosition_body L s k p
  · rfl

theorem guardedPos_parents (L : Libm K) (s : PhysicsScene K) (k : Nat) (p : Vec2 K) :
    (if s.isDynamic k = true then s.writePosition L k p else s).parents = s.parents := by
  split_ifs
  · exact writePosition_parents L s k p
  · rfl

/-- The two guarded position writes at the end of the loop body of
`PositionalCorrection_`, seen at the local pose of an object without parent. -/
theorem positionWrites_transform (L : Libm K) (s : PhysicsScene K) (ga gb : Nat)
    (pA pB : Vec2 K) (g : Nat) (hroot : s.parents g = []) :
    (if s.isDynamic gb = true then
        (if s.isDynamic ga = true then s.writePosition L ga pA else s).writePosition L gb pB
      else (if s.isDynamic ga = true then s.writePosition L ga pA else s)).transform g =
      ((s.transform g).map (setPos g ga (s.isDynamic ga) pA)).map
        (setPos g gb (s.isDynamic gb) pB) := by
  have h1 := guardedPos_transform L s ga pA g hroot
  have h2 := guardedPos_transform L
    (if s.isDynamic ga = true then s.writePosition L ga pA else s) gb pB g
    (by rw [guardedPos_parents]; exact hroot)
  have hd : (if s.isDynamic ga = true then s.writePosition L ga pA else s).isDynamic gb =
      s.isDynamic gb := isDynamic_congr s _ gb (congrFun (guardedPos_body L s ga pA) gb)
  rw [hd, h1] at h2
  exact h2

theorem positionWrites_body (L : Libm K) (s : PhysicsScene K) (ga gb : Nat) (pA pB : Vec2 K) :
    (if s.isDynamic gb = true then
        (if s.isDynamic ga = true then s.writePosition L ga pA else s).writePosition L gb pB
      else (if s.isDynamic ga = true then s.writePosition L ga pA else s)).body = s.body := by
  have h2 := guardedPos_body L
    (if s.isDynamic ga = true then s.writePosition L ga pA else s) gb pB
  have hd : (if s.isDynamic ga = true then s.writePosition L ga pA else s).isDynamic gb =
      s.isDynamic gb := isDynamic_congr s _ gb (congrFun (guardedPos_body L s ga pA) gb)
  rw [hd, guardedPos_body L s ga pA] at h2
  exact h2

/-- The loop body of `SolveContacts_` either leaves the scene as it is or
writes the velocities computed by `contactImpulse`. -/
theorem solveContact_cases (L : Libm K) (pm : PhysicsManager K) (dt : K) (s : PhysicsScene K)
    (c : NarrowContact K) :
    solveContact L pm dt s c = s ∨
    ∃ a b trA trB r, c.a = some a ∧ c.b = some b ∧ c.isTriggerPair = false ∧
      s.world L a.addr = some trA ∧ s.world L b.addr = some trB ∧
      contactImpulse L pm dt s c a b trA trB = some r ∧
      (∀ g, (solveContact L pm dt s c).body g =
        ((s.body g).map (setVel g a.addr r.1 r.2.1)).map (setVel g b.addr r.2.2.1 r.2.2.2)) ∧
      (solveContact L pm dt s c).transform = s.transform := by
  unfold solveContact
  split
  · rename_i a b ha hb
    split
    · exact Or.inl rfl
    · rename_i htrig
      split
      · exact Or.inl rfl
      · split
        · rename_i trA trB hta htb
          split
          · exact Or.inl rfl
          · rename_i r hr
            refine Or.inr ⟨a, b, trA, trB, r, ha, hb, ?_, hta, htb, hr, ?_, ?_⟩
            · simpa using htrig
            · intro g
              exact velocityWrites_body s _ _ _ _ _ _ g
            · exact velocityWrites_transform s _ _ _ _ _ _
        · exact Or.inl rfl
  · exact Or.inl rfl

/-- The loop body of `SolveContacts_` for a contact that passes the early
tests. -/
theorem solveContact_eq (L : Libm K) (pm : PhysicsManager K) (dt : K) (s : PhysicsScene K)
    (c : NarrowContact K) (a b : GameObjectRef) (trA trB : Transform K)
    (ha : c.a = some a) (hb : c.b = some b) (htrig : c.isTriggerPair = false)
    (hbody : (s.body a.addr).isSome = true ∨ (s.body b.addr).isSome = true)
    (hta : s.world L a.addr = some trA) (htb : s.world L b.addr = some trB) :
    (contactImpulse L pm dt s c a b trA trB = none → solveContact L pm dt s c = s) ∧
    (∀ r, contactImpulse L pm dt s c a b trA trB = some r →
      (∀ g, (solveContact L pm dt s c).body g =
        ((s.body g).map (setVel g a.addr r.1 r.2.1)).map (setVel g b.addr r.2.2.1 r.2.2.2)) ∧
      (solveContact L pm dt s c).transform = s.transform) := by
  have hnot : ¬ ((s.body a.addr).isNone = true ∧ (s.body b.addr).isNone = true) := by
    rintro ⟨h1, h2⟩
    rcases hbody with h | h
    · rw [Option.isNone_iff_eq_none] at h1
      rw [h1] at h
      exact Bool.false_ne_true h
    · rw [Option.isNone_iff_eq_none] at h2
      rw [h2] at h
      exact Bool.false_ne_true h
  unfold solveContact
  simp only [ha, hb, htrig, Bool.false_eq_true, if_false, hnot, hta, htb]
  constructor
  · intro h
    rw [h]
  · intro r h
    rw [h]
    exact ⟨fun g => velocityWrites_body s _ _ _ _ _ _ g, velocityWrites_transform s _ _ _ _ _ _⟩

/-- The loop body of `PositionalCorrection_` for a contact that passes the
early tests. -/
theorem correctContact_eq (L : Libm K) (pm : PhysicsManager K) (s : PhysicsScene K)
    (c : NarrowContact K) (a b : GameObjectRef) (trA trB : Transform K)
    (ha : c.a = some a) (hb : c.b = some b) (htrig : c.isTriggerPair = false)
    (hbody : (s.body a.addr).isSome = true ∨ (s.body b.addr).isSome = true)
    (hta : s.world L a.addr = some trA) (htb : s.world L b.addr = some trB) :
    (contactCorrection L pm s c a b trA trB = none → correctContact L pm s c = s) ∧
    (∀ r, contactCorrection L pm s c a b trA trB = some r →
      (∀ g, s.parents g = [] → (correctContact L pm s c).transform g =
        ((s.transform g).map (setPos g a.addr (s.isDynamic a.addr) r.1)).map
          (setPos g b.addr (s.isDynamic b.addr) r.2)) ∧
      (correctContact L pm s c).body = s.body) := by
  have hnot : ¬ ((s.body a.addr).isNone = true ∧ (s.body b.addr).isNone = true) := by
    rintro ⟨h1, h2⟩
    rcases hbody with h | h
    · rw [Option.isNone_iff_eq_none] at h1
      rw [h1] at h
      exact Bool.false_ne_true h
    · rw [Option.isNone_iff_eq_none] at h2
      rw [h2] at h
      exact Bool.false_ne_true h
  unfold correctContact
  simp only [ha, hb, htrig, Bool.false_eq_true, if_false, hnot, hta, htb]
  constructor
  · intro h
    rw [h]
  · intro r h
    rw [h]
    exact ⟨fun g hg => positionWrites_transform L s _ _ _ _ g hg,
      positionWrites_body L s _ _ _ _⟩

/-- The loop body of `PositionalCorrection_` either leaves the scene as it is
or writes the positions computed by `contactCorrection`. -/
theorem correctContact_cases (L : Libm K) (pm : PhysicsManager K) (s : PhysicsScene K)
    (c : NarrowContact K) :
    correctContact L pm s c = s ∨
    ∃ a b trA trB r, c.a = some a ∧ c.b = some b ∧ c.isTriggerPair = false ∧
      s.world L a.addr = some trA ∧ s.world L b.addr = some trB ∧
      contactCorrection L pm s c a b trA trB = some r ∧
      (∀ g, s.parents g = [] → (correctContact L pm s c).transform g =
        ((s.transform g).map (setPos g a.addr (s.isDynamic a.addr) r.1)).map
          (setPos g b.addr (s.isDynamic b.addr) r.2)) ∧
      (correctContact L pm s c).body = s.body := by
  unfold correctContact
  split
  · rename_i a b ha hb
    split
    · exact Or.inl rfl
    · rename_i htrig
      split
      · exact Or.inl rfl
      · split
        · rename_i trA trB hta htb
          split
          · exact Or.inl rfl
          · rename_i r hr
            refine Or.inr ⟨a, b, trA, trB, r, ha, hb, ?_, hta, htb, hr, ?_, ?_⟩
            · simpa using htrig
            · intro g hg
              exact positionWrites_transform L s _ _ _ _ g hg
            · exact positionWrites_body L s _ _ _ _
        · exact Or.inl rfl
  · exact Or.inl rfl

/-! ### Values read by the solver -/

theorem invM_of_dynamic (s : PhysicsScene K) (g : Nat) (rb : RigidBody2D K)
    (hb : s.body g = some rb) (hd : rb.bodyType_ = BodyType.Dynamic) (hm : 1e-6 < rb.mass_) :
    s.invM g = 1 / rb.mass_ := by
  simp only [PhysicsScene.invM, hb, hd, if_true, RigidBody2D.InvMass_, ne_eq, not_true_eq_false,
    if_false, gt_iff_lt, hm]

theorem invM_of_not_dynamic (s : PhysicsScene K) (g : Nat) (h : s.isDynamic g = false) :
    s.invM g = 0 := by
  unfold PhysicsScene.invM
  unfold PhysicsScene.isDynamic at h
  rcases hb : s.body g with _ | r
  · rfl
  · rw [hb] at h
    have h' : ¬ r.bodyType_ = BodyType.Dynamic := by simpa using h
    simp only [h', if_false]

theorem invM_nonneg (s : PhysicsScene K) (g : Nat) : 0 ≤ s.invM g := by
  unfold PhysicsScene.invM
  rcases s.body g with _ | r
  · exact le_rfl
  · simp only [RigidBody2D.InvMass_]
    split_ifs with h1 h2 h3
    · exact le_rfl
    · exact le_of_lt (one_div_pos.mpr (lt_trans (by norm_num) h3))
    · exact le_rfl
    · exact le_rfl

theorem invM_pos (s : PhysicsScene K) (g : Nat) (hd : s.isDynamic g = true)
    (hm : ∀ rb, s.body g = some rb → rb.bodyType_ = BodyType.Dynamic → 1e-6 < rb.mass_) :
    0 < s.invM g := by
  obtain ⟨rb, hb, ht⟩ := (isDynamic_eq_true s g).mp hd
  rw [invM_of_dynamic s g rb hb ht (hm rb hb ht)]
  exact one_div_pos.mpr (lt_trans (by norm_num) (hm rb hb ht))

theorem hasFlag_zero (flag : Nat) : hasFlag 0 flag = false := by
  simp [hasFlag]

theorem freezeMask_free (cons : Nat) (dv : Vec2 K) (hx : hasFlag cons FreezePosX = false)
    (hy : hasFlag cons FreezePosY = false) : freezeMask cons dv = dv := by
  simp only [freezeMask, hx, hy, Bool.false_eq_true, if_false]

theorem cons_free (s : PhysicsScene K) (g : Nat) (flag : Nat)
    (h : ∀ rb, s.body g = some rb → hasFlag rb.constraints_ flag = false) :
    hasFlag (s.cons g) flag = false := by
  unfold PhysicsScene.cons
  rcases hb : s.body g with _ | r
  · exact hasFlag_zero flag
  · exact h r hb

theorem contactNormal_dot (L : Libm K) (s : PhysicsScene K) (c : NarrowContact K)
    (trA trB : Transform K) :
    Dot (contactNormal L s c trA trB) (contactNormal L s c trA trB) =
      Dot c.contact.normalA c.contact.normalA := by
  unfold contactNormal
  split_ifs
  · simp only [Dot, Vec2.neg_x, Vec2.neg_y]; ring
  · rfl

/-! ### The positional correction of one contact (C26) -/

/-- The loop body of `PositionalCorrection_` writes no local pose but those of
the two owners of the contact. -/
theorem correctContact_other (L : Libm K) (pm : PhysicsManager K) (s : PhysicsScene K)
    (c : NarrowContact K) (a b : GameObjectRef) (ha : c.a = some a) (hb : c.b = some b)
    (g : Nat) (hga : g ≠ a.addr) (hgb : g ≠ b.addr) :
    (correctContact L pm s c).transform g = s.transform g := by
  have key : ∀ r : Vec2 K × Vec2 K,
      (if s.isDynamic b.addr = true then
          (if s.isDynamic a.addr = true then s.writePosition L a.addr r.1 else s).writePosition L
            b.addr r.2
        else (if s.isDynamic a.addr = true then s.writePosition L a.addr r.1 else s)).transform g =
        s.transform g := by
    intro r
    have h1 : (if s.isDynamic a.addr = true then s.writePosition L a.addr r.1 else s).transform g =
        s.transform g := by
      split_ifs
      · exact writePosition_transform L s a.addr _ g hga
      · rfl
    by_cases h : s.isDynamic b.addr = true
    · rw [if_pos h]
      exact (writePosition_transform L _ b.addr _ g hgb).trans h1
    · rw [if_neg h]
      exact h1
  unfold correctContact
  simp only [ha, hb]
  split
  · rfl
  · split
    · rfl
    · split
      · split
        · rfl
        · exact key _
      · rfl

/-- The positions written by `PositionalCorrection_` for one contact whose
owners have no parent and no position-freeze flags. -/
theorem correction_one (L : Libm K) (pm : PhysicsManager K) (s : PhysicsScene K)
    (c : NarrowContact K) (a b : GameObjectRef) (trA trB : Transform K)
    (ha : c.a = some a) (hb : c.b = some b) (hne : a.addr ≠ b.addr)
    (htrig : c.isTriggerPair = false)
    (hra : s.parents a.addr = []) (hrb : s.parents b.addr = [])
    (hta : s.transform a.addr = some trA) (htb : s.transform b.addr = some trB)
    (hdyn : s.isDynamic a.addr = true ∨ s.isDynamic b.addr = true)
    (hfa : ∀ rb, s.body a.addr = some rb →
      hasFlag rb.constraints_ FreezePosX = false ∧ hasFlag rb.constraints_ FreezePosY = false)
    (hfb : ∀ rb, s.body b.addr = some rb →
      hasFlag rb.constraints_ FreezePosX = false ∧ hasFlag rb.constraints_ FreezePosY = false)
    (hmag : 0 ≤ correctionMag pm s c a b) :
    (correctContact L pm s c).body = s.body ∧
    (∀ g, g ≠ a.addr → g ≠ b.addr → (correctContact L pm s c).transform g = s.transform g) ∧
    (correctContact L pm s c).transform a.addr =
      some { trA with position := (trA.position -
        contactNormal L s c trA trB * correctionMag pm s c a b * s.invM a.addr) } ∧
    (correctContact L pm s c).transform b.addr =
      some { trB with position := (trB.position +
        contactNormal L s c trA trB * correctionMag pm s c a b * s.invM b.addr) } ∧
    (correctionMag pm s c a b = 0 → correctContact L pm s c = s) := by
  have hbody : (s.body a.addr).isSome = true ∨ (s.body b.addr).isSome = true := by
    rcases hdyn with h | h
    · obtain ⟨rb, hrb, -⟩ := (isDynamic_eq_true s _).mp h
      exact Or.inl (by rw [hrb]; rfl)
    · obtain ⟨rb, hrb, -⟩ := (isDynamic_eq_true s _).mp h
      exact Or.inr (by rw [hrb]; rfl)
  have hwa : s.world L a.addr = some trA := (world_root L s _ hra).trans hta
  have hwb : s.world L b.addr = some trB := (world_root L s _ hrb).trans htb
  obtain ⟨hnone, hsome⟩ := correctContact_eq L pm s c a b trA trB ha hb htrig hbody hwa hwb
  have hma : freezeMask (s.cons a.addr)
      (contactNormal L s c trA trB * correctionMag pm s c a b * s.invM a.addr) =
      contactNormal L s c trA trB * correctionMag pm s c a b * s.invM a.addr :=
    freezeMask_free _ _ (cons_free s _ _ (fun rb h => (hfa rb h).1))
      (cons_free s _ _ (fun rb h => (hfa rb h).2))
  have hmb : freezeMask (s.cons b.addr)
      (contactNormal L s c trA trB * correctionMag pm s c a b * s.invM b.addr) =
      contactNormal L s c trA trB * correctionMag pm s c a b * s.invM b.addr :=
    freezeMask_free _ _ (cons_free s _ _ (fun rb h => (hfb rb h).1))
      (cons_free s _ _ (fun rb h => (hfb rb h).2))
  have hcc := contactCorrection_eq L pm s c a b trA trB
  rw [hma, hmb] at hcc
  by_cases h1 : s.invM a.addr + s.invM b.addr ≤ 0
  · -- no inverse mass: nothing is written, and both claimed displacements are zero
    have hz1 : s.invM a.addr = 0 :=
      le_antisymm (by linarith [invM_nonneg s b.addr]) (invM_nonneg s a.addr)
    have hz2 : s.invM b.addr = 0 :=
      le_antisymm (by linarith [invM_nonneg s a.addr]) (invM_nonneg s b.addr)
    rw [if_pos h1] at hcc
    rw [hnone hcc, hz1, hz2]
    refine ⟨rfl, fun g _ _ => rfl, ?_, ?_, fun _ => rfl⟩
    · rw [hta]; congr 1
      have : trA.position - contactNormal L s c trA trB * correctionMag pm s c a b * (0 : K) =
          trA.position := by ext <;> simp
      rw [this]
    · rw [htb]; congr 1
      have : trB.position + contactNormal L s c trA trB * correctionMag pm s c a b * (0 : K) =
          trB.position := by ext <;> simp
      rw [this]
  by_cases h2 : correctionMag pm s c a b ≤ 0
  · have hz : correctionMag pm s c a b = 0 := le_antisymm h2 hmag
    rw [if_neg h1, if_pos h2] at hcc
    rw [hnone hcc, hz]
    refine ⟨rfl, fun g _ _ => rfl, ?_, ?_, fun _ => rfl⟩
    · rw [hta]; congr 1
      have : trA.position - contactNormal L s c trA trB * (0 : K) * s.invM a.addr =
          trA.position := by ext <;> simp
      rw [this]
    · rw [htb]; congr 1
      have : trB.position + contactNormal L s c trA trB * (0 : K) * s.invM b.addr =
          trB.position := by ext <;> simp
      rw [this]
  rw [if_neg h1, if_neg h2] at hcc
  obtain ⟨htr, hbd⟩ := hsome _ hcc
  refine ⟨hbd, fun g hga hgb => correctContact_other L pm s c a b ha hb g hga hgb, ?_, ?_,
    fun hz => absurd (le_of_eq hz) h2⟩
  · rw [htr a.addr hra, hta]
    simp only [Option.map_some', setPos, hne, false_and, if_false, true_and]
    congr 1
    by_cases hd : s.isDynamic a.addr = true
    · rw [if_pos hd]
      rfl
    · have hd' : s.isDynamic a.addr = false := by simpa using hd
      rw [if_neg hd, invM_of_not_dynamic s _ hd']
      have : trA.position - contactNormal L s c trA trB * correctionMag pm s c a b * (0 : K) =
          trA.position := by ext <;> simp
      rw [this]
  · rw [htr b.addr hrb, htb]
    have hne' : b.addr ≠ a.addr := fun h => hne h.symm
    simp only [Option.map_some', setPos, hne', false_and, if_false, true_and]
    congr 1
    by_cases hd : s.isDynamic b.addr = true
    · rw [if_pos hd]
      rfl
    · have hd' : s.isDynamic b.addr = false := by simpa using hd
      rw [if_neg hd, invM_of_not_dynamic s _ hd']
      have : trB.position + contactNormal L s c trA trB * correctionMag pm s c a b * (0 : K) =
          trB.position := by ext <;> simp
      rw [this]

theorem specCorrectionM_eq (pm : PhysicsManager K) (s : PhysicsScene K) (c : NarrowContact K)
    (a b : GameObjectRef) : specCorrectionM pm s c a b = correctionMag pm s c a b := by
  unfold specCorrectionM correctionMag
  ring

theorem vec2_eta (v : Vec2 K) : (⟨v.x, v.y⟩ : Vec2 K) = v := rfl

/-! ### The example scenes with two bodies -/

theorem example_centerA (L : Libm K) (A B : Option (RigidBody2D K)) (tr : Transform K) :
    contactCenter L (exampleTwoBodies A B) (some 1) tr = ⟨0, 0⟩ := by
  have hw : (exampleTwoBodies A B).world L 1 = some ⟨⟨0, 0⟩, ⟨1, 1⟩, 0⟩ :=
    (world_root L _ 1 rfl).trans rfl
  have hc : (exampleTwoBodies A B).colliderAt 1 = exampleCircle 1 0 := by
    simp [exampleTwoBodies]
  simp [contactCenter, ColliderCenterWorld_, hc, exampleCircle, GameObject.ref, hw, WorldCircleAt]

theorem example_centerB (L : Libm K) (A B : Option (RigidBody2D K)) (tr : Transform K) :
    contactCenter L (exampleTwoBodies A B) (some 2) tr = ⟨1, 0⟩ := by
  have hw : (exampleTwoBodies A B).world L 2 = some ⟨⟨1, 0⟩, ⟨1, 1⟩, 0⟩ :=
    (world_root L _ 2 rfl).trans rfl
  have hc : (exampleTwoBodies A B).colliderAt 2 = exampleCircle 2 1 := by
    simp [exampleTwoBodies]
  simp [contactCenter, ColliderCenterWorld_, hc, exampleCircle, GameObject.ref, hw, WorldCircleAt]

theorem example_normal (L : Libm K) (A B : Option (RigidBody2D K)) (t : Bool) (pen : K)
    (trA trB : Transform K) :
    contactNormal L (exampleTwoBodies A B) (exampleBodyContact t pen) trA trB = ⟨1, 0⟩ := by
  unfold contactNormal
  have h1 : (exampleBodyContact t pen : NarrowContact K).colA = some 1 := rfl
  have h2 : (exampleBodyContact t pen : NarrowContact K).colB = some 2 := rfl
  have h3 : (exampleBodyContact t pen : NarrowContact K).contact.normalA = ⟨1, 0⟩ := rfl
  rw [h1, h2, h3, example_centerA, example_centerB]
  have : ¬ (Dot ((⟨1, 0⟩ : Vec2 K) - ⟨0, 0⟩) ⟨1, 0⟩ < 0) := by
    simp [Dot]
  rw [if_neg this]

theorem example_invM (A B : Option (RigidBody2D K)) (g : Nat) (m : K) (v : Vec2 K) (c : Nat)
    (hm : 1e-6 < m)
    (hb : (exampleTwoBodies A B).body g = some (exampleBody BodyType.Dynamic m v c)) :
    (exampleTwoBodies A B).invM g = 1 / m :=
  invM_of_dynamic _ g _ hb rfl hm

/-- C26 (counterexample): three inputs on which the claimed displacement of
A, `-n * m * invMassA`, or the claimed total separation is not what the pass
produces; the bodies are Dynamic with unit mass and no constraints.

* Penetration percentage `-1` (penetration 1, slop 0.01): the claimed `m` is
  `0.99 * (-1) / 2` and would put A at `(0.495, 0)`; the code skips the
  contact (`mag <= 0`) and A stays at `(0, 0)`.
* Two circles with the same centre: `Contact_Circle_Circle` reports the zero
  vector as normal and the penetration `1.9999`; the claimed total separation
  is `0.8 * (1.9999 - 0.01)`, which is not zero, and neither body moves.
* A is a child of B (penetration 1, normal `(1, 0)`): the claimed position of
  A is `(-0.396, 0)`; A is written there, then B is written and carries A back
  to `(0, 0)`. -/
theorem positional_correction_misses :
    ((PositionalCorrection_ (Libm.mk Real.sqrt Real.cos Real.sin) (examplePhysicsPercent (-1))
        [exampleBodyContact false 1]
        (exampleTwoBodies (some (exampleBody BodyType.Dynamic 1 (⟨0, 0⟩ : Vec2 ℝ) 0))
          (some (exampleBody BodyType.Dynamic 1 ⟨0, 0⟩ 0)))).world
        (Libm.mk Real.sqrt Real.cos Real.sin) 1 = some ⟨⟨0, 0⟩, ⟨1, 1⟩, 0⟩ ∧
      (⟨0, 0⟩ : Vec2 ℝ) -
          contactNormal (Libm.mk Real.sqrt Real.cos Real.sin)
            (exampleTwoBodies (some (exampleBody BodyType.Dynamic 1 (⟨0, 0⟩ : Vec2 ℝ) 0))
              (some (exampleBody BodyType.Dynamic 1 ⟨0, 0⟩ 0)))
            (exampleBodyContact false 1) ⟨⟨0, 0⟩, ⟨1, 1⟩, 0⟩ ⟨⟨1, 0⟩, ⟨1, 1⟩, 0⟩ *
          specCorrectionM (examplePhysicsPercent (-1))
            (exampleTwoBodies (some (exampleBody BodyType.Dynamic 1 (⟨0, 0⟩ : Vec2 ℝ) 0))
              (some (exampleBody BodyType.Dynamic 1 ⟨0, 0⟩ 0)))
            (exampleBodyContact false 1) ⟨1, 1⟩ ⟨2, 2⟩ *
          (exampleTwoBodies (some (exampleBody BodyType.Dynamic 1 (⟨0, 0⟩ : Vec2 ℝ) 0))
              (some (exampleBody BodyType.Dynamic 1 ⟨0, 0⟩ 0))).invM 1 =
        ⟨0.495, 0⟩) ∧
    ((exampleContact (Libm.mk Real.sqrt Real.cos Real.sin) (0 : ℝ)).contact.normalA = ⟨0, 0⟩ ∧
      (exampleContact (Libm.mk Real.sqrt Real.cos Real.sin) (0 : ℝ)).contact.penetration =
        1.9999 ∧
      (PositionalCorrection_ (Libm.mk Real.sqrt Real.cos Real.sin) examplePhysics
        [exampleContact (Libm.mk Real.sqrt Real.cos Real.sin) 0]
        (exampleStacked (some (exampleBody BodyType.Dynamic 1 (⟨0, 0⟩ : Vec2 ℝ) 0))
          (some (exampleBody BodyType.Dynamic 1 ⟨0, 0⟩ 0)))).world
        (Libm.mk Real.sqrt Real.cos Real.sin) 1 = some ⟨⟨0, 0⟩, ⟨1, 1⟩, 0⟩ ∧
      (PositionalCorrection_ (Libm.mk Real.sqrt Real.cos Real.sin) examplePhysics
        [exampleContact (Libm.mk Real.sqrt Real.cos Real.sin) 0]
        (exampleStacked (some (exampleBody BodyType.Dynamic 1 (⟨0, 0⟩ : Vec2 ℝ) 0))
          (some (exampleBody BodyType.Dynamic 1 ⟨0, 0⟩ 0)))).world
        (Libm.mk Real.sqrt Real.cos Real.sin) 2 = some ⟨⟨0, 0⟩, ⟨1, 1⟩, 0⟩ ∧
      (examplePhysics : PhysicsManager ℝ).penetrationPercent *
        max ((1.9999 : ℝ) - (examplePhysics : PhysicsManager ℝ).penetrationSlop) 0 ≠ 0) ∧
    ((exampleParented (some (exampleBody BodyType.Dynamic 1 (⟨0, 0⟩ : Vec2 ℝ) 0))
          (some (exampleBody BodyType.Dynamic 1 ⟨0, 0⟩ 0))).world
        (Libm.mk Real.sqrt Real.cos Real.sin) 1 = some ⟨⟨0, 0⟩, ⟨1, 1⟩, 0⟩ ∧
      (PositionalCorrection_ (Libm.mk Real.sqrt Real.cos Real.sin) examplePhysics
        [exampleBodyContact false 1]
        (exampleParented (some (exampleBody BodyType.Dynamic 1 (⟨0, 0⟩ : Vec2 ℝ) 0))
          (some (exampleBody BodyType.Dynamic 1 ⟨0, 0⟩ 0)))).world
        (Libm.mk Real.sqrt Real.cos Real.sin) 1 = some ⟨⟨0, 0⟩, ⟨1, 1⟩, 0⟩ ∧
      (⟨0, 0⟩ : Vec2 ℝ) -
          contactNormal (Libm.mk Real.sqrt Real.cos Real.sin)
            (exampleParented (some (exampleBody BodyType.Dynamic 1 (⟨0, 0⟩ : Vec2 ℝ) 0))
              (some (exampleBody BodyType.Dynamic 1 ⟨0, 0⟩ 0)))
            (exampleBodyContact false 1) ⟨⟨0, 0⟩, ⟨1, 1⟩, 0⟩ ⟨⟨1, 0⟩, ⟨1, 1⟩, 0⟩ *
          specCorrectionM examplePhysics
            (exampleParented (some (exampleBody BodyType.Dynamic 1 (⟨0, 0⟩ : Vec2 ℝ) 0))
              (some (exampleBody BodyType.Dynamic 1 ⟨0, 0⟩ 0)))
            (exampleBodyContact false 1) ⟨1, 1⟩ ⟨2, 2⟩ *
          (exampleParented (some (exampleBody BodyType.Dynamic 1 (⟨0, 0⟩ : Vec2 ℝ) 0))
              (some (exampleBody BodyType.Dynamic 1 ⟨0, 0⟩ 0))).invM 1 =
        ⟨-0.396, 0⟩) := by
  refine ⟨?_, ?_, ?_⟩
  · have hA : (exampleTwoBodies (some (exampleBody BodyType.Dynamic 1 (⟨0, 0⟩ : Vec2 ℝ) 0))
        (some (exampleBody BodyType.Dynamic 1 ⟨0, 0⟩ 0))).invM 1 = 1 / 1 :=
      example_invM _ _ 1 1 _ _ (by norm_num) rfl
    have hB : (exampleTwoBodies (some (exampleBody BodyType.Dynamic 1 (⟨0, 0⟩ : Vec2 ℝ) 0))
        (some (exampleBody BodyType.Dynamic 1 ⟨0, 0⟩ 0))).invM 2 = 1 / 1 :=
      example_invM _ _ 2 1 _ _ (by norm_num) rfl
    have hmag : correctionMag (examplePhysicsPercent (-1))
        (exampleTwoBodies (some (exampleBody BodyType.Dynamic 1 (⟨0, 0⟩ : Vec2 ℝ) 0))
          (some (exampleBody BodyType.Dynamic 1 ⟨0, 0⟩ 0)))
        (exampleBodyContact false 1) ⟨1, 1⟩ ⟨2, 2⟩ = -0.495 := by
      unfold correctionMag
      rw [hA, hB]
      simp only [exampleBodyContact, examplePhysicsPercent, examplePhysics]
      rw [max_eq_left (by norm_num)]
      norm_num
    constructor
    · have hcc := contactCorrection_eq (Libm.mk Real.sqrt Real.cos Real.sin)
        (examplePhysicsPercent (-1))
        (exampleTwoBodies (some (exampleBody BodyType.Dynamic 1 (⟨0, 0⟩ : Vec2 ℝ) 0))
          (some (exampleBody BodyType.Dynamic 1 ⟨0, 0⟩ 0)))
        (exampleBodyContact false 1) ⟨1, 1⟩ ⟨2, 2⟩ ⟨⟨0, 0⟩, ⟨1, 1⟩, 0⟩ ⟨⟨1, 0⟩, ⟨1, 1⟩, 0⟩
      rw [hmag, hA, hB, if_neg (by norm_num), if_pos (by norm_num)] at hcc
      have hskip := (correctContact_eq (Libm.mk Real.sqrt Real.cos Real.sin)
        (examplePhysicsPercent (-1))
        (exampleTwoBodies (some (exampleBody BodyType.Dynamic 1 (⟨0, 0⟩ : Vec2 ℝ) 0))
          (some (exampleBody BodyType.Dynamic 1 ⟨0, 0⟩ 0)))
        (exampleBodyContact false 1) ⟨1, 1⟩ ⟨2, 2⟩ ⟨⟨0, 0⟩, ⟨1, 1⟩, 0⟩ ⟨⟨1, 0⟩, ⟨1, 1⟩, 0⟩
        rfl rfl rfl (Or.inl rfl) ((world_root _ _ 1 rfl).trans rfl)
        ((world_root _ _ 2 rfl).trans rfl)).1 hcc
      have hpass : PositionalCorrection_ (Libm.mk Real.sqrt Real.cos Real.sin)
          (examplePhysicsPercent (-1)) [exampleBodyContact false 1]
          (exampleTwoBodies (some (exampleBody BodyType.Dynamic 1 (⟨0, 0⟩ : Vec2 ℝ) 0))
            (some (exampleBody BodyType.Dynamic 1 ⟨0, 0⟩ 0))) =
          correctContact (Libm.mk Real.sqrt Real.cos Real.sin) (examplePhysicsPercent (-1))
            (exampleTwoBodies (some (exampleBody BodyType.Dynamic 1 (⟨0, 0⟩ : Vec2 ℝ) 0))
              (some (exampleBody BodyType.Dynamic 1 ⟨0, 0⟩ 0)))
            (exampleBodyContact false 1) := rfl
      rw [hpass, hskip]
      exact (world_root _ _ 1 rfl).trans rfl
    · rw [specCorrectionM_eq, hmag, hA, example_normal]
      ext <;> simp
  · obtain ⟨-, hn, hp⟩ := Contact_Circle_Circle_coincident
      (Libm.mk Real.sqrt Real.cos Real.sin) (⟨0, 0⟩ : Vec2 ℝ) 1 1 cp0 (by norm_num)
      real_sqrt_1e8
    have hn' : (exampleContact (Libm.mk Real.sqrt Real.cos Real.sin) (0 : ℝ)).contact.normalA =
        ⟨0, 0⟩ := hn
    have hp' : (exampleContact (Libm.mk Real.sqrt Real.cos Real.sin) (0 : ℝ)).contact.penetration =
        1.9999 := by
      refine Eq.trans hp ?_
      norm_num
    have hmag : 0 ≤ correctionMag examplePhysics
        (exampleStacked (some (exampleBody BodyType.Dynamic 1 (⟨0, 0⟩ : Vec2 ℝ) 0))
          (some (exampleBody BodyType.Dynamic 1 ⟨0, 0⟩ 0)))
        (exampleContact (Libm.mk Real.sqrt Real.cos Real.sin) 0) ⟨1, 1⟩ ⟨2, 2⟩ := by
      unfold correctionMag
      refine mul_nonneg (div_nonneg (le_max_right _ _)
        (add_nonneg (invM_nonneg _ _) (invM_nonneg _ _))) ?_
      norm_num [examplePhysics]
    obtain ⟨-, -, hA, hB, -⟩ := correction_one (Libm.mk Real.sqrt Real.cos Real.sin)
      examplePhysics
      (exampleStacked (some (exampleBody BodyType.Dynamic 1 (⟨0, 0⟩ : Vec2 ℝ) 0))
        (some (exampleBody BodyType.Dynamic 1 ⟨0, 0⟩ 0)))
      (exampleContact (Libm.mk Real.sqrt Real.cos Real.sin) 0) ⟨1, 1⟩ ⟨2, 2⟩
      ⟨⟨0, 0⟩, ⟨1, 1⟩, 0⟩ ⟨⟨0, 0⟩, ⟨1, 1⟩, 0⟩ rfl rfl (by decide) rfl rfl rfl rfl rfl
      (Or.inl rfl)
      (fun rb h => by
        obtain rfl : exampleBody BodyType.Dynamic 1 (⟨0, 0⟩ : Vec2 ℝ) 0 = rb :=
          Option.some.inj h
        exact ⟨by decide, by decide⟩)
      (fun rb h => by
        obtain rfl : exampleBody BodyType.Dynamic 1 (⟨0, 0⟩ : Vec2 ℝ) 0 = rb :=
          Option.some.inj h
        exact ⟨by decide, by decide⟩)
      hmag
    have hnz : contactNormal (Libm.mk Real.sqrt Real.cos Real.sin)
        (exampleStacked (some (exampleBody BodyType.Dynamic 1 (⟨0, 0⟩ : Vec2 ℝ) 0))
          (some (exampleBody BodyType.Dynamic 1 ⟨0, 0⟩ 0)))
        (exampleContact (Libm.mk Real.sqrt Real.cos Real.sin) 0)
        ⟨⟨0, 0⟩, ⟨1, 1⟩, 0⟩ ⟨⟨0, 0⟩, ⟨1, 1⟩, 0⟩ = ⟨0, 0⟩ := by
      unfold contactNormal
      rw [hn']
      split_ifs
      · ext <;> simp
      · rfl
    rw [hnz] at hA hB
    refine ⟨hn', hp', ?_, ?_, ?_⟩
    · refine (world_root _ _ 1 ?_).trans (hA.trans ?_)
      · rw [PositionalCorrection_parents]
        rfl
      · congr 1
        simp
        ext <;> simp
    · refine (world_root _ _ 2 ?_).trans (hB.trans ?_)
      · rw [PositionalCorrection_parents]
        rfl
      · congr 1
        simp
        ext <;> simp
    · norm_num [examplePhysics]
  · refine ⟨(world_child _ real_cos_zero real_sin_zero _ 1 2 _ ⟨1, 0⟩ rfl rfl rfl).trans
      (by simp), ?_, ?_⟩
    · norm_num [PositionalCorrection_, correctContact, contactCorrection, ColliderCenterWorld_,
        WorldCircleAt, GameObject.ref, exampleChildCircle, exampleCircle, exampleBodyContact,
        PhysicsScene.isDynamic,
        examplePhysics, exampleParented,
        exampleBody, PhysicsScene.world, PhysicsScene.node, PhysicsScene.chain,
        PhysicsScene.writePosition, PhysicsScene.turn, PhysicsScene.writeRotation,
        PhysicsScene.setBody, PhysicsScene.setTransform, Function.update_apply,
        TransformAt.RecalcWorld_, TransformData.RecalcWorld_, TransformAt.SetWorldPosition,
        TransformAt.SetWorldRotation, TransformAt.MarkDirty, TransformTree.MarkDirtyAll,
        Transform.toData, TransformData.fresh, TransformData.worldPose, TransformData.localPose,
        TransformData.Rot2D, DegToRad, RigidBody2D.ClearForces, RigidBody2D.InvMass_,
        RigidBody2D.InvInertia_, hasFlag, FreezePosX, FreezePosY, FreezeRot, Dot]
    · norm_num [contactNormal, contactCenter, specCorrectionM, PhysicsScene.invM,
        ColliderCenterWorld_,
        WorldCircleAt, GameObject.ref, exampleChildCircle, exampleCircle, exampleBodyContact,
        examplePhysics, exampleParented,
        exampleBody, PhysicsScene.world, PhysicsScene.node, PhysicsScene.chain,
        TransformAt.RecalcWorld_, TransformData.RecalcWorld_,
        Transform.toData, TransformData.fresh, TransformData.worldPose, TransformData.localPose,
        TransformData.Rot2D, DegToRad, RigidBody2D.InvMass_, Dot]
      ext <;> norm_num

/-- C26 (amended): for a non-trigger contact between two different objects
without parent, at least one of them with a Dynamic body, no position-freeze
flags, Dynamic masses above `1e-6` (as `SetMass` guarantees) and a penetration
percentage that is not negative, a `PositionalCorrection_` pass over that
contact moves A by `-n * m * invMassA` and B by `+n * m * invMassB` with
`m = max(penetration - slop, 0) * percent / (invMassA + invMassB)`: the
separation along `n` grows by `percent * max(penetration - slop, 0) * (n . n)`,
which is exactly `percent * max(penetration - slop, 0)` for a unit contact
normal; the pass changes nothing at all when `penetration <= slop`, and it
changes no body. -/
theorem positional_correction_separates (L : Libm K) (pm : PhysicsManager K)
    (s : PhysicsScene K) (c : NarrowContact K) (a b : GameObjectRef) (trA trB : Transform K)
    (ha : c.a = some a) (hb : c.b = some b) (hne : a.addr ≠ b.addr)
    (htrig : c.isTriggerPair = false)
    (hra : s.parents a.addr = []) (hrb : s.parents b.addr = [])
    (hta : s.world L a.addr = some trA) (htb : s.world L b.addr = some trB)
    (hdyn : s.isDynamic a.addr = true ∨ s.isDynamic b.addr = true)
    (hfa : ∀ rb, s.body a.addr = some rb →
      hasFlag rb.constraints_ FreezePosX = false ∧ hasFlag rb.constraints_ FreezePosY = false)
    (hfb : ∀ rb, s.body b.addr = some rb →
      hasFlag rb.constraints_ FreezePosX = false ∧ hasFlag rb.constraints_ FreezePosY = false)
    (hma : ∀ rb, s.body a.addr = some rb → rb.bodyType_ = BodyType.Dynamic → 1e-6 < rb.mass_)
    (hmb : ∀ rb, s.body b.addr = some rb → rb.bodyType_ = BodyType.Dynamic → 1e-6 < rb.mass_)
    (hpct : 0 ≤ pm.penetrationPercent) :
    ∃ (trA' trB' : Transform K),
      (PositionalCorrection_ L pm [c] s).world L a.addr = some trA' ∧
      (PositionalCorrection_ L pm [c] s).world L b.addr = some trB' ∧
      trA'.position = trA.position -
        contactNormal L s c trA trB * specCorrectionM pm s c a b * s.invM a.addr ∧
      trB'.position = trB.position +
        contactNormal L s c trA trB * specCorrectionM pm s c a b * s.invM b.addr ∧
      Dot ((trB'.position - trA'.position) - (trB.position - trA.position))
          (contactNormal L s c trA trB) =
        pm.penetrationPercent * max (c.contact.penetration - pm.penetrationSlop) 0 *
          Dot c.contact.normalA c.contact.normalA ∧
      (Dot c.contact.normalA c.contact.normalA = 1 →
        Dot ((trB'.position - trA'.position) - (trB.position - trA.position))
            (contactNormal L s c trA trB) =
          pm.penetrationPercent * max (c.contact.penetration - pm.penetrationSlop) 0) ∧
      (c.contact.penetration ≤ pm.penetrationSlop → PositionalCorrection_ L pm [c] s = s) ∧
      (PositionalCorrection_ L pm [c] s).body = s.body := by
  have hpass : PositionalCorrection_ L pm [c] s = correctContact L pm s c := rfl
  have hsum : 0 < s.invM a.addr + s.invM b.addr := by
    rcases hdyn with h | h
    · linarith [invM_pos s _ h hma, invM_nonneg s b.addr]
    · linarith [invM_pos s _ h hmb, invM_nonneg s a.addr]
  have hmax : 0 ≤ max (c.contact.penetration - pm.penetrationSlop) 0 := le_max_right _ _
  have hmag : 0 ≤ correctionMag pm s c a b := by
    unfold correctionMag
    exact mul_nonneg (div_nonneg hmax hsum.le) hpct
  have hta' : s.transform a.addr = some trA := (world_root L s _ hra).symm.trans hta
  have htb' : s.transform b.addr = some trB := (world_root L s _ hrb).symm.trans htb
  obtain ⟨hbd, -, hA, hB, hzero⟩ :=
    correction_one L pm s c a b trA trB ha hb hne htrig hra hrb hta' htb' hdyn hfa hfb hmag
  have hpar : (correctContact L pm s c).parents = s.parents := correctContact_parents L pm s c
  have hwA := (world_root L (correctContact L pm s c) a.addr (by rw [hpar]; exact hra)).trans hA
  have hwB := (world_root L (correctContact L pm s c) b.addr (by rw [hpar]; exact hrb)).trans hB
  rw [hpass, specCorrectionM_eq]
  have hsep : Dot
      (((trB.position + contactNormal L s c trA trB * correctionMag pm s c a b * s.invM b.addr) -
        (trA.position - contactNormal L s c trA trB * correctionMag pm s c a b * s.invM a.addr)) -
        (trB.position - trA.position)) (contactNormal L s c trA trB) =
      pm.penetrationPercent * max (c.contact.penetration - pm.penetrationSlop) 0 *
        Dot c.contact.normalA c.contact.normalA := by
    have hn := contactNormal_dot L s c trA trB
    rw [← hn]
    simp only [Dot, Vec2.sub_x, Vec2.sub_y, Vec2.add_x, Vec2.add_y, Vec2.mul_x, Vec2.mul_y]
    have e : correctionMag pm s c a b * (s.invM a.addr + s.invM b.addr) =
        pm.penetrationPercent * max (c.contact.penetration - pm.penetrationSlop) 0 := by
      unfold correctionMag
      field_simp
      ring
    rw [← e]
    ring
  refine ⟨_, _, hwA, hwB, rfl, rfl, hsep, ?_, ?_, hbd⟩
  · intro hunit
    have h := hsep
    rw [hunit, mul_one] at h
    exact h
  · intro hpen
    apply hzero
    unfold correctionMag
    rw [max_eq_right (by linarith), zero_div, zero_mul]

theorem exampleDynamicPair_free (m : K) (g : Nat) (rb : RigidBody2D K)
    (h : (exampleDynamicPair m).body g = some rb) :
    rb.bodyType_ = BodyType.Dynamic ∧ rb.mass_ = m ∧ rb.inertia_ = 1 ∧ rb.restitution_ = 0 ∧
    rb.constraints_ = 0 := by
  unfold exampleDynamicPair exampleTwoBodies at h
  simp only at h
  split_ifs at h
  · obtain rfl := Option.some.inj h
    exact ⟨rfl, rfl, rfl, rfl, rfl⟩
  · obtain rfl := Option.some.inj h
    exact ⟨rfl, rfl, rfl, rfl, rfl⟩

/-- Witness for `positional_correction_separates`: the two Dynamic unit-mass
bodies of the example scene under the default configuration (slop 0.01,
percentage 0.8), penetration 1 and the unit normal `(1, 0)`. -/
theorem positional_correction_separates_witness :
    ∃ (trA' trB' : Transform ℝ),
      (PositionalCorrection_ (Libm.mk Real.sqrt Real.cos Real.sin) examplePhysics
        [exampleBodyContact false 1] (exampleDynamicPair 1)).world
          (Libm.mk Real.sqrt Real.cos Real.sin) 1 = some trA' ∧
      (PositionalCorrection_ (Libm.mk Real.sqrt Real.cos Real.sin) examplePhysics
        [exampleBodyContact false 1] (exampleDynamicPair 1)).world
          (Libm.mk Real.sqrt Real.cos Real.sin) 2 = some trB' ∧
      Dot ((trB'.position - trA'.position) - ((⟨1, 0⟩ : Vec2 ℝ) - ⟨0, 0⟩))
          (contactNormal (Libm.mk Real.sqrt Real.cos Real.sin) (exampleDynamicPair 1)
            (exampleBodyContact false 1) ⟨⟨0, 0⟩, ⟨1, 1⟩, 0⟩ ⟨⟨1, 0⟩, ⟨1, 1⟩, 0⟩) =
        (examplePhysics : PhysicsManager ℝ).penetrationPercent *
          max ((exampleBodyContact false (1 : ℝ)).contact.penetration -
            (examplePhysics : PhysicsManager ℝ).penetrationSlop) 0 := by
  obtain ⟨trA', trB', h1, h2, -, -, -, h5, -, -⟩ :=
    positional_correction_separates (Libm.mk Real.sqrt Real.cos Real.sin) examplePhysics
      (exampleDynamicPair 1) (exampleBodyContact false 1) ⟨1, 1⟩ ⟨2, 2⟩
      ⟨⟨0, 0⟩, ⟨1, 1⟩, 0⟩ ⟨⟨1, 0⟩, ⟨1, 1⟩, 0⟩ rfl rfl (by decide) rfl rfl rfl
      ((world_root _ _ 1 rfl).trans rfl) ((world_root _ _ 2 rfl).trans rfl) (Or.inl rfl)
      (fun rb h => by
        rw [(exampleDynamicPair_free 1 1 rb h).2.2.2.2]
        exact ⟨by decide, by decide⟩)
      (fun rb h => by
        rw [(exampleDynamicPair_free 1 2 rb h).2.2.2.2]
        exact ⟨by decide, by decide⟩)
      (fun rb h _ => by
        rw [(exampleDynamicPair_free 1 1 rb h).2.1]
        norm_num)
      (fun rb h _ => by
        rw [(exampleDynamicPair_free 1 2 rb h).2.1]
        norm_num)
      (by norm_num [examplePhysics])
  exact ⟨trA', trB', h1, h2, h5 (by simp [Dot, exampleBodyContact])⟩

/-! ### A Static child of a Dynamic parent (C25) -/

/-- C25 (counterexample): object 1 carries a Static body and is a child of
object 2, which carries a Dynamic body of unit mass; their circle colliders
are in contact with penetration 1 and normal `(1, 0)`.  Before the
`PositionalCorrection_` pass the world position of the Static body is
`(0, 0)`.  The pass writes only the Dynamic parent, moving it by `(0.792, 0)`;
the Static child is carried along and ends at `(0.792, 0)`. -/
theorem static_child_moved_by_correction :
    ((exampleParented (some (exampleBody BodyType.Static 1 (⟨0, 0⟩ : Vec2 ℝ) 0))
        (some (exampleBody BodyType.Dynamic 1 ⟨0, 0⟩ 0))).body 1).map (fun rb => rb.bodyType_) =
      some BodyType.Static ∧
    (exampleParented (some (exampleBody BodyType.Static 1 (⟨0, 0⟩ : Vec2 ℝ) 0))
        (some (exampleBody BodyType.Dynamic 1 ⟨0, 0⟩ 0))).world
      (Libm.mk Real.sqrt Real.cos Real.sin) 1 = some ⟨⟨0, 0⟩, ⟨1, 1⟩, 0⟩ ∧
    (PositionalCorrection_ (Libm.mk Real.sqrt Real.cos Real.sin) examplePhysics
        [exampleBodyContact false 1]
        (exampleParented (some (exampleBody BodyType.Static 1 (⟨0, 0⟩ : Vec2 ℝ) 0))
          (some (exampleBody BodyType.Dynamic 1 ⟨0, 0⟩ 0)))).world
      (Libm.mk Real.sqrt Real.cos Real.sin) 1 = some ⟨⟨0.792, 0⟩, ⟨1, 1⟩, 0⟩ := by
  refine ⟨rfl, (world_child _ real_cos_zero real_sin_zero _ 1 2 _ ⟨1, 0⟩ rfl rfl rfl).trans
    (by simp), ?_⟩
  have hsd : ¬ BodyType.Static = BodyType.Dynamic := by decide
  norm_num [hsd, PositionalCorrection_, correctContact, contactCorrection, ColliderCenterWorld_,
    WorldCircleAt, GameObject.ref, exampleChildCircle, exampleCircle, exampleBodyContact,
    PhysicsScene.isDynamic,
    examplePhysics, exampleParented,
    exampleBody, PhysicsScene.world, PhysicsScene.node, PhysicsScene.chain,
    PhysicsScene.writePosition, PhysicsScene.turn, PhysicsScene.writeRotation,
    PhysicsScene.setBody, PhysicsScene.setTransform, Function.update_apply,
    TransformAt.RecalcWorld_, TransformData.RecalcWorld_, TransformAt.SetWorldPosition,
    TransformAt.SetWorldRotation, TransformAt.MarkDirty, TransformTree.MarkDirtyAll,
    Transform.toData, TransformData.fresh, TransformData.worldPose, TransformData.localPose,
    TransformData.Rot2D, DegToRad, RigidBody2D.ClearForces, RigidBody2D.InvMass_,
    RigidBody2D.InvInertia_, hasFlag, FreezePosX, FreezePosY, FreezeRot, Dot]

/-! ### One solver iteration on a pair of bodies -/

theorem setVel_self (g : Nat) (v : Vec2 K) (w : K) (rb : RigidBody2D K)
    (h : rb.bodyType_ = BodyType.Dynamic) :
    setVel g g v w rb = { rb with velocity_ := v, angularVelocity_ := w } := by
  simp only [setVel, h, and_self, if_true]

theorem setVel_other (g k : Nat) (v : Vec2 K) (w : K) (rb : RigidBody2D K) (h : g ≠ k) :
    setVel g k v w rb = rb := by
  simp only [setVel, h, false_and, if_false]

/-- The bodies after the two guarded velocity writes addressed to two
different objects with Dynamic bodies. -/
theorem pair_bodies_after (s s' : PhysicsScene K) (ga gb : Nat) (rbA rbB : RigidBody2D K)
    (vA vB : Vec2 K) (wA wB : K) (hne : ga ≠ gb)
    (hA : s.body ga = some rbA) (hB : s.body gb = some rbB)
    (dA : rbA.bodyType_ = BodyType.Dynamic) (dB : rbB.bodyType_ = BodyType.Dynamic)
    (h : ∀ g, s'.body g = ((s.body g).map (setVel g ga vA wA)).map (setVel g gb vB wB)) :
    s'.body ga = some { rbA with velocity_ := vA, angularVelocity_ := wA } ∧
    s'.body gb = some { rbB with velocity_ := vB, angularVelocity_ := wB } ∧
    ∀ g, g ≠ ga → g ≠ gb → s'.body g = s.body g := by
  refine ⟨?_, ?_, ?_⟩
  · rw [h ga, hA]
    simp only [Option.map_some']
    rw [setVel_self ga vA wA rbA dA, setVel_other ga gb vB wB _ hne]
  · rw [h gb, hB]
    simp only [Option.map_some']
    rw [setVel_other gb ga vA wA _ (fun e => hne e.symm), setVel_self gb vB wB rbB dB]
  · intro g h1 h2
    rw [h g]
    rcases s.body g with _ | r
    · rfl
    · simp only [Option.map_some']
      rw [setVel_other g ga vA wA _ h1, setVel_other g gb vB wB _ h2]

theorem vel_of_body (s : PhysicsScene K) (g : Nat) (rb : RigidBody2D K)
    (h : s.body g = some rb) : s.vel g = rb.velocity_ := by
  simp only [PhysicsScene.vel, h]

theorem angVel_of_body (s : PhysicsScene K) (g : Nat) (rb : RigidBody2D K)
    (h : s.body g = some rb) : s.angVel g = rb.angularVelocity_ := by
  simp only [PhysicsScene.angVel, h]

theorem cons_of_body (s : PhysicsScene K) (g : Nat) (rb : RigidBody2D K)
    (h : s.body g = some rb) : s.cons g = rb.constraints_ := by
  simp only [PhysicsScene.cons, h]

theorem momentum_of_body (s : PhysicsScene K) (g : Nat) (rb : RigidBody2D K)
    (h : s.body g = some rb) : s.momentum g = rb.velocity_ * rb.mass_ := by
  simp only [PhysicsScene.momentum, h]

/-- One iteration of the loop of `SolveContacts_` on a contact between two
different objects whose bodies are Dynamic with masses above `1e-6` and
without position-freeze flags: types, masses and constraints stay, the bodies
of other objects stay, and what one body loses in momentum the other gains. -/
theorem solveContact_pair (L : Libm K) (pm : PhysicsManager K) (dt : K) (s : PhysicsScene K)
    (c : NarrowContact K) (a b : GameObjectRef) (ha : c.a = some a) (hb : c.b = some b)
    (hne : a.addr ≠ b.addr) (fa : DynFree s a.addr) (fb : DynFree s b.addr) :
    (∀ g, g ≠ a.addr → g ≠ b.addr →
      (solveContact L pm dt s c).body g = s.body g) ∧
    (∀ g, DynFree s g → DynFree (solveContact L pm dt s c) g) ∧
    (solveContact L pm dt s c).momentum a.addr + (solveContact L pm dt s c).momentum b.addr =
      s.momentum a.addr + s.momentum b.addr := by
  obtain ⟨rbA, hA, dA, mA, xA, yA⟩ := fa
  obtain ⟨rbB, hB, dB, mB, xB, yB⟩ := fb
  rcases solveContact_cases L pm dt s c with h | ⟨a', b', trA, trB, r, ha', hb', -, -, -, hr, hbd, -⟩
  · rw [h]
    exact ⟨fun _ _ _ => rfl, fun _ hg => hg, rfl⟩
  · rw [ha] at ha'
    rw [hb] at hb'
    obtain rfl := Option.some.inj ha'
    obtain rfl := Option.some.inj hb'
    obtain ⟨h1, h2, h3⟩ := pair_bodies_after s _ a.addr b.addr rbA rbB _ _ _ _ hne hA hB dA dB hbd
    have hcc := contactImpulse_eq L pm dt s c a b trA trB
    rw [hr] at hcc
    have hmA : freezeMask (s.cons a.addr)
        (contactNormal L s c trA trB * contactJ L pm dt s c a b trA trB * s.invM a.addr) =
        contactNormal L s c trA trB * contactJ L pm dt s c a b trA trB * s.invM a.addr := by
      rw [cons_of_body s _ rbA hA]
      exact freezeMask_free _ _ xA yA
    have hmB : freezeMask (s.cons b.addr)
        (contactNormal L s c trA trB * contactJ L pm dt s c a b trA trB * s.invM b.addr) =
        contactNormal L s c trA trB * contactJ L pm dt s c a b trA trB * s.invM b.addr := by
      rw [cons_of_body s _ rbB hB]
      exact freezeMask_free _ _ xB yB
    rw [hmA, hmB, vel_of_body s _ rbA hA, vel_of_body s _ rbB hB,
      invM_of_dynamic s _ rbA hA dA mA, invM_of_dynamic s _ rbB hB dB mB] at hcc
    have hv : r.1 = rbA.velocity_ - contactNormal L s c trA trB *
          contactJ L pm dt s c a b trA trB * (1 / rbA.mass_) ∧
        r.2.2.1 = rbB.velocity_ + contactNormal L s c trA trB *
          contactJ L pm dt s c a b trA trB * (1 / rbB.mass_) := by
      by_cases c1 : 1 / rbA.mass_ + 1 / rbB.mass_ ≤ 0
      · rw [if_pos c1] at hcc
        exact absurd hcc (by simp)
      rw [if_neg c1] at hcc
      by_cases c2 : contactDenom L s c a b trA trB ≤ 1e-8
      · rw [if_pos c2] at hcc
        exact absurd hcc (by simp)
      rw [if_neg c2] at hcc
      rw [Option.some.inj hcc]
      exact ⟨rfl, rfl⟩
    refine ⟨h3, ?_, ?_⟩
    · intro g hg
      by_cases ga : g = a.addr
      · rw [ga]
        exact ⟨_, h1, dA, mA, xA, yA⟩
      · by_cases gb : g = b.addr
        · rw [gb]
          exact ⟨_, h2, dB, mB, xB, yB⟩
        · obtain ⟨rb, e1, e2⟩ := hg
          exact ⟨rb, (h3 g ga gb).trans e1, e2⟩
    · rw [momentum_of_body _ _ _ h1, momentum_of_body _ _ _ h2, momentum_of_body s _ rbA hA,
        momentum_of_body s _ rbB hB]
      have pA : rbA.mass_ ≠ 0 := ne_of_gt (lt_trans (by norm_num) mA)
      have pB : rbB.mass_ ≠ 0 := ne_of_gt (lt_trans (by norm_num) mB)
      simp only [hv.1, hv.2]
      generalize contactNormal L s c trA trB = n
      generalize contactJ L pm dt s c a b trA trB = j
      ext
      · simp only [Vec2.add_x, Vec2.mul_x, Vec2.sub_x]
        field_simp
      · simp only [Vec2.add_y, Vec2.mul_y, Vec2.sub_y]
        field_simp


theorem setVel_data (g k : Nat) (v : Vec2 K) (w : K) (rb : RigidBody2D K) :
    (setVel g k v w rb).mass_ = rb.mass_ ∧ (setVel g k v w rb).bodyType_ = rb.bodyType_ ∧
    (setVel g k v w rb).constraints_ = rb.constraints_ := by
  unfold setVel
  split_ifs <;> exact ⟨rfl, rfl, rfl⟩

/-- One iteration of the loop of `SolveContacts_` changes neither the mass,
nor the type, nor the constraints of any body, and creates or removes no body. -/
theorem solveContact_data (L : Libm K) (pm : PhysicsManager K) (dt : K) (s : PhysicsScene K)
    (c : NarrowContact K) (g : Nat) (rb : RigidBody2D K) (h : s.body g = some rb) :
    ∃ rb', (solveContact L pm dt s c).body g = some rb' ∧ rb'.mass_ = rb.mass_ ∧
      rb'.bodyType_ = rb.bodyType_ ∧ rb'.constraints_ = rb.constraints_ := by
  rcases solveContact_cases L pm dt s c with e | ⟨a, b, trA, trB, r, -, -, -, -, -, -, hbd, -⟩
  · rw [e]
    exact ⟨rb, h, rfl, rfl, rfl⟩
  · rw [hbd g, h]
    simp only [Option.map_some']
    refine ⟨_, rfl, ?_, ?_, ?_⟩
    · rw [(setVel_data _ _ _ _ _).1, (setVel_data _ _ _ _ _).1]
    · rw [(setVel_data _ _ _ _ _).2.1, (setVel_data _ _ _ _ _).2.1]
    · rw [(setVel_data _ _ _ _ _).2.2, (setVel_data _ _ _ _ _).2.2]

/-! ### Conservation of linear momentum (C30) -/

/-- A sum over a list without duplicates does not change when the summand
changes at two places only and the sum of the two values stays. -/
theorem sum_exchange (gs : List Nat) (f f' : Nat → K) (a b : Nat) (hgs : gs.Nodup)
    (ha : a ∈ gs) (hb : b ∈ gs) (hne : a ≠ b)
    (hoth : ∀ g, g ≠ a → g ≠ b → f' g = f g) (hab : f' a + f' b = f a + f b) :
    (gs.map f').sum = (gs.map f).sum := by
  rw [← List.sum_toFinset f' hgs, ← List.sum_toFinset f hgs]
  have hd : ∑ g ∈ gs.toFinset, (f' g - f g) = (f' a - f a) + (f' b - f b) :=
    Finset.sum_eq_add_of_mem a b (List.mem_toFinset.mpr ha) (List.mem_toFinset.mpr hb) hne
      (fun g _ hg => by rw [hoth g hg.1 hg.2, sub_self])
  rw [Finset.sum_sub_distrib] at hd
  linarith

theorem momentum_congr (s s' : PhysicsScene K) (g : Nat) (h : s'.body g = s.body g) :
    s'.momentum g = s.momentum g := by
  unfold PhysicsScene.momentum
  rw [h]

/-- One iteration on a contact between two listed bodies keeps the total
momentum of the listed bodies. -/
theorem solveContact_total (L : Libm K) (pm : PhysicsManager K) (dt : K) (s : PhysicsScene K)
    (c : NarrowContact K) (gs : List Nat) (hgs : gs.Nodup) (a b : GameObjectRef)
    (ha : c.a = some a) (hb : c.b = some b) (hne : a.addr ≠ b.addr)
    (ia : a.addr ∈ gs) (ib : b.addr ∈ gs) (fa : DynFree s a.addr) (fb : DynFree s b.addr) :
    totalMomentum (solveContact L pm dt s c) gs = totalMomentum s gs := by
  obtain ⟨h1, -, h3⟩ := solveContact_pair L pm dt s c a b ha hb hne fa fb
  unfold totalMomentum
  congr 1
  · apply sum_exchange gs _ _ a.addr b.addr hgs ia ib hne
    · intro g g1 g2
      rw [momentum_congr s _ g (h1 g g1 g2)]
    · have := congrArg Vec2.x h3
      simpa using this
  · apply sum_exchange gs _ _ a.addr b.addr hgs ia ib hne
    · intro g g1 g2
      rw [momentum_congr s _ g (h1 g g1 g2)]
    · have := congrArg Vec2.y h3
      simpa using this

/-- C30: `SolveContacts_` conserves linear momentum.  For a contact between
two different Dynamic bodies with masses above `1e-6` and without
position-freeze flags (any normal, contact point, penetration, restitution,
velocities, inertia and time step), the pass over that contact keeps both
masses and the sum `velocityA * massA + velocityB * massB`.  A pass over any
list of such contacts keeps the total momentum of every duplicate-free list
of objects that contains the owners of the contacts. -/
theorem solver_conserves_momentum (L : Libm K) (pm : PhysicsManager K) (dt : K)
    (s : PhysicsScene K) :
    (∀ (c : NarrowContact K) (a b : GameObjectRef) (rbA rbB : RigidBody2D K),
      c.a = some a → c.b = some b → a.addr ≠ b.addr →
      s.body a.addr = some rbA → s.body b.addr = some rbB →
      rbA.bodyType_ = BodyType.Dynamic → rbB.bodyType_ = BodyType.Dynamic →
      1e-6 < rbA.mass_ → 1e-6 < rbB.mass_ →
      hasFlag rbA.constraints_ FreezePosX = false →
      hasFlag rbA.constraints_ FreezePosY = false →
      hasFlag rbB.constraints_ FreezePosX = false →
      hasFlag rbB.constraints_ FreezePosY = false →
      ∃ (rbA' rbB' : RigidBody2D K),
        (SolveContacts_ L pm [c] dt s).body a.addr = some rbA' ∧
        (SolveContacts_ L pm [c] dt s).body b.addr = some rbB' ∧
        rbA'.mass_ = rbA.mass_ ∧ rbB'.mass_ = rbB.mass_ ∧
        rbA'.velocity_ * rbA'.mass_ + rbB'.velocity_ * rbB'.mass_ =
          rbA.velocity_ * rbA.mass_ + rbB.velocity_ * rbB.mass_) ∧
    (∀ (contacts : List (NarrowContact K)) (gs : List Nat), gs.Nodup →
      (∀ c ∈ contacts, ∃ (a b : GameObjectRef), c.a = some a ∧ c.b = some b ∧
        a.addr ≠ b.addr ∧ a.addr ∈ gs ∧ b.addr ∈ gs ∧ DynFree s a.addr ∧ DynFree s b.addr) →
      totalMomentum (SolveContacts_ L pm contacts dt s) gs = totalMomentum s gs) := by
  constructor
  · intro c a b rbA rbB ha hb hne hA hB dA dB mA mB xA yA xB yB
    have hpass : SolveContacts_ L pm [c] dt s = solveContact L pm dt s c := rfl
    rw [hpass]
    obtain ⟨-, -, h3⟩ := solveContact_pair L pm dt s c a b ha hb hne
      ⟨rbA, hA, dA, mA, xA, yA⟩ ⟨rbB, hB, dB, mB, xB, yB⟩
    obtain ⟨rbA', eA, kA, -, -⟩ := solveContact_data L pm dt s c a.addr rbA hA
    obtain ⟨rbB', eB, kB, -, -⟩ := solveContact_data L pm dt s c b.addr rbB hB
    refine ⟨rbA', rbB', eA, eB, kA, kB, ?_⟩
    rw [momentum_of_body _ _ _ eA, momentum_of_body _ _ _ eB, momentum_of_body s _ rbA hA,
      momentum_of_body s _ rbB hB] at h3
    exact h3
  · intro contacts gs hgs
    unfold SolveContacts_
    induction contacts generalizing s with
    | nil => intro _; rfl
    | cons c t ih =>
      intro h
      rw [List.foldl_cons]
      obtain ⟨a, b, ha, hb, hne, ia, ib, fa, fb⟩ := h c (List.mem_cons_self _ _)
      have hstep := solveContact_total L pm dt s c gs hgs a b ha hb hne ia ib fa fb
      have hkeep := (solveContact_pair L pm dt s c a b ha hb hne fa fb).2.1
      rw [ih (solveContact L pm dt s c) ?_, hstep]
      intro c' hc'
      obtain ⟨a', b', ha', hb', hne', ia', ib', fa', fb'⟩ := h c' (List.mem_cons_of_mem _ hc')
      exact ⟨a', b', ha', hb', hne', ia', ib', hkeep _ fa', hkeep _ fb'⟩

/-- Witness for `solver_conserves_momentum`: the two Dynamic unit-mass bodies
of the example scene, A moving at `(1, 0)` toward B at rest; the momentum
`(1, 0)` of the pair is kept by the pass over their contact. -/
theorem solver_conserves_momentum_witness :
    ∃ (rbA' rbB' : RigidBody2D ℝ),
      (SolveContacts_ (Libm.mk Real.sqrt Real.cos Real.sin) examplePhysics
        [exampleBodyContact false 1] (1 / 60) (exampleDynamicPair 1)).body 1 = some rbA' ∧
      (SolveContacts_ (Libm.mk Real.sqrt Real.cos Real.sin) examplePhysics
        [exampleBodyContact false 1] (1 / 60) (exampleDynamicPair 1)).body 2 = some rbB' ∧
      rbA'.mass_ = 1 ∧ rbB'.mass_ = 1 ∧
      rbA'.velocity_ * rbA'.mass_ + rbB'.velocity_ * rbB'.mass_ =
        (⟨1, 0⟩ : Vec2 ℝ) * (1 : ℝ) + (⟨0, 0⟩ : Vec2 ℝ) * (1 : ℝ) :=
  (solver_conserves_momentum (Libm.mk Real.sqrt Real.cos Real.sin) examplePhysics (1 / 60)
    (exampleDynamicPair 1)).1 (exampleBodyContact false 1) ⟨1, 1⟩ ⟨2, 2⟩
    (exampleBody BodyType.Dynamic 1 ⟨1, 0⟩ 0) (exampleBody BodyType.Dynamic 1 ⟨0, 0⟩ 0)
    rfl rfl (by decide) rfl rfl rfl rfl (by norm_num [exampleBody]) (by norm_num [exampleBody])
    (by decide) (by decide) (by decide) (by decide)

/-! ### The normal impulse of one contact (C24) -/

theorem writeVelocity_colliderAt (s : PhysicsScene K) (k : Nat) (v : Vec2 K) (w : K) :
    (s.writeVelocity k v w).colliderAt = s.colliderAt := by
  unfold PhysicsScene.writeVelocity
  rcases s.body k with _ | r <;> rfl

/-- The solver does not touch the colliders. -/
theorem solveContact_colliderAt (L : Libm K) (pm : PhysicsManager K) (dt : K)
    (s : PhysicsScene K) (c : NarrowContact K) :
    (solveContact L pm dt s c).colliderAt = s.colliderAt := by
  unfold solveContact
  split
  · split
    · rfl
    · split
      · rfl
      · split
        · split
          · rfl
          · split_ifs
            · rw [writeVelocity_colliderAt, writeVelocity_colliderAt]
            · rw [writeVelocity_colliderAt]
            · rw [writeVelocity_colliderAt]
            · rfl
        · rfl
  · rfl

/-- Centres, normal and lever arms of a contact depend on the transforms, the
hierarchy and the colliders only. -/
theorem contact_congr (L : Libm K) (s s' : PhysicsScene K) (c : NarrowContact K)
    (trA trB : Transform K) (h0 : s'.parents = s.parents) (h1 : s'.transform = s.transform)
    (h2 : s'.colliderAt = s.colliderAt) :
    contactNormal L s' c trA trB = contactNormal L s c trA trB ∧
    ∀ col tr, contactArm L s' c col tr = contactArm L s c col tr := by
  have hw : s'.world L = s.world L :=
    funext (fun g => world_congr L s s' g (congrFun h0 g) (congrFun h1 g)
      (fun p _ => congrFun h1 p))
  have hc : ∀ col tr, contactCenter L s' col tr = contactCenter L s col tr := by
    intro col tr
    unfold contactCenter ColliderCenterWorld_
    rw [hw, h2]
  constructor
  · unfold contactNormal
    rw [hc, hc]
  · intro col tr
    unfold contactArm
    rw [hc]

theorem invI_of_dynamic (s : PhysicsScene K) (g : Nat) (rb : RigidBody2D K)
    (hb : s.body g = some rb) (hd : rb.bodyType_ = BodyType.Dynamic)
    (hr : hasFlag rb.constraints_ FreezeRot = false) (hi : 1e-6 < rb.inertia_) :
    s.invI g = 1 / rb.inertia_ := by
  simp only [PhysicsScene.invI, PhysicsScene.cons, hb, hr, Bool.false_eq_true, if_false, hd,
    if_true, RigidBody2D.InvInertia_, ne_eq, not_true_eq_false, gt_iff_lt, hi]

theorem contactRestitution_eq (L : Libm K) (s : PhysicsScene K) (c : NarrowContact K)
    (a b : GameObjectRef) (trA trB : Transform K) (rbA rbB : RigidBody2D K)
    (hA : s.body a.addr = some rbA) (hB : s.body b.addr = some rbB)
    (eA : 0 ≤ rbA.restitution_) :
    contactRestitution L s c a b trA trB =
      specRestitution (contactVelAlongN L s c a b trA trB) rbA.restitution_
        rbB.restitution_ := by
  simp only [contactRestitution, specRestitution, hA, hB, max_eq_right eA]

theorem contactJ_eq (L : Libm K) (pm : PhysicsManager K) (dt : K) (s : PhysicsScene K)
    (c : NarrowContact K) (a b : GameObjectRef) (trA trB : Transform K) :
    contactJ L pm dt s c a b trA trB = max 0 (contactJ0 L pm dt s c a b trA trB) := by
  unfold contactJ
  split_ifs with h
  · exact (max_eq_left h.le).symm
  · exact (max_eq_right (not_lt.mp h)).symm

theorem body_eta (rb : RigidBody2D K) :
    { rb with velocity_ := rb.velocity_, angularVelocity_ := rb.angularVelocity_ } = rb := rfl


/-- The velocities written by one solver iteration for a contact between two
different Dynamic bodies with masses and inertias above `1e-6` and without
freeze flags, when the contact is not skipped. -/
theorem solveContact_free_pair (L : Libm K) (pm : PhysicsManager K) (dt : K)
    (s : PhysicsScene K) (c : NarrowContact K) (a b : GameObjectRef)
    (rbA rbB : RigidBody2D K) (trA trB : Transform K)
    (ha : c.a = some a) (hb : c.b = some b) (hne : a.addr ≠ b.addr)
    (htrig : c.isTriggerPair = false)
    (hta : s.world L a.addr = some trA) (htb : s.world L b.addr = some trB)
    (hA : s.body a.addr = some rbA) (hB : s.body b.addr = some rbB)
    (dA : rbA.bodyType_ = BodyType.Dynamic) (dB : rbB.bodyType_ = BodyType.Dynamic)
    (mA : 1e-6 < rbA.mass_) (mB : 1e-6 < rbB.mass_)
    (iA : 1e-6 < rbA.inertia_) (iB : 1e-6 < rbB.inertia_)
    (fA : hasFlag rbA.constraints_ FreezePosX = false ∧
      hasFlag rbA.constraints_ FreezePosY = false ∧ hasFlag rbA.constraints_ FreezeRot = false)
    (fB : hasFlag rbB.constraints_ FreezePosX = false ∧
      hasFlag rbB.constraints_ FreezePosY = false ∧ hasFlag rbB.constraints_ FreezeRot = false)
    (hden : 1e-8 < contactDenom L s c a b trA trB) :
    (solveContact L pm dt s c).body a.addr = some { rbA with
      velocity_ := rbA.velocity_ - contactNormal L s c trA trB *
        contactJ L pm dt s c a b trA trB * (1 / rbA.mass_)
      angularVelocity_ := rbA.angularVelocity_ -
        Cross (contactArm L s c c.colA trA) (contactNormal L s c trA trB) *
          contactJ L pm dt s c a b trA trB * (1 / rbA.inertia_) } ∧
    (solveContact L pm dt s c).body b.addr = some { rbB with
      velocity_ := rbB.velocity_ + contactNormal L s c trA trB *
        contactJ L pm dt s c a b trA trB * (1 / rbB.mass_)
      angularVelocity_ := rbB.angularVelocity_ +
        Cross (contactArm L s c c.colB trB) (contactNormal L s c trA trB) *
          contactJ L pm dt s c a b trA trB * (1 / rbB.inertia_) } ∧
    (∀ g, g ≠ a.addr → g ≠ b.addr → (solveContact L pm dt s c).body g = s.body g) ∧
    (solveContact L pm dt s c).transform = s.transform := by
  have hcc := contactImpulse_eq L pm dt s c a b trA trB
  have pA : 0 < rbA.mass_ := lt_trans (by norm_num) mA
  have pB : 0 < rbB.mass_ := lt_trans (by norm_num) mB
  have qA : 0 < rbA.inertia_ := lt_trans (by norm_num) iA
  have qB : 0 < rbB.inertia_ := lt_trans (by norm_num) iB
  have c1 : ¬ (s.invM a.addr + s.invM b.addr ≤ 0) := by
    rw [invM_of_dynamic s _ rbA hA dA mA, invM_of_dynamic s _ rbB hB dB mB]
    have := one_div_pos.mpr pA
    have := one_div_pos.mpr pB
    linarith
  have c3 : s.invI a.addr > 0 := by
    rw [invI_of_dynamic s _ rbA hA dA fA.2.2 iA]
    exact one_div_pos.mpr qA
  have c4 : s.invI b.addr > 0 := by
    rw [invI_of_dynamic s _ rbB hB dB fB.2.2 iB]
    exact one_div_pos.mpr qB
  rw [if_neg c1, if_neg (not_le.mpr hden), if_pos c3, if_pos c4,
    cons_of_body s _ rbA hA, cons_of_body s _ rbB hB,
    freezeMask_free _ _ fA.1 fA.2.1, freezeMask_free _ _ fB.1 fB.2.1,
    vel_of_body s _ rbA hA, vel_of_body s _ rbB hB, angVel_of_body s _ rbA hA,
    angVel_of_body s _ rbB hB, invM_of_dynamic s _ rbA hA dA mA,
    invM_of_dynamic s _ rbB hB dB mB, invI_of_dynamic s _ rbA hA dA fA.2.2 iA,
    invI_of_dynamic s _ rbB hB dB fB.2.2 iB] at hcc
  obtain ⟨hbd, htr⟩ := (solveContact_eq L pm dt s c a b trA trB ha hb htrig
    (Or.inl (by rw [hA]; rfl)) hta htb).2 _ hcc
  obtain ⟨h1, h2, h3⟩ := pair_bodies_after s _ a.addr b.addr rbA rbB _ _ _ _ hne hA hB dA dB hbd
  exact ⟨h1, h2, h3, htr⟩

/-- The change of the relative normal velocity at the contact point caused by
an impulse `j` along a unit normal `n`. -/
theorem impulse_changes_normal_velocity (n rA rB vA vB : Vec2 K) (wA wB j iMA iMB iIA iIB : K)
    (hn : Dot n n = 1) :
    Dot ((vB + n * j * iMB + Perp (wB + Cross rB n * j * iIB) rB) -
        (vA - n * j * iMA + Perp (wA - Cross rA n * j * iIA) rA)) n =
      Dot ((vB + Perp wB rB) - (vA + Perp wA rA)) n +
        j * (iMA + iMB + (Cross rA n * Cross rA n) * iIA + (Cross rB n * Cross rB n) * iIB) := by
  simp only [Dot, Perp, Cross, Vec2.sub_x, Vec2.sub_y, Vec2.add_x, Vec2.add_y, Vec2.mul_x,
    Vec2.mul_y] at hn ⊢
  linear_combination (j * (iMA + iMB)) * hn


/-- C24 (amended): for a non-trigger contact between two different Dynamic
bodies without freeze flags, with masses and inertias above `1e-6` (as
`SetMass` and `SetInertia` guarantee) and restitution coefficients whose
maximum is not negative (as `SetRestitution` guarantees), whenever the contact
is not skipped (`denom > 1e-8`) a `SolveContacts_` pass over the contact
applies the impulse `j = max(0, -((1 + e) * vn + bias) / denom)` along `n`:
A gets `-n * j / massA` and `-cross(rA, n) * j / inertiaA`, B gets
`+n * j / massB` and `+cross(rB, n) * j / inertiaB`.  If `j > 0` and the
contact normal has unit length, the relative normal velocity at the contact
point afterwards is `-e * vn - bias`; if the unclamped value is negative no
body changes.  The poses `trA`, `trB` are the world poses of the owners, which
may have parents. -/
theorem normal_impulse (L : Libm K) (pm : PhysicsManager K) (dt : K)
    (s : PhysicsScene K) (c : NarrowContact K) (a b : GameObjectRef)
    (rbA rbB : RigidBody2D K) (trA trB : Transform K)
    (ha : c.a = some a) (hb : c.b = some b) (hne : a.addr ≠ b.addr)
    (htrig : c.isTriggerPair = false)
    (hta : s.world L a.addr = some trA) (htb : s.world L b.addr = some trB)
    (hA : s.body a.addr = some rbA) (hB : s.body b.addr = some rbB)
    (dA : rbA.bodyType_ = BodyType.Dynamic) (dB : rbB.bodyType_ = BodyType.Dynamic)
    (mA : 1e-6 < rbA.mass_) (mB : 1e-6 < rbB.mass_)
    (iA : 1e-6 < rbA.inertia_) (iB : 1e-6 < rbB.inertia_)
    (fA : hasFlag rbA.constraints_ FreezePosX = false ∧
      hasFlag rbA.constraints_ FreezePosY = false ∧ hasFlag rbA.constraints_ FreezeRot = false)
    (fB : hasFlag rbB.constraints_ FreezePosX = false ∧
      hasFlag rbB.constraints_ FreezePosY = false ∧ hasFlag rbB.constraints_ FreezeRot = false)
    (hres : 0 ≤ max rbA.restitution_ rbB.restitution_)
    (hden : 1e-8 < contactDenom L s c a b trA trB) :
    ∃ (rbA' rbB' : RigidBody2D K) (j : K),
      j = specImpulse (contactVelAlongN L s c a b trA trB)
        (specRestitution (contactVelAlongN L s c a b trA trB) rbA.restitution_
          rbB.restitution_)
        (specBias dt c.contact.penetration pm.penetrationSlop)
        (contactDenom L s c a b trA trB) ∧
      contactDenom L s c a b trA trB =
        1 / rbA.mass_ + 1 / rbB.mass_ +
          (Cross (contactArm L s c c.colA trA) (contactNormal L s c trA trB) *
            Cross (contactArm L s c c.colA trA) (contactNormal L s c trA trB)) *
            (1 / rbA.inertia_) +
          (Cross (contactArm L s c c.colB trB) (contactNormal L s c trA trB) *
            Cross (contactArm L s c c.colB trB) (contactNormal L s c trA trB)) *
            (1 / rbB.inertia_) ∧
      (SolveContacts_ L pm [c] dt s).body a.addr = some rbA' ∧
      (SolveContacts_ L pm [c] dt s).body b.addr = some rbB' ∧
      rbA'.velocity_ = rbA.velocity_ - contactNormal L s c trA trB * j * (1 / rbA.mass_) ∧
      rbA'.angularVelocity_ = rbA.angularVelocity_ -
        Cross (contactArm L s c c.colA trA) (contactNormal L s c trA trB) * j *
          (1 / rbA.inertia_) ∧
      rbB'.velocity_ = rbB.velocity_ + contactNormal L s c trA trB * j * (1 / rbB.mass_) ∧
      rbB'.angularVelocity_ = rbB.angularVelocity_ +
        Cross (contactArm L s c c.colB trB) (contactNormal L s c trA trB) * j *
          (1 / rbB.inertia_) ∧
      (0 < j → Dot c.contact.normalA c.contact.normalA = 1 →
        contactVelAlongN L (SolveContacts_ L pm [c] dt s) c a b trA trB =
          -specRestitution (contactVelAlongN L s c a b trA trB) rbA.restitution_
              rbB.restitution_ * contactVelAlongN L s c a b trA trB -
            specBias dt c.contact.penetration pm.penetrationSlop) ∧
      (-((1 + specRestitution (contactVelAlongN L s c a b trA trB) rbA.restitution_
              rbB.restitution_) * contactVelAlongN L s c a b trA trB +
            specBias dt c.contact.penetration pm.penetrationSlop) /
          contactDenom L s c a b trA trB < 0 →
        (SolveContacts_ L pm [c] dt s).body = s.body) := by
  have hpass : SolveContacts_ L pm [c] dt s = solveContact L pm dt s c := rfl
  rw [hpass]
  obtain ⟨h1, h2, h3, htr⟩ := solveContact_free_pair L pm dt s c a b rbA rbB trA trB ha hb hne
    htrig hta htb hA hB dA dB mA mB iA iB fA fB hden
  have hdenom : contactDenom L s c a b trA trB =
      1 / rbA.mass_ + 1 / rbB.mass_ +
        (Cross (contactArm L s c c.colA trA) (contactNormal L s c trA trB) *
          Cross (contactArm L s c c.colA trA) (contactNormal L s c trA trB)) *
          (1 / rbA.inertia_) +
        (Cross (contactArm L s c c.colB trB) (contactNormal L s c trA trB) *
          Cross (contactArm L s c c.colB trB) (contactNormal L s c trA trB)) *
          (1 / rbB.inertia_) := by
    unfold contactDenom
    rw [invM_of_dynamic s _ rbA hA dA mA, invM_of_dynamic s _ rbB hB dB mB,
      invI_of_dynamic s _ rbA hA dA fA.2.2 iA, invI_of_dynamic s _ rbB hB dB fB.2.2 iB]
  have hres' : contactRestitution L s c a b trA trB =
      specRestitution (contactVelAlongN L s c a b trA trB) rbA.restitution_
        rbB.restitution_ := by
    simp only [contactRestitution, specRestitution, hA, hB]
    rw [max_assoc, max_eq_right hres]
  have hj0 : contactJ0 L pm dt s c a b trA trB =
      -((1 + specRestitution (contactVelAlongN L s c a b trA trB) rbA.restitution_
            rbB.restitution_) * contactVelAlongN L s c a b trA trB +
          specBias dt c.contact.penetration pm.penetrationSlop) /
        contactDenom L s c a b trA trB := by
    unfold contactJ0
    rw [hres']
    rfl
  have hj : contactJ L pm dt s c a b trA trB =
      specImpulse (contactVelAlongN L s c a b trA trB)
        (specRestitution (contactVelAlongN L s c a b trA trB) rbA.restitution_
          rbB.restitution_)
        (specBias dt c.contact.penetration pm.penetrationSlop)
        (contactDenom L s c a b trA trB) := by
    rw [contactJ_eq, hj0]
    rfl
  refine ⟨_, _, contactJ L pm dt s c a b trA trB, hj, hdenom, h1, h2, rfl, rfl, rfl, rfl, ?_, ?_⟩
  · intro hpos hunit
    have hjj : contactJ L pm dt s c a b trA trB = contactJ0 L pm dt s c a b trA trB := by
      unfold contactJ at hpos ⊢
      split_ifs at hpos ⊢ with hlt
      · exact absurd hpos (lt_irrefl 0)
      · rfl
    obtain ⟨hn, harm⟩ := contact_congr L s (solveContact L pm dt s c) c trA trB
      (solveContact_parents L pm dt s c) htr (solveContact_colliderAt L pm dt s c)
    have hnn : Dot (contactNormal L s c trA trB) (contactNormal L s c trA trB) = 1 := by
      rw [contactNormal_dot, hunit]
    have hd0 : contactDenom L s c a b trA trB ≠ 0 := ne_of_gt (lt_trans (by norm_num) hden)
    have hmul : contactJ L pm dt s c a b trA trB * contactDenom L s c a b trA trB =
        -((1 + specRestitution (contactVelAlongN L s c a b trA trB) rbA.restitution_
            rbB.restitution_) * contactVelAlongN L s c a b trA trB +
          specBias dt c.contact.penetration pm.penetrationSlop) := by
      rw [hjj, hj0, div_mul_cancel₀ _ hd0]
    have hlhs : contactVelAlongN L (solveContact L pm dt s c) c a b trA trB =
        contactVelAlongN L s c a b trA trB +
          contactJ L pm dt s c a b trA trB * contactDenom L s c a b trA trB := by
      rw [hdenom]
      unfold contactVelAlongN
      rw [hn, harm, harm, vel_of_body _ _ _ h1, vel_of_body _ _ _ h2, angVel_of_body _ _ _ h1,
        angVel_of_body _ _ _ h2, vel_of_body s _ rbA hA, vel_of_body s _ rbB hB,
        angVel_of_body s _ rbA hA, angVel_of_body s _ rbB hB]
      exact impulse_changes_normal_velocity _ _ _ _ _ _ _ _ _ _ _ _ hnn
    rw [hlhs, hmul]
    ring
  · intro hneg
    have hz : contactJ L pm dt s c a b trA trB = 0 := by
      unfold contactJ
      rw [if_pos (by rw [hj0]; exact hneg)]
    rw [hz] at h1 h2
    funext g
    by_cases ga : g = a.addr
    · rw [ga, h1, hA]
      congr 1
      have e1 : rbA.velocity_ - contactNormal L s c trA trB * (0 : K) * (1 / rbA.mass_) =
          rbA.velocity_ := by ext <;> simp
      have e2 : rbA.angularVelocity_ -
          Cross (contactArm L s c c.colA trA) (contactNormal L s c trA trB) * 0 *
            (1 / rbA.inertia_) = rbA.angularVelocity_ := by ring
      rw [e1, e2]
    · by_cases gb : g = b.addr
      · rw [gb, h2, hB]
        congr 1
        have e1 : rbB.velocity_ + contactNormal L s c trA trB * (0 : K) * (1 / rbB.mass_) =
            rbB.velocity_ := by ext <;> simp
        have e2 : rbB.angularVelocity_ +
            Cross (contactArm L s c c.colB trB) (contactNormal L s c trA trB) * 0 *
              (1 / rbB.inertia_) = rbB.angularVelocity_ := by ring
        rw [e1, e2]
      · exact h3 g ga gb


/-! ### The example pair under the solver -/

/-- A contact whose normal is the zero vector has the zero vector as solver
normal, in every scene. -/
theorem contactNormal_zero (L : Libm K) (s : PhysicsScene K) (c : NarrowContact K)
    (trA trB : Transform K) (h : c.contact.normalA = ⟨0, 0⟩) :
    contactNormal L s c trA trB = ⟨0, 0⟩ := by
  unfold contactNormal
  rw [h]
  split_ifs
  · ext <;> simp
  · rfl

theorem example_armA (L : Libm K) (A B : Option (RigidBody2D K)) (t : Bool) (pen : K)
    (tr : Transform K) :
    contactArm L (exampleTwoBodies A B) (exampleBodyContact t pen) (some 1) tr = ⟨0.5, 0⟩ := by
  unfold contactArm
  rw [example_centerA]
  ext <;> simp [exampleBodyContact]

theorem example_armB (L : Libm K) (A B : Option (RigidBody2D K)) (t : Bool) (pen : K)
    (tr : Transform K) :
    contactArm L (exampleTwoBodies A B) (exampleBodyContact t pen) (some 2) tr =
      ⟨0.5 - 1, 0⟩ := by
  unfold contactArm
  rw [example_centerB]
  ext <;> simp [exampleBodyContact]

theorem example_velAlongN (L : Libm K) (m : K) (t : Bool) (pen : K) (trA trB : Transform K) :
    contactVelAlongN L (exampleDynamicPair m) (exampleBodyContact t pen) ⟨1, 1⟩ ⟨2, 2⟩ trA trB =
      -1 := by
  unfold contactVelAlongN exampleDynamicPair
  rw [example_normal]
  simp [PhysicsScene.vel, PhysicsScene.angVel, exampleTwoBodies, exampleBody, Dot, Perp]

theorem example_denom (L : Libm K) (m : K) (hm : 1e-6 < m) (t : Bool) (pen : K)
    (trA trB : Transform K) :
    contactDenom L (exampleDynamicPair m) (exampleBodyContact t pen) ⟨1, 1⟩ ⟨2, 2⟩ trA trB =
      1 / m + 1 / m := by
  unfold contactDenom exampleDynamicPair
  have h1 : (exampleBodyContact t pen : NarrowContact K).colA = some 1 := rfl
  have h2 : (exampleBodyContact t pen : NarrowContact K).colB = some 2 := rfl
  rw [h1, h2, example_normal, example_armA, example_armB,
    example_invM _ _ 1 m ⟨1, 0⟩ 0 hm rfl, example_invM _ _ 2 m ⟨0, 0⟩ 0 hm rfl]
  simp [Cross]

/-- C24 (counterexample): two inputs with a positive claimed impulse `j` after
which the relative normal velocity is not `-e * vn - bias` (default
configuration, `dt = 1/60`, Dynamic bodies without constraints).

* Two bodies of mass `1e9` (example scene, A moving at `(1, 0)` toward B at
  rest, penetration 1): `denom = 2e-9` is not above `1e-8`, the contact is
  skipped and the pass changes nothing; the relative normal velocity stays
  `-1`.
* Two bodies of unit mass at rest whose circles have the same centre:
  `Contact_Circle_Circle` reports the zero vector as normal; `denom = 2` is
  above `1e-8` and `j` is positive, but an impulse along the zero vector
  changes no velocity, and the relative normal velocity afterwards is `0`. -/
theorem normal_impulse_misses :
    (SolveContacts_ (Libm.mk Real.sqrt Real.cos Real.sin) examplePhysics
        [exampleBodyContact false 1] (1 / 60) (exampleDynamicPair (1e9 : ℝ)) =
      exampleDynamicPair 1e9 ∧
    0 < specImpulse
      (contactVelAlongN (Libm.mk Real.sqrt Real.cos Real.sin) (exampleDynamicPair (1e9 : ℝ))
        (exampleBodyContact false 1) ⟨1, 1⟩ ⟨2, 2⟩ ⟨⟨0, 0⟩, ⟨1, 1⟩, 0⟩ ⟨⟨1, 0⟩, ⟨1, 1⟩, 0⟩)
      (specRestitution
        (contactVelAlongN (Libm.mk Real.sqrt Real.cos Real.sin) (exampleDynamicPair (1e9 : ℝ))
          (exampleBodyContact false 1) ⟨1, 1⟩ ⟨2, 2⟩ ⟨⟨0, 0⟩, ⟨1, 1⟩, 0⟩ ⟨⟨1, 0⟩, ⟨1, 1⟩, 0⟩)
        0 0)
      (specBias (1 / 60) 1 0.01)
      (contactDenom (Libm.mk Real.sqrt Real.cos Real.sin) (exampleDynamicPair (1e9 : ℝ))
        (exampleBodyContact false 1) ⟨1, 1⟩ ⟨2, 2⟩ ⟨⟨0, 0⟩, ⟨1, 1⟩, 0⟩ ⟨⟨1, 0⟩, ⟨1, 1⟩, 0⟩) ∧
    contactVelAlongN (Libm.mk Real.sqrt Real.cos Real.sin)
        (SolveContacts_ (Libm.mk Real.sqrt Real.cos Real.sin) examplePhysics
          [exampleBodyContact false 1] (1 / 60) (exampleDynamicPair (1e9 : ℝ)))
        (exampleBodyContact false 1) ⟨1, 1⟩ ⟨2, 2⟩ ⟨⟨0, 0⟩, ⟨1, 1⟩, 0⟩ ⟨⟨1, 0⟩, ⟨1, 1⟩, 0⟩ ≠
      -specRestitution
          (contactVelAlongN (Libm.mk Real.sqrt Real.cos Real.sin)
            (exampleDynamicPair (1e9 : ℝ)) (exampleBodyContact false 1) ⟨1, 1⟩ ⟨2, 2⟩
            ⟨⟨0, 0⟩, ⟨1, 1⟩, 0⟩ ⟨⟨1, 0⟩, ⟨1, 1⟩, 0⟩) 0 0 *
        contactVelAlongN (Libm.mk Real.sqrt Real.cos Real.sin) (exampleDynamicPair (1e9 : ℝ))
          (exampleBodyContact false 1) ⟨1, 1⟩ ⟨2, 2⟩ ⟨⟨0, 0⟩, ⟨1, 1⟩, 0⟩ ⟨⟨1, 0⟩, ⟨1, 1⟩, 0⟩ -
      specBias (1 / 60) 1 0.01) ∧
    ((exampleContact (Libm.mk Real.sqrt Real.cos Real.sin) (0 : ℝ)).contact.normalA = ⟨0, 0⟩ ∧
      (exampleContact (Libm.mk Real.sqrt Real.cos Real.sin) (0 : ℝ)).contact.penetration =
        1.9999 ∧
      1e-8 < contactDenom (Libm.mk Real.sqrt Real.cos Real.sin)
        (exampleStacked (some (exampleBody BodyType.Dynamic 1 (⟨0, 0⟩ : Vec2 ℝ) 0))
          (some (exampleBody BodyType.Dynamic 1 ⟨0, 0⟩ 0)))
        (exampleContact (Libm.mk Real.sqrt Real.cos Real.sin) 0) ⟨1, 1⟩ ⟨2, 2⟩
        ⟨⟨0, 0⟩, ⟨1, 1⟩, 0⟩ ⟨⟨0, 0⟩, ⟨1, 1⟩, 0⟩ ∧
      0 < specImpulse
        (contactVelAlongN (Libm.mk Real.sqrt Real.cos Real.sin)
          (exampleStacked (some (exampleBody BodyType.Dynamic 1 (⟨0, 0⟩ : Vec2 ℝ) 0))
            (some (exampleBody BodyType.Dynamic 1 ⟨0, 0⟩ 0)))
          (exampleContact (Libm.mk Real.sqrt Real.cos Real.sin) 0) ⟨1, 1⟩ ⟨2, 2⟩
          ⟨⟨0, 0⟩, ⟨1, 1⟩, 0⟩ ⟨⟨0, 0⟩, ⟨1, 1⟩, 0⟩)
        (specRestitution
          (contactVelAlongN (Libm.mk Real.sqrt Real.cos Real.sin)
            (exampleStacked (some (exampleBody BodyType.Dynamic 1 (⟨0, 0⟩ : Vec2 ℝ) 0))
              (some (exampleBody BodyType.Dynamic 1 ⟨0, 0⟩ 0)))
            (exampleContact (Libm.mk Real.sqrt Real.cos Real.sin) 0) ⟨1, 1⟩ ⟨2, 2⟩
            ⟨⟨0, 0⟩, ⟨1, 1⟩, 0⟩ ⟨⟨0, 0⟩, ⟨1, 1⟩, 0⟩)
          0 0)
        (specBias (1 / 60) 1.9999 0.01)
        (contactDenom (Libm.mk Real.sqrt Real.cos Real.sin)
          (exampleStacked (some (exampleBody BodyType.Dynamic 1 (⟨0, 0⟩ : Vec2 ℝ) 0))
            (some (exampleBody BodyType.Dynamic 1 ⟨0, 0⟩ 0)))
          (exampleContact (Libm.mk Real.sqrt Real.cos Real.sin) 0) ⟨1, 1⟩ ⟨2, 2⟩
          ⟨⟨0, 0⟩, ⟨1, 1⟩, 0⟩ ⟨⟨0, 0⟩, ⟨1, 1⟩, 0⟩) ∧
      contactVelAlongN (Libm.mk Real.sqrt Real.cos Real.sin)
          (SolveContacts_ (Libm.mk Real.sqrt Real.cos Real.sin) examplePhysics
            [exampleContact (Libm.mk Real.sqrt Real.cos Real.sin) 0] (1 / 60)
            (exampleStacked (some (exampleBody BodyType.Dynamic 1 (⟨0, 0⟩ : Vec2 ℝ) 0))
              (some (exampleBody BodyType.Dynamic 1 ⟨0, 0⟩ 0))))
          (exampleContact (Libm.mk Real.sqrt Real.cos Real.sin) 0) ⟨1, 1⟩ ⟨2, 2⟩
          ⟨⟨0, 0⟩, ⟨1, 1⟩, 0⟩ ⟨⟨0, 0⟩, ⟨1, 1⟩, 0⟩ ≠
        -specRestitution
            (contactVelAlongN (Libm.mk Real.sqrt Real.cos Real.sin)
              (exampleStacked (some (exampleBody BodyType.Dynamic 1 (⟨0, 0⟩ : Vec2 ℝ) 0))
                (some (exampleBody BodyType.Dynamic 1 ⟨0, 0⟩ 0)))
              (exampleContact (Libm.mk Real.sqrt Real.cos Real.sin) 0) ⟨1, 1⟩ ⟨2, 2⟩
              ⟨⟨0, 0⟩, ⟨1, 1⟩, 0⟩ ⟨⟨0, 0⟩, ⟨1, 1⟩, 0⟩) 0 0 *
          contactVelAlongN (Libm.mk Real.sqrt Real.cos Real.sin)
            (exampleStacked (some (exampleBody BodyType.Dynamic 1 (⟨0, 0⟩ : Vec2 ℝ) 0))
              (some (exampleBody BodyType.Dynamic 1 ⟨0, 0⟩ 0)))
            (exampleContact (Libm.mk Real.sqrt Real.cos Real.sin) 0) ⟨1, 1⟩ ⟨2, 2⟩
            ⟨⟨0, 0⟩, ⟨1, 1⟩, 0⟩ ⟨⟨0, 0⟩, ⟨1, 1⟩, 0⟩ -
        specBias (1 / 60) 1.9999 0.01) := by
  refine ⟨?_, ?_⟩
  swap
  · obtain ⟨-, hn, hp⟩ := Contact_Circle_Circle_coincident
      (Libm.mk Real.sqrt Real.cos Real.sin) (⟨0, 0⟩ : Vec2 ℝ) 1 1 cp0 (by norm_num)
      real_sqrt_1e8
    have hn' : (exampleContact (Libm.mk Real.sqrt Real.cos Real.sin) (0 : ℝ)).contact.normalA =
        ⟨0, 0⟩ := hn
    have hp' : (exampleContact (Libm.mk Real.sqrt Real.cos Real.sin) (0 : ℝ)).contact.penetration =
        1.9999 := by
      refine Eq.trans hp ?_
      norm_num
    have hvn : ∀ s' : PhysicsScene ℝ, contactVelAlongN (Libm.mk Real.sqrt Real.cos Real.sin) s'
        (exampleContact (Libm.mk Real.sqrt Real.cos Real.sin) 0) ⟨1, 1⟩ ⟨2, 2⟩
        ⟨⟨0, 0⟩, ⟨1, 1⟩, 0⟩ ⟨⟨0, 0⟩, ⟨1, 1⟩, 0⟩ = 0 := by
      intro s'
      unfold contactVelAlongN
      rw [contactNormal_zero _ _ _ _ _ hn']
      simp [Dot]
    have hA : (exampleStacked (some (exampleBody BodyType.Dynamic 1 (⟨0, 0⟩ : Vec2 ℝ) 0))
        (some (exampleBody BodyType.Dynamic 1 ⟨0, 0⟩ 0))).invM 1 = 1 / 1 :=
      invM_of_dynamic _ 1 _ rfl rfl (by norm_num [exampleBody])
    have hB : (exampleStacked (some (exampleBody BodyType.Dynamic 1 (⟨0, 0⟩ : Vec2 ℝ) 0))
        (some (exampleBody BodyType.Dynamic 1 ⟨0, 0⟩ 0))).invM 2 = 1 / 1 :=
      invM_of_dynamic _ 2 _ rfl rfl (by norm_num [exampleBody])
    have hden : contactDenom (Libm.mk Real.sqrt Real.cos Real.sin)
        (exampleStacked (some (exampleBody BodyType.Dynamic 1 (⟨0, 0⟩ : Vec2 ℝ) 0))
          (some (exampleBody BodyType.Dynamic 1 ⟨0, 0⟩ 0)))
        (exampleContact (Libm.mk Real.sqrt Real.cos Real.sin) 0) ⟨1, 1⟩ ⟨2, 2⟩
        ⟨⟨0, 0⟩, ⟨1, 1⟩, 0⟩ ⟨⟨0, 0⟩, ⟨1, 1⟩, 0⟩ = 2 := by
      unfold contactDenom
      rw [contactNormal_zero _ _ _ _ _ hn']
      have hA' : (exampleStacked (some (exampleBody BodyType.Dynamic 1 (⟨0, 0⟩ : Vec2 ℝ) 0))
          (some (exampleBody BodyType.Dynamic 1 ⟨0, 0⟩ 0))).invM (⟨1, 1⟩ : GameObjectRef).addr =
          1 / 1 := hA
      have hB' : (exampleStacked (some (exampleBody BodyType.Dynamic 1 (⟨0, 0⟩ : Vec2 ℝ) 0))
          (some (exampleBody BodyType.Dynamic 1 ⟨0, 0⟩ 0))).invM (⟨2, 2⟩ : GameObjectRef).addr =
          1 / 1 := hB
      rw [hA', hB']
      simp [Cross]
      norm_num
    rw [hvn, hvn, hden]
    have he : specRestitution (0 : ℝ) 0 0 = 0 := by
      unfold specRestitution
      rw [if_pos (by norm_num)]
    have hb : specBias (1 / 60 : ℝ) 1.9999 0.01 = -11.9394 := by
      unfold specBias
      rw [max_eq_left (by norm_num)]
      norm_num
    rw [he, hb]
    refine ⟨hn', hp', by norm_num, ?_, by norm_num⟩
    unfold specImpulse
    rw [lt_max_iff]
    right
    norm_num
  have hden := example_denom (Libm.mk Real.sqrt Real.cos Real.sin) (1e9 : ℝ) (by norm_num)
    false 1 ⟨⟨0, 0⟩, ⟨1, 1⟩, 0⟩ ⟨⟨1, 0⟩, ⟨1, 1⟩, 0⟩
  have hvn := example_velAlongN (Libm.mk Real.sqrt Real.cos Real.sin) (1e9 : ℝ) false 1
    ⟨⟨0, 0⟩, ⟨1, 1⟩, 0⟩ ⟨⟨1, 0⟩, ⟨1, 1⟩, 0⟩
  have hcc := contactImpulse_eq (Libm.mk Real.sqrt Real.cos Real.sin) examplePhysics (1 / 60)
    (exampleDynamicPair (1e9 : ℝ)) (exampleBodyContact false 1) ⟨1, 1⟩ ⟨2, 2⟩
    ⟨⟨0, 0⟩, ⟨1, 1⟩, 0⟩ ⟨⟨1, 0⟩, ⟨1, 1⟩, 0⟩
  have hA : (exampleDynamicPair (1e9 : ℝ)).invM 1 = 1 / 1e9 :=
    example_invM _ _ 1 1e9 ⟨1, 0⟩ 0 (by norm_num) rfl
  have hB : (exampleDynamicPair (1e9 : ℝ)).invM 2 = 1 / 1e9 :=
    example_invM _ _ 2 1e9 ⟨0, 0⟩ 0 (by norm_num) rfl
  rw [hden] at hcc
  have hA' : (exampleDynamicPair (1e9 : ℝ)).invM (⟨1, 1⟩ : GameObjectRef).addr = 1 / 1e9 := hA
  have hB' : (exampleDynamicPair (1e9 : ℝ)).invM (⟨2, 2⟩ : GameObjectRef).addr = 1 / 1e9 := hB
  rw [hA', hB', if_neg (by norm_num), if_pos (by norm_num)] at hcc
  have hskip := (solveContact_eq (Libm.mk Real.sqrt Real.cos Real.sin) examplePhysics (1 / 60)
    (exampleDynamicPair (1e9 : ℝ)) (exampleBodyContact false 1) ⟨1, 1⟩ ⟨2, 2⟩
    ⟨⟨0, 0⟩, ⟨1, 1⟩, 0⟩ ⟨⟨1, 0⟩, ⟨1, 1⟩, 0⟩ rfl rfl rfl (Or.inl rfl)
    ((world_root _ _ 1 rfl).trans rfl) ((world_root _ _ 2 rfl).trans rfl)).1 hcc
  have hpass : SolveContacts_ (Libm.mk Real.sqrt Real.cos Real.sin) examplePhysics
      [exampleBodyContact false 1] (1 / 60) (exampleDynamicPair (1e9 : ℝ)) =
      exampleDynamicPair 1e9 := hskip
  rw [hpass, hvn, hden]
  have he : specRestitution (-1 : ℝ) 0 0 = 0 := by
    unfold specRestitution
    rw [if_neg (by norm_num), max_self]
  have hb : specBias (1 / 60 : ℝ) 1 0.01 = -5.94 := by
    unfold specBias
    rw [max_eq_left (by norm_num)]
    norm_num
  rw [he, hb]
  refine ⟨rfl, ?_, by norm_num⟩
  unfold specImpulse
  rw [lt_max_iff]
  right
  norm_num

/-- Witness for `normal_impulse`: the two Dynamic unit-mass bodies of the
example scene (`denom = 2`). -/
theorem normal_impulse_witness :
    ∃ (rbA' rbB' : RigidBody2D ℝ) (j : ℝ),
      j = specImpulse
        (contactVelAlongN (Libm.mk Real.sqrt Real.cos Real.sin) (exampleDynamicPair (1 : ℝ))
          (exampleBodyContact false 1) ⟨1, 1⟩ ⟨2, 2⟩ ⟨⟨0, 0⟩, ⟨1, 1⟩, 0⟩ ⟨⟨1, 0⟩, ⟨1, 1⟩, 0⟩)
        (specRestitution
          (contactVelAlongN (Libm.mk Real.sqrt Real.cos Real.sin) (exampleDynamicPair (1 : ℝ))
            (exampleBodyContact false 1) ⟨1, 1⟩ ⟨2, 2⟩ ⟨⟨0, 0⟩, ⟨1, 1⟩, 0⟩ ⟨⟨1, 0⟩, ⟨1, 1⟩, 0⟩)
          0 0)
        (specBias (1 / 60) 1 0.01)
        (contactDenom (Libm.mk Real.sqrt Real.cos Real.sin) (exampleDynamicPair (1 : ℝ))
          (exampleBodyContact false 1) ⟨1, 1⟩ ⟨2, 2⟩ ⟨⟨0, 0⟩, ⟨1, 1⟩, 0⟩ ⟨⟨1, 0⟩, ⟨1, 1⟩, 0⟩) ∧
      (SolveContacts_ (Libm.mk Real.sqrt Real.cos Real.sin) examplePhysics
        [exampleBodyContact false 1] (1 / 60) (exampleDynamicPair (1 : ℝ))).body 1 =
        some rbA' ∧
      (SolveContacts_ (Libm.mk Real.sqrt Real.cos Real.sin) examplePhysics
        [exampleBodyContact false 1] (1 / 60) (exampleDynamicPair (1 : ℝ))).body 2 =
        some rbB' ∧
      rbA'.velocity_ = (⟨1, 0⟩ : Vec2 ℝ) -
        contactNormal (Libm.mk Real.sqrt Real.cos Real.sin) (exampleDynamicPair (1 : ℝ))
          (exampleBodyContact false 1) ⟨⟨0, 0⟩, ⟨1, 1⟩, 0⟩ ⟨⟨1, 0⟩, ⟨1, 1⟩, 0⟩ * j * (1 / 1 : ℝ) ∧
      rbB'.velocity_ = (⟨0, 0⟩ : Vec2 ℝ) +
        contactNormal (Libm.mk Real.sqrt Real.cos Real.sin) (exampleDynamicPair (1 : ℝ))
          (exampleBodyContact false 1) ⟨⟨0, 0⟩, ⟨1, 1⟩, 0⟩ ⟨⟨1, 0⟩, ⟨1, 1⟩, 0⟩ * j * (1 / 1 : ℝ) := by
  obtain ⟨rbA', rbB', j, h1, -, h3, h4, h5, -, h7, -⟩ :=
    normal_impulse (Libm.mk Real.sqrt Real.cos Real.sin) examplePhysics (1 / 60)
      (exampleDynamicPair (1 : ℝ)) (exampleBodyContact false 1) ⟨1, 1⟩ ⟨2, 2⟩
      (exampleBody BodyType.Dynamic 1 ⟨1, 0⟩ 0) (exampleBody BodyType.Dynamic 1 ⟨0, 0⟩ 0)
      ⟨⟨0, 0⟩, ⟨1, 1⟩, 0⟩ ⟨⟨1, 0⟩, ⟨1, 1⟩, 0⟩ rfl rfl (by decide) rfl
      ((world_root _ _ 1 rfl).trans rfl) ((world_root _ _ 2 rfl).trans rfl) rfl rfl rfl rfl
      (by norm_num [exampleBody]) (by norm_num [exampleBody]) (by norm_num [exampleBody])
      (by norm_num [exampleBody]) ⟨by decide, by decide, by decide⟩
      ⟨by decide, by decide, by decide⟩ (by simp [exampleBody])
      (by
        rw [example_denom _ _ (by norm_num)]
        norm_num)
  exact ⟨rbA', rbB', j, h1, h3, h4, h5, h7⟩

/-! ### Position-freeze flags across a physics step (C22) -/

theorem freezeMask_x (cons : Nat) (dv : Vec2 K) (h : hasFlag cons FreezePosX = true) :
    (freezeMask cons dv).x = 0 := by
  unfold freezeMask
  simp only [h, if_true]
  split_ifs <;> rfl

theorem freezeMask_y (cons : Nat) (dv : Vec2 K) (h : hasFlag cons FreezePosY = true) :
    (freezeMask cons dv).y = 0 := by
  unfold freezeMask
  simp only [h, if_true]

theorem ClearForces_constraints (rb : RigidBody2D K) :
    rb.ClearForces.constraints_ = rb.constraints_ := by
  unfold RigidBody2D.ClearForces
  split_ifs <;> rfl

theorem FrozenAt.transfer {s s' : PhysicsScene K} {g c : Nat} {p0 v0 : Vec2 K}
    (h : FrozenAt s g c p0 v0) (h0 : s'.parents g = s.parents g) (h1 : s'.body g = s.body g)
    (h2 : s'.transform g = s.transform g) : FrozenAt s' g c p0 v0 := by
  obtain ⟨rb, tr, hb, ht, hd, hc, hx, hy⟩ := h
  exact ⟨rb, tr, h1.trans hb, h2.trans ht, hd, hc,
    fun fx => ⟨fun hp => (hx fx).1 (h0.symm.trans hp), (hx fx).2⟩,
    fun fy => ⟨fun hp => (hy fy).1 (h0.symm.trans hp), (hy fy).2⟩⟩

/-! An object keeps its `Transform` component under the transform writes. -/

theorem node_isSome (s : PhysicsScene K) (g : Nat) :
    (s.node g).isSome = (s.transform g).isSome := by
  unfold PhysicsScene.node
  rcases s.transform g with _ | t <;> rfl

theorem writePosition_isSome (L : Libm K) (s : PhysicsScene K) (k : Nat) (p : Vec2 K)
    (g : Nat) : ((s.writePosition L k p).transform g).isSome = (s.transform g).isSome := by
  unfold PhysicsScene.writePosition
  rcases hn : s.node k with _ | h
  · rfl
  · by_cases hg : g = k
    · subst hg
      have h1 := node_isSome s g
      rw [hn] at h1
      simp only [setTransform_transform, if_true]
      exact h1
    · simp only [setTransform_transform, if_neg hg]

theorem writeRotation_isSome (L : Libm K) (s : PhysicsScene K) (k : Nat) (r : K)
    (g : Nat) : ((s.writeRotation L k r).transform g).isSome = (s.transform g).isSome := by
  unfold PhysicsScene.writeRotation
  rcases hn : s.node k with _ | h
  · rfl
  · by_cases hg : g = k
    · subst hg
      have h1 := node_isSome s g
      rw [hn] at h1
      simp only [setTransform_transform, if_true]
      exact h1
    · simp only [setTransform_transform, if_neg hg]

theorem turn_isSome (L : Libm K) (s : PhysicsScene K) (k : Nat) (d : K) (g : Nat) :
    ((s.turn L k d).transform g).isSome = (s.transform g).isSome := by
  unfold PhysicsScene.turn
  rcases s.world L k with _ | w
  · rfl
  · exact writeRotation_isSome L s k _ g

/-- The loop body of `PositionalCorrection_` removes no `Transform`. -/
theorem correctContact_isSome (L : Libm K) (pm : PhysicsManager K) (s : PhysicsScene K)
    (c : NarrowContact K) (g : Nat) :
    ((correctContact L pm s c).transform g).isSome = (s.transform g).isSome := by
  have key : ∀ r : Vec2 K × Vec2 K, ∀ a b : Nat,
      ((if s.isDynamic b = true then
          (if s.isDynamic a = true then s.writePosition L a r.1 else s).writePosition L b r.2
        else (if s.isDynamic a = true then s.writePosition L a r.1 else s)).transform g).isSome =
        (s.transform g).isSome := by
    intro r a b
    have h1 : ((if s.isDynamic a = true then s.writePosition L a r.1 else s).transform g).isSome =
        (s.transform g).isSome := by
      split_ifs
      · exact writePosition_isSome L s a _ g
      · rfl
    by_cases h : s.isDynamic b = true
    · rw [if_pos h]
      exact (writePosition_isSome L _ b _ g).trans h1
    · rw [if_neg h]
      exact h1
  unfold correctContact
  split
  · split
    · rfl
    · split
      · rfl
      · split
        · split
          · rfl
          · exact key _ _ _
        · rfl
  · rfl

/-- The Dynamic branch of the loop body of `Integrate_`, with or without
parent: the velocity written is zero on every frozen axis, and the object
keeps its `Transform`. -/
theorem integrateBody_dynamic_vel (L : Libm K) (pm : PhysicsManager K) (dt : K)
    (s : PhysicsScene K) (g : Nat) (rb : RigidBody2D K) (hb : s.body g = some rb)
    (ht : (s.transform g).isSome = true) (hd : rb.bodyType_ = BodyType.Dynamic) :
    ∃ (v : Vec2 K) (w : K),
      (integrateBody L pm dt s (g, true)).body g =
        some ({ rb with velocity_ := v, angularVelocity_ := w } : RigidBody2D K).ClearForces ∧
      ((integrateBody L pm dt s (g, true)).transform g).isSome = true ∧
      (hasFlag rb.constraints_ FreezePosX = true → v.x = 0) ∧
      (hasFlag rb.constraints_ FreezePosY = true → v.y = 0) := by
  obtain ⟨tw, hw⟩ : ∃ tw, s.world L g = some tw := by
    rcases h : s.world L g with _ | tw
    · rw [(world_eq_none L s g).mp h] at ht
      exact absurd ht (by simp)
    · exact ⟨tw, rfl⟩
  unfold integrateBody
  simp only [not_true_eq_false, if_false, hb, hw, hd]
  refine ⟨_, _, by rw [setBody_body, if_pos rfl], ?_, ?_, ?_⟩
  · rw [setBody_transform, turn_isSome, writePosition_isSome]
    exact ht
  · intro fx
    simp only [fx, if_true]
    split_ifs <;> simp
  · intro fy
    simp only [fy, if_true]
    split_ifs <;> simp

/-- The Dynamic branch of the loop body of `Integrate_` for an object without
parent: the velocity written is zero on every frozen axis and the position
written keeps its coordinate there. -/
theorem integrateBody_dynamic_frozen (L : Libm K) (pm : PhysicsManager K) (dt : K)
    (s : PhysicsScene K)
    (g : Nat) (rb : RigidBody2D K) (tr : Transform K) (hb : s.body g = some rb)
    (ht : s.transform g = some tr) (hp : s.parents g = [])
    (hd : rb.bodyType_ = BodyType.Dynamic) :
    ∃ (v pos : Vec2 K) (w rz : K),
      integrateBody L pm dt s (g, true) =
        (s.setTransform g { tr with position := pos, rotationZ := rz }).setBody g
          ({ rb with velocity_ := v, angularVelocity_ := w } : RigidBody2D K).ClearForces ∧
      (hasFlag rb.constraints_ FreezePosX = true → v.x = 0 ∧ pos.x = tr.position.x) ∧
      (hasFlag rb.constraints_ FreezePosY = true → v.y = 0 ∧ pos.y = tr.position.y) := by
  unfold integrateBody
  simp only [not_true_eq_false, if_false, hb, world_root L s g hp, ht, hd]
  rw [move_root L s g tr _ _ hp ht]
  exact ⟨_, _, _, _, rfl,
    fun fx => by
      simp only [fx, if_true]
      constructor <;> split_ifs <;> simp,
    fun fy => by
      simp only [fy, if_true]
      constructor <;> split_ifs <;> simp⟩

/-- The iteration of `Integrate_` for the active entry of the body itself
zeroes the velocity on the frozen axes and, without parent, keeps the position
there. -/
theorem integrateBody_frozen_self (L : Libm K) (pm : PhysicsManager K) (dt : K)
    (s : PhysicsScene K)
    (g c : Nat) (p0 v0 : Vec2 K) (h : FrozenAt s g c p0 v0) :
    FrozenAt (integrateBody L pm dt s (g, true)) g c p0 ⟨0, 0⟩ := by
  obtain ⟨rb, tr, hb, ht, hd, hc, hx, hy⟩ := h
  by_cases hp : s.parents g = []
  · obtain ⟨v, pos, w, rz, he, ex, ey⟩ :=
      integrateBody_dynamic_frozen L pm dt s g rb tr hb ht hp hd
    rw [he]
    refine ⟨_, { tr with position := pos, rotationZ := rz },
      (setBody_body _ _ _ _).trans (if_pos rfl), ?_, ?_, ?_, ?_, ?_⟩
    · rw [setBody_transform, setTransform_transform, if_pos rfl]
    · rw [(ClearForces_fields _).1]
      exact hd
    · rw [ClearForces_constraints]
      exact hc
    · intro fx
      rw [(ClearForces_fields _).2.1]
      rw [← hc] at fx
      exact ⟨fun _ => (ex fx).2.trans ((hx (hc ▸ fx)).1 hp), Or.inr (ex fx).1⟩
    · intro fy
      rw [(ClearForces_fields _).2.1]
      rw [← hc] at fy
      exact ⟨fun _ => (ey fy).2.trans ((hy (hc ▸ fy)).1 hp), Or.inr (ey fy).1⟩
  · obtain ⟨v, w, he, hs, ex, ey⟩ :=
      integrateBody_dynamic_vel L pm dt s g rb hb (by rw [ht]; rfl) hd
    obtain ⟨tr', ht'⟩ := Option.isSome_iff_exists.mp hs
    have hp' : ¬ (integrateBody L pm dt s (g, true)).parents g = [] := by
      rw [integrateBody_parents]
      exact hp
    refine ⟨_, tr', he, ht', ?_, ?_, ?_, ?_⟩
    · rw [(ClearForces_fields _).1]
      exact hd
    · rw [ClearForces_constraints]
      exact hc
    · intro fx
      rw [(ClearForces_fields _).2.1]
      rw [← hc] at fx
      exact ⟨fun h0 => absurd h0 hp', Or.inr (ex fx)⟩
    · intro fy
      rw [(ClearForces_fields _).2.1]
      rw [← hc] at fy
      exact ⟨fun h0 => absurd h0 hp', Or.inr (ey fy)⟩

theorem FrozenAt.weaken {s : PhysicsScene K} {g c : Nat} {p0 : Vec2 K}
    (h : FrozenAt s g c p0 ⟨0, 0⟩) (v0 : Vec2 K) : FrozenAt s g c p0 v0 := by
  obtain ⟨rb, tr, hb, ht, hd, hc, hx, hy⟩ := h
  refine ⟨rb, tr, hb, ht, hd, hc, fun fx => ⟨(hx fx).1, Or.inr ?_⟩,
    fun fy => ⟨(hy fy).1, Or.inr ?_⟩⟩
  · exact (hx fx).2.elim id id
  · exact (hy fy).2.elim id id

/-- Every iteration of `Integrate_` keeps the frozen coordinates. -/
theorem integrateBody_frozen (L : Libm K) (pm : PhysicsManager K) (dt : K)
    (s : PhysicsScene K)
    (e : Nat × Bool) (g c : Nat) (p0 v0 : Vec2 K) (h : FrozenAt s g c p0 v0) :
    FrozenAt (integrateBody L pm dt s e) g c p0 v0 := by
  by_cases hg : e.1 = g
  · by_cases he : e.2 = true
    · have : e = (g, true) := Prod.ext hg he
      rw [this]
      exact (integrateBody_frozen_self L pm dt s g c p0 v0 h).weaken v0
    · have : integrateBody L pm dt s e = s := by
        unfold integrateBody
        rw [if_pos he]
      rw [this]
      exact h
  · obtain ⟨h1, h2⟩ := integrateBody_other L pm dt s e g hg
    exact h.transfer (congrFun (integrateBody_parents L pm dt s e) g) h1 h2

theorem Integrate_frozen (L : Libm K) (pm : PhysicsManager K) (dt : K) (s : PhysicsScene K)
    (g c : Nat) (p0 v0 : Vec2 K) (h : FrozenAt s g c p0 v0) :
    FrozenAt (Integrate_ L pm dt s) g c p0 v0 := by
  unfold Integrate_
  generalize pm.mBodies = l
  induction l generalizing s with
  | nil => exact h
  | cons e t ih => exact ih _ (integrateBody_frozen L pm dt s e g c p0 v0 h)

/-- `Integrate_` zeroes the velocity on the frozen axes of a body whose entry
is active. -/
theorem Integrate_frozen_zero (L : Libm K) (pm : PhysicsManager K) (dt : K)
    (s : PhysicsScene K)
    (g c : Nat) (p0 v0 : Vec2 K) (h : FrozenAt s g c p0 v0) (hreg : (g, true) ∈ pm.mBodies) :
    FrozenAt (Integrate_ L pm dt s) g c p0 ⟨0, 0⟩ := by
  unfold Integrate_
  generalize pm.mBodies = l at hreg
  induction l generalizing s with
  | nil => simp at hreg
  | cons e t ih =>
    rw [List.foldl_cons]
    rcases List.mem_cons.mp hreg with he | he
    · rw [← he]
      have hz := integrateBody_frozen_self L pm dt s g c p0 v0 h
      exact Integrate_frozen L { pm with mBodies := t } dt _ g c p0 ⟨0, 0⟩ hz
    · exact ih _ (integrateBody_frozen L pm dt s e g c p0 v0 h) he

/-- The linear velocities computed by `contactImpulse`. -/
theorem contactImpulse_some (L : Libm K) (pm : PhysicsManager K) (dt : K) (s : PhysicsScene K)
    (c : NarrowContact K) (a b : GameObjectRef) (trA trB : Transform K)
    (r : Vec2 K × K × Vec2 K × K) (h : contactImpulse L pm dt s c a b trA trB = some r) :
    r.1 = s.vel a.addr - freezeMask (s.cons a.addr)
      (contactNormal L s c trA trB * contactJ L pm dt s c a b trA trB * s.invM a.addr) ∧
    r.2.2.1 = s.vel b.addr + freezeMask (s.cons b.addr)
      (contactNormal L s c trA trB * contactJ L pm dt s c a b trA trB * s.invM b.addr) := by
  rw [contactImpulse_eq] at h
  by_cases c1 : s.invM a.addr + s.invM b.addr ≤ 0
  · rw [if_pos c1] at h
    exact absurd h (by simp)
  rw [if_neg c1] at h
  by_cases c2 : contactDenom L s c a b trA trB ≤ 1e-8
  · rw [if_pos c2] at h
    exact absurd h (by simp)
  rw [if_neg c2] at h
  rw [← Option.some.inj h]
  exact ⟨rfl, rfl⟩

/-- The positions computed by `contactCorrection`. -/
theorem contactCorrection_some (L : Libm K) (pm : PhysicsManager K) (s : PhysicsScene K)
    (c : NarrowContact K) (a b : GameObjectRef) (trA trB : Transform K)
    (r : Vec2 K × Vec2 K) (h : contactCorrection L pm s c a b trA trB = some r) :
    r.1 = ⟨trA.position.x - (freezeMask (s.cons a.addr)
          (contactNormal L s c trA trB * correctionMag pm s c a b * s.invM a.addr)).x,
        trA.position.y - (freezeMask (s.cons a.addr)
          (contactNormal L s c trA trB * correctionMag pm s c a b * s.invM a.addr)).y⟩ ∧
    r.2 = ⟨trB.position.x + (freezeMask (s.cons b.addr)
          (contactNormal L s c trA trB * correctionMag pm s c a b * s.invM b.addr)).x,
        trB.position.y + (freezeMask (s.cons b.addr)
          (contactNormal L s c trA trB * correctionMag pm s c a b * s.invM b.addr)).y⟩ := by
  rw [contactCorrection_eq] at h
  by_cases c1 : s.invM a.addr + s.invM b.addr ≤ 0
  · rw [if_pos c1] at h
    exact absurd h (by simp)
  rw [if_neg c1] at h
  by_cases c2 : correctionMag pm s c a b ≤ 0
  · rw [if_pos c2] at h
    exact absurd h (by simp)
  rw [if_neg c2] at h
  rw [← Option.some.inj h]
  exact ⟨rfl, rfl⟩

/-- A guarded velocity write whose value agrees with the old velocity on the
frozen axes keeps type, constraints and the frozen velocity coordinates. -/
theorem setVel_frozen (g k : Nat) (v : Vec2 K) (w : K) (rb rb0 : RigidBody2D K)
    (hd : rb.bodyType_ = rb0.bodyType_) (hc : rb.constraints_ = rb0.constraints_)
    (hx : hasFlag rb0.constraints_ FreezePosX = true → rb.velocity_.x = rb0.velocity_.x)
    (hy : hasFlag rb0.constraints_ FreezePosY = true → rb.velocity_.y = rb0.velocity_.y)
    (vx : g = k → hasFlag rb0.constraints_ FreezePosX = true → v.x = rb0.velocity_.x)
    (vy : g = k → hasFlag rb0.constraints_ FreezePosY = true → v.y = rb0.velocity_.y) :
    (setVel g k v w rb).bodyType_ = rb0.bodyType_ ∧
    (setVel g k v w rb).constraints_ = rb0.constraints_ ∧
    (hasFlag rb0.constraints_ FreezePosX = true →
      (setVel g k v w rb).velocity_.x = rb0.velocity_.x) ∧
    (hasFlag rb0.constraints_ FreezePosY = true →
      (setVel g k v w rb).velocity_.y = rb0.velocity_.y) := by
  unfold setVel
  split_ifs with h
  · exact ⟨hd, hc, vx h.1, vy h.1⟩
  · exact ⟨hd, hc, hx, hy⟩

/-- One iteration of the loop of `SolveContacts_` keeps the frozen
coordinates. -/
theorem solveContact_frozen (L : Libm K) (pm : PhysicsManager K) (dt : K) (s : PhysicsScene K)
    (ct : NarrowContact K) (g c : Nat) (p0 v0 : Vec2 K) (h : FrozenAt s g c p0 v0) :
    FrozenAt (solveContact L pm dt s ct) g c p0 v0 := by
  rcases solveContact_cases L pm dt s ct with e | ⟨a, b, trA, trB, r, -, -, -, -, -, hr, hbd, htr⟩
  · rw [e]
    exact h
  · obtain ⟨rb, tr, hb, ht, hd, hc, hx, hy⟩ := h
    have hpar := congrFun (solveContact_parents L pm dt s ct) g
    obtain ⟨r1, r3⟩ := contactImpulse_some L pm dt s ct a b trA trB r hr
    have s1 := setVel_frozen g a.addr r.1 r.2.1 rb rb rfl rfl (fun _ => rfl) (fun _ => rfl)
      (fun hg fx => by
        rw [r1, ← hg, vel_of_body s g rb hb, cons_of_body s g rb hb, Vec2.sub_x,
          freezeMask_x _ _ fx, sub_zero])
      (fun hg fy => by
        rw [r1, ← hg, vel_of_body s g rb hb, cons_of_body s g rb hb, Vec2.sub_y,
          freezeMask_y _ _ fy, sub_zero])
    have s2 := setVel_frozen g b.addr r.2.2.1 r.2.2.2 (setVel g a.addr r.1 r.2.1 rb) rb
      s1.1 s1.2.1 s1.2.2.1 s1.2.2.2
      (fun hg fx => by
        rw [r3, ← hg, vel_of_body s g rb hb, cons_of_body s g rb hb, Vec2.add_x,
          freezeMask_x _ _ fx, add_zero])
      (fun hg fy => by
        rw [r3, ← hg, vel_of_body s g rb hb, cons_of_body s g rb hb, Vec2.add_y,
          freezeMask_y _ _ fy, add_zero])
    refine ⟨_, tr, ?_, (congrFun htr g).trans ht, s2.1.trans hd, s2.2.1.trans hc, ?_, ?_⟩
    · rw [hbd g, hb]
      rfl
    · intro fx
      rw [s2.2.2.1 (hc ▸ fx)]
      exact ⟨fun h0 => (hx fx).1 (hpar.symm.trans h0), (hx fx).2⟩
    · intro fy
      rw [s2.2.2.2 (hc ▸ fy)]
      exact ⟨fun h0 => (hy fy).1 (hpar.symm.trans h0), (hy fy).2⟩

/-- A guarded position write whose value agrees with the old position on the
frozen axes keeps the frozen position coordinates. -/
theorem setPos_frozen (g k : Nat) (dyn : Bool) (p : Vec2 K) (t t0 : Transform K) (cons : Nat)
    (hx : hasFlag cons FreezePosX = true → t.position.x = t0.position.x)
    (hy : hasFlag cons FreezePosY = true → t.position.y = t0.position.y)
    (px : g = k → hasFlag cons FreezePosX = true → p.x = t0.position.x)
    (py : g = k → hasFlag cons FreezePosY = true → p.y = t0.position.y) :
    (hasFlag cons FreezePosX = true → (setPos g k dyn p t).position.x = t0.position.x) ∧
    (hasFlag cons FreezePosY = true → (setPos g k dyn p t).position.y = t0.position.y) := by
  unfold setPos
  split_ifs with h
  · exact ⟨px h.1, py h.1⟩
  · exact ⟨hx, hy⟩

/-- One iteration of the loop of `PositionalCorrection_` keeps the frozen
coordinates. -/
theorem correctContact_frozen (L : Libm K) (pm : PhysicsManager K) (s : PhysicsScene K)
    (ct : NarrowContact K) (g c : Nat) (p0 v0 : Vec2 K) (h : FrozenAt s g c p0 v0) :
    FrozenAt (correctContact L pm s ct) g c p0 v0 := by
  rcases correctContact_cases L pm s ct with e |
    ⟨a, b, trA, trB, r, -, -, -, hta, htb, hr, htr, hbd⟩
  · rw [e]
    exact h
  · obtain ⟨rb, tr, hb, ht, hd, hc, hx, hy⟩ := h
    have hpar := congrFun (correctContact_parents L pm s ct) g
    by_cases hp : s.parents g = []
    · obtain ⟨r1, r2⟩ := contactCorrection_some L pm s ct a b trA trB r hr
      have s1 := setPos_frozen g a.addr (s.isDynamic a.addr) r.1 tr tr rb.constraints_
        (fun _ => rfl) (fun _ => rfl)
        (fun hg fx => by
          have : trA = tr := by
            rw [← hg, world_root L s g hp, ht] at hta
            exact (Option.some.inj hta).symm
          rw [r1, ← hg, cons_of_body s g rb hb, freezeMask_x _ _ fx, sub_zero, this])
        (fun hg fy => by
          have : trA = tr := by
            rw [← hg, world_root L s g hp, ht] at hta
            exact (Option.some.inj hta).symm
          rw [r1, ← hg, cons_of_body s g rb hb, freezeMask_y _ _ fy, sub_zero, this])
      have s2 := setPos_frozen g b.addr (s.isDynamic b.addr) r.2
        (setPos g a.addr (s.isDynamic a.addr) r.1 tr) tr rb.constraints_ s1.1 s1.2
        (fun hg fx => by
          have : trB = tr := by
            rw [← hg, world_root L s g hp, ht] at htb
            exact (Option.some.inj htb).symm
          rw [r2, ← hg, cons_of_body s g rb hb, freezeMask_x _ _ fx, add_zero, this])
        (fun hg fy => by
          have : trB = tr := by
            rw [← hg, world_root L s g hp, ht] at htb
            exact (Option.some.inj htb).symm
          rw [r2, ← hg, cons_of_body s g rb hb, freezeMask_y _ _ fy, add_zero, this])
      refine ⟨rb, setPos g b.addr (s.isDynamic b.addr) r.2
          (setPos g a.addr (s.isDynamic a.addr) r.1 tr), (congrFun hbd g).trans hb, ?_, hd, hc,
        ?_, ?_⟩
      · rw [htr g hp, ht]
        rfl
      · intro fx
        exact ⟨fun _ => (s2.1 (hc ▸ fx)).trans ((hx fx).1 hp), (hx fx).2⟩
      · intro fy
        exact ⟨fun _ => (s2.2 (hc ▸ fy)).trans ((hy fy).1 hp), (hy fy).2⟩
    · have hs : ((correctContact L pm s ct).transform g).isSome = true := by
        rw [correctContact_isSome, ht]
        rfl
      obtain ⟨tr', ht'⟩ := Option.isSome_iff_exists.mp hs
      have hp' : ¬ (correctContact L pm s ct).parents g = [] := by
        rw [hpar]
        exact hp
      exact ⟨rb, tr', (congrFun hbd g).trans hb, ht', hd, hc,
        fun fx => ⟨fun h0 => absurd h0 hp', (hx fx).2⟩,
        fun fy => ⟨fun h0 => absurd h0 hp', (hy fy).2⟩⟩


theorem SolveContacts_frozen (L : Libm K) (pm : PhysicsManager K)
    (contacts : List (NarrowContact K)) (dt : K) (s : PhysicsScene K) (g c : Nat)
    (p0 v0 : Vec2 K) (h : FrozenAt s g c p0 v0) :
    FrozenAt (SolveContacts_ L pm contacts dt s) g c p0 v0 := by
  unfold SolveContacts_
  induction contacts generalizing s with
  | nil => exact h
  | cons ct t ih => exact ih _ (solveContact_frozen L pm dt s ct g c p0 v0 h)

theorem PositionalCorrection_frozen (L : Libm K) (pm : PhysicsManager K)
    (contacts : List (NarrowContact K)) (s : PhysicsScene K) (g c : Nat)
    (p0 v0 : Vec2 K) (h : FrozenAt s g c p0 v0) :
    FrozenAt (PositionalCorrection_ L pm contacts s) g c p0 v0 := by
  unfold PositionalCorrection_
  induction contacts generalizing s with
  | nil => exact h
  | cons ct t ih => exact ih _ (correctContact_frozen L pm s ct g c p0 v0 h)

/-- The solver iterations and the positional correction of a substep keep the
frozen coordinates. -/
theorem substep_tail_frozen (L : Libm K) (pm : PhysicsManager K) (dt : K)
    (contacts : List (NarrowContact K)) (s : PhysicsScene K) (g c : Nat)
    (p0 v0 : Vec2 K) (h : FrozenAt s g c p0 v0) :
    FrozenAt (PositionalCorrection_ L pm contacts
      ((List.range 8).foldl (fun s _ => SolveContacts_ L pm contacts dt s) s)) g c p0 v0 := by
  have hsolve : ∀ (l : List Nat) (s : PhysicsScene K), FrozenAt s g c p0 v0 →
      FrozenAt (l.foldl (fun s _ => SolveContacts_ L pm contacts dt s) s) g c p0 v0 := by
    intro l
    induction l with
    | nil => intro s hs; exact hs
    | cons i t ih =>
      intro s hs
      rw [List.foldl_cons]
      exact ih _ (SolveContacts_frozen L pm contacts dt s g c p0 v0 hs)
  exact PositionalCorrection_frozen L pm contacts _ g c p0 v0 (hsolve (List.range 8) s h)

theorem substep_frozen [FloorRing K] (L : Libm K) (pm : PhysicsManager K) (dt : K)
    (w : PhysicsScene K × CollisionManager) (g c : Nat) (p0 v0 : Vec2 K)
    (h : FrozenAt w.1 g c p0 v0) : FrozenAt (substep L pm dt w).1 g c p0 v0 := by
  unfold substep
  exact substep_tail_frozen L pm dt _ _ g c p0 v0 (Integrate_frozen L pm dt w.1 g c p0 v0 h)

theorem substep_frozen_zero [FloorRing K] (L : Libm K) (pm : PhysicsManager K) (dt : K)
    (w : PhysicsScene K × CollisionManager) (g c : Nat) (p0 v0 : Vec2 K)
    (h : FrozenAt w.1 g c p0 v0) (hreg : (g, true) ∈ pm.mBodies) :
    FrozenAt (substep L pm dt w).1 g c p0 ⟨0, 0⟩ := by
  unfold substep
  exact substep_tail_frozen L pm dt _ _ g c p0 ⟨0, 0⟩
    (Integrate_frozen_zero L pm dt w.1 g c p0 v0 h hreg)

theorem substeps_frozen [FloorRing K] (L : Libm K) (pm : PhysicsManager K) (dt : K)
    (g c : Nat) (p0 v0 : Vec2 K) (l : List Nat) (w : PhysicsScene K × CollisionManager)
    (h : FrozenAt w.1 g c p0 v0) :
    FrozenAt (l.foldl (fun w _ => substep L pm dt w) w).1 g c p0 v0 := by
  induction l generalizing w with
  | nil => exact h
  | cons i t ih =>
    rw [List.foldl_cons]
    exact ih _ (substep_frozen L pm dt w g c p0 v0 h)

/-- `Step` keeps the frozen coordinates of a Dynamic body. -/
theorem Step_frozen [FloorRing K] (L : Libm K) (pm : PhysicsManager K) (fixedDt : K)
    (s : PhysicsScene K) (collision : Option CollisionManager) (g c : Nat) (p0 v0 : Vec2 K)
    (h : FrozenAt s g c p0 v0) : FrozenAt (Step L pm fixedDt s collision).1 g c p0 v0 := by
  unfold Step
  rcases collision with _ | cm
  · exact h
  · exact substeps_frozen L pm _ g c p0 v0 _ (s, cm) h

/-- `Step` with a collision manager and `maxSubsteps >= 1` zeroes the velocity
of an active registered Dynamic body on its frozen axes. -/
theorem Step_frozen_zero [FloorRing K] (L : Libm K) (pm : PhysicsManager K) (fixedDt : K)
    (s : PhysicsScene K) (cm : CollisionManager) (g c : Nat) (p0 v0 : Vec2 K)
    (h : FrozenAt s g c p0 v0) (hreg : (g, true) ∈ pm.mBodies) (hmax : 1 ≤ pm.maxSubsteps) :
    FrozenAt (Step L pm fixedDt s (some cm)).1 g c p0 ⟨0, 0⟩ := by
  unfold Step
  simp only
  obtain ⟨n, hn⟩ : ∃ n : Nat, (ComputeSubsteps_ L pm fixedDt s).toNat = n + 1 := by
    have := ComputeSubsteps_pos L pm fixedDt s hmax
    exact ⟨(ComputeSubsteps_ L pm fixedDt s).toNat - 1, by omega⟩
  rw [hn, List.range_succ, List.foldl_append]
  simp only [List.foldl_cons, List.foldl_nil]
  exact substep_frozen_zero L pm _ _ g c p0 v0 (substeps_frozen L pm _ g c p0 v0 _ (s, cm) h) hreg

/-- C22 (amended): for a Dynamic body whose object has a transform,
`Step(fixedDt)` (integration, all solver iterations, positional correction)
keeps the body Dynamic with the same constraints and, on every axis whose
position-freeze flag is set, leaves the velocity coordinate unchanged or zero,
whatever forces, gravity and contacts act on it; the velocity coordinate is
zero afterwards when the body is registered and active, a collision manager
exists and `maxSubsteps >= 1`; and when the object has no parent, the
coordinate of its position on that axis is unchanged. -/
theorem freeze_axes_respected [FloorRing K] (L : Libm K) (pm : PhysicsManager K) (fixedDt : K)
    (s : PhysicsScene K) (collision : Option CollisionManager) (g : Nat) (rb : RigidBody2D K)
    (tr : Transform K) (hb : s.body g = some rb) (ht : s.world L g = some tr)
    (hd : rb.bodyType_ = BodyType.Dynamic) :
    ∃ rb' : RigidBody2D K,
      (Step L pm fixedDt s collision).1.body g = some rb' ∧
      rb'.bodyType_ = BodyType.Dynamic ∧ rb'.constraints_ = rb.constraints_ ∧
      (hasFlag rb.constraints_ FreezePosX = true →
        (rb'.velocity_.x = rb.velocity_.x ∨ rb'.velocity_.x = 0) ∧
        ((g, true) ∈ pm.mBodies → collision.isSome = true → 1 ≤ pm.maxSubsteps →
          rb'.velocity_.x = 0) ∧
        (s.parents g = [] →
          ∃ tr' : Transform K, (Step L pm fixedDt s collision).1.world L g = some tr' ∧
            tr'.position.x = tr.position.x)) ∧
      (hasFlag rb.constraints_ FreezePosY = true →
        (rb'.velocity_.y = rb.velocity_.y ∨ rb'.velocity_.y = 0) ∧
        ((g, true) ∈ pm.mBodies → collision.isSome = true → 1 ≤ pm.maxSubsteps →
          rb'.velocity_.y = 0) ∧
        (s.parents g = [] →
          ∃ tr' : Transform K, (Step L pm fixedDt s collision).1.world L g = some tr' ∧
            tr'.position.y = tr.position.y)) := by
  obtain ⟨tl, htl⟩ : ∃ tl, s.transform g = some tl := by
    rcases h : s.transform g with _ | tl
    · rw [(world_eq_none L s g).mpr h] at ht
      exact absurd ht (by simp)
    · exact ⟨tl, rfl⟩
  have hloc : s.parents g = [] → tl = tr := by
    intro hp
    rw [world_root L s g hp, htl] at ht
    exact Option.some.inj ht
  have h0 : FrozenAt s g rb.constraints_ tr.position rb.velocity_ :=
    ⟨rb, tl, hb, htl, hd, rfl,
      fun _ => ⟨fun hp => by rw [hloc hp], Or.inl rfl⟩,
      fun _ => ⟨fun hp => by rw [hloc hp], Or.inl rfl⟩⟩
  obtain ⟨rb', tr', hb', ht', hd', hc', hx', hy'⟩ :=
    Step_frozen L pm fixedDt s collision g _ _ _ h0
  have hpar : (Step L pm fixedDt s collision).1.parents g = s.parents g :=
    congrFun (Step_parents L pm fixedDt s collision) g
  refine ⟨rb', hb', hd', hc', ?_, ?_⟩
  · intro fx
    refine ⟨(hx' fx).2, ?_, ?_⟩
    · intro hreg hcol hmax
      obtain ⟨cm, rfl⟩ := Option.isSome_iff_exists.mp hcol
      obtain ⟨rb2, tr2, hb2, -, -, -, hx2, -⟩ :=
        Step_frozen_zero L pm fixedDt s cm g _ _ _ h0 hreg hmax
      rw [hb'] at hb2
      obtain rfl := Option.some.inj hb2
      exact (hx2 fx).2.elim id id
    · intro hp
      have hp' := hpar.trans hp
      exact ⟨tr', (world_root L _ g hp').trans ht', (hx' fx).1 hp'⟩
  · intro fy
    refine ⟨(hy' fy).2, ?_, ?_⟩
    · intro hreg hcol hmax
      obtain ⟨cm, rfl⟩ := Option.isSome_iff_exists.mp hcol
      obtain ⟨rb2, tr2, hb2, -, -, -, -, hy2⟩ :=
        Step_frozen_zero L pm fixedDt s cm g _ _ _ h0 hreg hmax
      rw [hb'] at hb2
      obtain rfl := Option.some.inj hb2
      exact (hy2 fy).2.elim id id
    · intro hp
      have hp' := hpar.trans hp
      exact ⟨tr', (world_root L _ g hp').trans ht', (hy' fy).1 hp'⟩

/-- Witness for `freeze_axes_respected`: the registered, active Dynamic body of
object 1 of the example scene, which has no parent, with `FreezePosX` set and
velocity `(5, 0)`; after `Step(1/60)` it is still at `x = 0` and its x velocity
is zero. -/
theorem freeze_axes_respected_witness :
    ∃ (rb' : RigidBody2D ℝ) (tr' : Transform ℝ),
      (Step (Libm.mk Real.sqrt Real.cos Real.sin) examplePhysics (1 / 60)
        (exampleTwoBodies (some (exampleBody BodyType.Dynamic 1 (⟨5, 0⟩ : Vec2 ℝ) FreezePosX))
          none)
        (some (CollisionManager.mk [] [] [] [] []))).1.body 1 = some rb' ∧
      (Step (Libm.mk Real.sqrt Real.cos Real.sin) examplePhysics (1 / 60)
        (exampleTwoBodies (some (exampleBody BodyType.Dynamic 1 (⟨5, 0⟩ : Vec2 ℝ) FreezePosX))
          none)
        (some (CollisionManager.mk [] [] [] [] []))).1.world
          (Libm.mk Real.sqrt Real.cos Real.sin) 1 = some tr' ∧
      tr'.position.x = 0 ∧ rb'.velocity_.x = 0 := by
  obtain ⟨rb', h1, -, -, hx, -⟩ :=
    freeze_axes_respected (Libm.mk Real.sqrt Real.cos Real.sin) examplePhysics (1 / 60)
      (exampleTwoBodies (some (exampleBody BodyType.Dynamic 1 (⟨5, 0⟩ : Vec2 ℝ) FreezePosX))
        none)
      (some (CollisionManager.mk [] [] [] [] [])) 1
      (exampleBody BodyType.Dynamic 1 ⟨5, 0⟩ FreezePosX) ⟨⟨0, 0⟩, ⟨1, 1⟩, 0⟩ rfl
      ((world_root _ _ 1 rfl).trans rfl) rfl
  have fx : hasFlag (exampleBody BodyType.Dynamic 1 (⟨5, 0⟩ : Vec2 ℝ) FreezePosX).constraints_
      FreezePosX = true := by decide
  obtain ⟨tr', h2, h3⟩ := (hx fx).2.2 rfl
  exact ⟨rb', tr', h1, h2, h3,
    (hx fx).2.1 (by simp [examplePhysics]) rfl (by simp [examplePhysics])⟩

/-- The same Dynamic body with `FreezePosX` set and velocity `(5, 0)`,
registered but not active (a disabled component): `Step` skips it in
`Integrate_`, and its x velocity is still 5 afterwards, not 0. -/
theorem frozen_velocity_kept_when_inactive :
    ∃ (rb' : RigidBody2D ℝ),
      (Step (Libm.mk Real.sqrt Real.cos Real.sin) (examplePhysicsBodies [(1, false)]) (1 / 60)
        (exampleTwoBodies (some (exampleBody BodyType.Dynamic 1 (⟨5, 0⟩ : Vec2 ℝ) FreezePosX))
          none)
        (some (CollisionManager.mk [] [] [] [] []))).1.body 1 = some rb' ∧
      rb'.bodyType_ = BodyType.Dynamic ∧ hasFlag rb'.constraints_ FreezePosX = true ∧
      rb'.velocity_.x = 5 := by
  have hsub : ComputeSubsteps_ (Libm.mk Real.sqrt Real.cos Real.sin)
      (examplePhysicsBodies [(1, false)]) (1 / 60)
      (exampleTwoBodies (some (exampleBody BodyType.Dynamic 1 (⟨5, 0⟩ : Vec2 ℝ) FreezePosX))
        none) = 1 := by
    simp [ComputeSubsteps_, substepsBody, examplePhysicsBodies, examplePhysics]
  have hstep : (Step (Libm.mk Real.sqrt Real.cos Real.sin) (examplePhysicsBodies [(1, false)])
      (1 / 60)
      (exampleTwoBodies (some (exampleBody BodyType.Dynamic 1 (⟨5, 0⟩ : Vec2 ℝ) FreezePosX))
        none)
      (some (CollisionManager.mk [] [] [] [] []))).1 =
      exampleTwoBodies (some (exampleBody BodyType.Dynamic 1 (⟨5, 0⟩ : Vec2 ℝ) FreezePosX))
        none := by
    unfold Step
    simp only [hsub]
    rfl
  rw [hstep]
  exact ⟨_, rfl, rfl, by decide, rfl⟩

/-! ### Bodies on a child object across a physics step (C20, C22) -/

/-- With an empty collider registry a substep is the integration alone. -/
theorem substep_no_colliders [FloorRing K] (L : Libm K) (pm : PhysicsManager K) (dt : K)
    (s : PhysicsScene K) :
    (substep L pm dt (s, CollisionManager.mk [] [] [] [] [])).1 = Integrate_ L pm dt s := by
  have hc : (BuildContacts_ L ((Integrate_ L pm dt s).colliderNow L)
      (CollisionManager.mk [] [] [] [] [])).1 = [] := rfl
  unfold substep
  simp only [hc]
  have h8 : ∀ (l : List Nat) (s' : PhysicsScene K),
      l.foldl (fun s _ => SolveContacts_ L pm [] dt s) s' = s' := by
    intro l
    induction l with
    | nil => intro s'; rfl
    | cons i t ih => intro s'; exact ih s'
  rw [h8]
  rfl

/-- `Step` with an empty collider registry and a single substep is one
integration over the whole time step. -/
theorem Step_no_colliders [FloorRing K] (L : Libm K) (pm : PhysicsManager K) (fixedDt : K)
    (s : PhysicsScene K) (h : ComputeSubsteps_ L pm fixedDt s = 1) :
    (Step L pm fixedDt s (some (CollisionManager.mk [] [] [] [] []))).1 =
      Integrate_ L pm fixedDt s := by
  unfold Step
  have hr : List.range (1 : Int).toNat = [0] := rfl
  simp only [h, hr, List.foldl_cons, List.foldl_nil, Int.cast_one, div_one]
  exact substep_no_colliders L pm fixedDt s

/-- C20 (counterexample): two inputs on which a Static body does not keep its
velocity or its position across `Step` (default configuration, an empty
collision manager).

* A registered, active Static body without parent whose linear velocity is
  `(1, 0)`: after an `AddForce` impulse call and `Step(1/60)` its linear
  velocity is `(0, 0)`, not the value `(1, 0)` it had before.
* Object 1 carries a Static body and is a child of object 2, which carries a
  Dynamic body at rest; both are registered and active.  Before `Step(1)` the
  world position of the Static body is `(0, 0)`; the parent falls by
  `(0, 9.81)` and carries the child along, to the world position
  `(0, 9.81)`. -/
theorem static_body_changes_across_step :
    (∃ rb, (Step (Libm.mk Real.sqrt Real.cos Real.sin) examplePhysics (1 / 60)
        (applyForces (exampleStaticScene (⟨1, 0⟩ : Vec2 ℝ)) 1
          [ForceCall.addForce ⟨5, 0⟩ ForceMode.Impulse])
        (some (CollisionManager.mk [] [] [] [] []))).1.body 1 = some rb ∧
      rb.velocity_ = ⟨0, 0⟩ ∧
      rb.velocity_ ≠ (exampleStaticBody (⟨1, 0⟩ : Vec2 ℝ)).velocity_) ∧
    (((exampleParented (some (exampleBody BodyType.Static 1 (⟨0, 0⟩ : Vec2 ℝ) 0))
        (some (exampleBody BodyType.Dynamic 1 ⟨0, 0⟩ 0))).body 1).map (fun rb => rb.bodyType_) =
        some BodyType.Static ∧
      (exampleParented (some (exampleBody BodyType.Static 1 (⟨0, 0⟩ : Vec2 ℝ) 0))
        (some (exampleBody BodyType.Dynamic 1 ⟨0, 0⟩ 0))).world
        (Libm.mk Real.sqrt Real.cos Real.sin) 1 = some ⟨⟨0, 0⟩, ⟨1, 1⟩, 0⟩ ∧
      (Step (Libm.mk Real.sqrt Real.cos Real.sin)
          (examplePhysicsBodies [(1, true), (2, true)]) 1
          (applyForces
            (exampleParented (some (exampleBody BodyType.Static 1 (⟨0, 0⟩ : Vec2 ℝ) 0))
              (some (exampleBody BodyType.Dynamic 1 ⟨0, 0⟩ 0))) 1
            [ForceCall.addForce ⟨5, 0⟩ ForceMode.Impulse])
          (some (CollisionManager.mk [] [] [] [] []))).1.world
        (Libm.mk Real.sqrt Real.cos Real.sin) 1 = some ⟨⟨0, 9.81⟩, ⟨1, 1⟩, 0⟩) := by
  refine ⟨static_velocity_reset_by_step, rfl,
    (world_child _ real_cos_zero real_sin_zero _ 1 2 _ ⟨1, 0⟩ rfl rfl rfl).trans (by simp), ?_⟩
  have happ : applyForces
      (exampleParented (some (exampleBody BodyType.Static 1 (⟨0, 0⟩ : Vec2 ℝ) 0))
        (some (exampleBody BodyType.Dynamic 1 ⟨0, 0⟩ 0))) 1
      [ForceCall.addForce ⟨5, 0⟩ ForceMode.Impulse] =
      exampleParented (some (exampleBody BodyType.Static 1 (⟨0, 0⟩ : Vec2 ℝ) 0))
        (some (exampleBody BodyType.Dynamic 1 ⟨0, 0⟩ 0)) := by
    have hsd : ¬ BodyType.Static = BodyType.Dynamic := by decide
    simp only [applyForces, exampleParented, if_true, List.foldl_cons, List.foldl_nil,
      ForceCall.apply, PhysicsScene.setBody]
    congr 1
    funext g
    by_cases hg : g = 1
    · subst hg
      simp only [Function.update_same, if_true]
      exact congrArg some (AddForce_static _ _ _ rfl)
    · simp [Function.update_apply, hg]
  have hsub : ComputeSubsteps_ (Libm.mk Real.sqrt Real.cos Real.sin)
      (examplePhysicsBodies [(1, true), (2, true)]) 1
      (exampleParented (some (exampleBody BodyType.Static 1 (⟨0, 0⟩ : Vec2 ℝ) 0))
        (some (exampleBody BodyType.Dynamic 1 ⟨0, 0⟩ 0))) = 1 := by
    simp [ComputeSubsteps_, substepsBody, examplePhysicsBodies, examplePhysics, exampleParented,
      exampleBody]
  rw [happ, Step_no_colliders _ _ _ _ hsub]
  have hsd : ¬ BodyType.Static = BodyType.Dynamic := by decide
  norm_num [hsd, Integrate_, integrateBody, examplePhysicsBodies, examplePhysics, exampleParented,
    exampleBody, PhysicsScene.world, PhysicsScene.node, PhysicsScene.chain,
    PhysicsScene.writePosition, PhysicsScene.turn, PhysicsScene.writeRotation,
    PhysicsScene.setBody, PhysicsScene.setTransform, Function.update_apply,
    TransformAt.RecalcWorld_, TransformData.RecalcWorld_, TransformAt.SetWorldPosition,
    TransformAt.SetWorldRotation, TransformAt.MarkDirty, TransformTree.MarkDirtyAll,
    Transform.toData, TransformData.fresh, TransformData.worldPose, TransformData.localPose,
    TransformData.Rot2D, DegToRad, RigidBody2D.ClearForces, RigidBody2D.InvMass_,
    RigidBody2D.InvInertia_, hasFlag, FreezePosX, FreezePosY, FreezeRot]

/-- C22 (counterexample): two inputs on which a frozen axis of a Dynamic body
is not kept by `Step` (default configuration, an empty collision manager).

* A Dynamic body without parent with `FreezePosX` set and velocity `(5, 0)`,
  registered but not active (a disabled component): `Step(1/60)` skips it in
  `Integrate_`, and its x velocity is still 5 afterwards, not 0.
* Object 1 carries a Dynamic body with `FreezePosX` and `FreezePosY` set and is
  a child of object 2, which carries a Dynamic body without constraints; both
  are at rest, registered and active.  Before `Step(1)` the world position of
  the frozen body is `(0, 0)`; the parent falls by `(0, 9.81)` and carries the
  child along, so the frozen y coordinate becomes `9.81`. -/
theorem freeze_axes_not_respected :
    (∃ (rb' : RigidBody2D ℝ),
      (Step (Libm.mk Real.sqrt Real.cos Real.sin) (examplePhysicsBodies [(1, false)]) (1 / 60)
        (exampleTwoBodies (some (exampleBody BodyType.Dynamic 1 (⟨5, 0⟩ : Vec2 ℝ) FreezePosX))
          none)
        (some (CollisionManager.mk [] [] [] [] []))).1.body 1 = some rb' ∧
      rb'.bodyType_ = BodyType.Dynamic ∧ hasFlag rb'.constraints_ FreezePosX = true ∧
      rb'.velocity_.x = 5) ∧
    (hasFlag (exampleBody BodyType.Dynamic 1 (⟨0, 0⟩ : Vec2 ℝ) 3).constraints_ FreezePosY =
        true ∧
      (exampleParented (some (exampleBody BodyType.Dynamic 1 (⟨0, 0⟩ : Vec2 ℝ) 3))
        (some (exampleBody BodyType.Dynamic 1 ⟨0, 0⟩ 0))).world
        (Libm.mk Real.sqrt Real.cos Real.sin) 1 = some ⟨⟨0, 0⟩, ⟨1, 1⟩, 0⟩ ∧
      (Step (Libm.mk Real.sqrt Real.cos Real.sin)
          (examplePhysicsBodies [(1, true), (2, true)]) 1
          (exampleParented (some (exampleBody BodyType.Dynamic 1 (⟨0, 0⟩ : Vec2 ℝ) 3))
            (some (exampleBody BodyType.Dynamic 1 ⟨0, 0⟩ 0)))
          (some (CollisionManager.mk [] [] [] [] []))).1.world
        (Libm.mk Real.sqrt Real.cos Real.sin) 1 = some ⟨⟨0, 9.81⟩, ⟨1, 1⟩, 0⟩) := by
  refine ⟨frozen_velocity_kept_when_inactive, by decide,
    (world_child _ real_cos_zero real_sin_zero _ 1 2 _ ⟨1, 0⟩ rfl rfl rfl).trans (by simp), ?_⟩
  have hsub : ComputeSubsteps_ (Libm.mk Real.sqrt Real.cos Real.sin)
      (examplePhysicsBodies [(1, true), (2, true)]) 1
      (exampleParented (some (exampleBody BodyType.Dynamic 1 (⟨0, 0⟩ : Vec2 ℝ) 3))
        (some (exampleBody BodyType.Dynamic 1 ⟨0, 0⟩ 0))) = 1 := by
    simp [ComputeSubsteps_, substepsBody, examplePhysicsBodies, examplePhysics, exampleParented,
      exampleBody]
  rw [Step_no_colliders _ _ _ _ hsub]
  have h1 : hasFlag 3 FreezePosX = true := by decide
  have h2 : hasFlag 3 FreezePosY = true := by decide
  have h3 : hasFlag 3 FreezeRot = false := by decide
  have h4 : hasFlag 0 FreezePosX = false := by decide
  have h5 : hasFlag 0 FreezePosY = false := by decide
  have h6 : hasFlag 0 FreezeRot = false := by decide
  norm_num [h1, h2, h3, h4, h5, h6, Integrate_, integrateBody, examplePhysicsBodies,
    examplePhysics, exampleParented,
    exampleBody, PhysicsScene.world, PhysicsScene.node, PhysicsScene.chain,
    PhysicsScene.writePosition, PhysicsScene.turn, PhysicsScene.writeRotation,
    PhysicsScene.setBody, PhysicsScene.setTransform, Function.update_apply,
    TransformAt.RecalcWorld_, TransformData.RecalcWorld_, TransformAt.SetWorldPosition,
    TransformAt.SetWorldRotation, TransformAt.MarkDirty, TransformTree.MarkDirtyAll,
    Transform.toData, TransformData.fresh, TransformData.worldPose, TransformData.localPose,
    TransformData.Rot2D, DegToRad, RigidBody2D.ClearForces, RigidBody2D.InvMass_,
    RigidBody2D.InvInertia_]

/-! ### The number of substeps (C23) -/

/-- The loop body of `ComputeSubsteps_` in terms of `ccdBody` and `ccdNeed`. -/
theorem substepsBody_eq [FloorRing K] (L : Libm K) (pm : PhysicsManager K) (dt : K)
    (s : PhysicsScene K) (steps : Int) (e : Nat × Bool) :
    substepsBody L pm dt s steps e =
      match ccdBody s e with
      | none => steps
      | some p => max steps (ccdNeed L pm dt p) := by
  unfold substepsBody ccdBody
  by_cases he : e.2 = true
  swap
  · simp only [he, Bool.false_eq_true, not_false_eq_true, if_true, if_false]
  simp only [he, not_true_eq_false, if_false, if_true]
  rcases hb : s.body e.1 with _ | rb
  · rfl
  · simp only
    by_cases hd : rb.bodyType_ = BodyType.Dynamic
    swap
    · rcases s.firstCollider e.1 with _ | col
      · simp only [ne_eq, hd, not_false_eq_true, if_true]
      · simp only [ne_eq, hd, not_false_eq_true, if_true, false_and, if_false]
    by_cases hc : rb.collisionDetection_ = CollisionDetection.Continuous
    swap
    · rcases s.firstCollider e.1 with _ | col
      · simp only [ne_eq, hd, not_true_eq_false, if_false, hc, not_false_eq_true, if_true]
      · simp only [ne_eq, hd, not_true_eq_false, if_false, hc, not_false_eq_true, if_true,
          and_false]
    rcases s.firstCollider e.1 with _ | col
    · simp only [ne_eq, hd, not_true_eq_false, if_false, hc]
    · simp only [ne_eq, hd, not_true_eq_false, if_false, hc, and_self, if_true]
      rfl

/-- The value of `steps` after the loop of `ComputeSubsteps_` is the maximum
of its initial value and the needs of the bodies that count. -/
theorem substeps_fold [FloorRing K] (L : Libm K) (pm : PhysicsManager K) (dt : K)
    (s : PhysicsScene K) (l : List (Nat × Bool)) (n : Int) :
    (l.foldl (substepsBody L pm dt s) n = n ∨
      l.foldl (substepsBody L pm dt s) n ∈ (l.filterMap (ccdBody s)).map (ccdNeed L pm dt)) ∧
    n ≤ l.foldl (substepsBody L pm dt s) n ∧
    ∀ p ∈ l.filterMap (ccdBody s), ccdNeed L pm dt p ≤ l.foldl (substepsBody L pm dt s) n := by
  induction l generalizing n with
  | nil => exact ⟨Or.inl rfl, le_rfl, fun p hp => by simp at hp⟩
  | cons e t ih =>
    rw [List.foldl_cons, substepsBody_eq]
    rcases hq : ccdBody s e with _ | p
    · simp only [List.filterMap_cons, hq]
      exact ih n
    · simp only [List.filterMap_cons, hq, List.map_cons, List.mem_cons]
      obtain ⟨h1, h2, h3⟩ := ih (max n (ccdNeed L pm dt p))
      refine ⟨?_, le_trans (le_max_left _ _) h2, ?_⟩
      · rcases h1 with h1 | h1
        · rw [h1]
          rcases le_total n (ccdNeed L pm dt p) with h | h
          · rw [max_eq_right h]
            exact Or.inr (Or.inl rfl)
          · rw [max_eq_left h]
            exact Or.inl rfl
        · exact Or.inr (Or.inr h1)
      · intro p' hp'
        rcases hp' with rfl | hp'
        · exact le_trans (le_max_right _ _) h2
        · exact h3 p' hp'

theorem ccdLimit_pos (pm : PhysicsManager K) (col : Collider2D K) : 0 < ccdLimit pm col :=
  lt_of_lt_of_le (by norm_num) (le_max_left _ _)

/-- The conversion `(int)x` does not lower an integer value that is at most
`INT_MAX`. -/
theorem le_floatToInt (z : Int) (h : z ≤ 2147483647) : z ≤ floatToInt z := by
  unfold floatToInt
  split_ifs with h1
  · exact le_rfl
  · have : ¬ (-2147483648 ≤ z) := fun h2 => h1 ⟨h2, h⟩
    omega

/-- What `ComputeSubsteps_` does for `maxSubsteps >= 1`: the result is the
maximum `steps` of 1 and the values
`(int)ceil(speed * dt / max(0.001, size * ccdMinSizeFactor))` of the active
Dynamic bodies with continuous collision detection and a collider, cut off at
`maxSubsteps`; it lies between 1 and `maxSubsteps`.  When it is below
`maxSubsteps` and the ceilings fit the type `int`, no such body travels more
than `max(0.001, size * ccdMinSizeFactor)` in a substep of length
`dt / substeps`. -/
theorem substeps_clamped_when_in_range [FloorRing K] (L : Libm K) (pm : PhysicsManager K)
    (dt : K) (s : PhysicsScene K) (hmax : 1 ≤ pm.maxSubsteps) :
    ∃ steps : Int,
      (steps = 1 ∨ steps ∈ (ccdBodies pm s).map (ccdNeed L pm dt)) ∧
      1 ≤ steps ∧ (∀ p ∈ ccdBodies pm s, ccdNeed L pm dt p ≤ steps) ∧
      ComputeSubsteps_ L pm dt s = max 1 (min pm.maxSubsteps steps) ∧
      1 ≤ ComputeSubsteps_ L pm dt s ∧ ComputeSubsteps_ L pm dt s ≤ pm.maxSubsteps ∧
      (ComputeSubsteps_ L pm dt s < pm.maxSubsteps →
        ∀ p ∈ ccdBodies pm s, ⌈ccdSpeed L p.1 * dt / ccdLimit pm p.2⌉ ≤ 2147483647 →
          ccdSpeed L p.1 * (dt / (ComputeSubsteps_ L pm dt s : K)) ≤ ccdLimit pm p.2) := by
  obtain ⟨h1, h2, h3⟩ := substeps_fold L pm dt s pm.mBodies 1
  have hval : ComputeSubsteps_ L pm dt s =
      max 1 (min pm.maxSubsteps (pm.mBodies.foldl (substepsBody L pm dt s) 1)) := by
    unfold ComputeSubsteps_
    simp only
    split_ifs with a b
    · exact absurd a (not_lt.mpr h2)
    · rw [min_eq_left b.le, max_eq_right hmax]
    · rw [min_eq_right (not_lt.mp b), max_eq_right h2]
  have hle : ComputeSubsteps_ L pm dt s ≤ pm.maxSubsteps := by
    rw [hval]
    exact max_le hmax (min_le_left _ _)
  have hge : 1 ≤ ComputeSubsteps_ L pm dt s := by
    rw [hval]
    exact le_max_left _ _
  refine ⟨pm.mBodies.foldl (substepsBody L pm dt s) 1, h1, h2, h3, hval, hge, hle, ?_⟩
  intro hlt p hp hfit
  have heq : ComputeSubsteps_ L pm dt s = pm.mBodies.foldl (substepsBody L pm dt s) 1 := by
    rw [hval] at hlt ⊢
    rcases le_total pm.maxSubsteps (pm.mBodies.foldl (substepsBody L pm dt s) 1) with h | h
    · rw [min_eq_left h, max_eq_right hmax] at hlt
      exact absurd hlt (lt_irrefl _)
    · rw [min_eq_right h, max_eq_right h2]
  have hneed : ccdNeed L pm dt p ≤ ComputeSubsteps_ L pm dt s := by
    rw [heq]
    exact h3 p hp
  have hpos : (0 : K) < (ComputeSubsteps_ L pm dt s : K) := by
    have : (0 : Int) < ComputeSubsteps_ L pm dt s := lt_of_lt_of_le one_pos hge
    exact_mod_cast this
  have hceil : ccdSpeed L p.1 * dt / ccdLimit pm p.2 ≤ (ComputeSubsteps_ L pm dt s : K) :=
    le_trans (Int.le_ceil _) (by exact_mod_cast le_trans (le_floatToInt _ hfit) hneed)
  rw [div_le_iff₀ (ccdLimit_pos pm p.2)] at hceil
  rw [← mul_div_assoc, div_le_iff₀ hpos]
  linarith [mul_comm (ccdLimit pm p.2) (ComputeSubsteps_ L pm dt s : K)]


/-- The example scene with a body moving at 100 units per second and a
collider of diameter 2: with `dt = 1/60` and the default factor 0.5 the body
asks for `ceil((100 / 60) / 1) = 2` substeps. -/
theorem ComputeSubsteps_example :
    ComputeSubsteps_ (Libm.mk Real.sqrt Real.cos Real.sin) examplePhysics (1 / 60)
      (exampleTwoBodies (some (exampleFastBody (⟨100, 0⟩ : Vec2 ℝ))) none) = 2 := by
  have hs : Real.sqrt (100 * 100 + 0 * 0) = 100 := by
    rw [mul_zero, add_zero]
    exact Real.sqrt_mul_self (by norm_num)
  have hc : (⌈(100 : ℝ) * (1 / 60) / 1⌉ : Int) = 2 := by
    rw [Int.ceil_eq_iff]
    constructor <;> norm_num
  have hm : max (1e-3 : ℝ) (max 1e-3 (1 * 2) * 0.5) = 1 := by
    rw [max_eq_right (by norm_num : (1e-3 : ℝ) ≤ 1 * 2), max_eq_right (by norm_num)]
    norm_num
  simp only [ComputeSubsteps_, examplePhysics, List.foldl_cons, List.foldl_nil, substepsBody,
    exampleTwoBodies, exampleFastBody, exampleBody, exampleCircle, not_true_eq_false, if_false,
    if_true, ne_eq, hs, hm, hc]
  decide

/-- C23 (code bug): the registered, active Dynamic body of the example scene
with continuous collision detection, a circle collider of diameter 2 (so that
`max(0.001, size * ccdMinSizeFactor) = 1`) and the velocity `(3e9, 0)`, under
the default configuration (`maxSubsteps = 8`) and `dt = 1`.  The body asks for
`ceil(3e9) = 3000000000` substeps, so the clamped maximum is 8; the value does
not fit the type `int`, `(int)std::ceil(...)` yields `INT_MIN`, and
`ComputeSubsteps_` returns 1: the result is below `maxSubsteps` although the
body travels `3e9`, more than 1, in the single substep. -/
theorem substeps_lost_to_int_conversion :
    ComputeSubsteps_ (Libm.mk Real.sqrt Real.cos Real.sin) examplePhysics 1
      (exampleTwoBodies (some (exampleFastBody (⟨3000000000, 0⟩ : Vec2 ℝ))) none) = 1 ∧
    ccdBodies examplePhysics
      (exampleTwoBodies (some (exampleFastBody (⟨3000000000, 0⟩ : Vec2 ℝ))) none) =
      [(exampleFastBody ⟨3000000000, 0⟩, exampleCircle 1 0)] ∧
    ccdLimit (examplePhysics : PhysicsManager ℝ) (exampleCircle 1 0) = 1 ∧
    ccdSpeed (Libm.mk Real.sqrt Real.cos Real.sin)
      (exampleFastBody (⟨3000000000, 0⟩ : Vec2 ℝ)) = 3000000000 ∧
    max 1 (min (examplePhysics : PhysicsManager ℝ).maxSubsteps
      ⌈ccdSpeed (Libm.mk Real.sqrt Real.cos Real.sin)
          (exampleFastBody (⟨3000000000, 0⟩ : Vec2 ℝ)) * 1 /
        ccdLimit (examplePhysics : PhysicsManager ℝ) (exampleCircle 1 0)⌉) = 8 ∧
    ComputeSubsteps_ (Libm.mk Real.sqrt Real.cos Real.sin) examplePhysics 1
        (exampleTwoBodies (some (exampleFastBody (⟨3000000000, 0⟩ : Vec2 ℝ))) none) <
      (examplePhysics : PhysicsManager ℝ).maxSubsteps ∧
    ccdLimit (examplePhysics : PhysicsManager ℝ) (exampleCircle 1 0) <
      ccdSpeed (Libm.mk Real.sqrt Real.cos Real.sin)
          (exampleFastBody (⟨3000000000, 0⟩ : Vec2 ℝ)) *
        (1 / ((ComputeSubsteps_ (Libm.mk Real.sqrt Real.cos Real.sin) examplePhysics 1
          (exampleTwoBodies (some (exampleFastBody (⟨3000000000, 0⟩ : Vec2 ℝ))) none) : Int) :
            ℝ)) := by
  have hs : Real.sqrt (3000000000 * 3000000000 + 0 * 0) = 3000000000 := by
    rw [mul_zero, add_zero]
    exact Real.sqrt_mul_self (by norm_num)
  have hc : (⌈(3000000000 : ℝ) * 1 / 1⌉ : Int) = 3000000000 := by
    rw [Int.ceil_eq_iff]
    constructor <;> norm_num
  have hm : max (1e-3 : ℝ) (max 1e-3 (1 * 2) * 0.5) = 1 := by
    rw [max_eq_right (by norm_num : (1e-3 : ℝ) ≤ 1 * 2), max_eq_right (by norm_num)]
    norm_num
  have hf : floatToInt 3000000000 = -2147483648 := by decide
  have hval : ComputeSubsteps_ (Libm.mk Real.sqrt Real.cos Real.sin) examplePhysics 1
      (exampleTwoBodies (some (exampleFastBody (⟨3000000000, 0⟩ : Vec2 ℝ))) none) = 1 := by
    simp only [ComputeSubsteps_, examplePhysics, List.foldl_cons, List.foldl_nil, substepsBody,
      exampleTwoBodies, exampleFastBody, exampleBody, exampleCircle, not_true_eq_false, if_false,
      if_true, ne_eq, hs, hm, hc, hf]
    decide
  have hlim : ccdLimit (examplePhysics : PhysicsManager ℝ) (exampleCircle 1 0) = 1 := by
    simp only [ccdLimit, ccdSize, exampleCircle, examplePhysics, if_true]
    exact hm
  have hsp : ccdSpeed (Libm.mk Real.sqrt Real.cos Real.sin)
      (exampleFastBody (⟨3000000000, 0⟩ : Vec2 ℝ)) = 3000000000 := by
    simp only [ccdSpeed, exampleFastBody, exampleBody]
    exact hs
  refine ⟨hval, ?_, hlim, hsp, ?_, ?_, ?_⟩
  · simp [ccdBodies, ccdBody, examplePhysics, exampleTwoBodies, exampleFastBody, exampleBody]
  · rw [hsp, hlim, hc]
    simp [examplePhysics]
  · rw [hval]
    simp [examplePhysics]
  · rw [hval, hsp, hlim]
    norm_num

/-! ### The second normal of a delivered contact (C27) -/

/-- `Contact_Circle_Circle` never writes `normalB`. -/
theorem Contact_Circle_Circle_normalB (L : Libm K) (ca : Vec2 K) (ra : K) (cb : Vec2 K) (rb : K)
    (out : ContactPoint K) :
    (Contact_Circle_Circle L ca ra cb rb out).2.normalB = out.normalB := by
  simp only [Contact_Circle_Circle]
  split_ifs <;> rfl

/-- The contact of the example colliders 1 and 2 with centres 1 apart, under
an exact square root: point, the two normals and the penetration. -/
theorem exampleContact_one :
    (exampleContact (Libm.mk Real.sqrt Real.cos Real.sin) 1).contact =
      ⟨⟨(0.5 : ℝ), 0⟩, ⟨1, 0⟩, ⟨0, 0⟩, 1⟩ := by
  have hd : ¬ (Dot ((⟨1, 0⟩ : Vec2 ℝ) - ⟨0, 0⟩) (⟨1, 0⟩ - ⟨0, 0⟩) ≥ (1 + 1) * (1 + 1)) := by
    simp only [Dot, Vec2.sub_x, Vec2.sub_y]
    norm_num
  have hm : max (Dot ((⟨1, 0⟩ : Vec2 ℝ) - ⟨0, 0⟩) (⟨1, 0⟩ - ⟨0, 0⟩)) 1e-8 = 1 := by
    simp only [Dot, Vec2.sub_x, Vec2.sub_y]
    norm_num
  simp only [exampleContact, Contact_Circle_Circle, if_neg hd, hm, Real.sqrt_one, cp0]
  have h1 : ((1 : ℝ) > 1e-6) := by norm_num
  rw [if_pos h1]
  have e1 : ((⟨1, 0⟩ : Vec2 ℝ) - ⟨0, 0⟩) / (1 : ℝ) = ⟨1, 0⟩ := by
    show (⟨(1 - 0) / 1, (0 - 0) / 1⟩ : Vec2 ℝ) = ⟨1, 0⟩
    norm_num
  rw [e1]
  show (⟨⟨0 + 1 * (1 - (1 + 1 - 1) * 0.5), 0 + 0 * (1 - (1 + 1 - 1) * 0.5)⟩, ⟨1, 0⟩, ⟨0, 0⟩,
    1 + 1 - 1⟩ : ContactPoint ℝ) = _
  norm_num

/-- C27 (code bug): the example colliders 1 and 2, circles of radius 1 with
centres 1 apart on the x axis, are registered and `DetectAndDispatch` runs
once.  Owner 1 receives `OnCollisionEnter` with a contact whose `normalA` is
`(1, 0)` and whose `normalB` is `(0, 0)`; owner 2 receives the mirrored view
with `normalA = (-1, 0)` and `normalB = (0, 0)`.  In neither view is `normalB`
the negation of `normalA`: no contact function assigns `normalB`, so it keeps
the zero of the value-initialised `ContactPoint`. -/
theorem delivered_normalB_not_mirrored :
    (DetectAndDispatch (Libm.mk Real.sqrt Real.cos Real.sin)
        (exampleScene (examplePositions (1 : ℝ)))
        (CollisionManager.mk [(1, true), (2, true)] [] [] [] [])).2.map
      (fun e => (e.target, e.callback, e.normals)) =
      [(⟨1, 1⟩, Callback.OnCollisionEnter, [(⟨1, 0⟩, ⟨0, 0⟩)]),
        (⟨2, 2⟩, Callback.OnCollisionEnter, [(⟨-1, 0⟩, ⟨0, 0⟩)])] ∧
    ∀ e ∈ (DetectAndDispatch (Libm.mk Real.sqrt Real.cos Real.sin)
        (exampleScene (examplePositions (1 : ℝ)))
        (CollisionManager.mk [(1, true), (2, true)] [] [] [] [])).2,
      ∀ cp ∈ e.info.contacts, cp.normalB ≠ -cp.normalA := by
  have hev := (DetectAndDispatch_spec (Libm.mk Real.sqrt Real.cos Real.sin)
    (exampleScene (examplePositions (1 : ℝ)))
    (CollisionManager.mk [(1, true), (2, true)] [] [] [] [])).1
  rw [near_contacts_two _ _ rfl] at hev
  simp only [List.flatMap_nil, List.append_nil, List.flatMap_cons] at hev
  rw [enterStayEvents_eq _ _ ⟨1, 1⟩ ⟨2, 2⟩ rfl rfl] at hev
  have ht : (exampleContact (Libm.mk Real.sqrt Real.cos Real.sin) 1).isTriggerPair = false := rfl
  rw [hev]
  simp only [ht, exampleContact_one, FlipContactForB_]
  constructor
  · simp [Event.normals]
    constructor
    · show (⟨-1, -0⟩ : Vec2 ℝ) = ⟨-1, 0⟩
      norm_num
    · show (⟨-0, -0⟩ : Vec2 ℝ) = ⟨0, 0⟩
      norm_num
  · intro e he cp hcp
    simp at he
    rcases he with rfl | rfl
    · simp at hcp
      subst hcp
      show (⟨0, 0⟩ : Vec2 ℝ) ≠ ⟨-1, -0⟩
      intro h
      have := congrArg Vec2.x h
      norm_num at this
    · simp at hcp
      subst hcp
      show (⟨-0, -0⟩ : Vec2 ℝ) ≠ ⟨- -1, - -0⟩
      intro h
      have := congrArg Vec2.x h
      norm_num at this

/-! ### An owner with two colliders (C29) -/

/-- Two colliders of the same `GameObject` are never tested against each
other. -/
theorem testPair_same_object [FloorRing K] (L : Libm K) (p q g : Nat) (x y : K) :
    testPair L (exampleCircleOn p g x) (exampleCircleOn q g y) = none := by
  have hs : ShouldTest (exampleCircleOn p g x) (exampleCircleOn q g y) = false := by
    simp [ShouldTest, exampleCircleOn, GameObject.ref]
  unfold testPair
  simp [hs]

/-- Colliders of two different example objects whose centres are less than 2
apart give a contact between the two objects. -/
theorem testPair_on_near [FloorRing K] (L : Libm K) (p q g h : Nat) (x y : K) (hpq : p ≠ q)
    (hgh : g ≠ h) (h1 : x ≤ y) (h2 : y - x < 2) :
    testPair L (exampleCircleOn p g x) (exampleCircleOn q h y) =
      some { a := some ⟨g, g⟩, b := some ⟨h, h⟩, colA := some p, colB := some q
             isTriggerPair := false
             contact := (Contact_Circle_Circle L ⟨x, 0⟩ 1 ⟨y, 0⟩ 1 cp0).2 } := by
  have hs : ShouldTest (exampleCircleOn p g x) (exampleCircleOn q h y) = true := by
    simp [ShouldTest, exampleCircleOn, GameObject.ref, GetAttachedBody, GameObject.findBody,
      hpq, hgh]
  have hb : TestBoxBox (WorldAABB L (exampleCircleOn p g x)) (WorldAABB L (exampleCircleOn q h y))
      = true := by
    simp only [TestBoxBox, Rect.Overlaps, WorldAABB, exampleCircleOn, Collider2D.tr,
      GameObject.transform, Option.bind, Rect.Left, Rect.Right, Rect.Top, Rect.Bottom]
    simp only [Bool.false_eq_true, if_false, if_true, max_self, mul_one, mul_zero, add_zero]
    simp only [Bool.not_eq_true', Bool.or_eq_false_iff, decide_eq_false_iff_not, not_lt]
    refine ⟨⟨⟨?_, ?_⟩, ?_⟩, ?_⟩ <;> linarith
  have hn : (narrowPhase L (exampleCircleOn p g x) (exampleCircleOn q h y)) =
      Contact_Circle_Circle L ⟨x, 0⟩ 1 ⟨y, 0⟩ 1 cp0 := by
    simp [narrowPhase, exampleCircleOn, WorldCircle, WorldCircleAt, Collider2D.tr,
      GameObject.transform]
  have hhit : (Contact_Circle_Circle L ⟨x, 0⟩ 1 ⟨y, 0⟩ 1 cp0).1 = true := by
    have : ¬ (Dot ((⟨y, 0⟩ : Vec2 K) - ⟨x, 0⟩) (⟨y, 0⟩ - ⟨x, 0⟩) ≥ (1 + 1) * (1 + 1)) := by
      simp only [Dot, Vec2.sub_x, Vec2.sub_y]
      nlinarith
    simp only [Contact_Circle_Circle, if_neg this]
  unfold testPair
  simp only [hs, hb, hn, hhit, not_true_eq_false, if_false]
  simp [exampleCircleOn, GetAttachedBody, GameObject.findBody, GameObject.ref, hpq, hgh]

/-- Colliders of example objects whose centres are more than 2 apart give no
contact. -/
theorem testPair_on_far [FloorRing K] (L : Libm K) (p q g h : Nat) (x y : K)
    (hxy : x + 2 < y) :
    testPair L (exampleCircleOn p g x) (exampleCircleOn q h y) = none := by
  have hb : TestBoxBox (WorldAABB L (exampleCircleOn p g x)) (WorldAABB L (exampleCircleOn q h y))
      = false := by
    simp only [TestBoxBox, Rect.Overlaps, WorldAABB, exampleCircleOn, Collider2D.tr,
      GameObject.transform, Option.bind, Rect.Left, Rect.Right, Rect.Top, Rect.Bottom]
    simp only [Bool.false_eq_true, if_false, if_true, max_self, mul_one, mul_zero, add_zero]
    simp only [Bool.not_eq_false', Bool.or_eq_true, decide_eq_true_eq]
    left; left; left
    linarith
  unfold testPair
  simp [hb]

/-- Contacts of a frame of the two-collider scene with the colliders 1, 2 and
3 registered. -/
theorem frameContacts_two_collider [FloorRing K] (L : Libm K) (gap : K)
    (st : CollisionManager)
    (hreg : st.mRegisteredColliders = [(1, true), (2, true), (3, true)]) :
    frameContacts L (exampleTwoColliderScene gap) st =
      (testPair L (exampleCircleOn 1 1 0) (exampleCircleOn 2 1 0)).toList ++
        ((testPair L (exampleCircleOn 1 1 0) (exampleCircleOn 3 2 gap)).toList ++
          (testPair L (exampleCircleOn 2 1 0) (exampleCircleOn 3 2 gap)).toList) := by
  have hf : ([(1, true), (2, true), (3, true)] : List (Nat × Bool)).filter (fun e => e.2) =
      [(1, true), (2, true), (3, true)] := by
    simp only [List.filter_cons, List.filter_nil, if_true]
  have hm : ([(1, true), (2, true), (3, true)] : List (Nat × Bool)).map
      (fun e => exampleTwoColliderScene gap e.1) =
      [exampleCircleOn 1 1 0, exampleCircleOn 2 1 0, exampleCircleOn 3 2 gap] := by
    simp [exampleTwoColliderScene]
  have o1 : colliderLess (exampleCircleOn 2 1 (0 : K)) (exampleCircleOn 1 1 (0 : K)) = false := by
    simp [colliderLess, exampleCircleOn, GameObject.ref]
  have o2 : colliderLess (exampleCircleOn 3 2 gap) (exampleCircleOn 2 1 (0 : K)) = false := by
    simp [colliderLess, exampleCircleOn, GameObject.ref]
  rw [frameContacts_eq, hreg, hf, hm, sort_three _ _ _ o1 o2, loopPairs_three, filterMap_three]

/-- Near two-collider scene: one contact per collider of object 1. -/
theorem near_contacts_two_collider [FloorRing K] (L : Libm K) (st : CollisionManager)
    (hreg : st.mRegisteredColliders = [(1, true), (2, true), (3, true)]) :
    frameContacts L (exampleTwoColliderScene 1) st =
      [exampleOwnerContact L 1 1, exampleOwnerContact L 2 1] := by
  rw [frameContacts_two_collider L _ st hreg, testPair_same_object,
    testPair_on_near L 1 3 1 2 0 1 (by norm_num) (by norm_num) (by norm_num) (by norm_num),
    testPair_on_near L 2 3 1 2 0 1 (by norm_num) (by norm_num) (by norm_num) (by norm_num)]
  rfl

/-- Far two-collider scene: no contact. -/
theorem far_contacts_two_collider [FloorRing K] (L : Libm K) (st : CollisionManager)
    (hreg : st.mRegisteredColliders = [(1, true), (2, true), (3, true)]) :
    frameContacts L (exampleTwoColliderScene 10) st = [] := by
  rw [frameContacts_two_collider L _ st hreg, testPair_same_object,
    testPair_on_far L 1 3 1 2 0 10 (by norm_num),
    testPair_on_far L 2 3 1 2 0 10 (by norm_num)]
  rfl

/-- C29 (code bug): `GameObject` 1 carries the colliders 1 and 2, `GameObject`
2 carries collider 3; all three are registered.  In the first frame both
colliders of object 1 overlap collider 3, in the second frame the objects are
apart.  The first `DetectAndDispatch` call delivers two `Enter` events to each
owner for the one pair key (one per overlapping collider pair); the second
call delivers a single `Exit` to each owner. -/
theorem two_enters_for_one_pair_key :
    (runFrames (Libm.mk Real.sqrt Real.cos Real.sin)
        (CollisionManager.mk [(1, true), (2, true), (3, true)] [] [] [] [])
        [exampleTwoColliderScene (1 : ℝ), exampleTwoColliderScene (10 : ℝ)]).map
      (fun x => pairTrace (MakeKey_ 1 2) x.events) =
      [[(⟨1, 1⟩, Phase.Enter), (⟨2, 2⟩, Phase.Enter), (⟨1, 1⟩, Phase.Enter),
          (⟨2, 2⟩, Phase.Enter)],
        [(⟨1, 1⟩, Phase.Exit), (⟨2, 2⟩, Phase.Exit)]] := by
  simp only [runFrames, List.map_cons, List.map_nil]
  have g1 := registry_after (Libm.mk Real.sqrt Real.cos Real.sin)
    (exampleTwoColliderScene (1 : ℝ))
    (CollisionManager.mk [(1, true), (2, true), (3, true)] [] [] [] []) _ rfl
  have hrec := (DetectAndDispatch_spec (Libm.mk Real.sqrt Real.cos Real.sin)
    (exampleTwoColliderScene (1 : ℝ))
    (CollisionManager.mk [(1, true), (2, true), (3, true)] [] [] [] [])).2.2
  rw [near_contacts_two_collider _ _ rfl] at hrec
  have hk1 : (exampleOwnerContact (Libm.mk Real.sqrt Real.cos Real.sin) 1 1).key =
      some (MakeKey_ 1 2) := rfl
  have hk2 : (exampleOwnerContact (Libm.mk Real.sqrt Real.cos Real.sin) 2 1).key =
      some (MakeKey_ 1 2) := rfl
  have hfirst : pairTrace (MakeKey_ 1 2)
      (DetectAndDispatch (Libm.mk Real.sqrt Real.cos Real.sin) (exampleTwoColliderScene (1 : ℝ))
        (CollisionManager.mk [(1, true), (2, true), (3, true)] [] [] [] [])).2 =
      [(⟨1, 1⟩, Phase.Enter), (⟨2, 2⟩, Phase.Enter), (⟨1, 1⟩, Phase.Enter),
        (⟨2, 2⟩, Phase.Enter)] := by
    rw [pairTrace_frame _ _ _ ⟨by simp, by simp⟩, near_contacts_two_collider _ _ rfl]
    simp only [List.filter_cons, List.filter_nil, hk1, hk2, decide_True, if_true,
      List.flatMap_cons, List.flatMap_nil, List.append_nil, List.map_append]
    rw [enterStayEvents_trace _ _ ⟨1, 1⟩ ⟨2, 2⟩ rfl rfl,
      enterStayEvents_trace _ _ ⟨1, 1⟩ ⟨2, 2⟩ rfl rfl]
    simp
  have hmem : MakeKey_ 1 2 ∈ ((DetectAndDispatch (Libm.mk Real.sqrt Real.cos Real.sin)
      (exampleTwoColliderScene (1 : ℝ))
      (CollisionManager.mk [(1, true), (2, true), (3, true)] [] [] [] [])).1.mPrevInfo.map
        Prod.fst) :=
    hrec.2.2.2.2 _ (List.mem_cons_self _ _) _ hk1
  obtain ⟨⟨k, v⟩, hv, hkv⟩ := List.mem_map.mp hmem
  simp only at hkv
  subst hkv
  obtain ⟨c, hc, -, hci⟩ := hrec.2.2.2.1 _ hv
  simp only at hci
  have hva : v.a = some ⟨1, 1⟩ ∧ v.b = some ⟨2, 2⟩ := by
    simp only [List.mem_cons, List.mem_singleton, List.not_mem_nil, or_false] at hc
    rcases hc with rfl | rfl <;> rw [hci] <;> exact ⟨rfl, rfl⟩
  have hsecond := pairTrace_exit (Libm.mk Real.sqrt Real.cos Real.sin)
    (exampleTwoColliderScene (10 : ℝ)) _ hrec.infoWF _ v ⟨1, 1⟩ ⟨2, 2⟩ hv hva.1 hva.2
    (by rw [far_contacts_two_collider _ _ g1]; simp)
  rw [hfirst, hsecond]

/-! ### World pose against local pose (C28) -/

/-- C28 (code bug): a freshly constructed `Transform` without parent whose
world position has been read once (so its cache is clean) is translated by
`(1, 0, 0)`.  `GetWorldPosition` then returns `(1, 0, 0)`, while its local
position is still `(0, 0, 0)`, which for a transform without parent is the
world position the local pose composes to.  The next `MarkDirty` (here through
`SetLocalRotation` with the unchanged rotation) discards the translation:
`GetWorldPosition` returns `(0, 0, 0)` again. -/
theorem translate_leaves_local_pose_behind :
    (TransformAt.GetWorldPosition (Libm.mk Real.sqrt Real.cos Real.sin)
        (TransformAt.Translate (exampleRootTransform (Libm.mk Real.sqrt Real.cos Real.sin))
          ⟨1, 0, 0⟩)).2 = ⟨(1 : ℝ), 0, 0⟩ ∧
    (specWorldPose (Libm.mk Real.sqrt Real.cos Real.sin)
        (TransformAt.Translate (exampleRootTransform (Libm.mk Real.sqrt Real.cos Real.sin))
          ⟨1, 0, 0⟩).self
        (TransformAt.Translate (exampleRootTransform (Libm.mk Real.sqrt Real.cos Real.sin))
          ⟨1, 0, 0⟩).parents).position = ⟨(0 : ℝ), 0, 0⟩ ∧
    (TransformAt.GetWorldPosition (Libm.mk Real.sqrt Real.cos Real.sin)
        (TransformAt.SetLocalRotation
          (TransformAt.Translate (exampleRootTransform (Libm.mk Real.sqrt Real.cos Real.sin))
            ⟨1, 0, 0⟩) ⟨0, 0, 0⟩)).2 = ⟨(0 : ℝ), 0, 0⟩ := by
  refine ⟨?_, ?_, ?_⟩
  · simp [TransformAt.GetWorldPosition, TransformAt.RecalcWorld_, TransformData.RecalcWorld_,
      TransformAt.Translate, exampleRootTransform, TransformData.fresh]
  · simp [specWorldPose, TransformAt.GetWorldPosition, TransformAt.RecalcWorld_,
      TransformData.RecalcWorld_, TransformAt.Translate, exampleRootTransform,
      TransformData.fresh]
  · simp [TransformAt.GetWorldPosition, TransformAt.RecalcWorld_, TransformData.RecalcWorld_,
      TransformAt.Translate, TransformAt.SetLocalRotation, TransformAt.MarkDirty,
      exampleRootTransform, TransformData.fresh]

end Theorems

end XEngine
